import Mathlib

/-!
# Draw-list batching and button behaviour of the `imgui` package

A shallow embedding of `src/imgui/draw.go` and `src/imgui/button.go`.

Modelling conventions
* Go slices are Lean lists in the same order (`append` adds at the end, the
  top of a stack is the last element).  Distinct slices are assumed not to
  share a backing array, so a list is the value of a slice.
* `float64` coordinates are exact rationals: the comparisons, `math.Max` and
  `==` used by the draw list agree with the rationals on every finite value.
* `uint`, `int` and `uint32` values that hold counts, lengths and indices are
  natural numbers.
* An operation that can panic in Go (indexing or slicing out of range) returns
  `Option`, with `none` for the panic.
-/

namespace ImGui

/-! ## Geometry primitives (package `math/f64`) -/

/-- Two `float64` components, as `f64.Vec2`. -/
structure Vec2 where
  X : ℚ
  Y : ℚ
deriving DecidableEq

/-- Four `float64` components, as `f64.Vec4`. -/
structure Vec4 where
  X : ℚ
  Y : ℚ
  Z : ℚ
  W : ℚ
deriving DecidableEq

/-- A rectangle given by two corners, as `f64.Rectangle`. -/
structure Rectangle where
  Min : Vec2
  Max : Vec2
deriving DecidableEq

/-- Modelled from the spec: `f64.Vec2.Add` belongs to package `math/f64`, which is
not among the sources; vectors are plain data and add component-wise. -/
def Vec2.Add (a b : Vec2) : Vec2 := { X := a.X + b.X, Y := a.Y + b.Y }

/-- Colour with 8-bit channels, as `color.RGBA`. -/
structure RGBA where
  R : Nat
  G : Nat
  B : Nat
  A : Nat
deriving DecidableEq

/-! ## Draw list data model (`draw.go`, lines 10-81) -/

/-- A texture handle, whose value is never inspected; `none` is Go's `nil`. -/
abbrev TextureID := Option Nat

/-- An index into the vertex buffer (`uint32`). -/
abbrev DrawIdx := Nat

/-- The shared draw data of `draw.go`, lines 10-20 (the font pointer and the
circle table are not used by the draw-list operations below). -/
structure DrawListSharedData where
  TexUvWhitePixel : Vec2
  FontSize : ℚ
  CurveTessellationTol : ℚ
  ClipRectFullscreen : Vec4
deriving DecidableEq

/-- A draw command, `draw.go` lines 43-49.  `UserCallback` is a function value:
only whether it is `nil` can be observed, so it is an optional handle. -/
structure DrawCmd where
  ElemCount : Nat
  ClipRect : Vec4
  TextureId : TextureID
  UserCallback : Option Nat
  UserCallbackData : Option Nat
deriving DecidableEq

/-- A vertex, `draw.go` lines 53-57. -/
structure DrawVert where
  Pos : Vec2
  UV : Vec2
  Col : Vec2
deriving DecidableEq

/-- The storage of one channel, `draw.go` lines 59-62. -/
structure DrawChannel where
  CmdBuffer : List DrawCmd
  IdxBuffer : List DrawIdx
deriving DecidableEq

/-- The draw list, `draw.go` lines 22-41.  `_Data` is a pointer in the source
and is held by value here (it is never nil once the list is in use). -/
structure DrawList where
  CmdBuffer : List DrawCmd
  IdxBuffer : List DrawIdx
  VtxBuffer : List DrawVert
  Flags : Nat
  _Data : DrawListSharedData
  _OwnerName : String
  _VtxCurrentIdx : Nat
  _VtxWritePtr : Nat
  _IdxWritePtr : Nat
  _ClipRectStack : List Vec4
  _TextureIdStack : List TextureID
  _Path : List Vec2
  _ChannelsCurrent : Int
  _ChannelsCount : Nat
  _Channels : List DrawChannel
deriving DecidableEq

/-- The zero value of `DrawCmd`, as produced by `var draw_cmd DrawCmd` and `make`. -/
def DrawCmd.zero : DrawCmd :=
  { ElemCount := 0, ClipRect := { X := 0, Y := 0, Z := 0, W := 0 }, TextureId := none,
    UserCallback := none, UserCallbackData := none }

/-! ## Clip rectangle and texture stacks (`draw.go`, lines 800-936) -/

/-- `DrawList.GetCurrentClipRect`, lines 915-921. -/
def GetCurrentClipRect (d : DrawList) : Vec4 :=
  match d._ClipRectStack.getLast? with
  | some r => r
  | none => d._Data.ClipRectFullscreen

/-- `DrawList.GetCurrentTextureId`, lines 923-929. -/
def GetCurrentTextureId (d : DrawList) : TextureID :=
  match d._TextureIdStack.getLast? with
  | some t => t
  | none => none

/-- `DrawList.AddDrawCmd`, lines 931-936. -/
def AddDrawCmd (d : DrawList) : DrawList :=
  { d with CmdBuffer := d.CmdBuffer ++
      [{ DrawCmd.zero with ClipRect := GetCurrentClipRect d, TextureId := GetCurrentTextureId d }] }

/-- The command two back, `prev_cmd` of lines 897-900 and 828-831: `nil` unless
the buffer holds more than one command. -/
def prevCmd (d : DrawList) : Option DrawCmd :=
  if d.CmdBuffer.length > 1 then d.CmdBuffer[d.CmdBuffer.length - 2]? else none

/-- `DrawList.UpdateClipRect`, lines 884-908. -/
def UpdateClipRect (d : DrawList) : DrawList :=
  let curr_clip_rect := GetCurrentClipRect d
  match d.CmdBuffer.getLast? with
  | none => AddDrawCmd d
  | some curr_cmd =>
    if (curr_cmd.ElemCount ≠ 0 ∧ curr_cmd.ClipRect = curr_clip_rect) ∨
        curr_cmd.UserCallback ≠ none then
      AddDrawCmd d
    else
      match prevCmd d with
      | some prev_cmd =>
        if curr_cmd.ElemCount = 0 ∧ prev_cmd.ClipRect = curr_clip_rect ∧
            prev_cmd.TextureId = GetCurrentTextureId d ∧ prev_cmd.UserCallback = none then
          { d with CmdBuffer := d.CmdBuffer.dropLast }
        else
          { d with CmdBuffer := d.CmdBuffer.dropLast ++ [{ curr_cmd with ClipRect := curr_clip_rect }] }
      | none =>
        { d with CmdBuffer := d.CmdBuffer.dropLast ++ [{ curr_cmd with ClipRect := curr_clip_rect }] }

/-- `DrawList.UpdateTextureID`, lines 815-838. -/
def UpdateTextureID (d : DrawList) : DrawList :=
  let curr_texture_id := GetCurrentTextureId d
  match d.CmdBuffer.getLast? with
  | none => AddDrawCmd d
  | some curr_cmd =>
    if (curr_cmd.ElemCount ≠ 0 ∧ curr_cmd.TextureId = curr_texture_id) ∨
        curr_cmd.UserCallback ≠ none then
      AddDrawCmd d
    else
      match prevCmd d with
      | some prev_cmd =>
        if curr_cmd.ElemCount = 0 ∧ prev_cmd.TextureId = curr_texture_id ∧
            prev_cmd.ClipRect = GetCurrentClipRect d ∧ prev_cmd.UserCallback = none then
          { d with CmdBuffer := d.CmdBuffer.dropLast }
        else
          { d with CmdBuffer := d.CmdBuffer.dropLast ++ [{ curr_cmd with TextureId := curr_texture_id }] }
      | none =>
        { d with CmdBuffer := d.CmdBuffer.dropLast ++ [{ curr_cmd with TextureId := curr_texture_id }] }

/-- The rectangle that `PushClipRectEx` pushes, lines 859-877: the argument,
optionally clamped to the current top of the clip stack, with a non-negative
extent. -/
def pushedClipRect (d : DrawList) (cr_min cr_max : Vec2)
    (intersect_with_current_clip_rect : Bool) : Vec4 :=
  let cr : Vec4 := { X := cr_min.X, Y := cr_min.Y, Z := cr_max.X, W := cr_max.Y }
  let cr : Vec4 :=
    match intersect_with_current_clip_rect, d._ClipRectStack.getLast? with
    | true, some current =>
      let cr := if cr.X < current.X then { cr with X := current.X } else cr
      let cr := if cr.Y < current.Y then { cr with Y := current.Y } else cr
      let cr := if cr.Z > current.Z then { cr with Z := current.Z } else cr
      let cr := if cr.W > current.W then { cr with W := current.W } else cr
      cr
    | _, _ => cr
  let cr := { cr with Z := max cr.X cr.Z }
  let cr := { cr with W := max cr.Y cr.W }
  cr

/-- `DrawList.PushClipRectEx`, lines 858-881. -/
def PushClipRectEx (d : DrawList) (cr_min cr_max : Vec2)
    (intersect_with_current_clip_rect : Bool) : DrawList :=
  let cr := pushedClipRect d cr_min cr_max intersect_with_current_clip_rect
  UpdateClipRect { d with _ClipRectStack := d._ClipRectStack ++ [cr] }

/-- `DrawList.PushClipRect`, lines 854-856. -/
def PushClipRect (d : DrawList) (cr_min cr_max : Vec2) : DrawList :=
  PushClipRectEx d cr_min cr_max false

/-- `DrawList.PopClipRect`, lines 800-803; slicing an empty stack to length
`-1` panics. -/
def PopClipRect (d : DrawList) : Option DrawList :=
  if d._ClipRectStack.length = 0 then none
  else some (UpdateClipRect { d with _ClipRectStack := d._ClipRectStack.dropLast })

/-- `DrawList.PushTextureID`, lines 805-808. -/
def PushTextureID (d : DrawList) (texture_id : TextureID) : DrawList :=
  UpdateTextureID { d with _TextureIdStack := d._TextureIdStack ++ [texture_id] }

/-- `DrawList.PopTextureID`, lines 810-813; slicing an empty stack to length
`-1` panics. -/
def PopTextureID (d : DrawList) : Option DrawList :=
  if d._TextureIdStack.length = 0 then none
  else some (UpdateTextureID { d with _TextureIdStack := d._TextureIdStack.dropLast })

/-! ## Path building and lines (`draw.go`, lines 737-769) -/

/-- `DrawList.PathClear`, lines 737-739. -/
def PathClear (d : DrawList) : DrawList := { d with _Path := [] }

/-- `DrawList.PathLineTo`, lines 741-743. -/
def PathLineTo (d : DrawList) (pos : Vec2) : DrawList := { d with _Path := d._Path ++ [pos] }

/-- `DrawList.AddPolyline`, lines 768-769: the body is empty in the source. -/
def AddPolyline (d : DrawList) (_points : List Vec2) (_col : RGBA) (_closed : Bool)
    (_thickness : ℚ) : DrawList := d

/-- `DrawList.PathStrokeEx`, lines 749-752. -/
def PathStrokeEx (d : DrawList) (col : RGBA) (closed : Bool) (thickness : ℚ) : DrawList :=
  PathClear (AddPolyline d d._Path col closed thickness)

/-- `DrawList.PathStroke`, lines 745-747. -/
def PathStroke (d : DrawList) (col : RGBA) (closed : Bool) : DrawList :=
  PathStrokeEx d col closed 1

/-- `DrawList.AddLineEx`, lines 758-766. -/
def AddLineEx (d : DrawList) (a b : Vec2) (col : RGBA) (thickness : ℚ) : DrawList :=
  if col.A = 0 then d
  else
    let half : Vec2 := { X := 1 / 2, Y := 1 / 2 }
    let d := PathLineTo d (a.Add half)
    let d := PathLineTo d (b.Add half)
    PathStrokeEx d col false thickness

/-- `DrawList.AddLine`, lines 754-756. -/
def AddLine (d : DrawList) (a b : Vec2) (col : RGBA) : DrawList :=
  AddLineEx d a b col 1

/-! ## Machine integers -/

/-- Go's `int` on a 64-bit platform: the value of an integer expression, wrapped
to the range from `-2^63` to `2^63 - 1`. -/
def wrapInt (x : Int) : Int :=
  (x + 9223372036854775808) % 18446744073709551616 - 9223372036854775808

/-- The value is one that a Go `int` holds. -/
def InInt (x : Int) : Prop := -9223372036854775808 ≤ x ∧ x < 9223372036854775808

instance (x : Int) : Decidable (InInt x) := by
  unfold InInt
  infer_instance

/-! ## Channels (`draw.go`, lines 840-852 and 938-981) -/

/-- `DrawList.ChannelsSetCurrent`, lines 840-852.  The channel numbers are Go
`int`s: indexing `_Channels` at the old or the new channel number panics when
the number is negative or not below the length. -/
def ChannelsSetCurrent (d : DrawList) (idx : Int) : Option DrawList :=
  if d._ChannelsCurrent = idx then some d
  else if 0 ≤ d._ChannelsCurrent ∧ d._ChannelsCurrent < d._Channels.length then
    let channels := d._Channels.set d._ChannelsCurrent.toNat
      { CmdBuffer := d.CmdBuffer, IdxBuffer := d.IdxBuffer }
    if 0 ≤ idx then
      match channels[idx.toNat]? with
      | some ch =>
        some { d with
          _Channels := channels
          _ChannelsCurrent := idx
          CmdBuffer := ch.CmdBuffer
          IdxBuffer := ch.IdxBuffer
          _IdxWritePtr := ch.IdxBuffer.length }
      | none => none
    else none
  else none

/-- Go's `copy(dst[off:], src)`: slicing panics when `off > len(dst)`; otherwise
the first `min (len(dst) - off) (len(src))` elements of `src` overwrite `dst`
from position `off`. -/
def copyAt {α : Type} (dst : List α) (off : Nat) (src : List α) : Option (List α) :=
  if off > dst.length then none
  else
    let n := min (dst.length - off) src.length
    some (dst.take off ++ src.take n ++ dst.drop (off + n))

/-- The state of the first loop of `ChannelsMerge`: the draw list and the two
running counts `new_cmd_buffer_count` and `new_idx_buffer_count`. -/
structure MergeCount where
  d : DrawList
  new_cmd_buffer_count : Nat
  new_idx_buffer_count : Nat

/-- One iteration of the first loop of `ChannelsMerge`, lines 954-960.  The
length tested is `len(d.CmdBuffer)`, the length of the live buffer, as in the
source. -/
def mergeCountStep (st : MergeCount) (i : Nat) : Option MergeCount :=
  match st.d._Channels[i]? with
  | none => none
  | some ch =>
    let length := st.d.CmdBuffer.length
    let trimmed : Option DrawChannel :=
      if length > 0 then
        match ch.CmdBuffer[length - 1]? with
        | none => none
        | some c =>
          if c.ElemCount = 0 then some { ch with CmdBuffer := ch.CmdBuffer.take (length - 1) }
          else some ch
      else some ch
    match trimmed with
    | none => none
    | some ch =>
      some { d := { st.d with _Channels := st.d._Channels.set i ch }
             new_cmd_buffer_count := st.new_cmd_buffer_count + ch.CmdBuffer.length
             new_idx_buffer_count := st.new_idx_buffer_count + ch.IdxBuffer.length }

/-- The state of the second loop of `ChannelsMerge`: the draw list (which holds
`_IdxWritePtr`) and the local `cmd_write`. -/
structure MergeWrite where
  d : DrawList
  cmd_write : Nat

/-- One iteration of the second loop of `ChannelsMerge`, lines 968-976. -/
def mergeWriteStep (st : MergeWrite) (i : Nat) : Option MergeWrite :=
  match st.d._Channels[i]? with
  | none => none
  | some ch =>
    let cmds : Option (List DrawCmd × Nat) :=
      if ch.CmdBuffer.length > 0 then
        (copyAt st.d.CmdBuffer st.cmd_write ch.CmdBuffer).map
          (fun buf => (buf, st.cmd_write + ch.CmdBuffer.length))
      else some (st.d.CmdBuffer, st.cmd_write)
    let idxs : Option (List DrawIdx × Nat) :=
      if ch.IdxBuffer.length > 0 then
        (copyAt st.d.IdxBuffer st.d._IdxWritePtr ch.IdxBuffer).map
          (fun buf => (buf, st.d._IdxWritePtr + ch.IdxBuffer.length))
      else some (st.d.IdxBuffer, st.d._IdxWritePtr)
    match cmds, idxs with
    | some (cmdBuf, cmd_write), some (idxBuf, idx_write) =>
      some { d := { st.d with CmdBuffer := cmdBuf, IdxBuffer := idxBuf, _IdxWritePtr := idx_write }
             cmd_write := cmd_write }
    | _, _ => none

/-- The channel numbers `1, ..., count - 1` visited by both loops of
`ChannelsMerge` (`for i := 1; i < d._ChannelsCount; i++`). -/
def mergeRange (count : Nat) : List Nat := List.range' 1 (count - 1)

/-- `DrawList.ChannelsMerge`, lines 938-981. -/
def ChannelsMerge (d : DrawList) : Option DrawList :=
  if d._ChannelsCount ≤ 1 then some d
  else
    match ChannelsSetCurrent d 0 with
    | none => none
    | some d =>
      let d : DrawList :=
        match d.CmdBuffer.getLast? with
        | some c => if c.ElemCount = 0 then { d with CmdBuffer := d.CmdBuffer.dropLast } else d
        | none => d
      match (mergeRange d._ChannelsCount).foldlM mergeCountStep
          { d := d, new_cmd_buffer_count := 0, new_idx_buffer_count := 0 } with
      | none => none
      | some cnt =>
        let d := cnt.d
        let d := { d with
          CmdBuffer := d.CmdBuffer ++ List.replicate cnt.new_cmd_buffer_count DrawCmd.zero
          IdxBuffer := d.IdxBuffer ++ List.replicate cnt.new_idx_buffer_count 0 }
        let cmd_write := d.CmdBuffer.length - cnt.new_cmd_buffer_count
        let d := { d with _IdxWritePtr := d.IdxBuffer.length - cnt.new_idx_buffer_count }
        match (mergeRange d._ChannelsCount).foldlM mergeWriteStep
            { d := d, cmd_write := cmd_write } with
        | none => none
        | some w =>
          let d := UpdateClipRect w.d
          some { d with _ChannelsCount := 1 }

/-- The command buffer of channel `i` as the claim reads it: the live buffer for
the current channel, the stored one otherwise. -/
def channelCmds (d : DrawList) (i : Nat) : List DrawCmd :=
  if (i : Int) = d._ChannelsCurrent then d.CmdBuffer
  else match d._Channels[i]? with
    | some ch => ch.CmdBuffer
    | none => []

/-- The index buffer of channel `i`: the live buffer for the current channel,
the stored one otherwise. -/
def channelIdxs (d : DrawList) (i : Nat) : List DrawIdx :=
  if (i : Int) = d._ChannelsCurrent then d.IdxBuffer
  else match d._Channels[i]? with
    | some ch => ch.IdxBuffer
    | none => []

/-! ## Button behaviour (`button.go`) -/

/-- An item identifier; 0 is "no item". -/
abbrev ID := Nat

/-- The policy flags of a button, `button.go` line 9. -/
abbrev ButtonFlags := Nat

def ButtonFlagsRepeat : ButtonFlags := 1 <<< 0
def ButtonFlagsPressedOnClickRelease : ButtonFlags := 1 <<< 1
def ButtonFlagsPressedOnClick : ButtonFlags := 1 <<< 2
def ButtonFlagsPressedOnRelease : ButtonFlags := 1 <<< 3
def ButtonFlagsPressedOnDoubleClick : ButtonFlags := 1 <<< 4
def ButtonFlagsFlattenChildren : ButtonFlags := 1 <<< 5
def ButtonFlagsAllowItemOverlap : ButtonFlags := 1 <<< 6
def ButtonFlagsDontClosePopups : ButtonFlags := 1 <<< 7
def ButtonFlagsDisabled : ButtonFlags := 1 <<< 8
def ButtonFlagsAlignTextBaseLine : ButtonFlags := 1 <<< 9
def ButtonFlagsNoKeyModifiers : ButtonFlags := 1 <<< 10
def ButtonFlagsNoHoldingActiveID : ButtonFlags := 1 <<< 11
def ButtonFlagsPressedOnDragDropHold : ButtonFlags := 1 <<< 12
def ButtonFlagsNoNavFocus : ButtonFlags := 1 <<< 13

/-- A window is referred to by a handle; `none` is the nil pointer. -/
abbrev WindowRef := Option Nat

/-- Window flags (a bit set); the values of the individual flags are not among
the sources, see `Env`. -/
abbrev WindowFlags := Nat

/-- A condition of a "set next window" directive (a bit set); the values are not
among the sources, see `Env`. -/
abbrev Cond := Nat

/-- The zero vector, Go's zero value of `f64.Vec2`. -/
def Vec2.zero : Vec2 := { X := 0, Y := 0 }

/-- Modelled from the spec: `f64.Vec2.Sub` belongs to package `math/f64`, which is
not among the sources; component-wise difference. -/
def Vec2.Sub (a b : Vec2) : Vec2 := { X := a.X - b.X, Y := a.Y - b.Y }

/-- Modelled from the spec: `f64.Vec2.LenSquared` belongs to package `math/f64`,
which is not among the sources; the squared Euclidean length. -/
def Vec2.LenSquared (a : Vec2) : ℚ := a.X * a.X + a.Y * a.Y

/-- Modelled from the spec: `f64.Vec2.DistanceSquared` belongs to package
`math/f64`, which is not among the sources; the squared Euclidean distance. -/
def Vec2.DistanceSquared (a b : Vec2) : ℚ := (a.Sub b).LenSquared

/-- The zero value of `DrawListSharedData`. -/
def DrawListSharedData.zero : DrawListSharedData :=
  { TexUvWhitePixel := Vec2.zero, FontSize := 0, CurveTessellationTol := 0,
    ClipRectFullscreen := { X := 0, Y := 0, Z := 0, W := 0 } }

/-- The zero value of `DrawList`. -/
def DrawList.zero : DrawList :=
  { CmdBuffer := [], IdxBuffer := [], VtxBuffer := [], Flags := 0,
    _Data := DrawListSharedData.zero, _OwnerName := "", _VtxCurrentIdx := 0,
    _VtxWritePtr := 0, _IdxWritePtr := 0, _ClipRectStack := [], _TextureIdStack := [],
    _Path := [], _ChannelsCurrent := 0, _ChannelsCount := 0, _Channels := [] }

/-- An entry of the group stack of a window, as far as `EndMenuBar` writes it. -/
structure GroupData where
  AdvanceCursor : Bool := false
deriving DecidableEq

/-- The column layout of a menu, the receiver of `DeclColumns` and `Update`
(`menu.go`, lines 282-314): `Pos` and `NextWidths` are fixed-size arrays in the
source. -/
structure MenuColumns where
  Count : Int := 0
  Spacing : ℚ := 0
  Width : ℚ := 0
  NextWidth : ℚ := 0
  Pos : List ℚ := [0, 0, 0, 0]
  NextWidths : List ℚ := [0, 0, 0, 0]
deriving DecidableEq

/-- The per-window drawing context `window.DC`, as far as the frame and menu
functions read or write it: the active column set (a pointer, `none` is nil),
the child windows, the cursor, the layout direction, the navigation layer and
the menu-bar state. -/
structure DrawContext where
  ColumnsSet : Option Nat := none
  ChildWindows : List Nat := []
  CursorPos : Vec2 := Vec2.zero
  LastItemRect : Rectangle := { Min := Vec2.zero, Max := Vec2.zero }
  LayoutType : Int := 0
  ParentLayoutType : Int := 0
  NavLayerCurrent : Int := 0
  NavLayerCurrentMask : Int := 0
  NavLayerActiveMaskNext : Nat := 0
  MenuBarAppending : Bool := false
  MenuBarOffsetX : ℚ := 0
  GroupStack : List GroupData := []
deriving DecidableEq

/-- A window, with the fields that `NewFrame`, `BeginEx`, `End`, `EndFrame` and
`Render` read or write.  Every field defaults to Go's zero value.  The draw list is a
pointer in the source and is held by value, one per window. -/
structure Window where
  Name : String := ""
  Flags : WindowFlags := 0
  Active : Bool := false
  WasActive : Bool := false
  WriteAccessed : Bool := false
  Collapsed : Bool := false
  SkipItems : Bool := false
  Appearing : Bool := false
  CloseButton : Bool := false
  LastFrameActive : Int := 0
  HiddenFrames : Int := 0
  BeginCount : Int := 0
  AutoFitFramesX : Int := 0
  AutoFitFramesY : Int := 0
  PopupId : ID := 0
  MoveId : ID := 0
  NavLastIds : List ID := [0, 0]
  Pos : Vec2 := Vec2.zero
  SetWindowPosVal : Vec2 := Vec2.zero
  SetWindowPosPivot : Vec2 := Vec2.zero
  SetWindowPosAllowFlags : Cond := 0
  SetWindowSizeAllowFlags : Cond := 0
  SizeContentsExplicit : Vec2 := Vec2.zero
  InnerClipRect : Rectangle := { Min := Vec2.zero, Max := Vec2.zero }
  WindowRectClipped : Rectangle := { Min := Vec2.zero, Max := Vec2.zero }
  RootWindow : WindowRef := none
  ParentWindow : WindowRef := none
  DrawList : DrawList := DrawList.zero
  DC : DrawContext := {}
  PosFloat : Vec2 := Vec2.zero
  Size : Vec2 := Vec2.zero
  SizeFull : Vec2 := Vec2.zero
  Scroll : Vec2 := Vec2.zero
  WindowPadding : Vec2 := Vec2.zero
  ContentsRegionRect : Rectangle := { Min := Vec2.zero, Max := Vec2.zero }
  FontWindowScale : ℚ := 0
  FocusIdxTabRequestNext : Int := 0
  IDStack : List ID := []
  MenuColumns : MenuColumns := {}
  WindowBorderSize : ℚ := 0
  WindowRounding : ℚ := 0
  NavRectRel : List Rectangle := []
deriving DecidableEq

/-- An entry of the popup stacks: the popup identifier and its window. -/
structure PopupRef where
  PopupId : ID := 0
  Window : WindowRef := none
  ParentWindow : WindowRef := none
  OpenParentId : ID := 0
deriving DecidableEq

/-- The pending "set next window" directives, `c.NextWindowData`. -/
structure NextWindowData where
  PosCond : Cond := 0
  PosVal : Vec2 := Vec2.zero
  PosPivotVal : Vec2 := Vec2.zero
  SizeCond : Cond := 0
  SizeVal : Vec2 := Vec2.zero
  ContentSizeCond : Cond := 0
  ContentSizeVal : Vec2 := Vec2.zero
  CollapsedCond : Cond := 0
  CollapsedVal : Bool := false
  FocusCond : Cond := 0
  SizeConstraintCond : Cond := 0
deriving DecidableEq

/-- The style table, as far as the frame functions read it. -/
structure Style where
  Alpha : ℚ := 0
  CurveTessellationTol : ℚ := 0
  AntiAliasedLines : Bool := false
  AntiAliasedFill : Bool := false
  FramePadding : Vec2 := Vec2.zero
  ItemSpacing : Vec2 := Vec2.zero
  WindowPadding : Vec2 := Vec2.zero
  Colors : List Vec4 := []
deriving DecidableEq

/-- The draw data handed to the renderer, `draw.go` lines 68-74. -/
structure DrawData where
  Valid : Bool := false
  CmdLists : List Nat := []
  CmdListsCount : Int := 0
  TotalVtxCount : Int := 0
  TotalIdxCount : Int := 0
deriving DecidableEq

/-- A draw list is referred to by the handle of the window that owns it. -/
abbrev DrawListRef := Nat

/-- The draw data builder, `draw.go` lines 64-66.  `Layers` is an array of two
slices of draw-list pointers in the source. -/
structure DrawDataBuilder where
  Layers : List (List DrawListRef) := [[], []]
deriving DecidableEq

/-- The input snapshot read by widgets and cleared at the end of the frame: the
mouse position and, per mouse button, the raw state and the edges derived for
the current frame; the wheel deltas, the character and navigation input buffers,
the host's input-method callback (a function value, `none` is nil) and the
render metrics; and the rest of the input and output block that `NewFrame` reads
or writes.  The per-button and per-key fields are fixed-size arrays in the
source and lists here, read with a default and written in place. -/
structure InputSnapshot where
  MousePos : Vec2
  MouseDown : List Bool
  MouseClicked : List Bool
  MouseReleased : List Bool
  MouseWheel : ℚ := 0
  MouseWheelH : ℚ := 0
  InputCharacters : List Nat := []
  NavInputs : List ℚ := []
  ImeSetInputScreenPosFn : Option Nat := none
  MetricsRenderVertices : Int := 0
  MetricsRenderIndices : Int := 0
  MetricsActiveWindows : Int := 0
  DeltaTime : ℚ := 0
  DisplaySize : Vec2 := Vec2.zero
  FontsTexID : TextureID := none
  IniFilename : String := ""
  Framerate : ℚ := 0
  ConfigFlags : Nat := 0
  NavActive : Bool := false
  KeyCtrl : Bool := false
  KeyShift : Bool := false
  FontAllowUserScaling : Bool := false
  WantCaptureMouse : Bool := false
  WantCaptureKeyboard : Bool := false
  WantTextInput : Bool := false
  KeysDown : List Bool := []
  KeysDownDuration : List ℚ := []
  KeysDownDurationPrev : List ℚ := []
  MousePosPrev : Vec2 := Vec2.zero
  MouseDelta : Vec2 := Vec2.zero
  MouseDoubleClickTime : ℚ := 0
  MouseDoubleClickMaxDist : ℚ := 0
  MouseDownOwned : List Bool := []
  MouseDoubleClicked : List Bool := []
  MouseDownDuration : List ℚ := []
  MouseDownDurationPrev : List ℚ := []
  MouseClickedTime : List ℚ := []
  MouseClickedPos : List Vec2 := []
  MouseDragMaxDistanceAbs : List Vec2 := []
  MouseDragMaxDistanceSqr : List ℚ := []
deriving DecidableEq

/-- The part of `Context` that `ButtonBehavior` and the frame functions read or
write: the interaction state, the window being built, the input snapshot (field
`Io`, the input and output block of the source context), the frame counters,
the window registry and the scope stacks.  Windows are objects behind pointers
in the source: `Heap` gives the window behind each handle, and `none` is the nil
pointer.  Every added field defaults to Go's zero value. -/
structure Context where
  Io : InputSnapshot
  HoveredId : ID
  ActiveId : ID
  HoveredWindow : WindowRef
  HoveredRootWindow : WindowRef
  CurrentWindow : WindowRef
  Heap : Nat → Window := fun _ => {}
  Style : Style := {}
  FrameCount : Int := 0
  FrameCountEnded : Int := 0
  FrameCountRendered : Int := 0
  OsImePosRequest : Vec2 := Vec2.zero
  OsImePosSet : Vec2 := Vec2.zero
  NavWindow : WindowRef := none
  NavWindowingTarget : WindowRef := none
  MovingWindow : WindowRef := none
  NavDisableHighlight : Bool := false
  ActiveIdClickOffset : Vec2 := Vec2.zero
  Windows : List Nat := []
  WindowsSortBuffer : List Nat := []
  CurrentWindowStack : List WindowRef := []
  CurrentPopupStack : List PopupRef := []
  OpenPopupStack : List PopupRef := []
  NextWindowData : NextWindowData := {}
  DrawDataBuilder : DrawDataBuilder := {}
  SettingsLoaded : Bool := false
  SettingsDirtyTimer : ℚ := 0
  Time : ℚ := 0
  TooltipOverrideCount : Int := 0
  WindowsActiveCount : Int := 0
  DrawListSharedData : DrawListSharedData := DrawListSharedData.zero
  OverlayDrawList : DrawList := DrawList.zero
  DrawData : DrawData := {}
  HoveredIdPreviousFrame : ID := 0
  HoveredIdTimer : ℚ := 0
  HoveredIdAllowOverlap : Bool := false
  ActiveIdPreviousFrame : ID := 0
  ActiveIdTimer : ℚ := 0
  ActiveIdIsAlive : Bool := false
  ActiveIdIsJustActivated : Bool := false
  ScalarAsInputTextId : ID := 0
  DragDropActive : Bool := false
  DragDropSourceFlags : Nat := 0
  DragDropPayloadDataFrameCount : Int := 0
  DragDropPayloadBufHeap : List Nat := []
  DragDropPayloadBufLocal : List Nat := []
  DragDropAcceptIdPrev : ID := 0
  DragDropAcceptIdCurr : ID := 0
  DragDropAcceptIdCurrRectSurface : ℚ := 0
  NavDisableMouseHover : Bool := false
  NavId : ID := 0
  NavIdTabCounter : Int := 0
  FramerateSecPerFrame : List ℚ := []
  FramerateSecPerFrameIdx : Nat := 0
  FramerateSecPerFrameAccum : ℚ := 0
  ModalWindowDarkeningRatio : ℚ := 0
  WantCaptureMouseNextFrame : Int := 0
  WantCaptureKeyboardNextFrame : Int := 0
  WantTextInputNextFrame : Int := 0
  MouseCursor : Int := 0
  ColorEditOptions : Nat := 0
  NavActivateId : ID := 0
  NavMoveRequest : Bool := false
  NavMoveDir : Int := 0
  NavMoveRequestForward : Int := 0
  NavLayer : Int := 0
  FontSize : ℚ := 0

/-- Modelled from the spec: `ClearActiveID` is not among the sources; it is the
explicit clear call after which no item is active (identifier 0 is "no item"). -/
def ClearActiveID (c : Context) : Context := { c with ActiveId := 0 }

/-- Modelled from the spec: `GetCurrentWindow` is not among the sources; it
yields the window whose widgets are being submitted. -/
def GetCurrentWindow (c : Context) : WindowRef := c.CurrentWindow

/-- The outcome of `ButtonBehavior`: the three named results and the context
after the call. -/
structure ButtonResult where
  ctx : Context
  outHovered : Bool
  outHeld : Bool
  pressed : Bool

/-- `Context.ButtonBehavior`, `button.go` lines 97-120.  The named results are
never assigned, so they keep their zero value `false`. -/
def ButtonBehavior (c : Context) (_bb : Rectangle) (id : ID) (flags : ButtonFlags) :
    ButtonResult :=
  if flags &&& ButtonFlagsDisabled ≠ 0 then
    let c := if c.ActiveId = id then ClearActiveID c else c
    { ctx := c, outHovered := false, outHeld := false, pressed := false }
  else
    let mask := ButtonFlagsPressedOnClickRelease ||| ButtonFlagsPressedOnClick |||
      ButtonFlagsPressedOnRelease ||| ButtonFlagsPressedOnDoubleClick
    let flags := if flags &&& mask = 0 then flags ||| ButtonFlagsPressedOnClickRelease else flags
    let window := GetCurrentWindow c
    let c :=
      if flags &&& ButtonFlagsFlattenChildren ≠ 0 ∧ c.HoveredRootWindow = window then
        { c with HoveredWindow := window }
      else c
    { ctx := c, outHovered := false, outHeld := false, pressed := false }

/-- The left mouse button as the frame orchestrator records it for one frame:
held down, pressed this frame, released this frame. -/
structure MouseFrame where
  down : Bool
  clicked : Bool
  released : Bool
deriving DecidableEq

/-- Store one frame's left-button sample (button 0) in the input snapshot. -/
def Context.withMouse (c : Context) (m : MouseFrame) : Context :=
  { c with Io := { c.Io with
      MouseDown := c.Io.MouseDown.set 0 m.down
      MouseClicked := c.Io.MouseClicked.set 0 m.clicked
      MouseReleased := c.Io.MouseReleased.set 0 m.released } }

/-- Submit the same item once per frame over a sequence of frames, threading
the context, and collect the `pressed` result of each frame. -/
def pressedPerFrame (c : Context) (bb : Rectangle) (id : ID) (flags : ButtonFlags) :
    List MouseFrame → List Bool
  | [] => []
  | m :: rest =>
    let r := ButtonBehavior (c.withMouse m) bb id flags
    r.pressed :: pressedPerFrame r.ctx bb id flags rest

/-! ## The staging-command invariant -/

/-- The command buffer is non-empty and its last command carries the current
clip rectangle and the current texture. -/
def StagingInv (d : DrawList) : Prop :=
  match d.CmdBuffer.getLast? with
  | some last => last.ClipRect = GetCurrentClipRect d ∧ last.TextureId = GetCurrentTextureId d
  | none => False

instance (d : DrawList) : Decidable (StagingInv d) := by
  unfold StagingInv
  split <;> infer_instance

/-! ## Concrete draw lists used to evaluate the operations -/

/-- A 10 by 10 clip rectangle at the origin. -/
def clip10 : Vec4 := { X := 0, Y := 0, Z := 10, W := 10 }

/-- A 20 by 20 clip rectangle at the origin. -/
def clip20 : Vec4 := { X := 0, Y := 0, Z := 20, W := 20 }

/-- Shared data of an 800 by 600 display. -/
def exampleData : DrawListSharedData :=
  { TexUvWhitePixel := { X := 0, Y := 0 }, FontSize := 13, CurveTessellationTol := 5 / 4,
    ClipRectFullscreen := { X := 0, Y := 0, Z := 800, W := 600 } }

/-- A command holding `n` indices under clip rectangle `r`, no texture, no callback. -/
def geomCmd (n : Nat) (r : Vec4) : DrawCmd := { DrawCmd.zero with ElemCount := n, ClipRect := r }

/-- A draw list with the given command buffer and clip stack, one channel, no
texture pushed. -/
def exampleList (cmds : List DrawCmd) (clips : List Vec4) : DrawList :=
  { CmdBuffer := cmds, IdxBuffer := [], VtxBuffer := [], Flags := 0, _Data := exampleData,
    _OwnerName := "window", _VtxCurrentIdx := 0, _VtxWritePtr := 0, _IdxWritePtr := 0,
    _ClipRectStack := clips, _TextureIdStack := [], _Path := [], _ChannelsCurrent := 0,
    _ChannelsCount := 1, _Channels := [] }

/-- Six indices were drawn under `clip10`, then `clip20` was pushed and nothing
was drawn under it. -/
def exampleMerge : DrawList :=
  exampleList [geomCmd 6 clip10, geomCmd 0 clip20] [clip10, clip20]

/-- Six indices were drawn under `clip10`, which is still the current clip
rectangle. -/
def exampleGeom : DrawList := exampleList [geomCmd 6 clip10] [clip10]

/-- As `exampleGeom`, with texture 1 bound and used by the geometry command. -/
def exampleTextured : DrawList :=
  { exampleList [{ geomCmd 6 clip10 with TextureId := some 1 }] [clip10] with
    _TextureIdStack := [some 1] }

/-- The index buffer stored for channel `i`, empty when there is no such channel. -/
def storedIdxs (channels : List DrawChannel) (i : Nat) : List DrawIdx :=
  match channels[i]? with
  | some ch => ch.IdxBuffer
  | none => []

/-- A 30 by 30 clip rectangle at the origin. -/
def clip30 : Vec4 := { X := 0, Y := 0, Z := 30, W := 30 }

/-- Three channels, channel 0 live.  Channel 0 holds one geometry command;
channels 1 and 2 each hold one geometry command followed by their empty trailing
command. -/
def exampleThreeChannels : DrawList :=
  { exampleList [geomCmd 6 clip10] [clip30] with
    IdxBuffer := [0, 1, 2, 0, 2, 3]
    _IdxWritePtr := 6
    _ChannelsCount := 3
    _Channels := [
      { CmdBuffer := [], IdxBuffer := [] },
      { CmdBuffer := [geomCmd 3 clip20, geomCmd 0 clip20], IdxBuffer := [4, 5, 6] },
      { CmdBuffer := [geomCmd 3 clip30, geomCmd 0 clip30], IdxBuffer := [7, 8, 9] }] }

/-- Two channels, channel 0 live with two geometry commands; nothing was drawn
into channel 1, which holds only its empty trailing command. -/
def exampleTwoChannels : DrawList :=
  { exampleList [geomCmd 3 clip10, geomCmd 3 clip20] [clip10, clip20] with
    IdxBuffer := [0, 1, 2, 3, 4, 5]
    _IdxWritePtr := 6
    _ChannelsCount := 2
    _Channels := [
      { CmdBuffer := [], IdxBuffer := [] },
      { CmdBuffer := [geomCmd 0 clip20], IdxBuffer := [] }] }

/-- Two channels with channel 1 live: channel 0's buffers are in storage, the
live buffers are those of channel 1. -/
def exampleCurrentOne : DrawList :=
  { exampleList [geomCmd 3 clip20, geomCmd 0 clip20] [clip20] with
    IdxBuffer := [4, 5, 6]
    _IdxWritePtr := 3
    _ChannelsCurrent := 1
    _ChannelsCount := 2
    _Channels := [
      { CmdBuffer := [geomCmd 6 clip10, geomCmd 0 clip10], IdxBuffer := [0, 1, 2, 0, 2, 3] },
      { CmdBuffer := [], IdxBuffer := [] }] }

/-- A context in which window 1 is being built and is the hovered window, the
mouse rests at (5, 5), no item is active and no mouse button is down. -/
def exampleContext : Context :=
  { Io := { MousePos := { X := 5, Y := 5 }
            MouseDown := [false, false, false, false, false]
            MouseClicked := [false, false, false, false, false]
            MouseReleased := [false, false, false, false, false] }
    HoveredId := 0, ActiveId := 0, HoveredWindow := some 1, HoveredRootWindow := some 1,
    CurrentWindow := some 1 }

/-- The rectangle of the item: it contains the mouse position of `exampleContext`. -/
def exampleButton : Rectangle := { Min := { X := 0, Y := 0 }, Max := { X := 10, Y := 10 } }

/-- A left click with `k = 2`: pressed in the first frame, held in the second,
released in the third. -/
def exampleClick : List MouseFrame :=
  [{ down := true, clicked := true, released := false },
   { down := true, clicked := false, released := false },
   { down := false, clicked := false, released := true }]

/-- A left click with `k = 1`: pressed in the first frame, released in the next. -/
def exampleQuickClick : List MouseFrame :=
  [{ down := true, clicked := true, released := false },
   { down := false, clicked := false, released := true }]

/-! ## The frame functions (`draw.go`, lines 399-715 and 983-994) -/

/-- The parts of package `imgui` that the frame functions use and that are not
among the sources: the values of the window flags and conditions, and the
collaborating functions, each taken as it is called (on the context, returning
the context it leaves).  Nothing is assumed about them here; a theorem that
needs a property of one states it as a hypothesis. -/
structure Env where
  WindowFlagsNoResize : WindowFlags
  WindowFlagsNoMove : WindowFlags
  WindowFlagsAlwaysAutoResize : WindowFlags
  WindowFlagsNoInputs : WindowFlags
  WindowFlagsNoBringToFrontOnFocus : WindowFlags
  WindowFlagsChildWindow : WindowFlags
  WindowFlagsPopup : WindowFlags
  CondOnce : Cond
  CondFirstUseEver : Cond
  CondAppearing : Cond
  FindWindowByName : Context → String → WindowRef
  CreateNewWindow : Context → String → Vec2 → WindowFlags → Context × WindowRef
  SetWindowConditionAllowFlags : Context → Nat → Cond → Bool → Context
  SetWindowPos : Context → Nat → Vec2 → Cond → Context
  SetWindowSize : Context → Nat → Vec2 → Cond → Context
  SetWindowCollapsed : Context → Nat → Bool → Cond → Context
  SetWindowFocus : Context → Context
  TitleBarHeight : Context → Nat → ℚ
  MenuBarHeight : Context → Nat → ℚ
  EndColumns : Context → Context
  LogFinish : Context → Context
  FocusWindow : Context → WindowRef → Context
  SetActiveID : Context → ID → WindowRef → Context
  GetFrontMostModalRootWindow : Context → WindowRef
  ClosePopupsOverWindow : Context → WindowRef → Context
  AddWindowToSortedBuffer : Context → Nat → Context
  AddWindowToDrawDataSelectLayer : Context → Nat → Context
  WindowFlagsNoScrollbar : WindowFlags
  WindowFlagsNoScrollWithMouse : WindowFlags
  WindowFlagsNoNavInputs : WindowFlags
  ConfigFlagsNavEnableKeyboard : Nat
  ConfigFlagsNavNoCaptureKeyboard : Nat
  DragDropFlagsSourceExtern : Nat
  KeyTab : Nat
  MouseCursorArrow : Int
  GetDefaultFont : Context → Nat
  SetCurrentFont : Context → Nat → Context
  DrawDataClear : DrawData → DrawData
  ClearDragDrop : Context → Context
  NavUpdate : Context → Context
  IsMousePosValid : Context → Vec2 → Bool
  UpdateMovingWindow : Context → Context
  SaveIniSettingsToDisk : Context → String → Context
  FindHoveredWindow : Context → WindowRef
  IsWindowChildOf : Context → WindowRef → WindowRef → Bool
  CalcFontSize : Context → Nat → ℚ
  SetWindowScrollY : Context → Nat → ℚ → Context
  SetWindowScrollX : Context → Nat → ℚ → Context
  IsKeyPressedMap : Context → Nat → Bool → Bool
  FocusFrontMostActiveWindow : Context → WindowRef → Context
  SetNextWindowSize : Context → Vec2 → Cond → Context

/-- Write window `x` behind handle `w`. -/
def Context.setWin (c : Context) (w : Nat) (x : Window) : Context :=
  { c with Heap := Function.update c.Heap w x }

/-- Modelled from the spec: `SetCurrentWindow` is not among the sources; it makes
the given window (or nil) the window whose widgets are being submitted. -/
def SetCurrentWindow (c : Context) (window : WindowRef) : Context :=
  { c with CurrentWindow := window }

/-- Modelled from the spec: the context's `PushClipRect` is not among the
sources; the clip rectangle is pushed on the draw list of the current window
(`DrawList.PushClipRectEx`), and there is no current window to push on when
`CurrentWindow` is nil. -/
def Context.PushClipRect (c : Context) (cr_min cr_max : Vec2)
    (intersect_with_current_clip_rect : Bool) : Option Context :=
  match GetCurrentWindow c with
  | none => none
  | some w =>
    some (c.setWin w { c.Heap w with
      DrawList := PushClipRectEx (c.Heap w).DrawList cr_min cr_max
        intersect_with_current_clip_rect })

/-- Modelled from the spec: the context's `PopClipRect` is not among the sources;
the clip rectangle is popped from the draw list of the current window
(`DrawList.PopClipRect`, lines 800-803, which panics on an empty stack). -/
def Context.PopClipRect (c : Context) : Option Context :=
  match GetCurrentWindow c with
  | none => none
  | some w =>
    match ImGui.PopClipRect (c.Heap w).DrawList with
    | none => none
    | some dl => some (c.setWin w { c.Heap w with DrawList := dl })

/-- `Context.End`, lines 691-715.  Dereferencing a nil `CurrentWindow` and
slicing an empty stack to length `-1` panic. -/
def End (E : Env) (c : Context) : Option Context :=
  match c.CurrentWindow with
  | none => none
  | some window =>
    let c := if (c.Heap window).DC.ColumnsSet ≠ none then E.EndColumns c else c
    match c.PopClipRect with
    | none => none
    | some c =>
      let c := if (c.Heap window).Flags &&& E.WindowFlagsChildWindow = 0 then E.LogFinish c else c
      if c.CurrentWindowStack.length = 0 then none
      else
        let c := { c with CurrentWindowStack := c.CurrentWindowStack.dropLast }
        let popped : Option Context :=
          if (c.Heap window).Flags &&& E.WindowFlagsPopup ≠ 0 then
            if c.CurrentPopupStack.length = 0 then none
            else some { c with CurrentPopupStack := c.CurrentPopupStack.dropLast }
          else some c
        match popped with
        | none => none
        | some c =>
          match c.CurrentWindowStack.getLast? with
          | none => some (SetCurrentWindow c none)
          | some top => some (SetCurrentWindow c top)

/-- The left-click part of `EndFrame`, lines 623-637: focus the hovered window
and start moving it, or clear the focus on a click in the void. -/
def endFrameLeftClick (E : Env) (c : Context) : Option Context :=
  if c.Io.MouseClicked.getD 0 false then
    if c.HoveredRootWindow ≠ none then
      let c := E.FocusWindow c c.HoveredWindow
      match c.HoveredWindow with
      | none => none
      | some hovered =>
        let c := E.SetActiveID c (c.Heap hovered).MoveId c.HoveredWindow
        let c := { c with NavDisableHighlight := true }
        match c.HoveredRootWindow with
        | none => none
        | some root =>
          let c := { c with ActiveIdClickOffset := c.Io.MousePos.Sub (c.Heap root).Pos }
          match c.HoveredWindow with
          | none => none
          | some hovered =>
            if (c.Heap hovered).Flags &&& E.WindowFlagsNoMove = 0 ∧
                (c.Heap root).Flags &&& E.WindowFlagsNoMove = 0 then
              some { c with MovingWindow := c.HoveredWindow }
            else some c
    else if c.NavWindow ≠ none ∧ E.GetFrontMostModalRootWindow c = none then
      some (E.FocusWindow c none)
    else some c
  else some c

/-- The loop of lines 649-657, over the windows from the last to the first: stop
with `false` at the modal window, with `true` at the hovered window. -/
def scanAboveModal (modal hovered : WindowRef) : List Nat → Bool
  | [] => false
  | w :: rest =>
    if some w = modal then false
    else if some w = hovered then true
    else scanAboveModal modal hovered rest

/-- The right-click part of `EndFrame`, lines 641-663: close the popups over the
hovered window or over the front-most modal window. -/
def endFrameRightClick (E : Env) (c : Context) : Context :=
  if c.Io.MouseClicked.getD 1 false then
    let modal := E.GetFrontMostModalRootWindow c
    let hovered_window_above_modal :=
      if modal = none then true else scanAboveModal modal c.HoveredWindow c.Windows.reverse
    if hovered_window_above_modal then E.ClosePopupsOverWindow c c.HoveredWindow
    else E.ClosePopupsOverWindow c modal
  else c

/-- The re-sorting of the window list in `EndFrame`, lines 669-676. -/
def endFrameSortWindows (E : Env) (c : Context) : Context :=
  let windows := c.Windows
  let c := { c with WindowsSortBuffer := [] }
  let c := windows.foldl (fun c window =>
    if (c.Heap window).Active ∧ (c.Heap window).Flags &&& E.WindowFlagsChildWindow ≠ 0 then c
    else E.AddWindowToSortedBuffer c window) c
  { c with Windows := c.WindowsSortBuffer, WindowsSortBuffer := c.Windows }

/-- The clearing of the one-frame input in `EndFrame`, lines 679-686. -/
def endFrameClearInput (c : Context) : Context :=
  { c with Io := { c.Io with
      MouseWheel := 0
      MouseWheelH := 0
      InputCharacters := c.Io.InputCharacters.map (fun _ => 0)
      NavInputs := c.Io.NavInputs.map (fun _ => 0) } }

/-- `Context.EndFrame`, lines 601-689.  The host's input-method callback acts
outside the context. -/
def EndFrame (E : Env) (c : Context) : Option Context :=
  if c.FrameCountEnded = c.FrameCount then some c
  else
    let c :=
      if c.Io.ImeSetInputScreenPosFn ≠ none ∧
          c.OsImePosRequest.DistanceSquared c.OsImePosSet > 1 / 10000 then
        { c with OsImePosSet := c.OsImePosRequest }
      else c
    let c :=
      match c.CurrentWindow with
      | some w =>
        if ¬ (c.Heap w).WriteAccessed then c.setWin w { c.Heap w with Active := false } else c
      | none => c
    match End E c with
    | none => none
    | some c =>
      let clicked : Option Context :=
        if c.ActiveId = 0 ∧ c.HoveredId = 0 then
          let appearing : Bool :=
            match c.NavWindow with
            | none => false
            | some nav => (c.Heap nav).Appearing
          if ¬ appearing then
            match endFrameLeftClick E c with
            | none => none
            | some c => some (endFrameRightClick E c)
          else some c
        else some c
      match clicked with
      | none => none
      | some c =>
        let c := endFrameSortWindows E c
        let c := endFrameClearInput c
        some { c with FrameCountEnded := c.FrameCount }

/-- One iteration of the loop of `FlattenIntoSingleLayer`, lines 985-986. -/
def flattenStep (layers : List (List DrawListRef)) (n : Nat) : List (List DrawListRef) :=
  let layers := layers.set 0 (layers.getD 0 [] ++ layers.getD n [])
  layers.set n []

/-- `DrawDataBuilder.FlattenIntoSingleLayer`, lines 983-988. -/
def DrawDataBuilder.FlattenIntoSingleLayer (d : DrawDataBuilder) : DrawDataBuilder :=
  { d with Layers := (List.range' 1 (d.Layers.length - 1)).foldl flattenStep d.Layers }

/-- `DrawDataBuilder.Clear`, lines 990-994. -/
def DrawDataBuilder.Clear (d : DrawDataBuilder) : DrawDataBuilder :=
  { d with Layers := d.Layers.map (fun _ => []) }

/-- The state of the gathering loop of `Render`: the context, and the windows
handed to `AddWindowToDrawDataSelectLayer` so far, in call order (a record of the
calls, not a field of the source). -/
structure GatherState where
  ctx : Context
  gathered : List Nat

/-- The window requested to render front-most, lines 578-581. -/
def renderFrontMost (E : Env) (c : Context) : WindowRef :=
  match c.NavWindowingTarget with
  | some target =>
    if (c.Heap target).Flags &&& E.WindowFlagsNoBringToFrontOnFocus = 0 then some target
    else none
  | none => none

/-- One iteration of the gathering loop of `Render`, lines 584-587. -/
def renderGatherStep (E : Env) (window_to_render_front_most : WindowRef)
    (st : GatherState) (window : Nat) : GatherState :=
  if (st.ctx.Heap window).Active ∧ (st.ctx.Heap window).HiddenFrames ≤ 0 ∧
      (st.ctx.Heap window).Flags &&& E.WindowFlagsChildWindow = 0 ∧
      some window ≠ window_to_render_front_most then
    { ctx := E.AddWindowToDrawDataSelectLayer st.ctx window
      gathered := st.gathered ++ [window] }
  else st

/-- The gathering of the windows to render, lines 578-594. -/
def renderGather (E : Env) (c : Context) : GatherState :=
  let window_to_render_front_most := renderFrontMost E c
  let st := c.Windows.foldl (renderGatherStep E window_to_render_front_most)
    { ctx := c, gathered := [] }
  match window_to_render_front_most with
  | some front =>
    if (st.ctx.Heap front).Active ∧ (st.ctx.Heap front).HiddenFrames ≤ 0 then
      { ctx := E.AddWindowToDrawDataSelectLayer st.ctx front
        gathered := st.gathered ++ [front] }
    else st
  | none => st

/-- `Context.Render` after its first statement, lines 570-598. -/
def renderAfterEndFrame (E : Env) (c : Context) : Context :=
  let c := { c with FrameCountRendered := c.FrameCount }
  let c := { c with Io := { c.Io with
    MetricsRenderVertices := 0, MetricsRenderIndices := 0, MetricsActiveWindows := 0 } }
  let c := { c with DrawDataBuilder := c.DrawDataBuilder.Clear }
  let c := (renderGather E c).ctx
  { c with DrawDataBuilder := c.DrawDataBuilder.FlattenIntoSingleLayer }

/-- `Context.Render`, lines 566-598. -/
def Render (E : Env) (c : Context) : Option Context :=
  let ended := if c.FrameCountEnded ≠ c.FrameCount then EndFrame E c else some c
  ended.map (renderAfterEndFrame E)

/-- The locals of `BeginEx` at line 539: the context, the window (found or
created, not nil), the effective flags and `first_begin_of_the_frame`. -/
structure BeginState where
  ctx : Context
  window : Nat
  flags : WindowFlags
  first_begin_of_the_frame : Bool

/-- The outcome of `BeginEx`: the context after the call and the boolean result;
`window` and `flags` record the locals of those names at the return. -/
structure BeginResult where
  ctx : Context
  result : Bool
  window : Nat
  flags : WindowFlags

/-- Find or create the window, `BeginEx` lines 413-421. -/
def beginFindOrCreate (E : Env) (c : Context) (name : String) (flags : WindowFlags) :
    Context × WindowRef :=
  match E.FindWindowByName c name with
  | some window => (c, some window)
  | none =>
    if c.NextWindowData.SizeCond ≠ 0 then
      E.CreateNewWindow c name c.NextWindowData.SizeVal flags
    else (c, none)

/-- Bit clear, Go's `x &^ m`. -/
def andNot (x m : Nat) : Nat := x ^^^ (x &&& m)

/-- The pending position directive, `BeginEx` lines 476-488. -/
def beginApplyPos (E : Env) (c : Context) (window : Nat) : Context :=
  if c.NextWindowData.PosCond ≠ 0 then
    let window_pos_set_by_api :=
      (c.Heap window).SetWindowPosAllowFlags &&& c.NextWindowData.PosCond ≠ 0
    let c :=
      if window_pos_set_by_api ∧ c.NextWindowData.PosPivotVal.LenSquared > 1 / 100000 then
        c.setWin window { c.Heap window with
          SetWindowPosVal := c.NextWindowData.PosVal
          SetWindowPosPivot := c.NextWindowData.PosPivotVal
          SetWindowPosAllowFlags := andNot (c.Heap window).SetWindowPosAllowFlags
            (E.CondOnce ||| E.CondFirstUseEver ||| E.CondAppearing) }
      else E.SetWindowPos c window c.NextWindowData.PosVal c.NextWindowData.PosCond
    { c with NextWindowData := { c.NextWindowData with PosCond := 0 } }
  else c

/-- The pending size, content-size, collapsed and focus directives, `BeginEx`
lines 490-519. -/
def beginApplyRest (E : Env) (c : Context) (window : Nat) (first_begin_of_the_frame : Bool) :
    Context :=
  let c :=
    if c.NextWindowData.SizeCond ≠ 0 then
      let c := E.SetWindowSize c window c.NextWindowData.SizeVal c.NextWindowData.SizeCond
      { c with NextWindowData := { c.NextWindowData with SizeCond := 0 } }
    else c
  let c :=
    if c.NextWindowData.ContentSizeCond ≠ 0 then
      let c := c.setWin window { c.Heap window with
        SizeContentsExplicit := c.NextWindowData.ContentSizeVal }
      let c :=
        if (c.Heap window).SizeContentsExplicit.Y ≠ 0 then
          c.setWin window { c.Heap window with
            SizeContentsExplicit := { (c.Heap window).SizeContentsExplicit with
              Y := (c.Heap window).SizeContentsExplicit.Y +
                (E.TitleBarHeight c window + E.MenuBarHeight c window) } }
        else c
      { c with NextWindowData := { c.NextWindowData with ContentSizeCond := 0 } }
    else if first_begin_of_the_frame then
      c.setWin window { c.Heap window with SizeContentsExplicit := Vec2.zero }
    else c
  let c :=
    if c.NextWindowData.CollapsedCond ≠ 0 then
      let c := E.SetWindowCollapsed c window c.NextWindowData.CollapsedVal
        c.NextWindowData.CollapsedCond
      { c with NextWindowData := { c.NextWindowData with CollapsedCond := 0 } }
    else c
  if c.NextWindowData.FocusCond ≠ 0 then
    let c := E.SetWindowFocus c
    { c with NextWindowData := { c.NextWindowData with FocusCond := 0 } }
  else c

/-- `BeginEx` up to line 537.  Dereferencing a nil window (line 429) and
indexing `OpenPopupStack` out of range (lines 441 and 462) panic.  `p_open` is a
pointer: only whether it is nil is read. -/
def beginSetup (E : Env) (c : Context) (name : String) (p_open : Option Bool)
    (flags : WindowFlags) : Option BeginState :=
  match beginFindOrCreate E c name flags with
  | (_, none) => none
  | (c, some window) =>
    let flags :=
      if flags &&& E.WindowFlagsNoInputs ≠ 0 then
        flags ||| (E.WindowFlagsNoMove ||| E.WindowFlagsNoResize)
      else flags
    let current_frame := c.FrameCount
    let first_begin_of_the_frame : Bool := (c.Heap window).LastFrameActive ≠ current_frame
    let c :=
      if first_begin_of_the_frame then c.setWin window { c.Heap window with Flags := flags }
      else c
    let flags := if first_begin_of_the_frame then flags else (c.Heap window).Flags
    let window_just_activated_by_user : Bool :=
      (c.Heap window).LastFrameActive < wrapInt (current_frame - 1)
    let window_just_appearing_after_hidden_for_resize : Bool :=
      (c.Heap window).HiddenFrames = 1
    let activated : Option Bool :=
      if flags &&& E.WindowFlagsPopup ≠ 0 then
        match c.OpenPopupStack[c.CurrentPopupStack.length]? with
        | none => none
        | some popup_ref =>
          some (window_just_activated_by_user ||
            decide ((c.Heap window).PopupId ≠ popup_ref.PopupId) ||
            decide (some window ≠ popup_ref.Window))
      else some window_just_activated_by_user
    match activated with
    | none => none
    | some window_just_activated_by_user =>
      let c := c.setWin window { c.Heap window with
        Appearing := window_just_activated_by_user ||
          window_just_appearing_after_hidden_for_resize
        CloseButton := p_open.isSome }
      let c :=
        if (c.Heap window).Appearing then
          E.SetWindowConditionAllowFlags c window E.CondAppearing true
        else c
      let c := { c with CurrentWindowStack := c.CurrentWindowStack ++ [some window] }
      let c := SetCurrentWindow c (some window)
      let pushed : Option Context :=
        if flags &&& E.WindowFlagsPopup ≠ 0 then
          match c.OpenPopupStack[c.CurrentPopupStack.length]? with
          | none => none
          | some popup_ref =>
            let popup_ref := { popup_ref with Window := some window }
            let c := { c with CurrentPopupStack := c.CurrentPopupStack ++ [popup_ref] }
            some (c.setWin window { c.Heap window with PopupId := popup_ref.PopupId })
        else some c
      match pushed with
      | none => none
      | some c =>
        let c :=
          if window_just_appearing_after_hidden_for_resize ∧
              flags &&& E.WindowFlagsChildWindow = 0 then
            c.setWin window { c.Heap window with
              NavLastIds := (c.Heap window).NavLastIds.set 0 0 }
          else c
        let c := beginApplyPos E c window
        let c := beginApplyRest E c window first_begin_of_the_frame
        let c :=
          if (c.Heap window).Appearing then
            E.SetWindowConditionAllowFlags c window E.CondAppearing false
          else c
        match c.PushClipRect (c.Heap window).InnerClipRect.Min
            (c.Heap window).InnerClipRect.Max true with
        | none => none
        | some c =>
          let c :=
            if first_begin_of_the_frame then
              c.setWin window { c.Heap window with WriteAccessed := false }
            else c
          let c := c.setWin window { c.Heap window with
            BeginCount := wrapInt ((c.Heap window).BeginCount + 1) }
          let c := { c with NextWindowData := { c.NextWindowData with SizeConstraintCond := 0 } }
          some { ctx := c, window := window, flags := flags,
                 first_begin_of_the_frame := first_begin_of_the_frame }

/-- `BeginEx` from line 539 to its return at line 563.  `parent_window` is
declared at line 525 and never assigned, so it is nil here. -/
def beginFinish (E : Env) (s : BeginState) : BeginResult :=
  let c := s.ctx
  let window := s.window
  let c :=
    if s.flags &&& E.WindowFlagsChildWindow ≠ 0 then
      let c := c.setWin window { c.Heap window with Collapsed := false }
      let c :=
        if s.flags &&& E.WindowFlagsAlwaysAutoResize = 0 ∧
            (c.Heap window).AutoFitFramesX ≤ 0 ∧ (c.Heap window).AutoFitFramesY ≤ 0 then
          if (c.Heap window).WindowRectClipped.Min.X ≥ (c.Heap window).WindowRectClipped.Max.X ∨
              (c.Heap window).WindowRectClipped.Min.Y ≥
                (c.Heap window).WindowRectClipped.Max.Y then
            c.setWin window { c.Heap window with Collapsed := true }
          else c
        else c
      if (c.Heap window).Collapsed then c.setWin window { c.Heap window with Active := false }
      else c
    else c
  let c :=
    if c.Style.Alpha ≤ 0 then c.setWin window { c.Heap window with Active := false } else c
  let skip : Bool :=
    ((c.Heap window).Collapsed || !(c.Heap window).Active) &&
      decide ((c.Heap window).AutoFitFramesX ≤ 0) &&
      decide ((c.Heap window).AutoFitFramesY ≤ 0)
  let c := c.setWin window { c.Heap window with SkipItems := skip }
  { ctx := c, result := !skip, window := window, flags := s.flags }

/-- `Context.BeginEx`, lines 410-564. -/
def BeginEx (E : Env) (c : Context) (name : String) (p_open : Option Bool)
    (flags : WindowFlags) : Option BeginResult :=
  (beginSetup E c name p_open flags).map (beginFinish E)

/-- `Context.Begin`, lines 399-401. -/
def Begin (E : Env) (c : Context) (name : String) : Option BeginResult :=
  BeginEx E c name none 0

/-! ## An environment and contexts used to evaluate the frame functions -/

/-- Stand-ins for the collaborators that are not among the sources: windows are
found by name, a new window gets a fresh handle and is appended to the window
list, a window is gathered by appending it to layer 0 and sorted by appending it
to the sort buffer; the other collaborators do the least their names say. -/
def exampleEnv : Env :=
  { WindowFlagsNoResize := 1 <<< 1
    WindowFlagsNoMove := 1 <<< 2
    WindowFlagsAlwaysAutoResize := 1 <<< 6
    WindowFlagsNoInputs := 1 <<< 9
    WindowFlagsNoBringToFrontOnFocus := 1 <<< 13
    WindowFlagsChildWindow := 1 <<< 24
    WindowFlagsPopup := 1 <<< 26
    CondOnce := 1 <<< 1
    CondFirstUseEver := 1 <<< 2
    CondAppearing := 1 <<< 3
    FindWindowByName := fun c name => c.Windows.find? (fun w => (c.Heap w).Name = name)
    CreateNewWindow := fun c name _size flags =>
      let w := c.Windows.foldl max 0 + 1
      ({ c.setWin w { Name := name, Flags := flags, LastFrameActive := -1 } with
          Windows := c.Windows ++ [w] }, some w)
    SetWindowConditionAllowFlags := fun c _ _ _ => c
    SetWindowPos := fun c w pos _ => c.setWin w { c.Heap w with Pos := pos }
    SetWindowSize := fun c _ _ _ => c
    SetWindowCollapsed := fun c w collapsed _ => c.setWin w { c.Heap w with Collapsed := collapsed }
    SetWindowFocus := fun c => c
    TitleBarHeight := fun _ _ => 0
    MenuBarHeight := fun _ _ => 0
    EndColumns := fun c =>
      match c.CurrentWindow with
      | some w => c.setWin w { c.Heap w with DC := { (c.Heap w).DC with ColumnsSet := none } }
      | none => c
    LogFinish := fun c => c
    FocusWindow := fun c w => { c with NavWindow := w }
    SetActiveID := fun c id _ => { c with ActiveId := id }
    GetFrontMostModalRootWindow := fun _ => none
    ClosePopupsOverWindow := fun c _ => c
    AddWindowToSortedBuffer := fun c w => { c with WindowsSortBuffer := c.WindowsSortBuffer ++ [w] }
    AddWindowToDrawDataSelectLayer := fun c w =>
      { c with DrawDataBuilder :=
          { c.DrawDataBuilder with
            Layers := c.DrawDataBuilder.Layers.set 0 (c.DrawDataBuilder.Layers.getD 0 [] ++ [w]) } }
    WindowFlagsNoScrollbar := 1 <<< 3
    WindowFlagsNoScrollWithMouse := 1 <<< 4
    WindowFlagsNoNavInputs := 1 <<< 18
    ConfigFlagsNavEnableKeyboard := 1 <<< 0
    ConfigFlagsNavNoCaptureKeyboard := 1 <<< 3
    DragDropFlagsSourceExtern := 1 <<< 4
    KeyTab := 0
    MouseCursorArrow := 0
    GetDefaultFont := fun _ => 0
    SetCurrentFont := fun c _ => c
    DrawDataClear := fun _ => {}
    ClearDragDrop := fun c => { c with DragDropActive := false }
    NavUpdate := fun c => c
    IsMousePosValid := fun _ p => decide (p.X ≥ -256000 ∧ p.Y ≥ -256000)
    UpdateMovingWindow := fun c => c
    SaveIniSettingsToDisk := fun c _ => c
    FindHoveredWindow := fun c =>
      c.Windows.reverse.find? (fun w =>
        (c.Heap w).WasActive &&
          decide ((c.Heap w).WindowRectClipped.Min.X ≤ c.Io.MousePos.X ∧
            c.Io.MousePos.X < (c.Heap w).WindowRectClipped.Max.X ∧
            (c.Heap w).WindowRectClipped.Min.Y ≤ c.Io.MousePos.Y ∧
            c.Io.MousePos.Y < (c.Heap w).WindowRectClipped.Max.Y))
    IsWindowChildOf := fun c window potential_parent =>
      match window with
      | some w => decide (window = potential_parent ∨ (c.Heap w).RootWindow = potential_parent)
      | none => false
    CalcFontSize := fun c w => 13 * (c.Heap w).FontWindowScale
    SetWindowScrollY := fun c w y =>
      c.setWin w { c.Heap w with Scroll := { (c.Heap w).Scroll with Y := y } }
    SetWindowScrollX := fun c w x =>
      c.setWin w { c.Heap w with Scroll := { (c.Heap w).Scroll with X := x } }
    IsKeyPressedMap := fun _ _ _ => false
    FocusFrontMostActiveWindow := fun c _ => c
    SetNextWindowSize := fun c size cond =>
      { c with NextWindowData := { c.NextWindowData with
          SizeVal := size, SizeCond := if cond ≠ 0 then cond else 1 } } }

/-- A window named `name` that was active in frame 4, with one clip rectangle
pushed on its draw list. -/
def exampleWindow (name : String) : Window :=
  { Name := name, Active := true, WriteAccessed := true, LastFrameActive := 4,
    DrawList := exampleList [geomCmd 0 clip10] [clip10] }

/-- Frame 5, not yet ended: windows 1 ("Debug", being built), 2 ("Tools") and 3
("Child", a child window) are registered and active; the wheel was turned and
two characters and two navigation inputs are pending. -/
def exampleFrame : Context :=
  { Io := { MousePos := { X := 5, Y := 5 }
            MouseDown := [false, false, false, false, false]
            MouseClicked := [false, false, false, false, false]
            MouseReleased := [false, false, false, false, false]
            MouseWheel := 3, MouseWheelH := -1
            InputCharacters := [104, 105], NavInputs := [1, 1 / 2] }
    HoveredId := 0, ActiveId := 0, HoveredWindow := some 1, HoveredRootWindow := some 1,
    CurrentWindow := some 1
    Heap := fun w =>
      if w = 1 then exampleWindow "Debug"
      else if w = 2 then exampleWindow "Tools"
      else if w = 3 then { exampleWindow "Child" with Flags := 1 <<< 24 }
      else {}
    Style := { Alpha := 1 }
    FrameCount := 5, FrameCountEnded := 4, FrameCountRendered := 4
    Windows := [1, 2, 3]
    CurrentWindowStack := [some 1]
    DrawDataBuilder := { Layers := [[7], [8]] } }

/-- As `exampleFrame`, with window 1 requested to render front-most. -/
def exampleFrontMost : Context := { exampleFrame with NavWindowingTarget := some 1 }

/-- As `exampleFrame`, but the window being built is a popup window and no popup
is recorded on the current popup stack. -/
def examplePopupEnd : Context :=
  { exampleFrame with
    Heap := fun w => if w = 1 then { exampleWindow "Popup" with Flags := 1 <<< 26 } else {} }

/-- Frame 5 with no window registered and no window being built; no size
directive is pending. -/
def exampleNoWindow : Context :=
  { exampleFrame with
    Heap := fun _ => {}, Windows := [], CurrentWindow := none, CurrentWindowStack := [] }

/-- As `exampleNoWindow`, with a size directive pending for the next window. -/
def exampleSizePending : Context :=
  { exampleNoWindow with NextWindowData := { SizeCond := 1 <<< 2, SizeVal := { X := 400, Y := 400 } } }

/-- As `exampleFrame`, with window 3 (the child window) clipped to an empty
rectangle. -/
def exampleClippedChild : Context :=
  { exampleFrame with
    Heap := fun w =>
      if w = 3 then
        { exampleWindow "Child" with
          Flags := 1 <<< 24
          WindowRectClipped := { Min := { X := 10, Y := 0 }, Max := { X := 10, Y := 20 } } }
      else exampleFrame.Heap w }

/-- The gathering collaborator leaves the three frame counters as they are. -/
def Env.GatherKeepsCounters (E : Env) : Prop :=
  ∀ (c : Context) (w : Nat),
    (E.AddWindowToDrawDataSelectLayer c w).FrameCount = c.FrameCount ∧
    (E.AddWindowToDrawDataSelectLayer c w).FrameCountEnded = c.FrameCountEnded ∧
    (E.AddWindowToDrawDataSelectLayer c w).FrameCountRendered = c.FrameCountRendered

/-- The gathering collaborator leaves every window's `Active`, `HiddenFrames`
and `Flags` as they are. -/
def Env.GatherKeepsWindows (E : Env) : Prop :=
  ∀ (c : Context) (w v : Nat),
    ((E.AddWindowToDrawDataSelectLayer c w).Heap v).Active = (c.Heap v).Active ∧
    ((E.AddWindowToDrawDataSelectLayer c w).Heap v).HiddenFrames = (c.Heap v).HiddenFrames ∧
    ((E.AddWindowToDrawDataSelectLayer c w).Heap v).Flags = (c.Heap v).Flags

/-- The test of the gathering loop, lines 584-585, on window `w` of context `c`. -/
def gatherTest (E : Env) (c : Context) (front : WindowRef) (w : Nat) : Bool :=
  decide ((c.Heap w).Active ∧ (c.Heap w).HiddenFrames ≤ 0 ∧
    (c.Heap w).Flags &&& E.WindowFlagsChildWindow = 0 ∧ some w ≠ front)

/-- The front-most window as gathered after the loop, lines 591-594: itself when
it is active and not hidden, nothing otherwise. -/
def gatherFront (c : Context) (front : WindowRef) : List Nat :=
  match front with
  | some f => if (c.Heap f).Active ∧ (c.Heap f).HiddenFrames ≤ 0 then [f] else []
  | none => []

/-- A collaborator of `End` leaves the scopes alone: the current window, the
window stack, the popup stack, and every window's flags and clip-rectangle
stack are as before. -/
def KeepsScopes (f : Context → Context) : Prop :=
  ∀ c : Context,
    (f c).CurrentWindow = c.CurrentWindow ∧
    (f c).CurrentWindowStack = c.CurrentWindowStack ∧
    (f c).CurrentPopupStack = c.CurrentPopupStack ∧
    ∀ v, ((f c).Heap v).Flags = (c.Heap v).Flags ∧
      ((f c).Heap v).DrawList._ClipRectStack = (c.Heap v).DrawList._ClipRectStack

/-- As `exampleFrame`, with window 1 begun inside window 2. -/
def exampleNested : Context := { exampleFrame with CurrentWindowStack := [some 2, some 1] }

/-! ## The start of the frame (`draw.go`, lines 83-397)

`NewFrame` is one long function; it is cut here into its consecutive blocks, one
definition per block, composed in source order by `NewFrame` below.  The helpers
of package `f64` and the constants of package `math` are not among the sources. -/

/-- The flag of `draw.go` line 79. -/
def DrawListFlagsAntiAliasedLines : Nat := 1 <<< 0

/-- The flag of `draw.go` line 80. -/
def DrawListFlagsAntiAliasedFill : Nat := 1 <<< 1

/-- Go's `math.MaxFloat32`. -/
def MaxFloat32 : ℚ := 340282346638528859811704183484516925440

/-- Go's `math.MaxInt32`. -/
def MaxInt32 : Int := 2147483647

/-- Modelled from the spec: `f64.Clamp` is not among the sources; it bounds `x`
to the interval from `lo` to `hi`. -/
def Clamp (x lo hi : ℚ) : ℚ := if x < lo then lo else if x > hi then hi else x

/-- Modelled from the spec: `Vec2.Scale` is not among the sources; it multiplies
both coordinates by `k`. -/
def Vec2.Scale (a : Vec2) (k : ℚ) : Vec2 := { X := a.X * k, Y := a.Y * k }

/-- Modelled from the spec: `Rectangle.Dy` is not among the sources; it is the
height of the rectangle. -/
def Rectangle.Dy (r : Rectangle) : ℚ := r.Max.Y - r.Min.Y

/-- Go's built-in `copy(dst, src)`: the first `min(len(dst), len(src))` elements
of `dst` are overwritten. -/
def goCopy {α : Type} (dst src : List α) : List α := src.take dst.length ++ dst.drop src.length

/-- `DrawList.Clear`, lines 784-798. -/
def DrawList.Clear (d : DrawList) : DrawList :=
  { d with
    CmdBuffer := []
    IdxBuffer := []
    VtxBuffer := []
    Flags := DrawListFlagsAntiAliasedLines ||| DrawListFlagsAntiAliasedFill
    _VtxCurrentIdx := 0
    _VtxWritePtr := 0
    _IdxWritePtr := 0
    _ClipRectStack := []
    _TextureIdStack := []
    _Path := []
    _ChannelsCurrent := 0
    _ChannelsCount := 1 }

/-- `DrawList.PushClipRectFullScreen`, lines 910-913. -/
def PushClipRectFullScreen (d : DrawList) : DrawList :=
  let clipRect := d._Data.ClipRectFullscreen
  PushClipRect d { X := clipRect.X, Y := clipRect.Y } { X := clipRect.Z, Y := clipRect.W }

/-- `NewFrame`, lines 84-110: the clock and the frame counter advance, the
shared draw data and the overlay draw list are reset, and the draw data is
marked invalid.  The overlay list's `_Data` points to the context's shared data,
so the copy held by value is refreshed before the list is used. -/
def newFrameSetup (E : Env) (c : Context) : Context :=
  let c := if ¬ c.SettingsLoaded then { c with SettingsLoaded := true } else c
  let c := { c with
    Time := c.Time + c.Io.DeltaTime
    FrameCount := wrapInt (c.FrameCount + 1)
    TooltipOverrideCount := 0
    WindowsActiveCount := 0 }
  let c := E.SetCurrentFont c (E.GetDefaultFont c)
  let c := { c with DrawListSharedData := { c.DrawListSharedData with
    ClipRectFullscreen := { X := 0, Y := 0, Z := c.Io.DisplaySize.X, W := c.Io.DisplaySize.Y } } }
  let c := { c with DrawListSharedData := { c.DrawListSharedData with
    CurveTessellationTol := c.Style.CurveTessellationTol } }
  let d := { c.OverlayDrawList with _Data := c.DrawListSharedData }
  let d := d.Clear
  let d := PushTextureID d c.Io.FontsTexID
  let d := PushClipRectFullScreen d
  let d := { d with Flags := 0 }
  let d :=
    if c.Style.AntiAliasedLines then { d with Flags := d.Flags ||| DrawListFlagsAntiAliasedLines }
    else d
  let d :=
    if c.Style.AntiAliasedFill then { d with Flags := d.Flags ||| DrawListFlagsAntiAliasedFill }
    else d
  let c := { c with OverlayDrawList := d }
  { c with DrawData := E.DrawDataClear c.DrawData }

/-- `NewFrame`, lines 113-118: the hovered item of the previous frame is
recorded and the hovered item is cleared. -/
def newFrameHoveredId (c : Context) : Context :=
  let c := if c.HoveredIdPreviousFrame = 0 then { c with HoveredIdTimer := 0 } else c
  { c with
    HoveredIdPreviousFrame := c.HoveredId
    HoveredId := 0
    HoveredIdAllowOverlap := false }

/-- `NewFrame`, lines 119-121: the active item is cleared when it was not kept
alive during the previous frame. -/
def newFrameClearActive (c : Context) : Context :=
  if ¬ c.ActiveIdIsAlive ∧ c.ActiveIdPreviousFrame = c.ActiveId ∧ c.ActiveId ≠ 0 then
    ClearActiveID c
  else c

/-- `NewFrame`, lines 122-130: the timer of the active item advances and its
bookkeeping is reset for the new frame. -/
def newFrameActiveId (c : Context) : Context :=
  let c := if c.ActiveId ≠ 0 then { c with ActiveIdTimer := c.ActiveIdTimer + c.Io.DeltaTime } else c
  let c := { c with
    ActiveIdPreviousFrame := c.ActiveId
    ActiveIdIsAlive := false
    ActiveIdIsJustActivated := false }
  if c.ScalarAsInputTextId ≠ 0 ∧ c.ActiveId ≠ c.ScalarAsInputTextId then
    { c with ScalarAsInputTextId := 0 }
  else c

/-- `NewFrame`, lines 112-130: the three blocks above in source order. -/
def newFrameIds (c : Context) : Context :=
  newFrameActiveId (newFrameClearActive (newFrameHoveredId c))

/-- `NewFrame`, lines 133-144: an elapsed drag and drop payload is dropped and
the accepted target of the previous frame is recorded. -/
def newFrameDragDrop (E : Env) (c : Context) : Context :=
  let c :=
    if c.DragDropActive ∧ wrapInt (c.DragDropPayloadDataFrameCount + 1) < c.FrameCount then
      let c := E.ClearDragDrop c
      { c with
        DragDropPayloadBufHeap := c.DragDropPayloadBufHeap.map (fun _ => 0)
        DragDropPayloadBufLocal := c.DragDropPayloadBufLocal.map (fun _ => 0) }
    else c
  { c with
    DragDropAcceptIdPrev := c.DragDropAcceptIdCurr
    DragDropAcceptIdCurr := 0
    DragDropAcceptIdCurrRectSurface := MaxFloat32 }

/-- One iteration of the keyboard loop of `NewFrame`, lines 149-156: the
duration of key `i` is set to -1 and then, when the key is down, tested and
written again. -/
def newFrameKeyStep (io : InputSnapshot) (i : Nat) : InputSnapshot :=
  let io := { io with KeysDownDuration := io.KeysDownDuration.set i (-1) }
  if io.KeysDown.getD i false then
    if io.KeysDownDuration.getD i 0 < 0 then
      { io with KeysDownDuration := io.KeysDownDuration.set i 0 }
    else
      { io with KeysDownDuration :=
          io.KeysDownDuration.set i (io.KeysDownDuration.getD i 0 + io.DeltaTime) }
  else io

/-- `NewFrame`, lines 147-157: the keyboard durations of the previous frame are
kept and the durations are updated, key by key. -/
def newFrameKeys (c : Context) : Context :=
  let io := { c.Io with
    KeysDownDurationPrev := goCopy c.Io.KeysDownDurationPrev c.Io.KeysDownDuration }
  { c with Io := (List.range io.KeysDown.length).foldl newFrameKeyStep io }

/-- `NewFrame`, lines 164-173: the mouse movement since the previous frame, zero
when either position is invalid, and the position kept for the next frame. -/
def newFrameMouseDelta (E : Env) (c : Context) : Context :=
  let c :=
    if E.IsMousePosValid c c.Io.MousePos && E.IsMousePosValid c c.Io.MousePosPrev then
      { c with Io := { c.Io with MouseDelta := c.Io.MousePos.Sub c.Io.MousePosPrev } }
    else { c with Io := { c.Io with MouseDelta := { X := 0, Y := 0 } } }
  let c :=
    if c.Io.MouseDelta.X ≠ 0 ∨ c.Io.MouseDelta.Y ≠ 0 then { c with NavDisableMouseHover := false }
    else c
  { c with Io := { c.Io with MousePosPrev := c.Io.MousePos } }

/-- Entry `i` of each per-button array of the input block, read together: what
the body of the mouse loop of `NewFrame` reads and writes for button `i`. -/
structure MouseButton where
  Down : Bool
  Clicked : Bool
  Released : Bool
  DoubleClicked : Bool
  DownDuration : ℚ
  DownDurationPrev : ℚ
  ClickedTime : ℚ
  ClickedPos : Vec2
  DragMaxDistanceAbs : Vec2
  DragMaxDistanceSqr : ℚ
deriving DecidableEq

/-- Read entry `i` of the per-button arrays. -/
def InputSnapshot.button (io : InputSnapshot) (i : Nat) : MouseButton :=
  { Down := io.MouseDown.getD i false
    Clicked := io.MouseClicked.getD i false
    Released := io.MouseReleased.getD i false
    DoubleClicked := io.MouseDoubleClicked.getD i false
    DownDuration := io.MouseDownDuration.getD i 0
    DownDurationPrev := io.MouseDownDurationPrev.getD i 0
    ClickedTime := io.MouseClickedTime.getD i 0
    ClickedPos := io.MouseClickedPos.getD i Vec2.zero
    DragMaxDistanceAbs := io.MouseDragMaxDistanceAbs.getD i Vec2.zero
    DragMaxDistanceSqr := io.MouseDragMaxDistanceSqr.getD i 0 }

/-- Write entry `i` of the per-button arrays that the mouse loop assigns
(`MouseDown` is the host's and is only read). -/
def InputSnapshot.setButton (io : InputSnapshot) (i : Nat) (b : MouseButton) : InputSnapshot :=
  { io with
    MouseClicked := io.MouseClicked.set i b.Clicked
    MouseReleased := io.MouseReleased.set i b.Released
    MouseDoubleClicked := io.MouseDoubleClicked.set i b.DoubleClicked
    MouseDownDuration := io.MouseDownDuration.set i b.DownDuration
    MouseDownDurationPrev := io.MouseDownDurationPrev.set i b.DownDurationPrev
    MouseClickedTime := io.MouseClickedTime.set i b.ClickedTime
    MouseClickedPos := io.MouseClickedPos.set i b.ClickedPos
    MouseDragMaxDistanceAbs := io.MouseDragMaxDistanceAbs.set i b.DragMaxDistanceAbs
    MouseDragMaxDistanceSqr := io.MouseDragMaxDistanceSqr.set i b.DragMaxDistanceSqr }

/-- The body of the mouse loop of `NewFrame`, lines 175-207, on the entries of
one button: `time` is `c.Time`, and `io` gives the scalars of the input block
(`MousePos`, `DeltaTime`, the double-click time and distance). -/
def mouseButtonBody (time : ℚ) (io : InputSnapshot) (b : MouseButton) : MouseButton :=
  let b := { b with
    Clicked := b.Down && decide (b.DownDuration < 0)
    Released := !b.Down && decide (b.DownDuration ≥ 0)
    DownDurationPrev := b.DownDuration }
  let b :=
    if b.Down then
      if b.DownDuration < 0 then { b with DownDuration := 0 }
      else { b with DownDuration := b.DownDuration + io.DeltaTime }
    else { b with DownDuration := -1 }
  let b := { b with DoubleClicked := false }
  if b.Clicked then
    let b :=
      if time - b.ClickedTime < io.MouseDoubleClickTime then
        let b :=
          if io.MousePos.DistanceSquared b.ClickedPos <
              io.MouseDoubleClickMaxDist * io.MouseDoubleClickMaxDist then
            { b with DoubleClicked := true }
          else b
        { b with ClickedTime := -MaxFloat32 }
      else { b with ClickedTime := time }
    { b with
      ClickedPos := io.MousePos
      DragMaxDistanceAbs := { X := 0, Y := 0 }
      DragMaxDistanceSqr := 0 }
  else if b.Down then
    let mouse_delta := io.MousePos.Sub b.ClickedPos
    { b with
      DragMaxDistanceAbs :=
        { X := max b.DragMaxDistanceAbs.X (abs mouse_delta.X)
          Y := max b.DragMaxDistanceAbs.Y (abs mouse_delta.Y) }
      DragMaxDistanceSqr := max b.DragMaxDistanceSqr mouse_delta.LenSquared }
  else b

/-- One iteration of the mouse loop of `NewFrame`, lines 175-211: the entries of
button `i` are read, updated and written back, and a click turns mouse hovering
back on. -/
def newFrameMouseStep (c : Context) (i : Nat) : Context :=
  let b := mouseButtonBody c.Time c.Io (c.Io.button i)
  let c := { c with Io := c.Io.setButton i b }
  if b.Clicked then { c with NavDisableMouseHover := false } else c

/-- `NewFrame`, lines 174-212: the mouse loop over the buttons. -/
def newFrameMouseButtons (c : Context) : Context :=
  (List.range c.Io.MouseDown.length).foldl newFrameMouseStep c

/-- `NewFrame`, lines 215-218: the running average of the frame time.  The
buffer of frame times is a fixed-size array in the source. -/
def newFrameFramerate (c : Context) : Context :=
  let accum := c.FramerateSecPerFrameAccum +
    (c.Io.DeltaTime - c.FramerateSecPerFrame.getD c.FramerateSecPerFrameIdx 0)
  let frames := c.FramerateSecPerFrame.set c.FramerateSecPerFrameIdx c.Io.DeltaTime
  { c with
    FramerateSecPerFrameAccum := accum
    FramerateSecPerFrame := frames
    FramerateSecPerFrameIdx := (c.FramerateSecPerFrameIdx + 1) % frames.length
    Io := { c.Io with Framerate := 1 / (accum / (frames.length : ℚ)) } }

/-- `NewFrame`, lines 224-229: the settings are saved when their timer runs out. -/
def newFrameSettings (E : Env) (c : Context) : Context :=
  if c.SettingsDirtyTimer > 0 then
    let c := { c with SettingsDirtyTimer := c.SettingsDirtyTimer - c.Io.DeltaTime }
    if c.SettingsDirtyTimer ≤ 0 then E.SaveIniSettingsToDisk c c.Io.IniFilename else c
  else c

/-- `NewFrame`, lines 235-243: the hovered window is the window being moved, or
the one found under the mouse, and the hovered root window is its root. -/
def newFrameFindHovered (E : Env) (c : Context) : Context :=
  let moving : Bool :=
    match c.MovingWindow with
    | some m => decide ((c.Heap m).Flags &&& E.WindowFlagsNoInputs = 0)
    | none => false
  let c :=
    if moving then { c with HoveredWindow := c.MovingWindow }
    else { c with HoveredWindow := E.FindHoveredWindow c }
  let c := { c with HoveredRootWindow := none }
  match c.HoveredWindow with
  | some hovered => { c with HoveredRootWindow := (c.Heap hovered).RootWindow }
  | none => c

/-- `NewFrame`, line 247: the darkening behind a modal window grows with time, up
to 1. -/
def newFrameDarken (c : Context) : Context :=
  { c with
    ModalWindowDarkeningRatio := min (c.ModalWindowDarkeningRatio + c.Io.DeltaTime * 6) 1 }

/-- `NewFrame`, lines 246-254, with `modal_window` the value read at line 245:
a modal window darkens the rest and takes the hover away from every window that
is not its child. -/
def newFrameModal (E : Env) (c : Context) (modal_window : WindowRef) : Context :=
  if modal_window ≠ none then
    let c := newFrameDarken c
    if c.HoveredRootWindow ≠ none ∧ ¬ E.IsWindowChildOf c c.HoveredRootWindow modal_window then
      { c with HoveredRootWindow := none, HoveredWindow := none }
    else c
  else { c with ModalWindowDarkeningRatio := 0 }

/-- The locals and the array written by the loop of lines 258-272:
`mouse_earliest_button_down` is -1 in the source when no button is down, `none`
here. -/
structure CaptureScan where
  MouseDownOwned : List Bool
  mouse_earliest_button_down : Option Nat
  mouse_any_down : Bool
deriving DecidableEq

/-- One iteration of the loop of lines 260-272. -/
def captureStep (c : Context) (s : CaptureScan) (i : Nat) : CaptureScan :=
  let s :=
    if c.Io.MouseClicked.getD i false then
      { s with MouseDownOwned :=
          s.MouseDownOwned.set i (decide (c.HoveredWindow ≠ none) ||
            decide (c.OpenPopupStack.length > 0)) }
    else s
  if c.Io.MouseDown.getD i false then
    let s := { s with mouse_any_down := true }
    match s.mouse_earliest_button_down with
    | none => { s with mouse_earliest_button_down := some i }
    | some earliest =>
      if c.Io.MouseClickedTime.getD i 0 < c.Io.MouseClickedTime.getD earliest 0 then
        { s with mouse_earliest_button_down := some i }
      else s
  else s

/-- The loop of lines 258-272 over the buttons. -/
def captureScan (c : Context) : CaptureScan :=
  (List.range c.Io.MouseDown.length).foldl (captureStep c)
    { MouseDownOwned := c.Io.MouseDownOwned, mouse_earliest_button_down := none,
      mouse_any_down := false }

/-- The local `mouse_avail_to_imgui` of line 273. -/
def mouseAvailToImgui (s : CaptureScan) : Bool :=
  match s.mouse_earliest_button_down with
  | none => true
  | some earliest => s.MouseDownOwned.getD earliest false

/-- `NewFrame`, lines 258-297, with `modal_window` the value read at line 245:
the ownership of the clicks and the capture requests reported to the host. -/
def newFrameCapture (E : Env) (c : Context) (modal_window : WindowRef) : Context :=
  let s := captureScan c
  let mouse_avail_to_imgui := mouseAvailToImgui s
  let want_mouse : Bool :=
    if c.WantCaptureMouseNextFrame ≠ -1 then decide (c.WantCaptureMouseNextFrame ≠ 0)
    else (mouse_avail_to_imgui && (decide (c.HoveredWindow ≠ none) || s.mouse_any_down)) ||
      decide (c.OpenPopupStack.length > 0)
  let want_keyboard : Bool :=
    if c.WantCaptureKeyboardNextFrame ≠ -1 then decide (c.WantCaptureKeyboardNextFrame ≠ 0)
    else decide (c.ActiveId ≠ 0) || decide (modal_window ≠ none)
  let want_keyboard : Bool :=
    if c.Io.NavActive ∧ c.Io.ConfigFlags &&& E.ConfigFlagsNavEnableKeyboard ≠ 0 ∧
        c.Io.ConfigFlags &&& E.ConfigFlagsNavNoCaptureKeyboard = 0 then true
    else want_keyboard
  let want_text : Bool :=
    if c.WantTextInputNextFrame ≠ -1 then decide (c.WantTextInputNextFrame ≠ 0) else false
  { c with
    Io := { c.Io with
      MouseDownOwned := s.MouseDownOwned
      WantCaptureMouse := want_mouse
      WantCaptureKeyboard := want_keyboard
      WantTextInput := want_text }
    MouseCursor := E.MouseCursorArrow
    WantCaptureMouseNextFrame := -1
    WantCaptureKeyboardNextFrame := -1
    WantTextInputNextFrame := -1
    OsImePosRequest := { X := 1, Y := 1 } }

/-- `NewFrame`, lines 301-305, with `mouse_avail_to_imgui` the local of line
273: a click that started outside every window cancels the hover. -/
def newFrameHoverCancel (E : Env) (c : Context) (mouse_avail_to_imgui : Bool) : Context :=
  let mouse_dragging_extern_payload : Bool :=
    c.DragDropActive && decide (c.DragDropSourceFlags &&& E.DragDropFlagsSourceExtern ≠ 0)
  if ¬ mouse_avail_to_imgui ∧ ¬ mouse_dragging_extern_payload then
    { c with HoveredWindow := none, HoveredRootWindow := none }
  else c

/-- The test of the loop of lines 312-316: `window` is a child window that opts
out of wheel scrolling, has a scrollbar, takes inputs and has a parent. -/
def wheelClimbs (E : Env) (c : Context) (window : Nat) : Bool :=
  decide ((c.Heap window).Flags &&& E.WindowFlagsChildWindow ≠ 0 ∧
    (c.Heap window).Flags &&& E.WindowFlagsNoScrollWithMouse ≠ 0 ∧
    (c.Heap window).Flags &&& E.WindowFlagsNoScrollbar = 0 ∧
    (c.Heap window).Flags &&& E.WindowFlagsNoInputs = 0 ∧
    (c.Heap window).ParentWindow ≠ none)

/-- The loop of lines 312-318, run for at most `fuel` iterations: the window the
loop ends at, or `none` when `fuel` iterations do not end it. -/
def wheelScrollWindow (E : Env) (c : Context) : Nat → Nat → Option Nat
  | fuel, scroll_window =>
    if wheelClimbs E c scroll_window then
      match fuel, (c.Heap scroll_window).ParentWindow with
      | fuel + 1, some parent => wheelScrollWindow E c fuel parent
      | _, _ => none
    else some scroll_window

/-- The local `scroll_allowed` of line 319. -/
def wheelScrollAllowed (E : Env) (c : Context) (scroll_window : Nat) : Bool :=
  decide ((c.Heap scroll_window).Flags &&& E.WindowFlagsNoScrollWithMouse = 0 ∧
    (c.Heap scroll_window).Flags &&& E.WindowFlagsNoInputs = 0)

/-- The zoom of lines 324-335: the font scale of `window` follows the wheel and
the window is scaled around the mouse position. -/
def wheelZoom (c : Context) (window : Nat) : Context :=
  let w := c.Heap window
  let new_font_scale := Clamp (w.FontWindowScale + c.Io.MouseWheel * (1 / 10)) (1 / 2) (5 / 2)
  let scale := new_font_scale / w.FontWindowScale
  let offset : Vec2 :=
    { X := w.Size.X * (1 - scale) * (c.Io.MousePos.X - w.Pos.X) / w.Size.X
      Y := w.Size.Y * (1 - scale) * (c.Io.MousePos.Y - w.Pos.Y) / w.Size.Y }
  c.setWin window { w with
    FontWindowScale := new_font_scale
    Pos := w.Pos.Add offset
    PosFloat := w.PosFloat.Add offset
    Size := w.Size.Scale scale
    SizeFull := w.SizeFull.Scale scale }

/-- The amount of one vertical wheel step, lines 338-342. -/
def wheelScrollAmount (E : Env) (c : Context) (scroll_window : Nat) : ℚ :=
  min (5 * E.CalcFontSize c scroll_window)
    (((c.Heap scroll_window).ContentsRegionRect.Dy +
      (c.Heap scroll_window).WindowPadding.Y * 2) * (67 / 100))

/-- The vertical wheel, lines 321-345. -/
def wheelVertical (E : Env) (c : Context) (window scroll_window : Nat) (scroll_allowed : Bool) :
    Context :=
  if c.Io.MouseWheel ≠ 0 then
    if c.Io.KeyCtrl ∧ c.Io.FontAllowUserScaling then wheelZoom c window
    else if ¬ c.Io.KeyCtrl ∧ scroll_allowed then
      E.SetWindowScrollY c scroll_window
        ((c.Heap scroll_window).Scroll.Y - c.Io.MouseWheel * wheelScrollAmount E c scroll_window)
    else c
  else c

/-- The horizontal wheel, lines 346-352. -/
def wheelHorizontal (E : Env) (c : Context) (window scroll_window : Nat) (scroll_allowed : Bool) :
    Context :=
  if c.Io.MouseWheelH ≠ 0 ∧ scroll_allowed then
    let scroll_amount := E.CalcFontSize c scroll_window
    if ¬ c.Io.KeyCtrl ∧ (c.Heap window).Flags &&& E.WindowFlagsNoScrollWithMouse = 0 then
      E.SetWindowScrollX c window ((c.Heap window).Scroll.X - c.Io.MouseWheelH * scroll_amount)
    else c
  else c

/-- `NewFrame`, lines 308-353: the mouse wheel scrolls or scales the hovered
window.  The result is `none` when the climb to the scrolled window does not end
within `fuel` iterations. -/
def newFrameWheel (E : Env) (fuel : Nat) (c : Context) : Option Context :=
  match c.HoveredWindow with
  | none => some c
  | some window =>
    if ¬ (c.Heap window).Collapsed ∧ (c.Io.MouseWheel ≠ 0 ∨ c.Io.MouseWheelH ≠ 0) then
      match wheelScrollWindow E c fuel window with
      | none => none
      | some scroll_window =>
        let scroll_allowed := wheelScrollAllowed E c scroll_window
        let c := wheelVertical E c window scroll_window scroll_allowed
        some (wheelHorizontal E c window scroll_window scroll_allowed)
    else some c

/-- `NewFrame`, lines 356-372: the tab key moves the keyboard focus inside the
focused window. -/
def newFrameTab (E : Env) (c : Context) : Context :=
  let c :=
    match c.NavWindow with
    | none => c
    | some nav =>
      if c.ActiveId = 0 ∧ (c.Heap nav).Active ∧
          (c.Heap nav).Flags &&& E.WindowFlagsNoNavInputs = 0 ∧ ¬ c.Io.KeyCtrl ∧
          E.IsKeyPressedMap c E.KeyTab false then
        if c.NavId ≠ 0 ∧ c.NavIdTabCounter ≠ MaxInt32 then
          c.setWin nav { c.Heap nav with
            FocusIdxTabRequestNext :=
              if c.Io.KeyShift then wrapInt (wrapInt (c.NavIdTabCounter + 1) - 1)
              else wrapInt (wrapInt (c.NavIdTabCounter + 1) + 1) }
        else
          c.setWin nav { c.Heap nav with
            FocusIdxTabRequestNext := if c.Io.KeyShift then -1 else 0 }
      else c
  { c with NavIdTabCounter := MaxInt32 }

/-- `NewFrame`, lines 375-380: every window is marked as not yet submitted. -/
def newFrameMarkWindows (c : Context) : Context :=
  c.Windows.foldl (fun c window =>
    c.setWin window { c.Heap window with
      WasActive := (c.Heap window).Active
      Active := false
      WriteAccessed := false }) c

/-- `NewFrame`, lines 383-385: the focus moves on when the focused window was
closed. -/
def newFrameRestoreFocus (E : Env) (c : Context) : Context :=
  match c.NavWindow with
  | none => c
  | some nav => if ¬ (c.Heap nav).WasActive then E.FocusFrontMostActiveWindow c none else c

/-- `NewFrame`, lines 389-396: the scope stacks are emptied and the implicit
window is begun. -/
def newFrameBegin (E : Env) (c : Context) : Option Context :=
  let c := { c with CurrentWindowStack := [], CurrentPopupStack := [] }
  let c := E.ClosePopupsOverWindow c c.NavWindow
  let c := E.SetNextWindowSize c { X := 400, Y := 400 } E.CondFirstUseEver
  (Begin E c "Debug##Default").map (fun r => r.ctx)

/-- `NewFrame` up to line 305: every block before the mouse wheel. -/
def newFrameInput (E : Env) (c : Context) : Context :=
  let c := newFrameSetup E c
  let c := newFrameIds c
  let c := newFrameDragDrop E c
  let c := newFrameKeys c
  let c := E.NavUpdate c
  let c := newFrameMouseDelta E c
  let c := newFrameMouseButtons c
  let c := newFrameFramerate c
  let c := E.UpdateMovingWindow c
  let c := newFrameSettings E c
  let c := newFrameFindHovered E c
  let modal_window := E.GetFrontMostModalRootWindow c
  let c := newFrameModal E c modal_window
  let mouse_avail_to_imgui := mouseAvailToImgui (captureScan c)
  let c := newFrameCapture E c modal_window
  newFrameHoverCancel E c mouse_avail_to_imgui

/-- `NewFrame` from line 356 to the end. -/
def newFrameFinish (E : Env) (c : Context) : Option Context :=
  let c := newFrameTab E c
  let c := newFrameMarkWindows c
  let c := newFrameRestoreFocus E c
  newFrameBegin E c

/-- `Context.NewFrame`, lines 83-397.  The result is `none` when the call panics
(in `Begin`) or when the wheel climb does not end within `fuel` iterations. -/
def NewFrame (E : Env) (fuel : Nat) (c : Context) : Option Context :=
  match newFrameWheel E fuel (newFrameInput E c) with
  | none => none
  | some c => newFrameFinish E c

/-! ## Predicates and concrete states used for the start of the frame -/

/-- The per-button arrays of the input block all have the length of `MouseDown`
(they are arrays of one fixed size in the source). -/
def InputSnapshot.MouseSized (io : InputSnapshot) : Prop :=
  io.MouseClicked.length = io.MouseDown.length ∧
  io.MouseReleased.length = io.MouseDown.length ∧
  io.MouseDoubleClicked.length = io.MouseDown.length ∧
  io.MouseDownDuration.length = io.MouseDown.length ∧
  io.MouseDownDurationPrev.length = io.MouseDown.length ∧
  io.MouseClickedTime.length = io.MouseDown.length ∧
  io.MouseClickedPos.length = io.MouseDown.length ∧
  io.MouseDragMaxDistanceAbs.length = io.MouseDown.length ∧
  io.MouseDragMaxDistanceSqr.length = io.MouseDown.length

instance (io : InputSnapshot) : Decidable io.MouseSized := by
  unfold InputSnapshot.MouseSized
  infer_instance

/-- What the host reports for one button in one frame: whether the button is
held, and the time since the previous frame. -/
structure ButtonFrame where
  down : Bool
  dt : ℚ
deriving DecidableEq

/-- The host writes the raw state of button `i` and the frame time into the
input block before it calls `NewFrame`. -/
def hostFrame (c : Context) (i : Nat) (f : ButtonFrame) : Context :=
  { c with Io := { c.Io with MouseDown := c.Io.MouseDown.set i f.down, DeltaTime := f.dt } }

/-- A sequence of frames seen from button `i`: in each frame the host writes its
input, the mouse loop of `NewFrame` runs, the entries of button `i` are
recorded, and `other` stands for everything else that runs before the host
writes the input of the next frame. -/
def mouseFrames (other : Context → Context) (c : Context) (i : Nat) :
    List ButtonFrame → List MouseButton
  | [] => []
  | f :: rest =>
    let c := newFrameMouseButtons (hostFrame c i f)
    c.Io.button i :: mouseFrames other (other c) i rest

/-- What is left of a frame after the mouse loop keeps the per-button arrays at
their length and the duration of button `i` as it is. -/
def KeepsButton (i : Nat) (other : Context → Context) : Prop :=
  ∀ c : Context, c.Io.MouseSized →
    (other c).Io.MouseSized ∧
    (other c).Io.MouseDown.length = c.Io.MouseDown.length ∧
    (other c).Io.MouseDownDuration.getD i 0 = c.Io.MouseDownDuration.getD i 0

/-- The input block of a host with five mouse buttons and four keys: the left
button is held and was not held before, key 1 was just pressed and key 2 has
been held for half a second. -/
def exampleInput : InputSnapshot :=
  { MousePos := { X := 5, Y := 5 }
    MouseDown := [true, false, false, false, false]
    MouseClicked := [false, false, false, false, false]
    MouseReleased := [false, false, false, false, false]
    DeltaTime := 1 / 60
    DisplaySize := { X := 800, Y := 600 }
    KeysDown := [false, true, true, false]
    KeysDownDuration := [-1, -1, 1 / 2, 3 / 4]
    KeysDownDurationPrev := [-1, -1, -1, -1]
    MousePosPrev := { X := 3, Y := 4 }
    MouseDoubleClickTime := 3 / 10
    MouseDoubleClickMaxDist := 6
    MouseDownOwned := [false, false, false, false, false]
    MouseDoubleClicked := [false, false, false, false, false]
    MouseDownDuration := [-1, -1, -1, -1, -1]
    MouseDownDurationPrev := [-1, -1, -1, -1, -1]
    MouseClickedTime := [99 / 10, 0, 0, 0, 0]
    MouseClickedPos := [{ X := 4, Y := 4 }, Vec2.zero, Vec2.zero, Vec2.zero, Vec2.zero]
    MouseDragMaxDistanceAbs := [{ X := 7, Y := 7 }, Vec2.zero, Vec2.zero, Vec2.zero, Vec2.zero]
    MouseDragMaxDistanceSqr := [98, 0, 0, 0, 0] }

/-- The windows of the example states: window 1 is the implicit window, window 2
("Tools") is a root window, window 3 ("List") is a child of window 2 that opts
out of wheel scrolling, and window 4 ("Inner") is such a child of window 3. -/
def exampleHeap (w : Nat) : Window :=
  if w = 1 then
    { Name := "Debug##Default", Active := true, LastFrameActive := 5, RootWindow := some 1,
      FontWindowScale := 1, DrawList := exampleList [geomCmd 0 clip10] [clip10] }
  else if w = 2 then
    { Name := "Tools", Active := true, LastFrameActive := 5, RootWindow := some 2,
      FontWindowScale := 1, Scroll := { X := 30, Y := 100 }
      ContentsRegionRect := { Min := { X := 0, Y := 0 }, Max := { X := 200, Y := 300 } }
      DrawList := exampleList [geomCmd 0 clip10] [clip10] }
  else if w = 3 then
    { Name := "List", Active := true, LastFrameActive := 5, RootWindow := some 2,
      ParentWindow := some 2, Flags := 1 <<< 24 ||| 1 <<< 4, FontWindowScale := 1,
      Scroll := { X := 10, Y := 20 }
      ContentsRegionRect := { Min := { X := 0, Y := 0 }, Max := { X := 100, Y := 100 } }
      DrawList := exampleList [geomCmd 0 clip10] [clip10] }
  else if w = 4 then
    { Name := "Inner", Active := true, LastFrameActive := 5, RootWindow := some 2,
      ParentWindow := some 3, Flags := 1 <<< 24 ||| 1 <<< 4, FontWindowScale := 1,
      Scroll := { X := 1, Y := 2 }
      DrawList := exampleList [geomCmd 0 clip10] [clip10] }
  else {}

/-- Between frame 5, which was ended and rendered, and frame 6: item 42 is
active and was kept alive in frame 5, the clock stands at 10 seconds. -/
def exampleBetweenFrames : Context :=
  { Io := exampleInput
    HoveredId := 42, ActiveId := 42, HoveredWindow := some 2, HoveredRootWindow := some 2,
    CurrentWindow := none
    Heap := exampleHeap
    Style := { Alpha := 1 }
    FrameCount := 5, FrameCountEnded := 5, FrameCountRendered := 5
    Windows := [1, 2, 3, 4]
    Time := 10
    ActiveIdPreviousFrame := 42, ActiveIdIsAlive := true
    FramerateSecPerFrame := [1 / 60, 1 / 60]
    WantCaptureMouseNextFrame := -1, WantCaptureKeyboardNextFrame := -1
    WantTextInputNextFrame := -1 }

/-- As `exampleBetweenFrames`, but item 42 was not kept alive in frame 5. -/
def exampleNotAlive : Context := { exampleBetweenFrames with ActiveIdIsAlive := false }

/-- The parent chain from window `w` reaches a window without parent within `n`
steps: the chain is finite and has no cycle. -/
def parentChainEnds (c : Context) : Nat → Nat → Bool
  | 0, w => (c.Heap w).ParentWindow.isNone
  | n + 1, w =>
    match (c.Heap w).ParentWindow with
    | none => true
    | some parent => parentChainEnds c n parent

/-- Window `T` is the first window on the parent chain from `w` that fails the
test of the wheel climb: some chain of parent links leads from `w` to `T`, every
window before `T` on it passes the test, and `T` does not. -/
def IsScrollTarget (E : Env) (c : Context) (w T : Nat) : Prop :=
  ∃ chain : List Nat, chain.head? = some w ∧ chain.getLast? = some T ∧
    List.Chain' (fun a b => (c.Heap a).ParentWindow = some b) chain ∧
    (∀ x ∈ chain.dropLast, wheelClimbs E c x = true) ∧ wheelClimbs E c T = false

/-- As `exampleEnv`, with window 1 reported as the front-most modal window. -/
def exampleModalEnv : Env := { exampleEnv with GetFrontMostModalRootWindow := fun _ => some 1 }

/-- As `exampleBetweenFrames`, with window 2 being moved by the user and the
mouse position of the previous frame invalid. -/
def exampleMoving : Context :=
  { exampleBetweenFrames with
    MovingWindow := some 2
    Io := { exampleInput with MousePosPrev := { X := -340282346638528859811704183484516925440,
                                                Y := -340282346638528859811704183484516925440 } } }

/-- The state `NewFrame` has reached at line 308 when window 4 ("Inner") is
hovered and the wheel was turned by one step in both directions: window 4 and
its parent window 3 opt out of wheel scrolling, window 2 above them does not. -/
def exampleWheel : Context :=
  { exampleBetweenFrames with
    HoveredWindow := some 4, HoveredRootWindow := some 2
    Io := { exampleInput with MouseWheel := 1, MouseWheelH := 1 } }

/-- As `exampleWheel`, with window 3 ("List") hovered and only the horizontal
wheel turned. -/
def exampleWheelH : Context :=
  { exampleBetweenFrames with
    HoveredWindow := some 3, HoveredRootWindow := some 2
    Io := { exampleInput with MouseWheel := 0, MouseWheelH := 1 } }

/-- The three frame counters of a context. -/
def Context.counters (c : Context) : Int × Int × Int :=
  (c.FrameCount, c.FrameCountEnded, c.FrameCountRendered)

/-- The order of the frame counters: the last rendered frame is not after the
last ended frame, which is not after the current frame. -/
def FrameOrder (c : Context) : Prop :=
  c.FrameCountRendered ≤ c.FrameCountEnded ∧ c.FrameCountEnded ≤ c.FrameCount

instance (c : Context) : Decidable (FrameOrder c) := by
  unfold FrameOrder
  infer_instance

/-- As `exampleBetweenFrames`, with the three frame counters at the largest
`int`: the frame with that number has been ended and rendered. -/
def exampleLastFrame : Context :=
  { exampleBetweenFrames with
    FrameCount := 9223372036854775807
    FrameCountEnded := 9223372036854775807
    FrameCountRendered := 9223372036854775807 }

/-- Every collaborator of the frame functions that returns a context leaves the
three frame counters as they are (in the sources the counters are written by
`NewFrame`, `EndFrame` and `Render` only). -/
structure Env.KeepsCounters (E : Env) : Prop where
  CreateNewWindow : ∀ c name size flags,
    (E.CreateNewWindow c name size flags).1.counters = c.counters
  SetWindowConditionAllowFlags : ∀ c w k b,
    (E.SetWindowConditionAllowFlags c w k b).counters = c.counters
  SetWindowPos : ∀ c w p k, (E.SetWindowPos c w p k).counters = c.counters
  SetWindowSize : ∀ c w p k, (E.SetWindowSize c w p k).counters = c.counters
  SetWindowCollapsed : ∀ c w b k, (E.SetWindowCollapsed c w b k).counters = c.counters
  SetWindowFocus : ∀ c, (E.SetWindowFocus c).counters = c.counters
  EndColumns : ∀ c, (E.EndColumns c).counters = c.counters
  LogFinish : ∀ c, (E.LogFinish c).counters = c.counters
  FocusWindow : ∀ c w, (E.FocusWindow c w).counters = c.counters
  SetActiveID : ∀ c id w, (E.SetActiveID c id w).counters = c.counters
  ClosePopupsOverWindow : ∀ c w, (E.ClosePopupsOverWindow c w).counters = c.counters
  AddWindowToSortedBuffer : ∀ c w, (E.AddWindowToSortedBuffer c w).counters = c.counters
  AddWindowToDrawDataSelectLayer : ∀ c w,
    (E.AddWindowToDrawDataSelectLayer c w).counters = c.counters
  SetCurrentFont : ∀ c f, (E.SetCurrentFont c f).counters = c.counters
  ClearDragDrop : ∀ c, (E.ClearDragDrop c).counters = c.counters
  NavUpdate : ∀ c, (E.NavUpdate c).counters = c.counters
  UpdateMovingWindow : ∀ c, (E.UpdateMovingWindow c).counters = c.counters
  SaveIniSettingsToDisk : ∀ c s, (E.SaveIniSettingsToDisk c s).counters = c.counters
  SetWindowScrollY : ∀ c w y, (E.SetWindowScrollY c w y).counters = c.counters
  SetWindowScrollX : ∀ c w x, (E.SetWindowScrollX c w x).counters = c.counters
  FocusFrontMostActiveWindow : ∀ c w, (E.FocusFrontMostActiveWindow c w).counters = c.counters
  SetNextWindowSize : ∀ c p k, (E.SetNextWindowSize c p k).counters = c.counters

/-- The state `NewFrame` has reached at line 258 when the left button was
clicked in this frame while no window is hovered and no popup is open. -/
def exampleClickOutside : Context :=
  { exampleBetweenFrames with
    HoveredWindow := none, HoveredRootWindow := none
    Io := { exampleInput with
      MouseClicked := [true, false, false, false, false]
      MouseDownDuration := [0, -1, -1, -1, -1]
      MouseClickedTime := [10, 0, 0, 0, 0] } }

/-! ## Gathering the draw lists (`draw.go`, lines 996-1023) -/

/-- `Context.AddDrawListToDrawData`, lines 1007-1023.  Both arguments are
pointers in the source: the output list is returned, and the draw list is the
one of window `draw_list`, whose command buffer is cut in place. -/
def AddDrawListToDrawData (c : Context) (out_render_list : List DrawListRef)
    (draw_list : DrawListRef) : Context × List DrawListRef :=
  let dl := (c.Heap draw_list).DrawList
  match dl.CmdBuffer.getLast? with
  | none => (c, out_render_list)
  | some last_cmd =>
    if last_cmd.ElemCount = 0 ∧ last_cmd.UserCallback = none then
      let length := dl.CmdBuffer.length - 1
      let c := c.setWin draw_list { c.Heap draw_list with
        DrawList := { dl with CmdBuffer := dl.CmdBuffer.take length } }
      if length = 0 then (c, out_render_list)
      else (c, out_render_list ++ [draw_list])
    else (c, out_render_list ++ [draw_list])

/-- The state of `AddWindowToDrawData`: the context, the output list, and the
windows whose draw list was handed to `AddDrawListToDrawData` so far, in call
order (a record of the calls, not a field of the source). -/
structure DrawDataState where
  ctx : Context
  out : List DrawListRef
  visited : List Nat

/-- The test of line 1001 on a child window: it is active and not hidden. -/
def childShown (c : Context) (child : Nat) : Bool :=
  (c.Heap child).Active && decide ((c.Heap child).HiddenFrames ≤ 0)

/-- `Context.AddWindowToDrawData`, lines 996-1005, with the depth of the
recursion bounded by `fuel`: the result is `none` when the recursion is deeper.
The loop runs over the child windows of `window`, which nothing in the loop
writes. -/
def AddWindowToDrawData : Nat → DrawDataState → Nat → Option DrawDataState
  | 0, _, _ => none
  | fuel + 1, st, window =>
    let r := AddDrawListToDrawData st.ctx st.out window
    let st : DrawDataState := { ctx := r.1, out := r.2, visited := st.visited ++ [window] }
    (st.ctx.Heap window).DC.ChildWindows.foldlM
      (fun st child =>
        if childShown st.ctx child then AddWindowToDrawData fuel st child else some st) st

/-- The pre-order of the subtree of window `w`, to depth `fuel`: the window
itself, then the subtrees of its children that are active and not hidden, in the
order of `ChildWindows`. -/
def preorder (c : Context) : Nat → Nat → List Nat
  | 0, _ => []
  | fuel + 1, w =>
    w :: ((c.Heap w).DC.ChildWindows.filter (childShown c)).flatMap (preorder c fuel)

/-- The windows of context `c` form a finite tree without cycles: `rank` falls
along every child link, no window is listed twice among the children of a
window, and no window is a child of two windows. -/
structure WindowTree (c : Context) (rank : Nat → Nat) : Prop where
  falls : ∀ w child, child ∈ (c.Heap w).DC.ChildWindows → rank child < rank w
  nodup : ∀ w, ((c.Heap w).DC.ChildWindows).Nodup
  parent : ∀ p q child, child ∈ (c.Heap p).DC.ChildWindows →
    child ∈ (c.Heap q).DC.ChildWindows → p = q

/-- Two contexts agree on the shape of the window tree: the child windows of
every window, and whether a window is shown. -/
def SameShape (a b : Context) : Prop :=
  ∀ v, (a.Heap v).DC.ChildWindows = (b.Heap v).DC.ChildWindows ∧ childShown a v = childShown b v

/-- A window tree for the gathering: window 1 has the children 2, 3 and 4, of
which 3 is hidden; window 2 has the child 5 and window 3 the child 6.  Every
window holds one geometry command. -/
def exampleTree : Context :=
  { exampleFrame with
    Heap := fun w =>
      let base : Window :=
        { Name := "w", Active := true, DrawList := exampleList [geomCmd 6 clip10] [clip10] }
      if w = 1 then { base with DC := { ChildWindows := [2, 3, 4] } }
      else if w = 2 then { base with DC := { ChildWindows := [5] } }
      else if w = 3 then { base with HiddenFrames := 1, DC := { ChildWindows := [6] } }
      else base
    Windows := [1, 2, 3, 4, 5, 6] }

/-- The rank of the windows of `exampleTree`: the height above the leaves. -/
def exampleRank (w : Nat) : Nat := if w = 1 then 2 else if w = 2 ∨ w = 3 then 1 else 0

/-! ## Colour edit options (`color_edit.go`) -/

/-- The flag of `color_edit.go` line 19. -/
def ColorEditFlagsRGB : Nat := 1 <<< 13

/-- The flag of `color_edit.go` line 20. -/
def ColorEditFlagsHSV : Nat := 1 <<< 14

/-- The flag of `color_edit.go` line 21. -/
def ColorEditFlagsHEX : Nat := 1 <<< 15

/-- The flag of `color_edit.go` line 22. -/
def ColorEditFlagsUint8 : Nat := 1 <<< 16

/-- The flag of `color_edit.go` line 23. -/
def ColorEditFlagsFloat : Nat := 1 <<< 17

/-- The flag of `color_edit.go` line 24. -/
def ColorEditFlagsPickerHueBar : Nat := 1 <<< 18

/-- The flag of `color_edit.go` line 25. -/
def ColorEditFlagsPickerHueWheel : Nat := 1 <<< 19

/-- The mask of `color_edit.go` line 27. -/
def ColorEditFlags_InputsMask : Nat :=
  ColorEditFlagsRGB ||| ColorEditFlagsHSV ||| ColorEditFlagsHEX

/-- The mask of `color_edit.go` line 28. -/
def ColorEditFlags_DataTypeMask : Nat := ColorEditFlagsUint8 ||| ColorEditFlagsFloat

/-- The mask of `color_edit.go` line 29. -/
def ColorEditFlags_PickerMask : Nat := ColorEditFlagsPickerHueWheel ||| ColorEditFlagsPickerHueBar

/-- The default options of `color_edit.go` line 30. -/
def ColorEditFlags_OptionsDefault : Nat :=
  ColorEditFlagsUint8 ||| ColorEditFlagsRGB ||| ColorEditFlagsPickerHueBar

/-- `Context.SetColorEditOptions`, `color_edit.go` lines 33-44.  A flags value
is held as its bit pattern. -/
def SetColorEditOptions (c : Context) (flags : Nat) : Context :=
  let flags :=
    if flags &&& ColorEditFlags_InputsMask = 0 then
      flags ||| (ColorEditFlags_OptionsDefault &&& ColorEditFlags_InputsMask)
    else flags
  let flags :=
    if flags &&& ColorEditFlags_DataTypeMask = 0 then
      flags ||| (ColorEditFlags_OptionsDefault &&& ColorEditFlags_DataTypeMask)
    else flags
  let flags :=
    if flags &&& ColorEditFlags_PickerMask = 0 then
      flags ||| (ColorEditFlags_OptionsDefault &&& ColorEditFlags_PickerMask)
    else flags
  { c with ColorEditOptions := flags }

/-! ## Menu columns (`menu.go`, lines 282-314) -/

/-- Go's conversion `float64(int(x))` on amd64: the fraction is cut off, towards
zero, and a value whose integer part is outside the range of `int` converts to
the least `int` (the language leaves that result to the implementation). -/
def truncate (x : ℚ) : ℚ :=
  let t : Int := if 0 ≤ x then ⌊x⌋ else ⌈x⌉
  if InInt t then (t : ℚ) else -9223372036854775808

/-- One iteration of the loop of `DeclColumns`, lines 287-292. -/
def declColumnsStep (m : MenuColumns) (i : Nat) : MenuColumns :=
  let m := { m with NextWidth := m.NextWidth + m.NextWidths.getD i 0 }
  if i > 0 ∧ m.NextWidths.getD i 0 > 0 then { m with NextWidth := m.NextWidth + m.Spacing } else m

/-- `MenuColumns.DeclColumns`, lines 282-294: the receiver after the call and
the value returned. -/
def DeclColumns (m : MenuColumns) (w0 w1 w2 : ℚ) : MenuColumns × ℚ :=
  let m := { m with NextWidth := 0 }
  let m := { m with NextWidths := m.NextWidths.set 0 (max (m.NextWidths.getD 0 0) w0) }
  let m := { m with NextWidths := m.NextWidths.set 1 (max (m.NextWidths.getD 1 0) w1) }
  let m := { m with NextWidths := m.NextWidths.set 2 (max (m.NextWidths.getD 2 0) w2) }
  let m := (List.range 3).foldl declColumnsStep m
  (m, max m.Width m.NextWidth)

/-- One iteration of the second loop of `Update`, lines 306-313.  Indexing `Pos`
or `NextWidths` out of range panics. -/
def updateStep (m : MenuColumns) (i : Nat) : Option MenuColumns :=
  if i < m.NextWidths.length ∧ i < m.Pos.length then
    let m :=
      if i > 0 ∧ m.NextWidths.getD i 0 > 0 then { m with Width := m.Width + m.Spacing } else m
    let m := { m with Pos := m.Pos.set i (truncate m.Width) }
    let m := { m with Width := m.Width + m.NextWidths.getD i 0 }
    some { m with NextWidths := m.NextWidths.set i 0 }
  else none

/-- `MenuColumns.Update`, lines 296-314. -/
def MenuColumns.Update (m : MenuColumns) (count : Int) (spacing : ℚ) (clear : Bool) :
    Option MenuColumns :=
  let m := { m with Count := count, Width := 0, NextWidth := 0, Spacing := spacing }
  let m := if clear then { m with NextWidths := m.NextWidths.map (fun _ => 0) } else m
  (List.range m.Count.toNat).foldlM updateStep m

/-! ## Menus (`menu.go`, lines 9-280) -/

/-- `SelectableFlagsDontClosePopups`, line 12. -/
def SelectableFlagsDontClosePopups : Nat := 1 <<< 0

/-- `SelectableFlagsSpanAllColumns`, line 13. -/
def SelectableFlagsSpanAllColumns : Nat := 1 <<< 1

/-- `SelectableFlagsAllowDoubleClick`, line 14. -/
def SelectableFlagsAllowDoubleClick : Nat := 1 <<< 2

/-- `SelectableFlagsMenu`, line 17. -/
def SelectableFlagsMenu : Nat := 1 <<< 3

/-- `SelectableFlagsMenuItem`, line 18. -/
def SelectableFlagsMenuItem : Nat := 1 <<< 4

/-- `SelectableFlagsDisabled`, line 19. -/
def SelectableFlagsDisabled : Nat := 1 <<< 5

/-- `SelectableFlagsDrawFillAvailWidth`, line 20. -/
def SelectableFlagsDrawFillAvailWidth : Nat := 1 <<< 6

/-- The parts of package `imgui` and of package `f64` that the menu functions
use and that are not among the sources: the values of flags, layouts,
directions and style indices, and the collaborating functions, each taken as it
is called.  A function that may write the context returns the context it
leaves.  Nothing is assumed about them here; a theorem that needs a property of
one states it as a hypothesis. -/
structure MenuEnv where
  WindowFlagsMenuBar : WindowFlags
  WindowFlagsChildMenu : WindowFlags
  WindowFlagsNoTitleBar : WindowFlags
  WindowFlagsNoSavedSettings : WindowFlags
  LayoutTypeVertical : Int
  LayoutTypeHorizontal : Int
  DirLeft : Int
  DirRight : Int
  DirDown : Int
  NavForwardNone : Int
  NavForwardForwardQueued : Int
  CondAlways : Cond
  StyleVarItemSpacing : Nat
  ColText : Nat
  ColTextDisabled : Nat
  Rect : ℚ → ℚ → ℚ → ℚ → Rectangle
  Intersect : Rectangle → Rectangle → Rectangle
  RectTL : Rectangle → Vec2
  RectTR : Rectangle → Vec2
  RectBL : Rectangle → Vec2
  RectBR : Rectangle → Vec2
  TriangleContainsPoint : Vec2 → Vec2 → Vec2 → Vec2 → Bool
  MenuBarRect : Context → Nat → Rectangle
  WindowRect : Context → Nat → Rectangle
  GetID : Context → Nat → String → ID
  CalcTextSizeEx : Context → String → Bool → ℚ → Vec2
  GetContentRegionAvail : Context → Vec2
  BeginGroup : Context → Context
  EndGroup : Context → Context
  PushID : Context → String → Context
  PopID : Context → Context
  AlignTextToFramePadding : Context → Context
  NavMoveRequestButNoResultYet : Context → Bool
  NavMoveRequestCancel : Context → Context
  SetNavIDWithRectRel : Context → ID → Int → Rectangle → Context
  PushStyleVar : Context → Nat → Vec2 → Context
  PopStyleVar : Context → Context
  PushStyleColor : Context → Nat → Vec4 → Context
  PopStyleColor : Context → Context
  ItemHoverable : Context → Rectangle → ID → Context × Bool
  IsPopupOpen : Context → String → Bool
  IsPopupOpenID : Context → ID → Bool
  OpenPopup : Context → String → Context
  ClosePopupToLevel : Context → Nat → Context
  SetNextWindowPos : Context → Vec2 → Cond → Vec2 → Context
  BeginPopupEx : Context → ID → WindowFlags → Context × Bool

/-- `Context.BeginMenuBar`, lines 23-57: the context left and the value
returned.  Dereferencing a nil current window panics, and so does a failed
`assert` (modelled from the spec: a programmer error is a defensive-assertion
failure). -/
def BeginMenuBar (M : MenuEnv) (c : Context) : Option (Context × Bool) :=
  match GetCurrentWindow c with
  | none => none
  | some window =>
    if (c.Heap window).SkipItems then some (c, false)
    else if (c.Heap window).Flags &&& M.WindowFlagsMenuBar = 0 then some (c, false)
    else if (c.Heap window).DC.MenuBarAppending then none
    else
      let c := M.BeginGroup c
      let c := M.PushID c "##menubar"
      let bar_rect := M.MenuBarRect c window
      let clip_rect := M.Rect
        (⌊bar_rect.Min.X + 1 / 2⌋ : ℚ)
        (⌊bar_rect.Min.Y + (c.Heap window).WindowBorderSize + 1 / 2⌋ : ℚ)
        (⌊max bar_rect.Min.X (bar_rect.Max.X - (c.Heap window).WindowRounding) + 1 / 2⌋ : ℚ)
        (⌊bar_rect.Max.Y + 1 / 2⌋ : ℚ)
      let clip_rect := M.Intersect clip_rect (c.Heap window).WindowRectClipped
      match c.PushClipRect clip_rect.Min clip_rect.Max false with
      | none => none
      | some c =>
        let w := c.Heap window
        let c := c.setWin window { w with
          DC := { w.DC with
            CursorPos := { X := bar_rect.Min.X + w.DC.MenuBarOffsetX, Y := bar_rect.Min.Y }
            LayoutType := M.LayoutTypeHorizontal
            NavLayerCurrent := wrapInt (w.DC.NavLayerCurrent + 1)
            NavLayerCurrentMask := wrapInt (2 * w.DC.NavLayerCurrentMask)
            MenuBarAppending := true } }
        some (M.AlignTextToFramePadding c, true)

/-- The navigation block of `EndMenuBar`, lines 65-83, for the current window
`window`: a failed move request within a child menu is captured.  Dereferencing
a nil `NavWindow` panics, and so does the failed sanity check of line 74. -/
def endMenuBarNav (E : Env) (M : MenuEnv) (c : Context) (window : Nat) : Option Context :=
  if M.NavMoveRequestButNoResultYet c ∧ (c.NavMoveDir = M.DirLeft ∨ c.NavMoveDir = M.DirRight) then
    match c.NavWindow with
    | none => none
    | some nav =>
      if (c.Heap nav).Flags &&& M.WindowFlagsChildMenu = 0 then
        let nav_earliest_child :=
          match (c.Heap nav).ParentWindow with
          | some p => if (c.Heap p).Flags &&& M.WindowFlagsChildMenu ≠ 0 then p else nav
          | none => nav
        if (c.Heap nav_earliest_child).ParentWindow = some window ∧
            (c.Heap nav_earliest_child).DC.ParentLayoutType = M.LayoutTypeHorizontal ∧
            c.NavMoveRequestForward = M.NavForwardNone then
          if (c.Heap window).DC.NavLayerActiveMaskNext &&& 2 = 0 then none
          else
            let c := E.FocusWindow c (some window)
            let c := M.SetNavIDWithRectRel c ((c.Heap window).NavLastIds.getD 1 0) 1
              ((c.Heap window).NavRectRel.getD 1 { Min := Vec2.zero, Max := Vec2.zero })
            let c := { c with
              NavLayer := 1, NavDisableHighlight := true
              NavMoveRequestForward := M.NavForwardForwardQueued }
            some (M.NavMoveRequestCancel c)
        else some c
      else some c
  else some c

/-- The rest of `EndMenuBar`, lines 85-95, for the current window `window`: the
two assertions, the scopes closed and the layout restored.  Popping an empty
clip stack and indexing an empty group stack panic. -/
def endMenuBarRest (M : MenuEnv) (c : Context) (window : Nat) : Option Context :=
  if (c.Heap window).Flags &&& M.WindowFlagsMenuBar = 0 then none
  else if (c.Heap window).DC.MenuBarAppending = false then none
  else
    match c.PopClipRect with
    | none => none
    | some c =>
      let c := M.PopID c
      let w := c.Heap window
      let c := c.setWin window { w with
        DC := { w.DC with MenuBarOffsetX := w.DC.CursorPos.X - (M.MenuBarRect c window).Min.X } }
      let w := c.Heap window
      match w.DC.GroupStack.getLast? with
      | none => none
      | some g =>
        let c := c.setWin window { w with
          DC := { w.DC with
            GroupStack :=
              w.DC.GroupStack.set (w.DC.GroupStack.length - 1) { g with AdvanceCursor := false } } }
        let c := M.EndGroup c
        let w := c.Heap window
        some (c.setWin window { w with
          DC := { w.DC with
            LayoutType := M.LayoutTypeVertical
            NavLayerCurrent := wrapInt (w.DC.NavLayerCurrent - 1)
            NavLayerCurrentMask := w.DC.NavLayerCurrentMask >>> (1 : Nat)
            MenuBarAppending := false } })

/-- `Context.EndMenuBar`, lines 59-96. -/
def EndMenuBar (E : Env) (M : MenuEnv) (c : Context) : Option Context :=
  match GetCurrentWindow c with
  | none => none
  | some window =>
    if (c.Heap window).SkipItems then some c
    else
      match endMenuBarNav E M c window with
      | none => none
      | some c => endMenuBarRest M c window

/-- `Context.SelectableEx`, lines 266-268: the context left and the value
returned. -/
def SelectableEx (c : Context) (_label : String) (_selected : Bool) (_flags : Nat)
    (_size_arg : Vec2) : Context × Bool :=
  (c, false)

/-- `Context.Selectable`, lines 262-264. -/
def Selectable (c : Context) (label : String) (selected : Bool) (_flags : Nat)
    (_size_arg : Vec2) : Context × Bool :=
  SelectableEx c label selected 0 Vec2.zero

/-- `Context.RenderArrow`, `draw.go` lines 727-728. -/
def RenderArrow (c : Context) (_pos : Vec2) (_dir : Int) : Context := c

/-- A call that `BeginMenu` makes on the popup stack (a record of the calls,
not a value of the source). -/
inductive MenuCall where
  | OpenPopup (label : String)
  | ClosePopupToLevel (remaining : Nat)
deriving DecidableEq

/-- What `BeginMenu` leaves: the context, the value returned, and the calls it
made on the popup stack, in order. -/
structure MenuResult where
  ctx : Context
  ret : Bool
  calls : List MenuCall

/-- The state of `BeginMenu` after the item has been submitted (line 162). -/
structure MenuItem where
  ctx : Context
  id : ID
  pressed : Bool
  hovered : Bool
  menu_is_open : Bool
  menuset_is_open : Bool
  popup_pos : Vec2

/-- The test of line 110; indexing an empty identifier stack panics. -/
def menusetIsOpen (E : Env) (c : Context) (window : Nat) : Option Bool :=
  if (c.Heap window).Flags &&& E.WindowFlagsPopup = 0 ∧
      c.OpenPopupStack.length > c.CurrentPopupStack.length then
    match (c.Heap window).IDStack.getLast? with
    | none => none
    | some top =>
      some (decide ((c.OpenPopupStack.getD c.CurrentPopupStack.length {}).OpenParentId = top))
  else some false

/-- The item of a menu inside a horizontal menu bar, lines 121-138: the context
left, `pressed` and `popup_pos`. -/
def beginMenuHorizontal (E : Env) (M : MenuEnv) (c : Context) (window : Nat) (label : String)
    (enabled : Bool) (label_size pos : Vec2) (menu_is_open : Bool) : Context × Bool × Vec2 :=
  let popup_pos : Vec2 :=
    { X := pos.X - (c.Heap window).WindowPadding.X
      Y := pos.Y - c.Style.FramePadding.Y + E.MenuBarHeight c window }
  let w := c.Heap window
  let c := c.setWin window { w with
    DC := { w.DC with
      CursorPos := { w.DC.CursorPos with
        X := w.DC.CursorPos.X + truncate (c.Style.ItemSpacing.X * (1 / 2)) } } }
  let c := M.PushStyleVar c M.StyleVarItemSpacing (c.Style.ItemSpacing.Scale 2)
  let select_flags := SelectableFlagsMenu ||| SelectableFlagsDontClosePopups
  let select_flags := if ¬ enabled then select_flags ||| SelectableFlagsDisabled else select_flags
  let r := SelectableEx c label menu_is_open select_flags { X := label_size.X, Y := 0 }
  let c := M.PopStyleVar r.1
  let w := c.Heap window
  let c := c.setWin window { w with
    DC := { w.DC with
      CursorPos := { w.DC.CursorPos with
        X := w.DC.CursorPos.X + truncate (c.Style.ItemSpacing.X * (-1 + 1 / 2)) } } }
  (c, r.2, popup_pos)

/-- The item of a menu inside a menu, lines 140-156: the context left, `pressed`
and `popup_pos`. -/
def beginMenuVertical (M : MenuEnv) (c : Context) (window : Nat) (label : String)
    (enabled : Bool) (label_size pos : Vec2) (menu_is_open : Bool) : Context × Bool × Vec2 :=
  let popup_pos : Vec2 := { X := pos.X, Y := pos.Y - c.Style.WindowPadding.Y }
  let w := c.Heap window
  let d := DeclColumns w.MenuColumns label_size.X 0 (truncate (c.FontSize * (6 / 5)))
  let c := c.setWin window { w with MenuColumns := d.1 }
  let extra_w := max 0 ((M.GetContentRegionAvail c).X - d.2)
  let select_flags :=
    SelectableFlagsMenu ||| SelectableFlagsDontClosePopups ||| SelectableFlagsDrawFillAvailWidth
  let select_flags := if ¬ enabled then select_flags ||| SelectableFlagsDisabled else select_flags
  let r := Selectable c label menu_is_open select_flags { X := d.2, Y := 0 }
  let c := r.1
  let c := if ¬ enabled then M.PushStyleColor c M.ColText (c.Style.Colors.getD M.ColTextDisabled { X := 0, Y := 0, Z := 0, W := 0 }) else c
  let c := RenderArrow c
    (pos.Add { X := (c.Heap window).MenuColumns.Pos.getD 2 0 + extra_w + c.FontSize * (3 / 10), Y := 0 })
    M.DirRight
  let c := if ¬ enabled then M.PopStyleColor c else c
  (c, r.2, popup_pos)

/-- `BeginMenu` from line 104 to line 162, for the current window `window`: the
item is submitted and tested for hovering. -/
def beginMenuItem (E : Env) (M : MenuEnv) (c : Context) (window : Nat) (label : String)
    (enabled : Bool) : Option MenuItem :=
  let id := M.GetID c window label
  let label_size := M.CalcTextSizeEx c label true (-1)
  let menu_is_open := M.IsPopupOpen c label
  match menusetIsOpen E c window with
  | none => none
  | some menuset_is_open =>
    let backed_nav_window := c.NavWindow
    let c := if menuset_is_open then { c with NavWindow := some window } else c
    let pos := (c.Heap window).DC.CursorPos
    let r :=
      if (c.Heap window).DC.LayoutType = M.LayoutTypeHorizontal then
        beginMenuHorizontal E M c window label enabled label_size pos menu_is_open
      else
        beginMenuVertical M c window label enabled label_size pos menu_is_open
    let h := if enabled then M.ItemHoverable r.1 (r.1.Heap window).DC.LastItemRect id else (r.1, false)
    let c := if menuset_is_open then { h.1 with NavWindow := backed_nav_window } else h.1
    some { ctx := c, id := id, pressed := r.2.1, hovered := h.2, menu_is_open := menu_is_open
           menuset_is_open := menuset_is_open, popup_pos := r.2.2 }

/-- The test of lines 168-194: the mouse moves towards the open sub-menu. -/
def movingWithinOpenedTriangle (M : MenuEnv) (c : Context) (window : Nat) : Bool :=
  if c.HoveredWindow = some window ∧ c.OpenPopupStack.length > c.CurrentPopupStack.length ∧
      (c.OpenPopupStack.getD c.CurrentPopupStack.length {}).ParentWindow = some window ∧
      (c.Heap window).Flags &&& M.WindowFlagsMenuBar = 0 then
    match (c.OpenPopupStack.getD c.CurrentPopupStack.length {}).Window with
    | none => false
    | some next_window =>
      let next_window_rect := M.WindowRect c next_window
      let left := decide ((c.Heap window).Pos.X < (c.Heap next_window).Pos.X)
      let ta := c.Io.MousePos.Sub c.Io.MouseDelta
      let tb := if left then M.RectTL next_window_rect else M.RectTR next_window_rect
      let tc := if left then M.RectBL next_window_rect else M.RectBR next_window_rect
      let extra := Clamp (|ta.X - tb.X| * (3 / 10)) 5 30
      let ta := { ta with X := if left then ta.X + (-(1 / 2)) else ta.X + 1 / 2 }
      let tb := { tb with Y := ta.Y + max ((tb.Y - extra) - ta.Y) (-100) }
      let tc := { tc with Y := ta.Y + min ((tc.Y + extra) - ta.Y) 100 }
      M.TriangleContainsPoint ta tb tc c.Io.MousePos
  else false

/-- The state of `BeginMenu` after it has decided what to do with the popup
(line 222). -/
structure MenuWant where
  ctx : Context
  want_open : Bool
  want_close : Bool
  menu_is_open : Bool

/-- `BeginMenu` from line 164 to line 222: whether the popup of the menu is to be
opened or closed. -/
def beginMenuWant (M : MenuEnv) (s : MenuItem) (window : Nat) : MenuWant :=
  let c := s.ctx
  if (c.Heap window).DC.LayoutType = M.LayoutTypeVertical then
    let moving_within_opened_triangle := movingWithinOpenedTriangle M c window
    let want_close := s.menu_is_open && !s.hovered && decide (c.HoveredWindow = some window) &&
      decide (c.HoveredIdPreviousFrame ≠ 0) && decide (c.HoveredIdPreviousFrame ≠ s.id) &&
      !moving_within_opened_triangle
    let want_open := (!s.menu_is_open && s.hovered && !moving_within_opened_triangle) ||
      (!s.menu_is_open && s.hovered && s.pressed)
    let want_close := if c.NavActivateId = s.id then s.menu_is_open else want_close
    let want_open := if c.NavActivateId = s.id then !s.menu_is_open else want_open
    if c.NavId = s.id ∧ c.NavMoveRequest = true ∧ c.NavMoveDir = M.DirRight then
      { ctx := M.NavMoveRequestCancel c, want_open := true, want_close := want_close
        menu_is_open := s.menu_is_open }
    else
      { ctx := c, want_open := want_open, want_close := want_close, menu_is_open := s.menu_is_open }
  else
    if s.menu_is_open ∧ s.pressed ∧ s.menuset_is_open then
      { ctx := c, want_open := false, want_close := true, menu_is_open := false }
    else if s.pressed ∨ (s.hovered ∧ s.menuset_is_open ∧ ¬ s.menu_is_open) then
      { ctx := c, want_open := true, want_close := false, menu_is_open := s.menu_is_open }
    else if c.NavId = s.id ∧ c.NavMoveRequest = true ∧ c.NavMoveDir = M.DirDown then
      { ctx := M.NavMoveRequestCancel c, want_open := true, want_close := false
        menu_is_open := s.menu_is_open }
    else
      { ctx := c, want_open := false, want_close := false, menu_is_open := s.menu_is_open }

/-- `BeginMenu` from line 224 to line 257: the popup is closed, opened and
begun. -/
def beginMenuOpen (E : Env) (M : MenuEnv) (m : MenuWant) (window : Nat) (id : ID)
    (label : String) (enabled : Bool) (popup_pos : Vec2) : MenuResult :=
  let c := m.ctx
  let want_close := if ¬ enabled then true else m.want_close
  let closes := want_close && M.IsPopupOpenID c id
  let calls : List MenuCall :=
    if closes then [MenuCall.ClosePopupToLevel c.CurrentPopupStack.length] else []
  let c := if closes then M.ClosePopupToLevel c c.CurrentPopupStack.length else c
  if ¬ m.menu_is_open ∧ m.want_open ∧ c.OpenPopupStack.length > c.CurrentPopupStack.length then
    { ctx := M.OpenPopup c label, ret := false, calls := calls ++ [MenuCall.OpenPopup label] }
  else
    let menu_is_open := if m.want_open then true else m.menu_is_open
    let calls := if m.want_open then calls ++ [MenuCall.OpenPopup label] else calls
    let c := if m.want_open then M.OpenPopup c label else c
    if menu_is_open then
      let c := M.SetNextWindowPos c popup_pos M.CondAlways Vec2.zero
      let flags :=
        E.WindowFlagsAlwaysAutoResize ||| M.WindowFlagsNoTitleBar ||| M.WindowFlagsNoSavedSettings
      let flags :=
        if (c.Heap window).Flags &&& (E.WindowFlagsPopup ||| M.WindowFlagsChildMenu) = 0 then
          flags ||| M.WindowFlagsChildMenu ||| E.WindowFlagsChildWindow
        else flags ||| M.WindowFlagsChildMenu
      let r := M.BeginPopupEx c id flags
      { ctx := r.1, ret := r.2, calls := calls }
    else { ctx := c, ret := false, calls := calls }

/-- `Context.BeginMenu`, lines 98-258.  Dereferencing a nil current window
panics. -/
def BeginMenu (E : Env) (M : MenuEnv) (c : Context) (label : String) (enabled : Bool) :
    Option MenuResult :=
  match GetCurrentWindow c with
  | none => none
  | some window =>
    if (c.Heap window).SkipItems then some { ctx := c, ret := false, calls := [] }
    else
      match beginMenuItem E M c window label enabled with
      | none => none
      | some s =>
        some (beginMenuOpen E M (beginMenuWant M s window) window s.id label enabled s.popup_pos)

/-- The fields of window `w` that the menu-bar scope reads back: the flags,
whether the window skips items, the navigation layer and its mask, and whether
a menu bar is being appended to. -/
def barFields (c : Context) (w : Nat) : WindowFlags × Bool × Int × Int × Bool :=
  ((c.Heap w).Flags, (c.Heap w).SkipItems, (c.Heap w).DC.NavLayerCurrent,
    (c.Heap w).DC.NavLayerCurrentMask, (c.Heap w).DC.MenuBarAppending)

/-- The two stacks of window `w` that the menu-bar scope pushes on: the group
stack and the clip-rectangle stack of the draw list. -/
def barStacks (c : Context) (w : Nat) : List GroupData × List Vec4 :=
  ((c.Heap w).DC.GroupStack, (c.Heap w).DrawList._ClipRectStack)

/-- A step that leaves the menu-bar scope alone: the current window stays, and
every window keeps the fields and the stacks of the scope. -/
def KeepsBar (f : Context → Context) : Prop :=
  ∀ c, (f c).CurrentWindow = c.CurrentWindow ∧
    ∀ w, barFields (f c) w = barFields c w ∧ barStacks (f c) w = barStacks c w

/-- What the menu-bar functions need of their collaborators: `BeginGroup` leaves
a group on the stack of the current window and `EndGroup` may take it off, and
apart from that the collaborators leave the menu-bar scope alone. -/
structure MenuEnv.KeepsMenuBar (M : MenuEnv) (E : Env) : Prop where
  beginGroup : ∀ c, (M.BeginGroup c).CurrentWindow = c.CurrentWindow ∧
    (∀ w, barFields (M.BeginGroup c) w = barFields c w ∧
      ((M.BeginGroup c).Heap w).DrawList._ClipRectStack = (c.Heap w).DrawList._ClipRectStack) ∧
    ∀ w, c.CurrentWindow = some w → ((M.BeginGroup c).Heap w).DC.GroupStack ≠ []
  endGroup : ∀ c w, barFields (M.EndGroup c) w = barFields c w
  pushID : ∀ s, KeepsBar (fun c => M.PushID c s)
  popID : KeepsBar M.PopID
  align : KeepsBar M.AlignTextToFramePadding
  focusWindow : ∀ w, KeepsBar (fun c => E.FocusWindow c w)
  setNavID : ∀ id layer r, KeepsBar (fun c => M.SetNavIDWithRectRel c id layer r)
  navCancel : KeepsBar M.NavMoveRequestCancel

/-- What the disabled path of `BeginMenu` needs of the style collaborators: they
leave the navigation target alone. -/
structure MenuEnv.StyleKeepsNav (M : MenuEnv) : Prop where
  pushVar : ∀ c i v, (M.PushStyleVar c i v).NavId = c.NavId ∧
    (M.PushStyleVar c i v).NavActivateId = c.NavActivateId
  popVar : ∀ c, (M.PopStyleVar c).NavId = c.NavId ∧
    (M.PopStyleVar c).NavActivateId = c.NavActivateId
  pushColor : ∀ c i v, (M.PushStyleColor c i v).NavId = c.NavId ∧
    (M.PushStyleColor c i v).NavActivateId = c.NavActivateId
  popColor : ∀ c, (M.PopStyleColor c).NavId = c.NavId ∧
    (M.PopStyleColor c).NavActivateId = c.NavActivateId

/-- Stand-in for `Window.GetID`: the seed on top of the identifier stack plus
the length of the label. -/
def exampleGetID (c : Context) (w : Nat) (label : String) : ID :=
  (c.Heap w).IDStack.getLastD 0 + label.length

/-- Stand-in for `IsPopupOpenID`: the open popup at the level of the current
popup stack has the identifier. -/
def exampleIsPopupOpenID (c : Context) (id : ID) : Bool :=
  decide ((c.OpenPopupStack.get? c.CurrentPopupStack.length).map (fun p => p.PopupId) = some id)

/-- Stand-ins for the collaborators of the menu functions: a group or an
identifier is pushed on and popped off the stacks of the current window, a
popup is opened by writing the open-popup stack at the level of the current
popup stack and closed by cutting that stack, and a popup begins only when it
is open; the other collaborators do the least their names say. -/
def exampleMenuEnv : MenuEnv :=
  { WindowFlagsMenuBar := 1 <<< 10
    WindowFlagsChildMenu := 1 <<< 28
    WindowFlagsNoTitleBar := 1 <<< 0
    WindowFlagsNoSavedSettings := 1 <<< 8
    LayoutTypeVertical := 0
    LayoutTypeHorizontal := 1
    DirLeft := 0
    DirRight := 1
    DirDown := 3
    NavForwardNone := 0
    NavForwardForwardQueued := 1
    CondAlways := 1 <<< 0
    StyleVarItemSpacing := 13
    ColText := 0
    ColTextDisabled := 1
    Rect := fun x0 y0 x1 y1 => { Min := { X := x0, Y := y0 }, Max := { X := x1, Y := y1 } }
    Intersect := fun r s =>
      { Min := { X := max r.Min.X s.Min.X, Y := max r.Min.Y s.Min.Y }
        Max := { X := min r.Max.X s.Max.X, Y := min r.Max.Y s.Max.Y } }
    RectTL := fun r => r.Min
    RectTR := fun r => { X := r.Max.X, Y := r.Min.Y }
    RectBL := fun r => { X := r.Min.X, Y := r.Max.Y }
    RectBR := fun r => r.Max
    TriangleContainsPoint := fun _ _ _ _ => false
    MenuBarRect := fun c w =>
      { Min := (c.Heap w).Pos
        Max := { X := (c.Heap w).Pos.X + (c.Heap w).SizeFull.X, Y := (c.Heap w).Pos.Y + 20 } }
    WindowRect := fun c w => { Min := (c.Heap w).Pos, Max := (c.Heap w).Pos.Add (c.Heap w).Size }
    GetID := exampleGetID
    CalcTextSizeEx := fun _ label _ _ => { X := 7 * label.length, Y := 13 }
    GetContentRegionAvail := fun _ => Vec2.zero
    BeginGroup := fun c =>
      match c.CurrentWindow with
      | some w => c.setWin w { c.Heap w with
          DC := { (c.Heap w).DC with
            GroupStack := (c.Heap w).DC.GroupStack ++ [{ AdvanceCursor := true }] } }
      | none => c
    EndGroup := fun c =>
      match c.CurrentWindow with
      | some w => c.setWin w { c.Heap w with
          DC := { (c.Heap w).DC with GroupStack := (c.Heap w).DC.GroupStack.dropLast } }
      | none => c
    PushID := fun c s =>
      match c.CurrentWindow with
      | some w => c.setWin w { c.Heap w with IDStack := (c.Heap w).IDStack ++ [exampleGetID c w s] }
      | none => c
    PopID := fun c =>
      match c.CurrentWindow with
      | some w => c.setWin w { c.Heap w with IDStack := (c.Heap w).IDStack.dropLast }
      | none => c
    AlignTextToFramePadding := fun c => c
    NavMoveRequestButNoResultYet := fun c => c.NavMoveRequest
    NavMoveRequestCancel := fun c => { c with NavMoveRequest := false }
    SetNavIDWithRectRel := fun c id _ _ => { c with NavId := id }
    PushStyleVar := fun c _ v => { c with Style := { c.Style with ItemSpacing := v } }
    PopStyleVar := fun c => { c with Style := { c.Style with ItemSpacing := c.Style.ItemSpacing.Scale (1 / 2) } }
    PushStyleColor := fun c _ _ => c
    PopStyleColor := fun c => c
    ItemHoverable := fun c bb id =>
      if bb.Min.X ≤ c.Io.MousePos.X ∧ c.Io.MousePos.X < bb.Max.X ∧
          bb.Min.Y ≤ c.Io.MousePos.Y ∧ c.Io.MousePos.Y < bb.Max.Y then
        ({ c with HoveredId := id }, true)
      else (c, false)
    IsPopupOpen := fun c label =>
      match c.CurrentWindow with
      | some w => exampleIsPopupOpenID c (exampleGetID c w label)
      | none => false
    IsPopupOpenID := exampleIsPopupOpenID
    OpenPopup := fun c label =>
      match c.CurrentWindow with
      | some w =>
        { c with OpenPopupStack := c.OpenPopupStack.take c.CurrentPopupStack.length ++
            [{ PopupId := exampleGetID c w label, ParentWindow := some w
               OpenParentId := (c.Heap w).IDStack.getLastD 0 }] }
      | none => c
    ClosePopupToLevel := fun c n => { c with OpenPopupStack := c.OpenPopupStack.take n }
    SetNextWindowPos := fun c pos cond pivot =>
      { c with NextWindowData := { c.NextWindowData with
          PosVal := pos, PosPivotVal := pivot, PosCond := if cond ≠ 0 then cond else 1 } }
    BeginPopupEx := fun c id _ =>
      if exampleIsPopupOpenID c id then
        ({ c with CurrentPopupStack := c.CurrentPopupStack ++
            [c.OpenPopupStack.getD c.CurrentPopupStack.length {}] }, true)
      else (c, false) }

/-- Frame 5 with window 1 being built: the window has a menu bar, one seed on
its identifier stack, navigation layer 0 and layer mask 1. -/
def exampleMenuBar : Context :=
  { exampleFrame with
    Heap := fun w =>
      if w = 1 then
        { exampleWindow "Debug" with
          Flags := 1 <<< 10, IDStack := [1], SizeFull := { X := 100, Y := 100 }
          WindowRectClipped := { Min := Vec2.zero, Max := { X := 100, Y := 100 } }
          DC := { NavLayerCurrentMask := 1 } }
      else {} }

/-- As `exampleMenuBar`, with the window skipping its items. -/
def exampleMenuBarSkipped : Context :=
  { exampleMenuBar with Heap := fun w => { exampleMenuBar.Heap w with SkipItems := true } }

/-- As `exampleMenuBar`, with the menu bar of the window already begun. -/
def exampleMenuBarBegun : Context :=
  { exampleMenuBar with
    Heap := fun w =>
      { exampleMenuBar.Heap w with DC := { (exampleMenuBar.Heap w).DC with MenuBarAppending := true } } }

/-- As `exampleMenuBar` (the layout of the window is vertical and no popup is
open), with navigation activating the item of the menu "File", whose identifier
is 5. -/
def exampleNavActivate : Context := { exampleMenuBar with NavActivateId := 5 }

/-- As `exampleMenuBar`, with the popup of the menu "File" open. -/
def exampleMenuOpen : Context :=
  { exampleMenuBar with
    OpenPopupStack := [{ PopupId := 5, ParentWindow := some 1, OpenParentId := 1 }] }

end ImGui

/-! # Theorems -/

namespace ImGui

/-! ## List facts about the end of a buffer -/

theorem getLast?_two {α : Type} (pre : List α) (a b : α) :
    (pre ++ [a, b]).getLast? = some b := by
  simp [List.getLast?_append]

theorem dropLast_two {α : Type} (pre : List α) (a b : α) :
    (pre ++ [a, b]).dropLast = pre ++ [a] := by
  have h : pre ++ [a, b] = (pre ++ [a]) ++ [b] := by simp
  rw [h, List.dropLast_concat]

theorem prevCmd_two (d : DrawList) (pre : List DrawCmd) (a b : DrawCmd)
    (h : d.CmdBuffer = pre ++ [a, b]) : prevCmd d = some a := by
  have hlen : d.CmdBuffer.length = pre.length + 2 := by simp [h]
  have hget : (pre ++ [a, b])[pre.length]? = some a := by
    rw [List.getElem?_append_right (le_refl _)]
    simp
  simp [prevCmd, hlen, h, hget]

theorem prevCmd_eq_getLast?_dropLast (d : DrawList) :
    prevCmd d = d.CmdBuffer.dropLast.getLast? := by
  rcases List.eq_nil_or_concat d.CmdBuffer with h | ⟨l, b, h⟩
  · simp [prevCmd, h]
  · rcases List.eq_nil_or_concat l with hl | ⟨l2, a, hl⟩
    · subst hl
      simp [prevCmd, h]
    · subst hl
      have h2 : d.CmdBuffer = l2 ++ [a, b] := by simp [h]
      rw [prevCmd_two d l2 a b h2, h2, dropLast_two]
      simp

/-! ## The stacks after a push -/

@[simp] theorem GetCurrentClipRect_push (d : DrawList) (cr : Vec4) :
    GetCurrentClipRect { d with _ClipRectStack := d._ClipRectStack ++ [cr] } = cr := by
  simp [GetCurrentClipRect]

@[simp] theorem GetCurrentTextureId_push (d : DrawList) (t : TextureID) :
    GetCurrentTextureId { d with _TextureIdStack := d._TextureIdStack ++ [t] } = t := by
  simp [GetCurrentTextureId]

theorem updateClipRect_merge (d : DrawList) (pre : List DrawCmd) (prev last : DrawCmd)
    (hbuf : d.CmdBuffer = pre ++ [prev, last])
    (hlast0 : last.ElemCount = 0) (hlastcb : last.UserCallback = none)
    (hprevcb : prev.UserCallback = none)
    (hprevtex : prev.TextureId = GetCurrentTextureId d)
    (hclip : prev.ClipRect = GetCurrentClipRect d) :
    (UpdateClipRect d).CmdBuffer = pre ++ [prev] := by
  have h1 : d.CmdBuffer.getLast? = some last := by rw [hbuf]; exact getLast?_two _ _ _
  have h2 : prevCmd d = some prev := prevCmd_two d pre prev last hbuf
  have h3 : d.CmdBuffer.dropLast = pre ++ [prev] := by rw [hbuf]; exact dropLast_two _ _ _
  simp [UpdateClipRect, h1, h2, h3, hlast0, hlastcb, hprevcb, hprevtex, hclip]

/-! ## C1: backward merge -/

/-- C1: when the command buffer ends in `prev, last`, where `last` is empty and
without callback and `prev` has no callback, the current texture and the clip
rectangle that becomes current, then `PushClipRectEx` of that rectangle, and
`PopClipRect` restoring it, both remove `last`: the buffer becomes
`pre ++ [prev]`, one command shorter, with every remaining command unchanged. -/
theorem C1_backward_merge (d : DrawList) (pre : List DrawCmd) (prev last : DrawCmd)
    (cr_min cr_max : Vec2) (isect : Bool)
    (hbuf : d.CmdBuffer = pre ++ [prev, last])
    (hlast0 : last.ElemCount = 0) (hlastcb : last.UserCallback = none)
    (hprevcb : prev.UserCallback = none)
    (hprevtex : prev.TextureId = GetCurrentTextureId d) :
    (prev.ClipRect = pushedClipRect d cr_min cr_max isect →
      (PushClipRectEx d cr_min cr_max isect).CmdBuffer = pre ++ [prev] ∧
      (PushClipRectEx d cr_min cr_max isect).CmdBuffer.length + 1 = d.CmdBuffer.length) ∧
    (d._ClipRectStack ≠ [] →
      prev.ClipRect = GetCurrentClipRect { d with _ClipRectStack := d._ClipRectStack.dropLast } →
      ∃ d', PopClipRect d = some d' ∧ d'.CmdBuffer = pre ++ [prev] ∧
        d'.CmdBuffer.length + 1 = d.CmdBuffer.length) := by
  constructor
  · intro hclip
    have h : (PushClipRectEx d cr_min cr_max isect).CmdBuffer = pre ++ [prev] := by
      unfold PushClipRectEx
      exact updateClipRect_merge _ pre prev last hbuf hlast0 hlastcb hprevcb hprevtex
        (by rw [GetCurrentClipRect_push]; exact hclip)
    exact ⟨h, by rw [h, hbuf]; simp⟩
  · intro hne hclip
    have h : (UpdateClipRect { d with _ClipRectStack := d._ClipRectStack.dropLast }).CmdBuffer
        = pre ++ [prev] :=
      updateClipRect_merge _ pre prev last hbuf hlast0 hlastcb hprevcb hprevtex hclip
    refine ⟨_, ?_, h, by rw [h, hbuf]; simp⟩
    simp [PopClipRect, hne]

/-- C1 at `exampleMerge`: pushing `clip10` again, or popping `clip20`, leaves the
single geometry command. -/
theorem C1_backward_merge_witness :
    (PushClipRectEx exampleMerge { X := 0, Y := 0 } { X := 10, Y := 10 } false).CmdBuffer
        = [geomCmd 6 clip10] ∧
    ∃ d', PopClipRect exampleMerge = some d' ∧ d'.CmdBuffer = [geomCmd 6 clip10] := by
  have h := C1_backward_merge exampleMerge [] (geomCmd 6 clip10) (geomCmd 0 clip20)
    { X := 0, Y := 0 } { X := 10, Y := 10 } false rfl rfl rfl rfl rfl
  refine ⟨(h.1 (by decide)).1, ?_⟩
  obtain ⟨d', h1, h2, _⟩ := h.2 (by decide) (by decide)
  exact ⟨d', h1, h2⟩

/-! ## C2, C3, C5: a command that holds geometry -/

/-- C2: at `exampleGeom`, whose only command holds 6 indices under `clip10`,
pushing the different rectangle `clip20` appends no command: the buffer still has
exactly one command, and it is the geometry command with its `ClipRect`
overwritten by `clip20`. -/
theorem C2_push_differing_clip_rewrites_geometry :
    (PushClipRectEx exampleGeom { X := 0, Y := 0 } { X := 20, Y := 20 } false).CmdBuffer
      = [geomCmd 6 clip20] := by
  decide

/-- C3: at `exampleGeom`, whose only command holds 6 indices under `clip10` with
the current texture, pushing `clip10` again appends a new empty command, so the
command buffer after the push differs from the one before. -/
theorem C3_push_equal_clip_appends_command :
    (PushClipRectEx exampleGeom { X := 0, Y := 0 } { X := 10, Y := 10 } false).CmdBuffer
      = [geomCmd 6 clip10, geomCmd 0 clip10] ∧
    (PushClipRectEx exampleGeom { X := 0, Y := 0 } { X := 10, Y := 10 } false).CmdBuffer
      ≠ exampleGeom.CmdBuffer := by
  decide

/-! ## C4: the staging-command invariant -/

theorem stagingInv_of_buffer (d : DrawList) (buf : List DrawCmd) (c : DrawCmd)
    (hl : buf.getLast? = some c) (hc : c.ClipRect = GetCurrentClipRect d)
    (ht : c.TextureId = GetCurrentTextureId d) :
    StagingInv { d with CmdBuffer := buf } := by
  simp only [StagingInv, hl]
  exact ⟨hc, ht⟩

theorem stagingInv_addDrawCmd (d : DrawList) : StagingInv (AddDrawCmd d) := by
  unfold AddDrawCmd
  exact stagingInv_of_buffer d _
    { DrawCmd.zero with ClipRect := GetCurrentClipRect d, TextureId := GetCurrentTextureId d }
    (by simp) rfl rfl

theorem stagingInv_updateClipRect (d : DrawList)
    (h : ∀ last, d.CmdBuffer.getLast? = some last → last.TextureId = GetCurrentTextureId d) :
    StagingInv (UpdateClipRect d) := by
  unfold UpdateClipRect
  cases hl : d.CmdBuffer.getLast? with
  | none => exact stagingInv_addDrawCmd d
  | some curr =>
    simp only []
    split_ifs with h1
    · exact stagingInv_addDrawCmd d
    · cases hp : prevCmd d with
      | none =>
        exact stagingInv_of_buffer d _ { curr with ClipRect := GetCurrentClipRect d } (by simp) rfl (h curr hl)
      | some prev =>
        simp only []
        split_ifs with h2
        · rw [prevCmd_eq_getLast?_dropLast] at hp
          exact stagingInv_of_buffer d _ prev hp h2.2.1 h2.2.2.1
        · exact stagingInv_of_buffer d _ { curr with ClipRect := GetCurrentClipRect d } (by simp) rfl (h curr hl)

theorem stagingInv_updateTextureID (d : DrawList)
    (h : ∀ last, d.CmdBuffer.getLast? = some last → last.ClipRect = GetCurrentClipRect d) :
    StagingInv (UpdateTextureID d) := by
  unfold UpdateTextureID
  cases hl : d.CmdBuffer.getLast? with
  | none => exact stagingInv_addDrawCmd d
  | some curr =>
    simp only []
    split_ifs with h1
    · exact stagingInv_addDrawCmd d
    · cases hp : prevCmd d with
      | none =>
        exact stagingInv_of_buffer d _ { curr with TextureId := GetCurrentTextureId d } (by simp) (h curr hl) rfl
      | some prev =>
        simp only []
        split_ifs with h2
        · rw [prevCmd_eq_getLast?_dropLast] at hp
          exact stagingInv_of_buffer d _ prev hp h2.2.2.1 h2.2.1
        · exact stagingInv_of_buffer d _ { curr with TextureId := GetCurrentTextureId d } (by simp) (h curr hl) rfl

/-- Under the precondition of C4 the last command, if any, carries the current
clip rectangle and texture. -/
theorem last_of_pre (d : DrawList) (h : d.CmdBuffer = [] ∨ StagingInv d) (last : DrawCmd)
    (hl : d.CmdBuffer.getLast? = some last) :
    last.ClipRect = GetCurrentClipRect d ∧ last.TextureId = GetCurrentTextureId d := by
  rcases h with h | h
  · simp [h] at hl
  · simpa [StagingInv, hl] using h

/-- C4: let `StagingInv d` say that the command buffer is non-empty and its last
command has the current clip rectangle and the current texture.  From a draw
list whose command buffer is empty or which satisfies `StagingInv`, the invariant
holds after `PushClipRectEx`, after `PopClipRect` (clip stack non-empty; the call
then returns), after `PushTextureID` and after `PopTextureID` (texture stack
non-empty; the call then returns). -/
theorem C4_staging_invariant (d : DrawList) (cr_min cr_max : Vec2) (isect : Bool)
    (texture_id : TextureID) (hpre : d.CmdBuffer = [] ∨ StagingInv d) :
    StagingInv (PushClipRectEx d cr_min cr_max isect) ∧
    (d._ClipRectStack ≠ [] → ∃ d', PopClipRect d = some d' ∧ StagingInv d') ∧
    StagingInv (PushTextureID d texture_id) ∧
    (d._TextureIdStack ≠ [] → ∃ d', PopTextureID d = some d' ∧ StagingInv d') := by
  refine ⟨?_, ?_, ?_, ?_⟩
  · exact stagingInv_updateClipRect _ (fun last hl => (last_of_pre d hpre last hl).2)
  · intro hne
    exact ⟨UpdateClipRect { d with _ClipRectStack := d._ClipRectStack.dropLast },
      by simp [PopClipRect, hne],
      stagingInv_updateClipRect _ (fun last hl => (last_of_pre d hpre last hl).2)⟩
  · exact stagingInv_updateTextureID _ (fun last hl => (last_of_pre d hpre last hl).1)
  · intro hne
    exact ⟨UpdateTextureID { d with _TextureIdStack := d._TextureIdStack.dropLast },
      by simp [PopTextureID, hne],
      stagingInv_updateTextureID _ (fun last hl => (last_of_pre d hpre last hl).1)⟩

/-- C4 at `exampleTextured`, which satisfies the invariant and has both stacks
non-empty. -/
theorem C4_staging_invariant_witness :
    StagingInv exampleTextured ∧
    StagingInv (PushClipRectEx exampleTextured { X := 0, Y := 0 } { X := 20, Y := 20 } true) ∧
    (∃ d', PopClipRect exampleTextured = some d' ∧ StagingInv d') ∧
    StagingInv (PushTextureID exampleTextured (some 2)) ∧
    (∃ d', PopTextureID exampleTextured = some d' ∧ StagingInv d') := by
  have h := C4_staging_invariant exampleTextured { X := 0, Y := 0 } { X := 20, Y := 20 } true
    (some 2) (Or.inr (by decide))
  exact ⟨by decide, h.1, h.2.1 (by decide), h.2.2.1, h.2.2.2 (by decide)⟩

/-- C5: at `exampleGeom`, whose only command holds 6 indices with no texture,
`PushTextureID` of texture 7 appends no command: the buffer still has exactly one
command, and it is the geometry command with its `TextureId` overwritten by 7. -/
theorem C5_push_differing_texture_rewrites_geometry :
    (PushTextureID exampleGeom (some 7)).CmdBuffer
      = [{ geomCmd 6 clip10 with TextureId := some 7 }] := by
  decide

/-! ## C6: the merged command sequence -/

/-- C6: at `exampleThreeChannels` the merge keeps the empty trailing command of
channel 1 in the middle of the merged buffer (the claim requires it dropped), and
at `exampleTwoChannels`, where channel 1 is shorter than channel 0, the merge
panics instead of producing a buffer. -/
theorem C6_merge_keeps_empty_command_or_panics :
    (ChannelsMerge exampleThreeChannels).map (fun d => d.CmdBuffer)
      = some [geomCmd 6 clip10, geomCmd 3 clip20, geomCmd 0 clip20, geomCmd 3 clip30] ∧
    ChannelsMerge exampleTwoChannels = none := by
  decide

/-! ## C7: the merged index buffer -/

theorem copyAt_fill {α : Type} (A s : List α) (z : α) (n : Nat) (hs : s.length ≤ n) :
    copyAt (A ++ List.replicate n z) A.length s
      = some (A ++ s ++ List.replicate (n - s.length) z) := by
  have hmin : min n s.length = s.length := Nat.min_eq_right hs
  simp [copyAt, hmin, List.take_left', List.drop_append, List.drop_replicate]

theorem storedIdxs_set (channels : List DrawChannel) (i : Nat) (ch ch' : DrawChannel)
    (hch : channels[i]? = some ch) (hidx : ch'.IdxBuffer = ch.IdxBuffer) (j : Nat) :
    storedIdxs (channels.set i ch') j = storedIdxs channels j := by
  unfold storedIdxs
  by_cases hij : i = j
  · subst hij
    have hlt : i < channels.length := by
      rcases Nat.lt_or_ge i channels.length with h | h
      · exact h
      · rw [List.getElem?_eq_none h] at hch
        cases hch
    rw [List.getElem?_set_self hlt, hch]
    exact hidx
  · rw [List.getElem?_set_ne hij]

theorem mergeCountStep_spec (st st' : MergeCount) (i : Nat)
    (h : mergeCountStep st i = some st') :
    st'.d.IdxBuffer = st.d.IdxBuffer ∧
    st'.d._ChannelsCurrent = st.d._ChannelsCurrent ∧
    st'.d._ChannelsCount = st.d._ChannelsCount ∧
    (∀ j, storedIdxs st'.d._Channels j = storedIdxs st.d._Channels j) ∧
    st'.new_idx_buffer_count
      = st.new_idx_buffer_count + (storedIdxs st.d._Channels i).length := by
  unfold mergeCountStep at h
  cases hch : st.d._Channels[i]? with
  | none => simp [hch] at h
  | some ch =>
    have key : ∀ ch' : DrawChannel, ch'.IdxBuffer = ch.IdxBuffer →
        st' = { d := { st.d with _Channels := st.d._Channels.set i ch' }
                new_cmd_buffer_count := st.new_cmd_buffer_count + ch'.CmdBuffer.length
                new_idx_buffer_count := st.new_idx_buffer_count + ch'.IdxBuffer.length } →
        st'.d.IdxBuffer = st.d.IdxBuffer ∧
        st'.d._ChannelsCurrent = st.d._ChannelsCurrent ∧
        st'.d._ChannelsCount = st.d._ChannelsCount ∧
        (∀ j, storedIdxs st'.d._Channels j = storedIdxs st.d._Channels j) ∧
        st'.new_idx_buffer_count
          = st.new_idx_buffer_count + (storedIdxs st.d._Channels i).length := by
      intro ch' hidx hst
      subst hst
      refine ⟨rfl, rfl, rfl, fun j => storedIdxs_set _ i ch ch' hch hidx j, ?_⟩
      simp [storedIdxs, hch, hidx]
    simp only [hch] at h
    split at h
    · cases h
    · rename_i ch' htrim
      injection h with h
      refine key ch' ?_ h.symm
      split at htrim
      · split at htrim
        · cases htrim
        · split at htrim
          · injection htrim with htrim
            rw [← htrim]
          · injection htrim with htrim
            rw [← htrim]
      · injection htrim with htrim
        rw [← htrim]

theorem mergeCount_fold (l : List Nat) : ∀ (st st' : MergeCount),
    l.foldlM mergeCountStep st = some st' →
    st'.d.IdxBuffer = st.d.IdxBuffer ∧
    st'.d._ChannelsCurrent = st.d._ChannelsCurrent ∧
    st'.d._ChannelsCount = st.d._ChannelsCount ∧
    (∀ j, storedIdxs st'.d._Channels j = storedIdxs st.d._Channels j) ∧
    st'.new_idx_buffer_count
      = st.new_idx_buffer_count + (l.flatMap (storedIdxs st.d._Channels)).length := by
  induction l with
  | nil =>
    intro st st' h
    simp at h
    subst h
    simp
  | cons i l ih =>
    intro st st' h
    rw [List.foldlM_cons] at h
    cases hstep : mergeCountStep st i with
    | none => simp [hstep] at h
    | some mid =>
      simp only [hstep, Option.bind_eq_bind, Option.some_bind] at h
      obtain ⟨a1, a2, a3, a4, a5⟩ := mergeCountStep_spec st mid i hstep
      obtain ⟨b1, b2, b3, b4, b5⟩ := ih mid st' h
      have hfun : storedIdxs mid.d._Channels = storedIdxs st.d._Channels := funext a4
      refine ⟨b1.trans a1, b2.trans a2, b3.trans a3, fun j => (b4 j).trans (a4 j), ?_⟩
      rw [b5, a5, hfun, List.flatMap_cons, List.length_append]
      omega

theorem mergeWriteStep_spec (st st' : MergeWrite) (i : Nat) (A : List DrawIdx) (n : Nat)
    (h : mergeWriteStep st i = some st')
    (hbuf : st.d.IdxBuffer = A ++ List.replicate n 0) (hptr : st.d._IdxWritePtr = A.length)
    (hlen : (storedIdxs st.d._Channels i).length ≤ n) :
    st'.d.IdxBuffer = (A ++ storedIdxs st.d._Channels i)
      ++ List.replicate (n - (storedIdxs st.d._Channels i).length) 0 ∧
    st'.d._IdxWritePtr = (A ++ storedIdxs st.d._Channels i).length ∧
    st'.d._Channels = st.d._Channels ∧
    st'.d._ChannelsCurrent = st.d._ChannelsCurrent ∧
    st'.d._ChannelsCount = st.d._ChannelsCount := by
  unfold mergeWriteStep at h
  cases hch : st.d._Channels[i]? with
  | none => simp [hch] at h
  | some ch =>
    have hs : storedIdxs st.d._Channels i = ch.IdxBuffer := by simp [storedIdxs, hch]
    rw [hs] at hlen ⊢
    have hidx : (if ch.IdxBuffer.length > 0 then
          (copyAt st.d.IdxBuffer st.d._IdxWritePtr ch.IdxBuffer).map
            (fun buf => (buf, st.d._IdxWritePtr + ch.IdxBuffer.length))
        else some (st.d.IdxBuffer, st.d._IdxWritePtr))
        = some (A ++ ch.IdxBuffer ++ List.replicate (n - ch.IdxBuffer.length) 0,
            A.length + ch.IdxBuffer.length) := by
      rw [hbuf, hptr]
      split
      · rw [copyAt_fill A ch.IdxBuffer 0 n hlen]
        rfl
      · rename_i hz
        have hnil : ch.IdxBuffer = [] := by
          cases hc : ch.IdxBuffer with
          | nil => rfl
          | cons a t => simp [hc] at hz
        simp [hnil]
    simp only [hch] at h
    rw [hidx] at h
    split at h
    · rename_i cmdBuf cmd_write idxBuf idx_write hc hi
      injection hi with hi
      injection hi with hi1 hi2
      injection h with h
      subst h
      subst hi1
      subst hi2
      refine ⟨rfl, ?_, rfl, rfl, rfl⟩
      simp
    · cases h

theorem mergeWrite_fold (l : List Nat) : ∀ (st st' : MergeWrite) (A : List DrawIdx) (n : Nat),
    l.foldlM mergeWriteStep st = some st' →
    st.d.IdxBuffer = A ++ List.replicate n 0 →
    st.d._IdxWritePtr = A.length →
    n = (l.flatMap (storedIdxs st.d._Channels)).length →
    st'.d.IdxBuffer = A ++ l.flatMap (storedIdxs st.d._Channels) ∧
    st'.d._IdxWritePtr = st'.d.IdxBuffer.length ∧
    st'.d._ChannelsCurrent = st.d._ChannelsCurrent ∧
    st'.d._ChannelsCount = st.d._ChannelsCount := by
  induction l with
  | nil =>
    intro st st' A n h hbuf hptr hn
    simp at h
    subst h
    simp at hn
    subst hn
    simp [hbuf, hptr]
  | cons i l ih =>
    intro st st' A n h hbuf hptr hn
    rw [List.foldlM_cons] at h
    cases hstep : mergeWriteStep st i with
    | none => simp [hstep] at h
    | some mid =>
      simp only [hstep, Option.bind_eq_bind, Option.some_bind] at h
      rw [List.flatMap_cons, List.length_append] at hn
      obtain ⟨a1, a2, a3, a4, a5⟩ :=
        mergeWriteStep_spec st mid i A n hstep hbuf hptr (by omega)
      obtain ⟨b1, b2, b3, b4⟩ := ih mid st' (A ++ storedIdxs st.d._Channels i)
        (n - (storedIdxs st.d._Channels i).length) h a1 a2 (by rw [a3]; omega)
      refine ⟨?_, b2, b3.trans a4, b4.trans a5⟩
      rw [b1, a3, List.flatMap_cons, List.append_assoc]

theorem updateClipRect_keeps (d : DrawList) :
    (UpdateClipRect d).IdxBuffer = d.IdxBuffer ∧
    (UpdateClipRect d)._IdxWritePtr = d._IdxWritePtr ∧
    (UpdateClipRect d)._ChannelsCurrent = d._ChannelsCurrent := by
  unfold UpdateClipRect AddDrawCmd
  split
  · exact ⟨rfl, rfl, rfl⟩
  · simp only []
    split
    · exact ⟨rfl, rfl, rfl⟩
    · split
      · split <;> exact ⟨rfl, rfl, rfl⟩
      · exact ⟨rfl, rfl, rfl⟩

theorem channelsSetCurrent_zero_spec (d d1 : DrawList) (h : ChannelsSetCurrent d 0 = some d1) :
    d1.IdxBuffer = channelIdxs d 0 ∧
    d1._ChannelsCurrent = 0 ∧
    d1._ChannelsCount = d._ChannelsCount ∧
    ∀ i, 1 ≤ i → storedIdxs d1._Channels i = channelIdxs d i := by
  unfold ChannelsSetCurrent at h
  by_cases hc : d._ChannelsCurrent = 0
  · simp only [hc, if_true] at h
    injection h with h
    subst h
    refine ⟨by simp [channelIdxs, hc], hc, rfl, ?_⟩
    intro i hi
    have hne : (i : Int) ≠ d._ChannelsCurrent := by omega
    simp [channelIdxs, storedIdxs, hne]
  · simp only [hc, if_false] at h
    split at h
    · rename_i hlt
      simp only [le_refl, if_true, Int.toNat_zero] at h
      split at h
      · rename_i ch hch
        injection h with h
        subst h
        have hc' : d._ChannelsCurrent.toNat ≠ 0 := by omega
        have hlt' : d._ChannelsCurrent.toNat < d._Channels.length := by omega
        have h0 : d._Channels[0]? = some ch := by
          rw [List.getElem?_set_ne hc'] at hch
          exact hch
        refine ⟨?_, rfl, rfl, ?_⟩
        · have hne : ¬ (0 : Int) = d._ChannelsCurrent := fun e => hc e.symm
          simp [channelIdxs, hne, h0]
        · intro i _
          by_cases hi : (i : Int) = d._ChannelsCurrent
          · have hi2 : d._ChannelsCurrent.toNat = i := by omega
            rw [hi2] at hlt'
            simp [channelIdxs, storedIdxs, hi, hi2, List.getElem?_set_self hlt']
          · have hi' : d._ChannelsCurrent.toNat ≠ i := by omega
            simp [channelIdxs, storedIdxs, hi, List.getElem?_set_ne hi']
      · cases h
    · cases h

theorem flatMap_congr_range {β : Type} (f g : Nat → List β) (s n : Nat)
    (h : ∀ i, 1 ≤ i → f i = g i) (hs : 1 ≤ s) :
    (List.range' s n).flatMap f = (List.range' s n).flatMap g := by
  induction n generalizing s with
  | zero => simp
  | succ n ih =>
    rw [List.range'_succ, List.flatMap_cons, List.flatMap_cons, h s hs, ih (s + 1) (by omega)]

/-- C7: whenever `ChannelsMerge` completes on a draw list with more than one
channel, the resulting index buffer is channel 0's index buffer followed by the
index buffers of channels `1, ..., K - 1` in ascending order (a channel's buffer
being the live one for the current channel and the stored one otherwise),
`_IdxWritePtr` is the length of that buffer, `_ChannelsCount` is 1 and
`_ChannelsCurrent` is 0. -/
theorem C7_merge_preserves_indices (d d' : DrawList) (hK : 1 < d._ChannelsCount)
    (h : ChannelsMerge d = some d') :
    d'.IdxBuffer = channelIdxs d 0 ++
      (List.range' 1 (d._ChannelsCount - 1)).flatMap (channelIdxs d) ∧
    d'._IdxWritePtr = d'.IdxBuffer.length ∧
    d'._ChannelsCount = 1 ∧
    d'._ChannelsCurrent = 0 := by
  unfold ChannelsMerge at h
  have hK' : ¬ d._ChannelsCount ≤ 1 := by omega
  simp only [hK', if_false] at h
  cases hset : ChannelsSetCurrent d 0 with
  | none => simp [hset] at h
  | some d1 =>
    simp only [hset] at h
    obtain ⟨s1, s2, s3, s4⟩ := channelsSetCurrent_zero_spec d d1 hset
    generalize htrim : (match d1.CmdBuffer.getLast? with
      | some c => if c.ElemCount = 0 then { d1 with CmdBuffer := d1.CmdBuffer.dropLast } else d1
      | none => d1) = dt at h
    have t : dt.IdxBuffer = d1.IdxBuffer ∧ dt._Channels = d1._Channels ∧
        dt._ChannelsCurrent = d1._ChannelsCurrent ∧ dt._ChannelsCount = d1._ChannelsCount := by
      rw [← htrim]
      split
      · split <;> exact ⟨rfl, rfl, rfl, rfl⟩
      · exact ⟨rfl, rfl, rfl, rfl⟩
    obtain ⟨t1, t2, t3, t4⟩ := t
    split at h
    · cases h
    · rename_i cnt hcnt
      obtain ⟨c1, c2, c3, c4, c5⟩ := mergeCount_fold _ _ cnt hcnt
      simp only [] at c1 c2 c3 c4 c5
      split at h
      · cases h
      · rename_i w hw
        injection h with h
        have hfun : storedIdxs cnt.d._Channels = storedIdxs dt._Channels := funext c4
        obtain ⟨w1, w2, w3, w4⟩ := mergeWrite_fold _ _ w cnt.d.IdxBuffer
          cnt.new_idx_buffer_count hw rfl (by simp) (by
            simp only [mergeRange]
            rw [c5, hfun, c3]
            simp [mergeRange])
        simp only [mergeRange] at w1 w2 w3 w4
        obtain ⟨u1, u2, u3⟩ := updateClipRect_keeps w.d
        subst h
        refine ⟨?_, ?_, rfl, ?_⟩
        · show (UpdateClipRect w.d).IdxBuffer = _
          rw [u1, w1, hfun, c1, c3, t1, t2, t4, s1, s3]
          congr 1
          exact flatMap_congr_range _ _ 1 _ s4 (le_refl 1)
        · show (UpdateClipRect w.d)._IdxWritePtr = (UpdateClipRect w.d).IdxBuffer.length
          rw [u1, u2, w2]
        · show (UpdateClipRect w.d)._ChannelsCurrent = 0
          rw [u3, w3, c2, t3, s2]

/-- C7 at `exampleCurrentOne`: the merge completes, and the six indices of
channel 0 are followed by the three indices of channel 1. -/
theorem C7_merge_preserves_indices_witness :
    1 < exampleCurrentOne._ChannelsCount ∧
    ∃ d', ChannelsMerge exampleCurrentOne = some d' ∧
      d'.IdxBuffer = [0, 1, 2, 0, 2, 3, 4, 5, 6] ∧ d'._IdxWritePtr = 9 ∧
      d'._ChannelsCount = 1 ∧ d'._ChannelsCurrent = 0 := by
  have hs : (ChannelsMerge exampleCurrentOne).isSome = true := by decide
  obtain ⟨d', hd'⟩ := Option.isSome_iff_exists.mp hs
  have h := C7_merge_preserves_indices exampleCurrentOne d' (by decide) hd'
  have hidx : d'.IdxBuffer = [0, 1, 2, 0, 2, 3, 4, 5, 6] := h.1.trans (by decide)
  refine ⟨by decide, d', hd', hidx, ?_, h.2.2.1, h.2.2.2⟩
  rw [h.2.1, hidx]
  rfl

/-! ## C8: switching the current channel -/

theorem channelsSetCurrent_eq (d : DrawList) (idx : Int) (ch : DrawChannel)
    (hcur : 0 ≤ d._ChannelsCurrent ∧ d._ChannelsCurrent < d._Channels.length)
    (hidx : 0 ≤ idx) (hne : d._ChannelsCurrent ≠ idx)
    (hget : d._Channels[idx.toNat]? = some ch) :
    ChannelsSetCurrent d idx = some { d with
      _Channels := d._Channels.set d._ChannelsCurrent.toNat
        { CmdBuffer := d.CmdBuffer, IdxBuffer := d.IdxBuffer }
      _ChannelsCurrent := idx
      CmdBuffer := ch.CmdBuffer
      IdxBuffer := ch.IdxBuffer
      _IdxWritePtr := ch.IdxBuffer.length } := by
  have hne' : d._ChannelsCurrent.toNat ≠ idx.toNat := by omega
  unfold ChannelsSetCurrent
  simp only [hne, if_false, hcur, and_self, if_true, hidx]
  rw [List.getElem?_set_ne hne', hget]

/-- C8, counterexample: `exampleCurrentOne` has two channels and channel 1 is
current.  The channel number -1 is below `len(_Channels)` and is not the
current channel, yet `ChannelsSetCurrent(-1)` panics: line 849 indexes
`_Channels` at -1. -/
theorem C8_negative_channel_number_panics :
    (0 ≤ exampleCurrentOne._ChannelsCurrent ∧
      exampleCurrentOne._ChannelsCurrent < exampleCurrentOne._Channels.length) ∧
    ((-1 : Int) < exampleCurrentOne._Channels.length ∧
      (-1 : Int) ≠ exampleCurrentOne._ChannelsCurrent) ∧
    ChannelsSetCurrent exampleCurrentOne (-1) = none := by
  decide

/-- C8, amended: in a draw list whose current channel number indexes `_Channels`
(`0 ≤ _ChannelsCurrent < len(_Channels)`), for every `idx` with
`0 ≤ idx < len(_Channels)` other than the current channel,
`ChannelsSetCurrent idx` returns, the old channel's storage then holds the
previously live `CmdBuffer` and `IdxBuffer`, the live buffers are those
previously stored in `_Channels[idx]`, `_ChannelsCurrent = idx` and
`_IdxWritePtr = len(IdxBuffer)`; `ChannelsSetCurrent _ChannelsCurrent` changes
nothing; and switching to any channel `j` with `0 ≤ j < len(_Channels)` and
back to the original channel restores the live `CmdBuffer` and `IdxBuffer`
exactly. -/
theorem C8_channels_set_current_swaps (d : DrawList)
    (hcur : 0 ≤ d._ChannelsCurrent ∧ d._ChannelsCurrent < d._Channels.length) :
    (∀ idx : Int, 0 ≤ idx → idx < d._Channels.length → idx ≠ d._ChannelsCurrent →
      ∃ d' ch, ChannelsSetCurrent d idx = some d' ∧ d._Channels[idx.toNat]? = some ch ∧
        d'._Channels[d._ChannelsCurrent.toNat]?
          = some { CmdBuffer := d.CmdBuffer, IdxBuffer := d.IdxBuffer } ∧
        d'.CmdBuffer = ch.CmdBuffer ∧ d'.IdxBuffer = ch.IdxBuffer ∧
        d'._ChannelsCurrent = idx ∧ d'._IdxWritePtr = d'.IdxBuffer.length) ∧
    ChannelsSetCurrent d d._ChannelsCurrent = some d ∧
    (∀ j : Int, 0 ≤ j → j < d._Channels.length →
      ∃ d1 d2, ChannelsSetCurrent d j = some d1 ∧
        ChannelsSetCurrent d1 d._ChannelsCurrent = some d2 ∧
        d2.CmdBuffer = d.CmdBuffer ∧ d2.IdxBuffer = d.IdxBuffer) := by
  have hcurNat : d._ChannelsCurrent.toNat < d._Channels.length := by omega
  have step : ∀ idx : Int, 0 ≤ idx → idx < d._Channels.length → idx ≠ d._ChannelsCurrent →
      ∃ d' ch, ChannelsSetCurrent d idx = some d' ∧ d._Channels[idx.toNat]? = some ch ∧
        d'._Channels = d._Channels.set d._ChannelsCurrent.toNat
          { CmdBuffer := d.CmdBuffer, IdxBuffer := d.IdxBuffer } ∧
        d'.CmdBuffer = ch.CmdBuffer ∧ d'.IdxBuffer = ch.IdxBuffer ∧
        d'._ChannelsCurrent = idx ∧ d'._IdxWritePtr = d'.IdxBuffer.length := by
    intro idx h0 hidx hne
    have hidxNat : idx.toNat < d._Channels.length := by omega
    obtain ⟨ch, hget⟩ : ∃ ch, d._Channels[idx.toNat]? = some ch :=
      ⟨d._Channels.get ⟨idx.toNat, hidxNat⟩, by simp [List.getElem?_eq_getElem hidxNat]⟩
    have h := channelsSetCurrent_eq d idx ch hcur h0 (fun e => hne e.symm) hget
    exact ⟨_, ch, h, hget, rfl, rfl, rfl, rfl, rfl⟩
  refine ⟨?_, by simp [ChannelsSetCurrent], ?_⟩
  · intro idx h0 hidx hne
    obtain ⟨d', ch, h1, h2, h3, h4, h5, h6, h7⟩ := step idx h0 hidx hne
    exact ⟨d', ch, h1, h2, by rw [h3, List.getElem?_set_self hcurNat], h4, h5, h6, h7⟩
  · intro j h0 hj
    by_cases hjc : j = d._ChannelsCurrent
    · subst hjc
      exact ⟨d, d, by simp [ChannelsSetCurrent], by simp [ChannelsSetCurrent], rfl, rfl⟩
    · obtain ⟨d1, ch, h1, _, h3, _, _, h6, _⟩ := step j h0 hj hjc
      have hlt : 0 ≤ d1._ChannelsCurrent ∧ d1._ChannelsCurrent < d1._Channels.length := by
        rw [h6, h3, List.length_set]
        exact ⟨h0, hj⟩
      have hne1 : d1._ChannelsCurrent ≠ d._ChannelsCurrent := by rw [h6]; exact hjc
      have hback : d1._Channels[d._ChannelsCurrent.toNat]?
          = some { CmdBuffer := d.CmdBuffer, IdxBuffer := d.IdxBuffer } := by
        rw [h3, List.getElem?_set_self hcurNat]
      have h2 := channelsSetCurrent_eq d1 d._ChannelsCurrent _ hlt hcur.1 hne1 hback
      exact ⟨d1, _, h1, h2, rfl, rfl⟩

/-- C8 at `exampleCurrentOne`: switching from channel 1 to channel 0 brings
channel 0's buffers live and stores channel 1's, and switching back restores
them. -/
theorem C8_channels_set_current_swaps_witness :
    (0 ≤ exampleCurrentOne._ChannelsCurrent ∧
      exampleCurrentOne._ChannelsCurrent < exampleCurrentOne._Channels.length) ∧
    (∃ d' ch, ChannelsSetCurrent exampleCurrentOne 0 = some d' ∧
      exampleCurrentOne._Channels[0]? = some ch ∧
      d'._Channels[1]? = some { CmdBuffer := exampleCurrentOne.CmdBuffer,
                                IdxBuffer := exampleCurrentOne.IdxBuffer } ∧
      d'.CmdBuffer = ch.CmdBuffer ∧ d'.IdxBuffer = ch.IdxBuffer ∧
      d'._ChannelsCurrent = 0 ∧ d'._IdxWritePtr = d'.IdxBuffer.length) ∧
    (∃ d1 d2, ChannelsSetCurrent exampleCurrentOne 0 = some d1 ∧
      ChannelsSetCurrent d1 1 = some d2 ∧
      d2.CmdBuffer = exampleCurrentOne.CmdBuffer ∧
      d2.IdxBuffer = exampleCurrentOne.IdxBuffer) := by
  have h := C8_channels_set_current_swaps exampleCurrentOne (by decide)
  exact ⟨by decide, h.1 0 (by decide) (by decide) (by decide), h.2.2 0 (by decide) (by decide)⟩

/-! ## C9: a fully transparent line -/

/-- C9: for every draw list, endpoints, thickness and colour with alpha 0,
`AddLineEx` and `AddLine` return the draw list unchanged, so `VtxBuffer`,
`IdxBuffer`, `CmdBuffer` and the path buffer are exactly as before. -/
theorem C9_zero_alpha_line_adds_nothing (d : DrawList) (a b : Vec2) (col : RGBA)
    (thickness : ℚ) (hA : col.A = 0) :
    AddLineEx d a b col thickness = d ∧ AddLine d a b col = d ∧
    (AddLineEx d a b col thickness).VtxBuffer = d.VtxBuffer ∧
    (AddLineEx d a b col thickness).IdxBuffer = d.IdxBuffer ∧
    (AddLineEx d a b col thickness).CmdBuffer = d.CmdBuffer ∧
    (AddLineEx d a b col thickness)._Path = d._Path := by
  have h : AddLineEx d a b col thickness = d := by simp [AddLineEx, hA]
  have h1 : AddLine d a b col = d := by simp [AddLine, AddLineEx, hA]
  rw [h]
  exact ⟨rfl, h1, rfl, rfl, rfl, rfl⟩

/-- C9 at `exampleGeom`: a transparent red line from (1, 1) to (5, 5). -/
theorem C9_zero_alpha_line_adds_nothing_witness :
    AddLineEx exampleGeom { X := 1, Y := 1 } { X := 5, Y := 5 }
      { R := 255, G := 0, B := 0, A := 0 } 2 = exampleGeom ∧
    AddLine exampleGeom { X := 1, Y := 1 } { X := 5, Y := 5 }
      { R := 255, G := 0, B := 0, A := 0 } = exampleGeom := by
  have h := C9_zero_alpha_line_adds_nothing exampleGeom { X := 1, Y := 1 } { X := 5, Y := 5 }
    { R := 255, G := 0, B := 0, A := 0 } 2 rfl
  exact ⟨h.1, h.2.1⟩

/-! ## C10: a click on a default-policy item -/

/-- C10: for the enabled default-policy item 42 under the mouse in
`exampleContext`, a left click over three frames (`k = 2`) and one over two
frames (`k = 1`) yield `pressed = false` on every frame, the mouse-up frame
included, so `pressed = true` is reported zero times and not once:
`ButtonBehavior` normalises the policy flags for "click and release on the same
spot" (lines 105-112) and then never reads them nor assigns its results. -/
theorem C10_click_reports_no_press :
    pressedPerFrame exampleContext exampleButton 42 0 exampleClick = [false, false, false] ∧
    (pressedPerFrame exampleContext exampleButton 42 0 exampleClick).count true ≠ 1 ∧
    pressedPerFrame exampleContext exampleButton 42 0 exampleQuickClick = [false, false] := by
  decide

/-- The results of `ButtonBehavior` are never assigned: they are false for every
context, rectangle, identifier and flags, on every frame of every mouse
sequence. -/
theorem buttonBehavior_results_false (c : Context) (bb : Rectangle) (id : ID)
    (flags : ButtonFlags) (frames : List MouseFrame) :
    (ButtonBehavior c bb id flags).pressed = false ∧
    (ButtonBehavior c bb id flags).outHovered = false ∧
    (ButtonBehavior c bb id flags).outHeld = false ∧
    pressedPerFrame c bb id flags frames = List.replicate frames.length false := by
  have h : ∀ (c : Context), (ButtonBehavior c bb id flags).pressed = false := by
    intro c
    unfold ButtonBehavior
    split <;> rfl
  refine ⟨h c, ?_, ?_, ?_⟩
  · unfold ButtonBehavior
    split <;> rfl
  · unfold ButtonBehavior
    split <;> rfl
  · induction frames generalizing c with
    | nil => rfl
    | cons m rest ih =>
      simp only [pressedPerFrame, List.length_cons, List.replicate_succ]
      rw [h, ih]

/-! ## C11: a disabled item -/

/-- C11: for every context, rectangle and identifier, `ButtonBehavior` called
with the `ButtonFlagsDisabled` bit set returns `hovered = held = pressed = false`;
the context it leaves is `ClearActiveID c` when `ActiveId` equals the identifier
and the unchanged context otherwise; `HoveredId` and `HoveredWindow` are as
before, and `ActiveId` is 0 or its old value, never a new claim by the item. -/
theorem C11_disabled_item_is_inert (c : Context) (bb : Rectangle) (id : ID)
    (flags : ButtonFlags) (hdis : flags &&& ButtonFlagsDisabled ≠ 0) :
    (ButtonBehavior c bb id flags).outHovered = false ∧
    (ButtonBehavior c bb id flags).outHeld = false ∧
    (ButtonBehavior c bb id flags).pressed = false ∧
    (c.ActiveId = id → (ButtonBehavior c bb id flags).ctx = ClearActiveID c) ∧
    (c.ActiveId ≠ id → (ButtonBehavior c bb id flags).ctx = c) ∧
    (ButtonBehavior c bb id flags).ctx.HoveredId = c.HoveredId ∧
    (ButtonBehavior c bb id flags).ctx.HoveredWindow = c.HoveredWindow ∧
    (ButtonBehavior c bb id flags).ctx.ActiveId = (if c.ActiveId = id then 0 else c.ActiveId) ∧
    (id ≠ 0 → (ButtonBehavior c bb id flags).ctx.ActiveId ≠ id) := by
  have h : ButtonBehavior c bb id flags =
      { ctx := if c.ActiveId = id then ClearActiveID c else c,
        outHovered := false, outHeld := false, pressed := false } := by
    unfold ButtonBehavior
    rw [if_pos hdis]
  rw [h]
  by_cases ha : c.ActiveId = id
  · rw [if_pos ha, if_pos ha]
    exact ⟨rfl, rfl, rfl, fun _ => rfl, fun hne => absurd ha hne, rfl, rfl, rfl,
      fun h0 e => h0 (Eq.symm e)⟩
  · rw [if_neg ha, if_neg ha]
    exact ⟨rfl, rfl, rfl, fun e => absurd e ha, fun _ => rfl, rfl, rfl, rfl, fun _ => ha⟩

/-- C11 at `exampleContext` with item 42 active: the disabled item 42 is not
hovered, held or pressed, and no item is active afterwards. -/
theorem C11_disabled_item_is_inert_witness :
    ButtonFlagsDisabled &&& ButtonFlagsDisabled ≠ 0 ∧
    (ButtonBehavior { exampleContext with ActiveId := 42 } exampleButton 42
      ButtonFlagsDisabled).pressed = false ∧
    (ButtonBehavior { exampleContext with ActiveId := 42 } exampleButton 42
      ButtonFlagsDisabled).ctx.ActiveId = 0 := by
  have h := C11_disabled_item_is_inert { exampleContext with ActiveId := 42 } exampleButton 42
    ButtonFlagsDisabled (by decide)
  exact ⟨by decide, h.2.2.1, h.2.2.2.2.2.2.2.1⟩

/-! ## C12, C16: the end of the frame -/

theorem endFrame_ended (E : Env) (c c' : Context) (h : EndFrame E c = some c') :
    c'.FrameCountEnded = c'.FrameCount := by
  unfold EndFrame at h
  split at h
  · rename_i heq
    injection h with h
    rw [← h]
    exact heq
  · simp only [] at h
    split at h
    · cases h
    · split at h
      · cases h
      · injection h with h
        rw [← h]

theorem endFrame_cleared (E : Env) (c c' : Context) (hne : c.FrameCountEnded ≠ c.FrameCount)
    (h : EndFrame E c = some c') :
    ∃ c0 : Context, c' = { endFrameClearInput c0 with
      FrameCountEnded := (endFrameClearInput c0).FrameCount } := by
  unfold EndFrame at h
  rw [if_neg hne] at h
  simp only [] at h
  split at h
  · cases h
  · split at h
    · cases h
    · injection h with h
      exact ⟨_, h.symm⟩

/-- C12: whenever `EndFrame` returns a state, calling it again on that state
returns the same state: after the first call `FrameCountEnded = FrameCount`, so
the second call returns at once. -/
theorem C12_end_frame_idempotent (E : Env) (c c' : Context) (h : EndFrame E c = some c') :
    EndFrame E c' = some c' ∧ c'.FrameCountEnded = c'.FrameCount := by
  have he := endFrame_ended E c c' h
  refine ⟨?_, he⟩
  unfold EndFrame
  rw [if_pos he]

/-- C12 at `exampleFrame` (frame 5, not yet ended): the first `EndFrame` returns
a state with `FrameCountEnded = 5`, and the second leaves it as it is. -/
theorem C12_end_frame_idempotent_witness :
    ∃ c', EndFrame exampleEnv exampleFrame = some c' ∧ EndFrame exampleEnv c' = some c' ∧
      c'.FrameCountEnded = 5 := by
  have hs : (EndFrame exampleEnv exampleFrame).isSome = true := by decide
  obtain ⟨c', hc'⟩ := Option.isSome_iff_exists.mp hs
  have h := C12_end_frame_idempotent exampleEnv exampleFrame c' hc'
  have h5 : (EndFrame exampleEnv exampleFrame).map (fun c => c.FrameCountEnded) = some 5 := by
    decide
  rw [hc'] at h5
  exact ⟨c', hc', h.1, by simpa using h5⟩

/-- C16: whenever `EndFrame` runs for a frame not yet ended and returns, the
wheel deltas are 0 and every entry of `InputCharacters` and of `NavInputs` is 0
(the buffers keep their lengths). -/
theorem C16_end_frame_clears_input (E : Env) (c c' : Context)
    (hne : c.FrameCountEnded ≠ c.FrameCount) (h : EndFrame E c = some c') :
    c'.Io.MouseWheel = 0 ∧ c'.Io.MouseWheelH = 0 ∧
    (∀ x ∈ c'.Io.InputCharacters, x = 0) ∧ (∀ x ∈ c'.Io.NavInputs, x = 0) := by
  obtain ⟨c0, hc0⟩ := endFrame_cleared E c c' hne h
  subst hc0
  refine ⟨rfl, rfl, ?_, ?_⟩
  · intro x hx
    simp only [endFrameClearInput, List.mem_map] at hx
    obtain ⟨_, _, hx⟩ := hx
    exact hx.symm
  · intro x hx
    simp only [endFrameClearInput, List.mem_map] at hx
    obtain ⟨_, _, hx⟩ := hx
    exact hx.symm

/-- C16 at `exampleFrame`, where the wheel was turned and input is pending: after
`EndFrame` the wheel deltas are 0 and both buffers hold zeros. -/
theorem C16_end_frame_clears_input_witness :
    exampleFrame.FrameCountEnded ≠ exampleFrame.FrameCount ∧
    exampleFrame.Io.MouseWheel = 3 ∧
    ∃ c', EndFrame exampleEnv exampleFrame = some c' ∧
      c'.Io.MouseWheel = 0 ∧ c'.Io.MouseWheelH = 0 ∧
      (∀ x ∈ c'.Io.InputCharacters, x = 0) ∧ (∀ x ∈ c'.Io.NavInputs, x = 0) := by
  have hs : (EndFrame exampleEnv exampleFrame).isSome = true := by decide
  obtain ⟨c', hc'⟩ := Option.isSome_iff_exists.mp hs
  exact ⟨by decide, by decide, c', hc',
    C16_end_frame_clears_input exampleEnv exampleFrame c' (by decide) hc'⟩

/-! ## C15: flattening the layers -/

/-- C15: for every draw data builder, with layers `l0` and `l1`, after
`FlattenIntoSingleLayer` layer 0 is `l0 ++ l1`, of length `len l0 + len l1`, and
layer 1 is empty. -/
theorem C15_flatten_into_single_layer (l0 l1 : List DrawListRef) :
    (DrawDataBuilder.FlattenIntoSingleLayer { Layers := [l0, l1] }).Layers = [l0 ++ l1, []] ∧
    ((DrawDataBuilder.FlattenIntoSingleLayer { Layers := [l0, l1] }).Layers.getD 0 []).length
      = l0.length + l1.length := by
  have h : (DrawDataBuilder.FlattenIntoSingleLayer { Layers := [l0, l1] }).Layers
      = [l0 ++ l1, []] := by
    simp [DrawDataBuilder.FlattenIntoSingleLayer, flattenStep, List.range']
  rw [h]
  simp

/-! ## C13, C14: rendering -/

theorem gatherFold_counters (E : Env) (hE : E.GatherKeepsCounters) (front : WindowRef)
    (l : List Nat) : ∀ st : GatherState,
    (l.foldl (renderGatherStep E front) st).ctx.FrameCount = st.ctx.FrameCount ∧
    (l.foldl (renderGatherStep E front) st).ctx.FrameCountEnded = st.ctx.FrameCountEnded ∧
    (l.foldl (renderGatherStep E front) st).ctx.FrameCountRendered
      = st.ctx.FrameCountRendered := by
  induction l with
  | nil => intro st; exact ⟨rfl, rfl, rfl⟩
  | cons w l ih =>
    intro st
    rw [List.foldl_cons]
    obtain ⟨a1, a2, a3⟩ := ih (renderGatherStep E front st w)
    have hstep : (renderGatherStep E front st w).ctx.FrameCount = st.ctx.FrameCount ∧
        (renderGatherStep E front st w).ctx.FrameCountEnded = st.ctx.FrameCountEnded ∧
        (renderGatherStep E front st w).ctx.FrameCountRendered = st.ctx.FrameCountRendered := by
      unfold renderGatherStep
      split
      · exact hE st.ctx w
      · exact ⟨rfl, rfl, rfl⟩
    exact ⟨a1.trans hstep.1, a2.trans hstep.2.1, a3.trans hstep.2.2⟩

theorem renderGather_counters (E : Env) (hE : E.GatherKeepsCounters) (c : Context) :
    (renderGather E c).ctx.FrameCount = c.FrameCount ∧
    (renderGather E c).ctx.FrameCountEnded = c.FrameCountEnded ∧
    (renderGather E c).ctx.FrameCountRendered = c.FrameCountRendered := by
  have hf := gatherFold_counters E hE (renderFrontMost E c) c.Windows { ctx := c, gathered := [] }
  unfold renderGather
  simp only []
  split
  · rename_i front _
    split
    · obtain ⟨b1, b2, b3⟩ := hE
        (c.Windows.foldl (renderGatherStep E (renderFrontMost E c))
          { ctx := c, gathered := [] }).ctx front
      exact ⟨b1.trans hf.1, b2.trans hf.2.1, b3.trans hf.2.2⟩
    · exact hf
  · exact hf

theorem renderAfterEndFrame_counters (E : Env) (hE : E.GatherKeepsCounters) (c : Context) :
    (renderAfterEndFrame E c).FrameCount = c.FrameCount ∧
    (renderAfterEndFrame E c).FrameCountEnded = c.FrameCountEnded ∧
    (renderAfterEndFrame E c).FrameCountRendered = c.FrameCount := by
  unfold renderAfterEndFrame
  simp only []
  obtain ⟨a1, a2, a3⟩ := renderGather_counters E hE
    { c with
      FrameCountRendered := c.FrameCount
      Io := { c.Io with
        MetricsRenderVertices := 0, MetricsRenderIndices := 0, MetricsActiveWindows := 0 }
      DrawDataBuilder := c.DrawDataBuilder.Clear }
  exact ⟨a1, a2, a3⟩

/-- C13: `Render` runs `EndFrame` exactly when the frame has not been ended on
entry (`FrameCountEnded != FrameCount`), and whenever it returns, with a
gathering collaborator that leaves the frame counters alone,
`FrameCountEnded = FrameCount` and `FrameCountRendered = FrameCount`. -/
theorem C13_render_ends_frame_once (E : Env) (c : Context) (hE : E.GatherKeepsCounters) :
    (c.FrameCountEnded = c.FrameCount → Render E c = some (renderAfterEndFrame E c)) ∧
    (c.FrameCountEnded ≠ c.FrameCount →
      Render E c = (EndFrame E c).map (renderAfterEndFrame E)) ∧
    (∀ c', Render E c = some c' →
      c'.FrameCountEnded = c'.FrameCount ∧ c'.FrameCountRendered = c'.FrameCount) := by
  refine ⟨?_, ?_, ?_⟩
  · intro h
    simp [Render, h]
  · intro h
    simp [Render, h]
  · intro c' h
    unfold Render at h
    simp only [Option.map_eq_some'] at h
    obtain ⟨c1, h1, h2⟩ := h
    have hended : c1.FrameCountEnded = c1.FrameCount := by
      split at h1
      · exact endFrame_ended E c c1 h1
      · rename_i hn
        injection h1 with h1
        rw [← h1]
        exact not_not.mp hn
    obtain ⟨a1, a2, a3⟩ := renderAfterEndFrame_counters E hE c1
    rw [← h2, a1, a2, a3]
    exact ⟨hended, rfl⟩

/-- C13 at `exampleFrontMost` (frame 5, not yet ended): `Render` ends the frame
and returns with both counters at 5. -/
theorem C13_render_ends_frame_once_witness :
    exampleEnv.GatherKeepsCounters ∧
    exampleFrontMost.FrameCountEnded ≠ exampleFrontMost.FrameCount ∧
    ∃ c', Render exampleEnv exampleFrontMost = some c' ∧
      c'.FrameCount = 5 ∧ c'.FrameCountEnded = c'.FrameCount ∧
      c'.FrameCountRendered = c'.FrameCount := by
  have hE : exampleEnv.GatherKeepsCounters := fun _ _ => ⟨rfl, rfl, rfl⟩
  have h := C13_render_ends_frame_once exampleEnv exampleFrontMost hE
  have hs : (Render exampleEnv exampleFrontMost).isSome = true := by decide
  obtain ⟨c', hc'⟩ := Option.isSome_iff_exists.mp hs
  have h5 : (Render exampleEnv exampleFrontMost).map (fun c => c.FrameCount) = some 5 := by
    decide
  rw [hc'] at h5
  exact ⟨hE, by decide, c', hc', by simpa using h5, h.2.2 c' hc'⟩

theorem gatherFold_spec (E : Env) (hE : E.GatherKeepsWindows) (c : Context) (front : WindowRef)
    (l : List Nat) : ∀ st : GatherState,
    (∀ v, (st.ctx.Heap v).Active = (c.Heap v).Active ∧
      (st.ctx.Heap v).HiddenFrames = (c.Heap v).HiddenFrames ∧
      (st.ctx.Heap v).Flags = (c.Heap v).Flags) →
    (l.foldl (renderGatherStep E front) st).gathered
      = st.gathered ++ l.filter (gatherTest E c front) ∧
    (l.foldl (renderGatherStep E front) st).ctx
      = (l.filter (gatherTest E c front)).foldl E.AddWindowToDrawDataSelectLayer st.ctx ∧
    (∀ v, ((l.foldl (renderGatherStep E front) st).ctx.Heap v).Active = (c.Heap v).Active ∧
      ((l.foldl (renderGatherStep E front) st).ctx.Heap v).HiddenFrames
        = (c.Heap v).HiddenFrames ∧
      ((l.foldl (renderGatherStep E front) st).ctx.Heap v).Flags = (c.Heap v).Flags) := by
  induction l with
  | nil => intro st hst; exact ⟨by simp, rfl, hst⟩
  | cons w l ih =>
    intro st hst
    rw [List.foldl_cons]
    by_cases ht : gatherTest E c front w = true
    · have hcond : (st.ctx.Heap w).Active ∧ (st.ctx.Heap w).HiddenFrames ≤ 0 ∧
          (st.ctx.Heap w).Flags &&& E.WindowFlagsChildWindow = 0 ∧ some w ≠ front := by
        obtain ⟨a1, a2, a3⟩ := hst w
        rw [a1, a2, a3]
        simpa [gatherTest] using ht
      have hstep : renderGatherStep E front st w =
          { ctx := E.AddWindowToDrawDataSelectLayer st.ctx w, gathered := st.gathered ++ [w] } := by
        unfold renderGatherStep
        rw [if_pos hcond]
      rw [hstep]
      obtain ⟨b1, b2, b3⟩ := ih
        { ctx := E.AddWindowToDrawDataSelectLayer st.ctx w, gathered := st.gathered ++ [w] }
        (fun v => by
          obtain ⟨e1, e2, e3⟩ := hE st.ctx w v
          obtain ⟨a1, a2, a3⟩ := hst v
          exact ⟨e1.trans a1, e2.trans a2, e3.trans a3⟩)
      refine ⟨?_, ?_, b3⟩
      · rw [b1, List.filter_cons_of_pos ht]
        simp
      · rw [b2, List.filter_cons_of_pos ht, List.foldl_cons]
    · have hcond : ¬ ((st.ctx.Heap w).Active ∧ (st.ctx.Heap w).HiddenFrames ≤ 0 ∧
          (st.ctx.Heap w).Flags &&& E.WindowFlagsChildWindow = 0 ∧ some w ≠ front) := by
        obtain ⟨a1, a2, a3⟩ := hst w
        rw [a1, a2, a3]
        simpa [gatherTest] using ht
      have hstep : renderGatherStep E front st w = st := by
        unfold renderGatherStep
        rw [if_neg hcond]
      rw [hstep]
      obtain ⟨b1, b2, b3⟩ := ih st hst
      refine ⟨?_, ?_, b3⟩
      · rw [b1, List.filter_cons_of_neg ht]
      · rw [b2, List.filter_cons_of_neg ht]

/-- C14: with a gathering collaborator that leaves the windows' `Active`,
`HiddenFrames` and `Flags` alone, the windows that the loop of `Render` hands to
`AddWindowToDrawDataSelectLayer` are, in call order, the windows of the `Windows`
list that are active, not hidden, not child windows and not the front-most
target, in list order, followed by the front-most target when it is active and
not hidden, and no other; the context after the loop is the result of exactly
these calls; and when the `Windows` list holds each window once, each gathered
window is gathered once. -/
theorem C14_render_gather_order (E : Env) (c : Context) (hE : E.GatherKeepsWindows) :
    (renderGather E c).gathered
      = c.Windows.filter (gatherTest E c (renderFrontMost E c))
        ++ gatherFront c (renderFrontMost E c) ∧
    (renderGather E c).ctx
      = (renderGather E c).gathered.foldl E.AddWindowToDrawDataSelectLayer c ∧
    (c.Windows.Nodup → (renderGather E c).gathered.Nodup) := by
  obtain ⟨f1, f2, f3⟩ := gatherFold_spec E hE c (renderFrontMost E c) c.Windows
    { ctx := c, gathered := [] } (fun _ => ⟨rfl, rfl, rfl⟩)
  simp only [List.nil_append] at f1
  have hg : (renderGather E c).gathered
      = c.Windows.filter (gatherTest E c (renderFrontMost E c))
        ++ gatherFront c (renderFrontMost E c) ∧
      (renderGather E c).ctx
        = (c.Windows.filter (gatherTest E c (renderFrontMost E c))
            ++ gatherFront c (renderFrontMost E c)).foldl
              E.AddWindowToDrawDataSelectLayer c := by
    unfold renderGather gatherFront
    simp only []
    split
    · rename_i front hfront
      obtain ⟨a1, a2, _⟩ := f3 front
      rw [a1, a2]
      split
      · exact ⟨by rw [f1], by rw [f2, List.foldl_append]; rfl⟩
      · exact ⟨by rw [f1, List.append_nil], by rw [f2, List.append_nil]⟩
    · exact ⟨by rw [f1, List.append_nil], by rw [f2, List.append_nil]⟩
  refine ⟨hg.1, by rw [hg.2, hg.1], ?_⟩
  intro hnd
  rw [hg.1]
  refine List.Nodup.append (hnd.filter _) ?_ ?_
  · unfold gatherFront
    split
    · split
      · exact List.nodup_singleton _
      · exact List.nodup_nil
    · exact List.nodup_nil
  · intro x hx hy
    unfold gatherFront at hy
    split at hy
    · rename_i front
      split at hy
      · simp only [List.mem_singleton] at hy
        subst hy
        have ht := (List.mem_filter.mp hx).2
        simp only [gatherTest, decide_eq_true_eq] at ht
        exact ht.2.2.2 front.symm
      · cases hy
    · cases hy

/-- C14 at `exampleFrontMost`, where windows 1 and 2 are top-level and active,
window 3 is a child window and window 1 is the front-most target: window 2 is
gathered first and window 1 last. -/
theorem C14_render_gather_order_witness :
    exampleEnv.GatherKeepsWindows ∧ exampleFrontMost.Windows = [1, 2, 3] ∧
    (renderGather exampleEnv exampleFrontMost).gathered = [2, 1] ∧
    (renderGather exampleEnv exampleFrontMost).gathered.Nodup := by
  have hE : exampleEnv.GatherKeepsWindows := fun _ _ _ => ⟨rfl, rfl, rfl⟩
  have h := C14_render_gather_order exampleEnv exampleFrontMost hE
  exact ⟨hE, rfl, h.1.trans (by decide), h.2.2 (by decide)⟩

/-! ## C19: the result of `BeginEx` -/

@[simp] theorem setWin_heap_same (c : Context) (w : Nat) (x : Window) :
    (c.setWin w x).Heap w = x := by
  simp [Context.setWin]

@[simp] theorem setWin_style (c : Context) (w : Nat) (x : Window) :
    (c.setWin w x).Style = c.Style := rfl

theorem beginFinish_spec (E : Env) (s : BeginState) :
    ((beginFinish E s).ctx.Heap (beginFinish E s).window).SkipItems
      = !(beginFinish E s).result ∧
    ((beginFinish E s).result = false ↔
      ((((beginFinish E s).ctx.Heap (beginFinish E s).window).Collapsed = true ∨
        ((beginFinish E s).ctx.Heap (beginFinish E s).window).Active = false) ∧
      ((beginFinish E s).ctx.Heap (beginFinish E s).window).AutoFitFramesX ≤ 0 ∧
      ((beginFinish E s).ctx.Heap (beginFinish E s).window).AutoFitFramesY ≤ 0)) ∧
    ((beginFinish E s).flags &&& E.WindowFlagsChildWindow ≠ 0 →
      (beginFinish E s).flags &&& E.WindowFlagsAlwaysAutoResize = 0 →
      ((beginFinish E s).ctx.Heap (beginFinish E s).window).AutoFitFramesX ≤ 0 →
      ((beginFinish E s).ctx.Heap (beginFinish E s).window).AutoFitFramesY ≤ 0 →
      (((beginFinish E s).ctx.Heap (beginFinish E s).window).WindowRectClipped.Min.X ≥
          ((beginFinish E s).ctx.Heap (beginFinish E s).window).WindowRectClipped.Max.X ∨
        ((beginFinish E s).ctx.Heap (beginFinish E s).window).WindowRectClipped.Min.Y ≥
          ((beginFinish E s).ctx.Heap (beginFinish E s).window).WindowRectClipped.Max.Y) →
      ((beginFinish E s).ctx.Heap (beginFinish E s).window).Collapsed = true ∧
      ((beginFinish E s).ctx.Heap (beginFinish E s).window).Active = false ∧
      (beginFinish E s).result = false) := by
  unfold beginFinish
  simp only []
  split_ifs <;> simp_all <;>
    (cases (s.ctx.Heap s.window).Collapsed <;> simp [and_assoc])

/-- C19: whenever `BeginEx` returns, `window.SkipItems` is the negation of the
returned value; the returned value is false exactly when the window is then
collapsed or not active while `AutoFitFramesX <= 0` and `AutoFitFramesY <= 0`;
and a window begun as a child window (effective flags with `ChildWindow`, without
`AlwaysAutoResize`), with no auto-fit frames pending and an empty clipped
rectangle, is collapsed and inactive and `BeginEx` returns false. -/
theorem C19_begin_result_is_not_skip (E : Env) (c : Context) (name : String)
    (p_open : Option Bool) (flags : WindowFlags) (r : BeginResult)
    (h : BeginEx E c name p_open flags = some r) :
    (r.ctx.Heap r.window).SkipItems = !r.result ∧
    (r.result = false ↔
      (((r.ctx.Heap r.window).Collapsed = true ∨ (r.ctx.Heap r.window).Active = false) ∧
      (r.ctx.Heap r.window).AutoFitFramesX ≤ 0 ∧ (r.ctx.Heap r.window).AutoFitFramesY ≤ 0)) ∧
    (r.flags &&& E.WindowFlagsChildWindow ≠ 0 →
      r.flags &&& E.WindowFlagsAlwaysAutoResize = 0 →
      (r.ctx.Heap r.window).AutoFitFramesX ≤ 0 →
      (r.ctx.Heap r.window).AutoFitFramesY ≤ 0 →
      ((r.ctx.Heap r.window).WindowRectClipped.Min.X ≥
          (r.ctx.Heap r.window).WindowRectClipped.Max.X ∨
        (r.ctx.Heap r.window).WindowRectClipped.Min.Y ≥
          (r.ctx.Heap r.window).WindowRectClipped.Max.Y) →
      (r.ctx.Heap r.window).Collapsed = true ∧ (r.ctx.Heap r.window).Active = false ∧
      r.result = false) := by
  unfold BeginEx at h
  simp only [Option.map_eq_some'] at h
  obtain ⟨s, _, hs⟩ := h
  subst hs
  exact beginFinish_spec E s

/-- C19 at `exampleClippedChild`: beginning the child window, whose clipped
rectangle is empty, returns false and leaves it collapsed, inactive and
skipping its items. -/
theorem C19_begin_result_is_not_skip_witness :
    ∃ r, BeginEx exampleEnv exampleClippedChild "Child" none (1 <<< 24) = some r ∧
      r.window = 3 ∧ r.result = false ∧ (r.ctx.Heap r.window).SkipItems = true ∧
      (r.ctx.Heap r.window).Collapsed = true ∧ (r.ctx.Heap r.window).Active = false := by
  have hs : (BeginEx exampleEnv exampleClippedChild "Child" none (1 <<< 24)).isSome = true := by
    decide
  obtain ⟨r, hr⟩ := Option.isSome_iff_exists.mp hs
  have hpre : (BeginEx exampleEnv exampleClippedChild "Child" none (1 <<< 24)).map
      (fun r => decide (r.window = 3 ∧
        r.flags &&& exampleEnv.WindowFlagsChildWindow ≠ 0 ∧
        r.flags &&& exampleEnv.WindowFlagsAlwaysAutoResize = 0 ∧
        (r.ctx.Heap r.window).AutoFitFramesX ≤ 0 ∧
        (r.ctx.Heap r.window).AutoFitFramesY ≤ 0 ∧
        (r.ctx.Heap r.window).WindowRectClipped.Min.X ≥
          (r.ctx.Heap r.window).WindowRectClipped.Max.X)) = some true := by
    decide
  rw [hr] at hpre
  simp only [Option.map_some', Option.some.injEq, decide_eq_true_eq] at hpre
  obtain ⟨p0, p1, p2, p3, p4, p5⟩ := hpre
  have h := C19_begin_result_is_not_skip exampleEnv exampleClippedChild "Child" none (1 <<< 24)
    r hr
  obtain ⟨q1, q2, q3⟩ := h.2.2 p1 p2 p3 p4 (Or.inl p5)
  refine ⟨r, hr, p0, q3, ?_, q1, q2⟩
  rw [h.1, q3]
  rfl

/-! ## C17, C18: finding, creating and re-entering a window -/

theorem beginEx_needs_size_directive (E : Env) (c : Context) (name : String)
    (p_open : Option Bool) (flags : WindowFlags)
    (hfind : E.FindWindowByName c name = none) (hsize : c.NextWindowData.SizeCond = 0) :
    BeginEx E c name p_open flags = none := by
  have h : beginFindOrCreate E c name flags = (c, none) := by
    unfold beginFindOrCreate
    rw [hfind]
    simp [hsize]
  unfold BeginEx beginSetup
  rw [h]
  rfl

/-- C17: in `exampleNoWindow` no window is named "Fresh" and no size directive is
pending (`SizeCond = 0`): `BeginEx` creates no window and panics on the nil
window at line 429.  With a size directive pending (`exampleSizePending`) the
same call creates the window and returns. -/
theorem C17_begin_without_size_directive_panics :
    exampleEnv.FindWindowByName exampleNoWindow "Fresh" = none ∧
    exampleNoWindow.NextWindowData.SizeCond = 0 ∧
    BeginEx exampleEnv exampleNoWindow "Fresh" none 0 = none ∧
    (BeginEx exampleEnv exampleSizePending "Fresh" none 0).map
      (fun r => (r.ctx.Heap r.window).Name) = some "Fresh" :=
  ⟨rfl, rfl, beginEx_needs_size_directive exampleEnv exampleNoWindow "Fresh" none 0 rfl rfl,
    by decide⟩

/-- C18: in `exampleFrame` window 2 ("Tools") is begun with flags `NoResize` and
then, in the same frame, begun again with flags `NoMove`.  After the first call
its flags are `NoResize`; the second call is treated as the first begin of the
frame again (`LastFrameActive` is never updated) and overwrites the flags with
`NoMove`. -/
theorem C18_second_begin_overwrites_flags :
    (BeginEx exampleEnv exampleFrame "Tools" none exampleEnv.WindowFlagsNoResize).map
      (fun r => (r.ctx.Heap 2).Flags) = some exampleEnv.WindowFlagsNoResize ∧
    ((BeginEx exampleEnv exampleFrame "Tools" none exampleEnv.WindowFlagsNoResize).bind
      (fun r => beginSetup exampleEnv r.ctx "Tools" none exampleEnv.WindowFlagsNoMove)).map
      (fun s => s.first_begin_of_the_frame) = some true ∧
    ((BeginEx exampleEnv exampleFrame "Tools" none exampleEnv.WindowFlagsNoResize).bind
      (fun r => BeginEx exampleEnv r.ctx "Tools" none exampleEnv.WindowFlagsNoMove)).map
      (fun r => (r.ctx.Heap 2).Flags) = some exampleEnv.WindowFlagsNoMove := by
  decide

/-! ## C20: ending a window -/

theorem popClipRect_keeps (c c1 : Context) (h : c.PopClipRect = some c1) :
    c1.CurrentWindowStack = c.CurrentWindowStack ∧
    c1.CurrentPopupStack = c.CurrentPopupStack ∧
    ∀ v, (c1.Heap v).Flags = (c.Heap v).Flags := by
  unfold Context.PopClipRect at h
  split at h
  · cases h
  · rename_i w _
    split at h
    · cases h
    · injection h with h
      subst h
      refine ⟨rfl, rfl, ?_⟩
      intro v
      by_cases hv : v = w
      · subst hv
        simp [Context.setWin]
      · simp [Context.setWin, Function.update_noteq hv]

theorem popClipRect_returns (c : Context) (w : Nat) (hw : c.CurrentWindow = some w)
    (hne : (c.Heap w).DrawList._ClipRectStack ≠ []) : ∃ c1, c.PopClipRect = some c1 := by
  unfold Context.PopClipRect GetCurrentWindow
  rw [hw]
  simp [ImGui.PopClipRect, hne]

/-- C20, counterexample: in `examplePopupEnd` the window stack holds the window
being built and its clip-rectangle stack is not empty, yet `End` panics: the
window is a popup window and the current popup stack is empty (line 708). -/
theorem C20_end_of_popup_without_popup_scope_panics :
    examplePopupEnd.CurrentWindowStack ≠ [] ∧
    (examplePopupEnd.Heap 1).DrawList._ClipRectStack ≠ [] ∧
    examplePopupEnd.CurrentWindow = some 1 ∧
    End exampleEnv examplePopupEnd = none :=
  ⟨by decide, by decide, rfl, rfl⟩

/-- C20, amended: with collaborators `EndColumns` and `LogFinish` that leave the
scopes alone, `End` panics for every context whose `CurrentWindowStack` is
empty; and for every context with a current window, a non-empty window stack, a
non-empty clip-rectangle stack on that window's draw list and, when the window
is a popup window, a non-empty current popup stack, `End` returns, removes
exactly the top entry from `CurrentWindowStack` and makes `CurrentWindow` the new
top of the stack, or nil when the stack has become empty. -/
theorem C20_end_pops_window (E : Env) (c : Context)
    (hEC : KeepsScopes E.EndColumns) (hLF : KeepsScopes E.LogFinish) :
    (c.CurrentWindowStack = [] → End E c = none) ∧
    (∀ w, c.CurrentWindow = some w → c.CurrentWindowStack ≠ [] →
      (c.Heap w).DrawList._ClipRectStack ≠ [] →
      ((c.Heap w).Flags &&& E.WindowFlagsPopup ≠ 0 → c.CurrentPopupStack ≠ []) →
      ∃ c', End E c = some c' ∧
        c'.CurrentWindowStack = c.CurrentWindowStack.dropLast ∧
        c'.CurrentWindow = (match c.CurrentWindowStack.dropLast.getLast? with
          | some top => top
          | none => none)) := by
  have hcols : ∀ (b : Prop) [Decidable b] (c : Context),
      (if b then E.EndColumns c else c).CurrentWindow = c.CurrentWindow ∧
      (if b then E.EndColumns c else c).CurrentWindowStack = c.CurrentWindowStack ∧
      (if b then E.EndColumns c else c).CurrentPopupStack = c.CurrentPopupStack ∧
      ∀ v, ((if b then E.EndColumns c else c).Heap v).Flags = (c.Heap v).Flags ∧
        ((if b then E.EndColumns c else c).Heap v).DrawList._ClipRectStack
          = (c.Heap v).DrawList._ClipRectStack := by
    intro b _ c
    split
    · exact hEC c
    · exact ⟨rfl, rfl, rfl, fun _ => ⟨rfl, rfl⟩⟩
  have hlog : ∀ (b : Prop) [Decidable b] (c : Context),
      (if b then E.LogFinish c else c).CurrentWindowStack = c.CurrentWindowStack ∧
      (if b then E.LogFinish c else c).CurrentPopupStack = c.CurrentPopupStack ∧
      ∀ v, ((if b then E.LogFinish c else c).Heap v).Flags = (c.Heap v).Flags := by
    intro b _ c
    split
    · obtain ⟨_, a2, a3, a4⟩ := hLF c
      exact ⟨a2, a3, fun v => (a4 v).1⟩
    · exact ⟨rfl, rfl, fun _ => rfl⟩
  constructor
  · intro hempty
    unfold End
    split
    · rfl
    · rename_i window _
      simp only []
      obtain ⟨_, a2, _, _⟩ := hcols ((c.Heap window).DC.ColumnsSet ≠ none) c
      split
      · rfl
      · rename_i c1 hc1
        obtain ⟨b1, _, _⟩ := popClipRect_keeps _ c1 hc1
        obtain ⟨d1, _, _⟩ :=
          hlog ((c1.Heap window).Flags &&& E.WindowFlagsChildWindow = 0) c1
        rw [if_pos]
        rw [d1, b1, a2, hempty]
        rfl
  · intro w hw hstack hclip hpopup
    unfold End
    rw [hw]
    simp only []
    obtain ⟨a1, a2, a3, a4⟩ := hcols ((c.Heap w).DC.ColumnsSet ≠ none) c
    obtain ⟨c1, hc1⟩ := popClipRect_returns
      (if (c.Heap w).DC.ColumnsSet ≠ none then E.EndColumns c else c) w (a1.trans hw)
      (by rw [(a4 w).2]; exact hclip)
    rw [hc1]
    simp only []
    obtain ⟨b1, b2, b3⟩ := popClipRect_keeps _ c1 hc1
    obtain ⟨d1, d2, d3⟩ := hlog ((c1.Heap w).Flags &&& E.WindowFlagsChildWindow = 0) c1
    have hs : (if (c1.Heap w).Flags &&& E.WindowFlagsChildWindow = 0 then E.LogFinish c1
        else c1).CurrentWindowStack = c.CurrentWindowStack := by rw [d1, b1, a2]
    have hp : (if (c1.Heap w).Flags &&& E.WindowFlagsChildWindow = 0 then E.LogFinish c1
        else c1).CurrentPopupStack = c.CurrentPopupStack := by rw [d2, b2, a3]
    have hf : ((if (c1.Heap w).Flags &&& E.WindowFlagsChildWindow = 0 then E.LogFinish c1
        else c1).Heap w).Flags = (c.Heap w).Flags := by rw [d3, b3, (a4 w).1]
    generalize (if (c1.Heap w).Flags &&& E.WindowFlagsChildWindow = 0 then E.LogFinish c1
        else c1) = c2 at hs hp hf
    have hlen : ¬ c2.CurrentWindowStack.length = 0 := by
      rw [hs]
      intro h0
      exact hstack (List.length_eq_zero.mp h0)
    rw [if_neg hlen]
    simp only [hf, hs, hp]
    by_cases hpop : (c.Heap w).Flags &&& E.WindowFlagsPopup ≠ 0
    · have hplen : ¬ c.CurrentPopupStack.length = 0 := fun h0 =>
        hpopup hpop (List.length_eq_zero.mp h0)
      rw [if_pos hpop, if_neg hplen]
      simp only []
      cases c.CurrentWindowStack.dropLast.getLast? <;> exact ⟨_, rfl, rfl, rfl⟩
    · rw [if_neg hpop]
      simp only []
      cases c.CurrentWindowStack.dropLast.getLast? <;> exact ⟨_, rfl, rfl, rfl⟩

theorem exampleEnv_endColumns_keeps : KeepsScopes exampleEnv.EndColumns := by
  intro c
  have key : ∀ o : WindowRef,
      let c' : Context := match o with
        | some w => c.setWin w { c.Heap w with DC := { (c.Heap w).DC with ColumnsSet := none } }
        | none => c
      c'.CurrentWindow = c.CurrentWindow ∧ c'.CurrentWindowStack = c.CurrentWindowStack ∧
      c'.CurrentPopupStack = c.CurrentPopupStack ∧
      ∀ v, (c'.Heap v).Flags = (c.Heap v).Flags ∧
        (c'.Heap v).DrawList._ClipRectStack = (c.Heap v).DrawList._ClipRectStack := by
    intro o
    cases o with
    | none => exact ⟨rfl, rfl, rfl, fun _ => ⟨rfl, rfl⟩⟩
    | some w =>
      refine ⟨rfl, rfl, rfl, fun v => ?_⟩
      by_cases hv : v = w
      · subst hv
        simp [Context.setWin]
      · simp [Context.setWin, Function.update_noteq hv]
  exact key c.CurrentWindow

/-- C20 at `exampleNoWindow`, whose window stack is empty, and at
`exampleNested`, where window 1 was begun inside window 2: the first `End`
panics, the second pops window 1 and makes window 2 current. -/
theorem C20_end_pops_window_witness :
    KeepsScopes exampleEnv.EndColumns ∧ KeepsScopes exampleEnv.LogFinish ∧
    End exampleEnv exampleNoWindow = none ∧
    exampleNested.CurrentWindowStack = [some 2, some 1] ∧
    ∃ c', End exampleEnv exampleNested = some c' ∧
      c'.CurrentWindowStack = [some 2] ∧ c'.CurrentWindow = some 2 := by
  have hLF : KeepsScopes exampleEnv.LogFinish := fun _ => ⟨rfl, rfl, rfl, fun _ => ⟨rfl, rfl⟩⟩
  have h1 := (C20_end_pops_window exampleEnv exampleNoWindow exampleEnv_endColumns_keeps hLF).1
    rfl
  obtain ⟨c', e1, e2, e3⟩ :=
    (C20_end_pops_window exampleEnv exampleNested exampleEnv_endColumns_keeps hLF).2 1 rfl
      (by decide) (by decide) (by decide)
  exact ⟨exampleEnv_endColumns_keeps, hLF, h1, rfl, c', e1, e2, e3⟩

/-! ## C21: the active item at the start of the frame -/

/-- C21: when `SetCurrentFont`, the only collaborator that runs before line 112,
leaves the three fields of the active item alone, then for every state at
`NewFrame` entry with `ActiveId != 0`, `ActiveIdPreviousFrame = ActiveId` and
`ActiveIdIsAlive = false` the block of lines 112-130 runs `ClearActiveID` (so no
item is active after it); when `ActiveIdIsAlive` is true or
`ActiveIdPreviousFrame != ActiveId` the block does not run it and `ActiveId` is
kept; and `ActiveIdIsAlive` is false after the block in every case. -/
theorem C21_clear_active_if_not_alive (E : Env) (c : Context)
    (hfont : ∀ (x : Context) (f : Nat),
      (E.SetCurrentFont x f).ActiveId = x.ActiveId ∧
      (E.SetCurrentFont x f).ActiveIdPreviousFrame = x.ActiveIdPreviousFrame ∧
      (E.SetCurrentFont x f).ActiveIdIsAlive = x.ActiveIdIsAlive) :
    (c.ActiveId ≠ 0 ∧ c.ActiveIdPreviousFrame = c.ActiveId ∧ c.ActiveIdIsAlive = false →
      newFrameIds (newFrameSetup E c) =
        newFrameActiveId (ClearActiveID (newFrameHoveredId (newFrameSetup E c))) ∧
      (newFrameIds (newFrameSetup E c)).ActiveId = 0) ∧
    (c.ActiveIdIsAlive = true ∨ c.ActiveIdPreviousFrame ≠ c.ActiveId →
      newFrameIds (newFrameSetup E c) = newFrameActiveId (newFrameHoveredId (newFrameSetup E c)) ∧
      (newFrameIds (newFrameSetup E c)).ActiveId = c.ActiveId) ∧
    (newFrameIds (newFrameSetup E c)).ActiveIdIsAlive = false := by
  have hs : (newFrameSetup E c).ActiveId = c.ActiveId ∧
      (newFrameSetup E c).ActiveIdPreviousFrame = c.ActiveIdPreviousFrame ∧
      (newFrameSetup E c).ActiveIdIsAlive = c.ActiveIdIsAlive := by
    unfold newFrameSetup
    simp only []
    split <;> exact ⟨(hfont _ _).1, (hfont _ _).2.1, (hfont _ _).2.2⟩
  generalize newFrameSetup E c = s at hs ⊢
  obtain ⟨h1, h2, h3⟩ := hs
  have hh : (newFrameHoveredId s).ActiveId = s.ActiveId ∧
      (newFrameHoveredId s).ActiveIdPreviousFrame = s.ActiveIdPreviousFrame ∧
      (newFrameHoveredId s).ActiveIdIsAlive = s.ActiveIdIsAlive := by
    unfold newFrameHoveredId
    split <;> exact ⟨rfl, rfl, rfl⟩
  have hact : ∀ x : Context, (newFrameActiveId x).ActiveId = x.ActiveId ∧
      (newFrameActiveId x).ActiveIdIsAlive = false := by
    intro x
    unfold newFrameActiveId
    simp only []
    split <;> split <;> exact ⟨rfl, rfl⟩
  refine ⟨?_, ?_, ?_⟩
  · rintro ⟨ha, hp, hl⟩
    have hcond : ¬ (newFrameHoveredId s).ActiveIdIsAlive = true ∧
        (newFrameHoveredId s).ActiveIdPreviousFrame = (newFrameHoveredId s).ActiveId ∧
        (newFrameHoveredId s).ActiveId ≠ 0 := by
      rw [hh.1, hh.2.1, hh.2.2, h1, h2, h3, hl, hp]
      exact ⟨by simp, rfl, ha⟩
    have he : newFrameIds s = newFrameActiveId (ClearActiveID (newFrameHoveredId s)) := by
      unfold newFrameIds newFrameClearActive
      rw [if_pos hcond]
    refine ⟨he, ?_⟩
    rw [he, (hact _).1]
    rfl
  · intro hor
    have hcond : ¬ (¬ (newFrameHoveredId s).ActiveIdIsAlive = true ∧
        (newFrameHoveredId s).ActiveIdPreviousFrame = (newFrameHoveredId s).ActiveId ∧
        (newFrameHoveredId s).ActiveId ≠ 0) := by
      rw [hh.1, hh.2.1, hh.2.2, h1, h2, h3]
      rintro ⟨a, b, _⟩
      rcases hor with h | h
      · exact a h
      · exact h b
    have he : newFrameIds s = newFrameActiveId (newFrameHoveredId s) := by
      unfold newFrameIds newFrameClearActive
      rw [if_neg hcond]
    refine ⟨he, ?_⟩
    rw [he, (hact _).1, hh.1, h1]
  · unfold newFrameIds
    exact (hact _).2

/-- C21 at `exampleNotAlive` and `exampleBetweenFrames`, where item 42 is
active: it is cleared when it was not kept alive and kept when it was. -/
theorem C21_clear_active_if_not_alive_witness :
    (newFrameIds (newFrameSetup exampleEnv exampleNotAlive)).ActiveId = 0 ∧
    (newFrameIds (newFrameSetup exampleEnv exampleBetweenFrames)).ActiveId = 42 ∧
    (newFrameIds (newFrameSetup exampleEnv exampleBetweenFrames)).ActiveIdIsAlive = false := by
  have hfont : ∀ (x : Context) (f : Nat),
      (exampleEnv.SetCurrentFont x f).ActiveId = x.ActiveId ∧
      (exampleEnv.SetCurrentFont x f).ActiveIdPreviousFrame = x.ActiveIdPreviousFrame ∧
      (exampleEnv.SetCurrentFont x f).ActiveIdIsAlive = x.ActiveIdIsAlive :=
    fun _ _ => ⟨rfl, rfl, rfl⟩
  have h1 := C21_clear_active_if_not_alive exampleEnv exampleNotAlive hfont
  have h2 := C21_clear_active_if_not_alive exampleEnv exampleBetweenFrames hfont
  exact ⟨(h1.1 ⟨by decide, by decide, by decide⟩).2, (h2.2.1 (Or.inl (by decide))).2, h2.2.2⟩

/-! ## C22-C24: the mouse loop -/

theorem getD_set_self {α : Type} (l : List α) (i : Nat) (v d : α) (h : i < l.length) :
    (l.set i v).getD i d = v := by
  simp [List.getD_eq_getElem?_getD, List.getElem?_set_self h]

theorem getD_set_ne {α : Type} (l : List α) (i j : Nat) (v d : α) (h : i ≠ j) :
    (l.set i v).getD j d = l.getD j d := by
  simp [List.getD_eq_getElem?_getD, List.getElem?_set_ne h]

theorem mouseButtonBody_down (time : ℚ) (io : InputSnapshot) (b : MouseButton) :
    (mouseButtonBody time io b).Down = b.Down := by
  unfold mouseButtonBody
  simp only []
  split_ifs <;> rfl

theorem mouseStep_io (c : Context) (j : Nat) :
    (newFrameMouseStep c j).Io =
      c.Io.setButton j (mouseButtonBody c.Time c.Io (c.Io.button j)) ∧
    (newFrameMouseStep c j).Time = c.Time := by
  unfold newFrameMouseStep
  simp only []
  split <;> exact ⟨rfl, rfl⟩

theorem setButton_button_ne (io : InputSnapshot) (i j : Nat) (b : MouseButton) (h : j ≠ i) :
    (io.setButton j b).button i = io.button i := by
  simp [InputSnapshot.setButton, InputSnapshot.button, List.getElem?_set_ne h]

theorem setButton_button_self (io : InputSnapshot) (i : Nat) (b : MouseButton)
    (hs : io.MouseSized) (hi : i < io.MouseDown.length) (hd : b.Down = io.MouseDown.getD i false) :
    (io.setButton i b).button i = b := by
  obtain ⟨h1, h2, h3, h4, h5, h6, h7, h8, h9⟩ := hs
  cases b
  simp only [InputSnapshot.setButton, InputSnapshot.button] at hd ⊢
  rw [getD_set_self _ _ _ _ (h1 ▸ hi), getD_set_self _ _ _ _ (h2 ▸ hi),
    getD_set_self _ _ _ _ (h3 ▸ hi), getD_set_self _ _ _ _ (h4 ▸ hi),
    getD_set_self _ _ _ _ (h5 ▸ hi), getD_set_self _ _ _ _ (h6 ▸ hi),
    getD_set_self _ _ _ _ (h7 ▸ hi), getD_set_self _ _ _ _ (h8 ▸ hi),
    getD_set_self _ _ _ _ (h9 ▸ hi), ← hd]

theorem setButton_sized (io : InputSnapshot) (j : Nat) (b : MouseButton) (hs : io.MouseSized) :
    (io.setButton j b).MouseSized ∧ (io.setButton j b).MouseDown = io.MouseDown := by
  obtain ⟨h1, h2, h3, h4, h5, h6, h7, h8, h9⟩ := hs
  refine ⟨?_, rfl⟩
  simp only [InputSnapshot.MouseSized, InputSnapshot.setButton, List.length_set]
  exact ⟨h1, h2, h3, h4, h5, h6, h7, h8, h9⟩

/-- The mouse loop run over the first `n` buttons: the entries of every button
below `n` are those its own iteration computes from the entry state, and the
other entries are untouched. -/
theorem mouseFold_button (c : Context) (hs : c.Io.MouseSized) (n : Nat)
    (hn : n ≤ c.Io.MouseDown.length) :
    ((List.range n).foldl newFrameMouseStep c).Io.MouseSized ∧
    ((List.range n).foldl newFrameMouseStep c).Io.MouseDown = c.Io.MouseDown ∧
    ((List.range n).foldl newFrameMouseStep c).Time = c.Time ∧
    mouseButtonBody ((List.range n).foldl newFrameMouseStep c).Time
      ((List.range n).foldl newFrameMouseStep c).Io = mouseButtonBody c.Time c.Io ∧
    ∀ i, ((List.range n).foldl newFrameMouseStep c).Io.button i =
      if i < n then mouseButtonBody c.Time c.Io (c.Io.button i) else c.Io.button i := by
  induction n with
  | zero => exact ⟨hs, rfl, rfl, rfl, fun i => by simp⟩
  | succ n ih =>
    obtain ⟨a1, a2, a3, a4, a5⟩ := ih (Nat.le_of_succ_le hn)
    rw [List.range_succ, List.foldl_append, List.foldl_cons, List.foldl_nil]
    generalize (List.range n).foldl newFrameMouseStep c = r at a1 a2 a3 a4 a5
    obtain ⟨e1, e2⟩ := mouseStep_io r n
    rw [e1, e2]
    obtain ⟨s1, s2⟩ := setButton_sized r.Io n (mouseButtonBody r.Time r.Io (r.Io.button n)) a1
    refine ⟨s1, s2.trans a2, a3, ?_, ?_⟩
    · rw [← a4]
      rfl
    · intro i
      by_cases hin : i = n
      · subst hin
        rw [if_pos (Nat.lt_succ_self _)]
        have hlen : i < r.Io.MouseDown.length := by rw [a2]; exact hn
        rw [setButton_button_self _ _ _ a1 hlen
          (by rw [mouseButtonBody_down]; rfl), a4, a5 i, if_neg (Nat.lt_irrefl _)]
      · rw [setButton_button_ne _ _ _ _ (Ne.symm hin), a5 i]
        have : (i < n + 1) ↔ (i < n) := by omega
        simp only [this]

theorem mouseButtons_button (c : Context) (i : Nat) (hs : c.Io.MouseSized)
    (hi : i < c.Io.MouseDown.length) :
    (newFrameMouseButtons c).Io.button i = mouseButtonBody c.Time c.Io (c.Io.button i) ∧
    (newFrameMouseButtons c).Io.MouseSized ∧
    (newFrameMouseButtons c).Io.MouseDown = c.Io.MouseDown := by
  obtain ⟨a1, a2, _, _, a5⟩ := mouseFold_button c hs c.Io.MouseDown.length (le_refl _)
  unfold newFrameMouseButtons
  refine ⟨?_, a1, a2⟩
  rw [a5 i, if_pos hi]

theorem mouseButtonBody_spec (time : ℚ) (io : InputSnapshot) (b : MouseButton) :
    (mouseButtonBody time io b).Clicked = (b.Down && decide (b.DownDuration < 0)) ∧
    (mouseButtonBody time io b).Released = (!b.Down && decide (b.DownDuration ≥ 0)) ∧
    (mouseButtonBody time io b).DownDurationPrev = b.DownDuration ∧
    (mouseButtonBody time io b).DownDuration =
      (if b.Down = false then -1 else if b.DownDuration < 0 then 0
        else b.DownDuration + io.DeltaTime) ∧
    (mouseButtonBody time io b).DoubleClicked =
      ((mouseButtonBody time io b).Clicked &&
        decide (time - b.ClickedTime < io.MouseDoubleClickTime) &&
        decide (io.MousePos.DistanceSquared b.ClickedPos <
          io.MouseDoubleClickMaxDist * io.MouseDoubleClickMaxDist)) ∧
    ((mouseButtonBody time io b).Clicked = true →
      (mouseButtonBody time io b).ClickedPos = io.MousePos ∧
      (mouseButtonBody time io b).DragMaxDistanceAbs = Vec2.zero ∧
      (mouseButtonBody time io b).DragMaxDistanceSqr = 0) := by
  unfold mouseButtonBody
  simp only []
  cases hd : b.Down <;> by_cases hneg : b.DownDuration < 0 <;>
    by_cases ht : time - b.ClickedTime < io.MouseDoubleClickTime <;>
    by_cases hdist : io.MousePos.DistanceSquared b.ClickedPos <
      io.MouseDoubleClickMaxDist * io.MouseDoubleClickMaxDist <;>
    simp [hd, hneg, ht, hdist, Vec2.zero, not_lt.mp, le_of_lt]

/-- C22: for every button `i` of a state whose per-button arrays have one
length, after the mouse loop of `NewFrame` `MouseDown[i]` is as the host set it,
`MouseClicked[i]` holds iff `MouseDown[i]` is true and the previous
`MouseDownDuration[i]` was negative, `MouseReleased[i]` holds iff `MouseDown[i]`
is false and the previous duration was not negative, `MouseDownDurationPrev[i]`
is the previous duration, `MouseDownDuration[i]` is -1 when the button is up, 0
on the press frame and the previous duration plus `DeltaTime` otherwise, and
`MouseClicked[i]` and `MouseReleased[i]` are not both true. -/
theorem C22_mouse_edge_detection (c : Context) (i : Nat) (hs : c.Io.MouseSized)
    (hi : i < c.Io.MouseDown.length) :
    (newFrameMouseButtons c).Io.MouseDown.getD i false = c.Io.MouseDown.getD i false ∧
    ((newFrameMouseButtons c).Io.MouseClicked.getD i false = true ↔
      c.Io.MouseDown.getD i false = true ∧ c.Io.MouseDownDuration.getD i 0 < 0) ∧
    ((newFrameMouseButtons c).Io.MouseReleased.getD i false = true ↔
      c.Io.MouseDown.getD i false = false ∧ c.Io.MouseDownDuration.getD i 0 ≥ 0) ∧
    (newFrameMouseButtons c).Io.MouseDownDurationPrev.getD i 0 =
      c.Io.MouseDownDuration.getD i 0 ∧
    (newFrameMouseButtons c).Io.MouseDownDuration.getD i 0 =
      (if c.Io.MouseDown.getD i false = false then -1
        else if c.Io.MouseDownDuration.getD i 0 < 0 then 0
        else c.Io.MouseDownDuration.getD i 0 + c.Io.DeltaTime) ∧
    ¬ ((newFrameMouseButtons c).Io.MouseClicked.getD i false = true ∧
      (newFrameMouseButtons c).Io.MouseReleased.getD i false = true) := by
  obtain ⟨hb, _, hdown⟩ := mouseButtons_button c i hs hi
  obtain ⟨b1, b2, b3, b4, _, _⟩ := mouseButtonBody_spec c.Time c.Io (c.Io.button i)
  rw [← hb] at b1 b2 b3 b4
  have e1 : (newFrameMouseButtons c).Io.MouseClicked.getD i false =
      (c.Io.MouseDown.getD i false && decide (c.Io.MouseDownDuration.getD i 0 < 0)) := b1
  have e2 : (newFrameMouseButtons c).Io.MouseReleased.getD i false =
      (!c.Io.MouseDown.getD i false && decide (c.Io.MouseDownDuration.getD i 0 ≥ 0)) := b2
  refine ⟨by rw [hdown], ?_, ?_, b3, b4, ?_⟩
  · rw [e1]
    simp
  · rw [e2]
    simp
  · rw [e1, e2]
    cases c.Io.MouseDown.getD i false <;> simp

/-- C22 at `exampleInput`, where the left button is held and was up before:
it is reported clicked, not released, with duration 0; button 1, which is up,
has duration -1. -/
theorem C22_mouse_edge_detection_witness :
    exampleBetweenFrames.Io.MouseSized ∧
    (newFrameMouseButtons exampleBetweenFrames).Io.MouseClicked.getD 0 false = true ∧
    (newFrameMouseButtons exampleBetweenFrames).Io.MouseReleased.getD 0 false = false ∧
    (newFrameMouseButtons exampleBetweenFrames).Io.MouseDownDuration.getD 0 0 = 0 ∧
    (newFrameMouseButtons exampleBetweenFrames).Io.MouseDownDurationPrev.getD 0 0 = -1 := by
  have h := C22_mouse_edge_detection exampleBetweenFrames 0 (by decide) (by decide)
  refine ⟨by decide, h.2.1.mpr ⟨by decide, by decide⟩, ?_, ?_, h.2.2.2.1⟩
  · have hn := h.2.2.2.2.2
    have hc := h.2.1.mpr ⟨by decide, by decide⟩
    cases hr : (newFrameMouseButtons exampleBetweenFrames).Io.MouseReleased.getD 0 false
    · rfl
    · exact absurd ⟨hc, hr⟩ hn
  · rw [h.2.2.2.2.1]
    decide

/-- C24: for every button `i` of a state whose per-button arrays have one
length, after the mouse loop of `NewFrame` (which runs with the clock `Time`
already advanced) `MouseDoubleClicked[i]` is true iff `MouseClicked[i]` is
true, `Time` minus the recorded `MouseClickedTime[i]` is below
`MouseDoubleClickTime` and the squared distance from `MousePos` to the recorded
`MouseClickedPos[i]` is below `MouseDoubleClickMaxDist` squared; and every click
sets `MouseClickedPos[i]` to `MousePos` and both drag accumulators to 0. -/
theorem C24_double_click_detection (c : Context) (i : Nat) (hs : c.Io.MouseSized)
    (hi : i < c.Io.MouseDown.length) :
    ((newFrameMouseButtons c).Io.MouseDoubleClicked.getD i false = true ↔
      (newFrameMouseButtons c).Io.MouseClicked.getD i false = true ∧
      c.Time - c.Io.MouseClickedTime.getD i 0 < c.Io.MouseDoubleClickTime ∧
      c.Io.MousePos.DistanceSquared (c.Io.MouseClickedPos.getD i Vec2.zero) <
        c.Io.MouseDoubleClickMaxDist * c.Io.MouseDoubleClickMaxDist) ∧
    ((newFrameMouseButtons c).Io.MouseClicked.getD i false = true →
      (newFrameMouseButtons c).Io.MouseClickedPos.getD i Vec2.zero = c.Io.MousePos ∧
      (newFrameMouseButtons c).Io.MouseDragMaxDistanceAbs.getD i Vec2.zero = Vec2.zero ∧
      (newFrameMouseButtons c).Io.MouseDragMaxDistanceSqr.getD i 0 = 0) := by
  obtain ⟨hb, _, _⟩ := mouseButtons_button c i hs hi
  obtain ⟨_, _, _, _, b5, b6⟩ := mouseButtonBody_spec c.Time c.Io (c.Io.button i)
  rw [← hb] at b5 b6
  have e5 : (newFrameMouseButtons c).Io.MouseDoubleClicked.getD i false =
      ((newFrameMouseButtons c).Io.MouseClicked.getD i false &&
        decide (c.Time - c.Io.MouseClickedTime.getD i 0 < c.Io.MouseDoubleClickTime) &&
        decide (c.Io.MousePos.DistanceSquared (c.Io.MouseClickedPos.getD i Vec2.zero) <
          c.Io.MouseDoubleClickMaxDist * c.Io.MouseDoubleClickMaxDist)) := b5
  refine ⟨?_, b6⟩
  rw [e5]
  simp [and_assoc]

/-- C24 at `exampleBetweenFrames`: the left button was clicked a tenth of a
second ago, one unit away, and is clicked again, which is a double click; the
click position is now the mouse position and the drag accumulators are 0. -/
theorem C24_double_click_detection_witness :
    exampleBetweenFrames.Io.MouseSized ∧
    (newFrameMouseButtons exampleBetweenFrames).Io.MouseDoubleClicked.getD 0 false = true ∧
    (newFrameMouseButtons exampleBetweenFrames).Io.MouseClickedPos.getD 0 Vec2.zero
      = { X := 5, Y := 5 } ∧
    (newFrameMouseButtons exampleBetweenFrames).Io.MouseDragMaxDistanceSqr.getD 0 0 = 0 := by
  have h := C24_double_click_detection exampleBetweenFrames 0 (by decide) (by decide)
  have hc : (newFrameMouseButtons exampleBetweenFrames).Io.MouseClicked.getD 0 false = true := by
    decide!
  exact ⟨by decide, h.1.mpr ⟨hc, by decide!, by decide!⟩, (h.2 hc).1, (h.2 hc).2.2⟩

theorem hostFrame_facts (c : Context) (i : Nat) (f : ButtonFrame) (hs : c.Io.MouseSized)
    (hi : i < c.Io.MouseDown.length) :
    (hostFrame c i f).Io.MouseSized ∧
    (hostFrame c i f).Io.MouseDown.length = c.Io.MouseDown.length ∧
    (hostFrame c i f).Io.MouseDown.getD i false = f.down ∧
    (hostFrame c i f).Io.MouseDownDuration = c.Io.MouseDownDuration ∧
    (hostFrame c i f).Io.DeltaTime = f.dt := by
  obtain ⟨h1, h2, h3, h4, h5, h6, h7, h8, h9⟩ := hs
  refine ⟨?_, ?_, ?_, rfl, rfl⟩
  · simp only [InputSnapshot.MouseSized, hostFrame, List.length_set]
    exact ⟨h1, h2, h3, h4, h5, h6, h7, h8, h9⟩
  · simp [hostFrame]
  · exact getD_set_self _ _ _ _ hi

/-- One frame seen from button `i`: the state after the mouse loop keeps the
array lengths, and the entries of button `i` follow from what the host reported
and the duration before the frame. -/
theorem mouseFrame_step (c : Context) (i : Nat) (down : Bool) (dt : ℚ) (hs : c.Io.MouseSized)
    (hi : i < c.Io.MouseDown.length) :
    (newFrameMouseButtons (hostFrame c i { down := down, dt := dt })).Io.MouseSized ∧
    (newFrameMouseButtons (hostFrame c i { down := down, dt := dt })).Io.MouseDown.length
      = c.Io.MouseDown.length ∧
    ((newFrameMouseButtons (hostFrame c i { down := down, dt := dt })).Io.button i).Clicked =
      (down && decide (c.Io.MouseDownDuration.getD i 0 < 0)) ∧
    ((newFrameMouseButtons (hostFrame c i { down := down, dt := dt })).Io.button i).Released =
      (!down && decide (c.Io.MouseDownDuration.getD i 0 ≥ 0)) ∧
    ((newFrameMouseButtons (hostFrame c i { down := down, dt := dt })).Io.button i).DownDuration =
      (if down = false then -1 else if c.Io.MouseDownDuration.getD i 0 < 0 then 0
        else c.Io.MouseDownDuration.getD i 0 + dt) := by
  obtain ⟨g1, g2, g3, g4, g5⟩ := hostFrame_facts c i { down := down, dt := dt } hs hi
  obtain ⟨hb, hsz, hdown⟩ :=
    mouseButtons_button (hostFrame c i { down := down, dt := dt }) i g1 (g2 ▸ hi)
  obtain ⟨b1, b2, _, b4, _, _⟩ :=
    mouseButtonBody_spec (hostFrame c i { down := down, dt := dt }).Time
      (hostFrame c i { down := down, dt := dt }).Io
      ((hostFrame c i { down := down, dt := dt }).Io.button i)
  rw [← hb] at b1 b2 b4
  have hd : ((hostFrame c i { down := down, dt := dt }).Io.button i).Down = down := g3
  have hdur : ((hostFrame c i { down := down, dt := dt }).Io.button i).DownDuration
      = c.Io.MouseDownDuration.getD i 0 := by
    show (hostFrame c i { down := down, dt := dt }).Io.MouseDownDuration.getD i 0 = _
    rw [g4]
  rw [hd, hdur] at b1 b2 b4
  rw [g5] at b4
  exact ⟨hsz, by rw [hdown, g2], b1, b2, b4⟩

theorem mouseFrames_cons (other : Context → Context) (c : Context) (i : Nat) (f : ButtonFrame)
    (rest : List ButtonFrame) :
    mouseFrames other c i (f :: rest) =
      (newFrameMouseButtons (hostFrame c i f)).Io.button i ::
        mouseFrames other (other (newFrameMouseButtons (hostFrame c i f))) i rest := rfl

/-- The held frames after the press frame, followed by the up frame: no click,
one release at the end, durations not negative while held. -/
theorem mouseFrames_held (other : Context → Context) (i : Nat) (ho : KeepsButton i other)
    (dts : List ℚ) (hdt : ∀ dt ∈ dts, 0 ≤ dt) (up : ℚ) :
    ∀ c : Context, c.Io.MouseSized → i < c.Io.MouseDown.length →
      0 ≤ c.Io.MouseDownDuration.getD i 0 →
      (mouseFrames other c i
          (dts.map (fun dt => { down := true, dt := dt }) ++ [{ down := false, dt := up }])).map
        (fun b => b.Clicked) = List.replicate (dts.length + 1) false ∧
      (mouseFrames other c i
          (dts.map (fun dt => { down := true, dt := dt }) ++ [{ down := false, dt := up }])).map
        (fun b => b.Released) = List.replicate dts.length false ++ [true] ∧
      ∀ b ∈ (mouseFrames other c i
          (dts.map (fun dt => { down := true, dt := dt }) ++ [{ down := false, dt := up }])).take
            dts.length, 0 ≤ b.DownDuration := by
  induction dts with
  | nil =>
    intro c hs hi hd
    obtain ⟨_, _, m3, m4, _⟩ := mouseFrame_step c i false up hs hi
    have hdec : decide (c.Io.MouseDownDuration.getD i 0 ≥ 0) = true := decide_eq_true hd
    rw [hdec] at m4
    rw [List.map_nil, List.nil_append, mouseFrames_cons, List.map_cons, List.map_cons, m3, m4]
    refine ⟨rfl, rfl, ?_⟩
    intro b hb
    simp at hb
  | cons dt dts ih =>
    intro c hs hi hd
    obtain ⟨m1, m2, m3, m4, m5⟩ := mouseFrame_step c i true dt hs hi
    have hdt0 : 0 ≤ dt := hdt dt (List.mem_cons_self _ _)
    have hnn : ¬ c.Io.MouseDownDuration.getD i 0 < 0 := not_lt.mpr hd
    have hdec : decide (c.Io.MouseDownDuration.getD i 0 < 0) = false := decide_eq_false hnn
    rw [hdec] at m3
    obtain ⟨o1, o2, o3⟩ := ho _ m1
    have hdur : 0 ≤ ((newFrameMouseButtons (hostFrame c i { down := true, dt := dt })).Io.button
        i).DownDuration := by
      rw [m5, if_neg (by decide), if_neg hnn]
      exact add_nonneg hd hdt0
    have hnext : 0 ≤ (other (newFrameMouseButtons
        (hostFrame c i { down := true, dt := dt }))).Io.MouseDownDuration.getD i 0 := by
      rw [o3]
      exact hdur
    obtain ⟨r1, r2, r3⟩ := ih (fun x hx => hdt x (List.mem_cons_of_mem _ hx)) _ o1
      (by rw [o2, m2]; exact hi) hnext
    rw [List.map_cons, List.cons_append, mouseFrames_cons, List.map_cons, List.map_cons, m3, m4,
      r1, r2, List.length_cons, List.take_succ_cons]
    refine ⟨rfl, rfl, ?_⟩
    intro b hb
    rcases List.mem_cons.mp hb with h | h
    · rw [h]
      exact hdur
    · exact r3 b h

/-- C23: for every button `i`, starting from `MouseDownDuration[i] < 0`, over
every sequence of frames in which the host reports the button held for
`m >= 1` consecutive frames with frame times `>= 0` and then up, where whatever
else runs in a frame leaves the duration of the button alone, the mouse loop of
`NewFrame` reports `MouseClicked[i]` on the first held frame and on no other,
`MouseReleased[i]` on the first up frame and on no held frame, and
`MouseDownDuration[i] >= 0` on every held frame. -/
theorem C23_one_click_per_press (other : Context → Context) (c : Context) (i : Nat)
    (dt : ℚ) (dts : List ℚ) (up : ℚ)
    (ho : KeepsButton i other) (hs : c.Io.MouseSized) (hi : i < c.Io.MouseDown.length)
    (hstart : c.Io.MouseDownDuration.getD i 0 < 0)
    (hdt : ∀ x ∈ dt :: dts, 0 ≤ x) :
    (mouseFrames other c i
        ((dt :: dts).map (fun dt => { down := true, dt := dt }) ++
          [{ down := false, dt := up }])).map (fun b => b.Clicked)
      = true :: List.replicate (dts.length + 1) false ∧
    (mouseFrames other c i
        ((dt :: dts).map (fun dt => { down := true, dt := dt }) ++
          [{ down := false, dt := up }])).map (fun b => b.Released)
      = List.replicate (dts.length + 1) false ++ [true] ∧
    ∀ b ∈ (mouseFrames other c i
        ((dt :: dts).map (fun dt => { down := true, dt := dt }) ++
          [{ down := false, dt := up }])).take (dts.length + 1), 0 ≤ b.DownDuration := by
  obtain ⟨m1, m2, m3, m4, m5⟩ := mouseFrame_step c i true dt hs hi
  have hdec : decide (c.Io.MouseDownDuration.getD i 0 < 0) = true := decide_eq_true hstart
  have hdec2 : decide (c.Io.MouseDownDuration.getD i 0 ≥ 0) = false :=
    decide_eq_false (not_le.mpr hstart)
  rw [hdec] at m3
  rw [hdec2] at m4
  obtain ⟨o1, o2, o3⟩ := ho _ m1
  have hdur : ((newFrameMouseButtons (hostFrame c i { down := true, dt := dt })).Io.button
      i).DownDuration = 0 := by
    rw [m5, if_neg (by decide), if_pos hstart]
  have hnext : 0 ≤ (other (newFrameMouseButtons
      (hostFrame c i { down := true, dt := dt }))).Io.MouseDownDuration.getD i 0 := by
    rw [o3]
    exact le_of_eq hdur.symm
  obtain ⟨r1, r2, r3⟩ := mouseFrames_held other i ho dts
    (fun x hx => hdt x (List.mem_cons_of_mem _ hx)) up _ o1 (by rw [o2, m2]; exact hi) hnext
  rw [List.map_cons, List.cons_append, mouseFrames_cons, List.map_cons, List.map_cons, m3, m4,
    r1, r2, List.take_succ_cons]
  refine ⟨rfl, rfl, ?_⟩
  intro b hb
  rcases List.mem_cons.mp hb with h | h
  · rw [h]
    exact le_of_eq hdur.symm
  · exact r3 b h

/-- C23 at `exampleBetweenFrames`, whose left button was up: held for three
frames of a sixtieth of a second and then released, with the end of the frame
clearing the one-frame input in between, it is reported clicked in the first
frame only and released in the fourth only. -/
theorem C23_one_click_per_press_witness :
    (mouseFrames endFrameClearInput exampleBetweenFrames 0
        [{ down := true, dt := 1 / 60 }, { down := true, dt := 1 / 60 },
         { down := true, dt := 1 / 60 }, { down := false, dt := 1 / 60 }]).map
      (fun b => b.Clicked) = [true, false, false, false] ∧
    (mouseFrames endFrameClearInput exampleBetweenFrames 0
        [{ down := true, dt := 1 / 60 }, { down := true, dt := 1 / 60 },
         { down := true, dt := 1 / 60 }, { down := false, dt := 1 / 60 }]).map
      (fun b => b.Released) = [false, false, false, true] := by
  have ho : KeepsButton 0 endFrameClearInput := fun c hs => ⟨hs, rfl, rfl⟩
  have h := C23_one_click_per_press endFrameClearInput exampleBetweenFrames 0 (1 / 60)
    [1 / 60, 1 / 60] (1 / 60) ho (by decide) (by decide) (by decide)
    (by intro x hx; simp at hx; rw [hx]; norm_num)
  exact ⟨h.1, h.2.1⟩

/-! ## C25: the mouse movement -/

/-- C25: for every state, after the mouse update of `NewFrame` `MouseDelta` is
the zero vector when the current or the previous mouse position is invalid
(`IsMousePosValid` false) and `MousePos - MousePosPrev`, taken on entry,
otherwise; `MousePosPrev` then equals `MousePos`, which is unchanged. -/
theorem C25_neutral_delta (E : Env) (c : Context) :
    (E.IsMousePosValid c c.Io.MousePos = false ∨ E.IsMousePosValid c c.Io.MousePosPrev = false →
      (newFrameMouseDelta E c).Io.MouseDelta = Vec2.zero) ∧
    (E.IsMousePosValid c c.Io.MousePos = true ∧ E.IsMousePosValid c c.Io.MousePosPrev = true →
      (newFrameMouseDelta E c).Io.MouseDelta = c.Io.MousePos.Sub c.Io.MousePosPrev) ∧
    (newFrameMouseDelta E c).Io.MousePosPrev = c.Io.MousePos ∧
    (newFrameMouseDelta E c).Io.MousePos = c.Io.MousePos := by
  unfold newFrameMouseDelta
  simp only []
  refine ⟨?_, ?_, ?_, ?_⟩
  · intro h
    have hc : (E.IsMousePosValid c c.Io.MousePos && E.IsMousePosValid c c.Io.MousePosPrev)
        = false := by
      rcases h with h | h <;> simp [h]
    rw [hc]
    simp only [Bool.false_eq_true, if_false]
    split <;> rfl
  · intro h
    have hc : (E.IsMousePosValid c c.Io.MousePos && E.IsMousePosValid c c.Io.MousePosPrev)
        = true := by
      simp [h.1, h.2]
    rw [hc]
    simp only [if_true]
    split <;> rfl
  · split <;> split <;> rfl
  · split <;> split <;> rfl

/-- C25 at `exampleMoving`, whose previous mouse position is invalid, and at
`exampleBetweenFrames`, whose mouse moved from (3, 4) to (5, 5). -/
theorem C25_neutral_delta_witness :
    (newFrameMouseDelta exampleEnv exampleMoving).Io.MouseDelta = Vec2.zero ∧
    (newFrameMouseDelta exampleEnv exampleBetweenFrames).Io.MouseDelta = { X := 2, Y := 1 } ∧
    (newFrameMouseDelta exampleEnv exampleMoving).Io.MousePosPrev = { X := 5, Y := 5 } := by
  have h1 := C25_neutral_delta exampleEnv exampleMoving
  have h2 := C25_neutral_delta exampleEnv exampleBetweenFrames
  refine ⟨h1.1 (Or.inr (by decide!)), ?_, h1.2.2.1⟩
  rw [h2.2.1 ⟨by decide!, by decide!⟩]
  decide!

/-! ## C26: a modal window blocks the hover -/

theorem newFrameWheel_no_hover (E : Env) (fuel : Nat) (c : Context)
    (h : c.HoveredWindow = none) : newFrameWheel E fuel c = some c := by
  unfold newFrameWheel
  rw [h]

/-- C26: when `NewFrame` finds a front-most modal root window `m`, and the
hovered root window found at lines 235-243 is not a child of it
(`IsWindowChildOf` false; a hovered window has a root window), then
`HoveredWindow` and `HoveredRootWindow` are both nil after the modal block of
lines 245-254, they are still nil after the capture block and the hover
cancelling of lines 258-305, and the wheel block of lines 308-353, which reads
the hovered window, does nothing. -/
theorem C26_modal_blocks_hover (E : Env) (fuel : Nat) (c : Context) (m : Nat)
    (hmodal : E.GetFrontMostModalRootWindow (newFrameFindHovered E c) = some m)
    (hchild : E.IsWindowChildOf (newFrameDarken (newFrameFindHovered E c))
      (newFrameFindHovered E c).HoveredRootWindow (some m) = false)
    (hroot : (newFrameFindHovered E c).HoveredRootWindow = none →
      (newFrameFindHovered E c).HoveredWindow = none) :
    (newFrameModal E (newFrameFindHovered E c)
      (E.GetFrontMostModalRootWindow (newFrameFindHovered E c))).HoveredWindow = none ∧
    (newFrameModal E (newFrameFindHovered E c)
      (E.GetFrontMostModalRootWindow (newFrameFindHovered E c))).HoveredRootWindow = none ∧
    ∀ avail : Bool,
      (newFrameHoverCancel E (newFrameCapture E (newFrameModal E (newFrameFindHovered E c)
        (E.GetFrontMostModalRootWindow (newFrameFindHovered E c)))
        (E.GetFrontMostModalRootWindow (newFrameFindHovered E c))) avail).HoveredWindow = none ∧
      (newFrameHoverCancel E (newFrameCapture E (newFrameModal E (newFrameFindHovered E c)
        (E.GetFrontMostModalRootWindow (newFrameFindHovered E c)))
        (E.GetFrontMostModalRootWindow (newFrameFindHovered E c))) avail).HoveredRootWindow
          = none ∧
      newFrameWheel E fuel
        (newFrameHoverCancel E (newFrameCapture E (newFrameModal E (newFrameFindHovered E c)
          (E.GetFrontMostModalRootWindow (newFrameFindHovered E c)))
          (E.GetFrontMostModalRootWindow (newFrameFindHovered E c))) avail) =
        some (newFrameHoverCancel E (newFrameCapture E (newFrameModal E (newFrameFindHovered E c)
          (E.GetFrontMostModalRootWindow (newFrameFindHovered E c)))
          (E.GetFrontMostModalRootWindow (newFrameFindHovered E c))) avail) := by
  rw [hmodal]
  generalize newFrameFindHovered E c = c1 at hchild hroot ⊢
  have hm : (newFrameModal E c1 (some m)).HoveredWindow = none ∧
      (newFrameModal E c1 (some m)).HoveredRootWindow = none := by
    unfold newFrameModal
    rw [if_pos (by simp)]
    simp only []
    have hr : (newFrameDarken c1).HoveredRootWindow = c1.HoveredRootWindow := rfl
    have hw : (newFrameDarken c1).HoveredWindow = c1.HoveredWindow := rfl
    split
    · exact ⟨rfl, rfl⟩
    · rename_i hn
      rw [hr, hchild] at hn
      have hnone : c1.HoveredRootWindow = none := by
        by_contra hne
        exact hn ⟨hne, by simp⟩
      exact ⟨hw.trans (hroot hnone), hr.trans hnone⟩
  refine ⟨hm.1, hm.2, ?_⟩
  intro avail
  have hc : (newFrameCapture E (newFrameModal E c1 (some m)) (some m)).HoveredWindow = none ∧
      (newFrameCapture E (newFrameModal E c1 (some m)) (some m)).HoveredRootWindow = none :=
    ⟨hm.1, hm.2⟩
  have hx : (newFrameHoverCancel E (newFrameCapture E (newFrameModal E c1 (some m)) (some m))
        avail).HoveredWindow = none ∧
      (newFrameHoverCancel E (newFrameCapture E (newFrameModal E c1 (some m)) (some m))
        avail).HoveredRootWindow = none := by
    unfold newFrameHoverCancel
    simp only []
    split
    · exact ⟨rfl, rfl⟩
    · exact hc
  exact ⟨hx.1, hx.2, newFrameWheel_no_hover E fuel _ hx.1⟩

/-- C26 at `exampleMoving` with window 1 modal: window 2, which is being moved,
is found hovered, is not a child of window 1, and is not hovered after the modal
block. -/
theorem C26_modal_blocks_hover_witness :
    (newFrameFindHovered exampleModalEnv exampleMoving).HoveredWindow = some 2 ∧
    (newFrameModal exampleModalEnv (newFrameFindHovered exampleModalEnv exampleMoving)
      (exampleModalEnv.GetFrontMostModalRootWindow
        (newFrameFindHovered exampleModalEnv exampleMoving))).HoveredWindow = none ∧
    (newFrameModal exampleModalEnv (newFrameFindHovered exampleModalEnv exampleMoving)
      (exampleModalEnv.GetFrontMostModalRootWindow
        (newFrameFindHovered exampleModalEnv exampleMoving))).HoveredRootWindow = none := by
  have h := C26_modal_blocks_hover exampleModalEnv 8 exampleMoving 1 rfl (by decide!)
    (by decide!)
  exact ⟨by decide!, h.1, h.2.1⟩

/-! ## C27, C28: the mouse wheel -/

theorem wheelScrollWindow_stop (E : Env) (c : Context) (fuel w : Nat)
    (h : wheelClimbs E c w = false) : wheelScrollWindow E c fuel w = some w := by
  unfold wheelScrollWindow
  rw [h]
  simp

theorem wheelScrollWindow_climb (E : Env) (c : Context) (fuel w p : Nat)
    (h : wheelClimbs E c w = true) (hp : (c.Heap w).ParentWindow = some p) :
    wheelScrollWindow E c (fuel + 1) w = wheelScrollWindow E c fuel p := by
  conv_lhs => unfold wheelScrollWindow
  simp [h, hp]

theorem wheelClimbs_parent (E : Env) (c : Context) (w : Nat) (h : wheelClimbs E c w = true) :
    ∃ p, (c.Heap w).ParentWindow = some p := by
  unfold wheelClimbs at h
  simp only [decide_eq_true_eq] at h
  exact Option.ne_none_iff_exists'.mp h.2.2.2.2

/-- The climb from `w` ends at the first window on the parent chain that fails
the test of the loop, whenever the chain reaches a parentless window within `n`
steps and at least `n` iterations are allowed. -/
theorem wheelScrollWindow_spec (E : Env) (c : Context) (n : Nat) :
    ∀ (w fuel : Nat), parentChainEnds c n w = true → n ≤ fuel →
      ∃ T, wheelScrollWindow E c fuel w = some T ∧ IsScrollTarget E c w T := by
  induction n with
  | zero =>
    intro w fuel hch _
    cases hcl : wheelClimbs E c w
    · exact ⟨w, wheelScrollWindow_stop E c fuel w hcl, [w], rfl, rfl, List.chain'_singleton w,
        by simp, hcl⟩
    · obtain ⟨p, hp⟩ := wheelClimbs_parent E c w hcl
      simp [parentChainEnds, hp] at hch
  | succ n ih =>
    intro w fuel hch hfuel
    cases hcl : wheelClimbs E c w
    · exact ⟨w, wheelScrollWindow_stop E c fuel w hcl, [w], rfl, rfl, List.chain'_singleton w,
        by simp, hcl⟩
    · obtain ⟨p, hp⟩ := wheelClimbs_parent E c w hcl
      obtain ⟨f, rfl⟩ : ∃ f, fuel = f + 1 := ⟨fuel - 1, by omega⟩
      have hch2 : parentChainEnds c n p = true := by
        simpa [parentChainEnds, hp] using hch
      obtain ⟨T, hT, chain, c1, c2, c3, c4, c5⟩ := ih p f hch2 (by omega)
      refine ⟨T, by rw [wheelScrollWindow_climb E c f w p hcl hp]; exact hT, w :: chain, rfl,
        ?_, ?_, ?_, c5⟩
      · cases chain with
        | nil => simp at c1
        | cons a l => simpa [List.getLast?_cons_cons] using c2
      · cases chain with
        | nil => simp at c1
        | cons a l =>
          simp only [List.head?_cons, Option.some.injEq] at c1
          subst c1
          exact List.Chain'.cons hp c3
      · cases chain with
        | nil => simp at c1
        | cons a l =>
          intro x hx
          simp only [List.dropLast_cons₂, List.mem_cons] at hx
          rcases hx with hx | hx
          · rw [hx]; exact hcl
          · exact c4 x hx

/-- C27: when the hovered window `w` is not collapsed, `MouseWheel != 0` and
Ctrl is up, and the parent chain from `w` reaches a parentless window within `n`
steps, the climb of lines 312-318 ends within `n` iterations at the first window
`T` on the chain that fails the loop test; if `T` has neither
`NoScrollWithMouse` nor `NoInputs`, the vertical wheel is one call
`SetWindowScrollY(T, T.Scroll.Y - MouseWheel * amount)` (followed by the
horizontal wheel block), and otherwise the wheel block changes nothing. -/
theorem C27_vertical_wheel_redirection (E : Env) (c : Context) (w n fuel : Nat)
    (hhov : c.HoveredWindow = some w) (hcol : (c.Heap w).Collapsed = false)
    (hwheel : c.Io.MouseWheel ≠ 0) (hctrl : c.Io.KeyCtrl = false)
    (hchain : parentChainEnds c n w = true) (hfuel : n ≤ fuel) :
    ∃ T, wheelScrollWindow E c fuel w = some T ∧ IsScrollTarget E c w T ∧
      (wheelScrollAllowed E c T = true →
        newFrameWheel E fuel c = some (wheelHorizontal E
          (E.SetWindowScrollY c T
            ((c.Heap T).Scroll.Y - c.Io.MouseWheel * wheelScrollAmount E c T)) w T true)) ∧
      (wheelScrollAllowed E c T = false → newFrameWheel E fuel c = some c) := by
  obtain ⟨T, hT, hchainT⟩ := wheelScrollWindow_spec E c n w fuel hchain hfuel
  refine ⟨T, hT, hchainT, ?_, ?_⟩
  · intro ha
    unfold newFrameWheel
    rw [hhov]
    simp only []
    rw [if_pos ⟨by simp [hcol], Or.inl hwheel⟩, hT]
    simp only [ha]
    unfold wheelVertical
    rw [if_pos hwheel, if_neg (by simp [hctrl]), if_pos ⟨by simp [hctrl], rfl⟩]
  · intro ha
    unfold newFrameWheel
    rw [hhov]
    simp only []
    rw [if_pos ⟨by simp [hcol], Or.inl hwheel⟩, hT]
    simp only [ha]
    unfold wheelVertical
    rw [if_pos hwheel, if_neg (by simp [hctrl]), if_neg (by simp)]
    unfold wheelHorizontal
    rw [if_neg (by simp)]

/-- C27 at `exampleWheel`: window 4 is hovered, it and its parent window 3 opt
out of wheel scrolling, and the vertical wheel scrolls window 2 by 65, five
times its font size, and leaves windows 3 and 4 where they are. -/
theorem C27_vertical_wheel_redirection_witness :
    parentChainEnds exampleWheel 2 4 = true ∧
    wheelScrollWindow exampleEnv exampleWheel 2 4 = some 2 ∧
    (newFrameWheel exampleEnv 2 exampleWheel).map
      (fun c => ((c.Heap 2).Scroll.Y, (c.Heap 3).Scroll.Y, (c.Heap 4).Scroll.Y))
      = some (35, 20, 2) := by
  obtain ⟨T, hT, _, h1, _⟩ := C27_vertical_wheel_redirection exampleEnv exampleWheel 4 2 2
    (by decide) (by decide) (by decide!) (by decide) (by decide) (le_refl _)
  have hT2 : wheelScrollWindow exampleEnv exampleWheel 2 4 = some 2 := by decide
  have hTeq : T = 2 := by
    rw [hT2] at hT
    exact (Option.some.inj hT).symm
  subst hTeq
  refine ⟨by decide, hT2, ?_⟩
  rw [h1 (by decide)]
  decide!

/-- C28: at `exampleWheelH` window 3 is hovered; it is a child window with
`NoScrollWithMouse`, without `NoScrollbar` and `NoInputs`, and its parent,
window 2, permits wheel scrolling and is the window the climb ends at.  With
`MouseWheelH = 1` and Ctrl up the wheel block changes the horizontal scroll of
neither window: the call of line 350 is addressed to the hovered window and
guarded by that window's own `NoScrollWithMouse` flag.  The vertical wheel in
the same place (`exampleWheel` from window 3) does scroll window 2. -/
theorem C28_horizontal_wheel_scrolls_nothing :
    wheelClimbs exampleEnv exampleWheelH 3 = true ∧
    wheelScrollWindow exampleEnv exampleWheelH 8 3 = some 2 ∧
    wheelScrollAllowed exampleEnv exampleWheelH 2 = true ∧
    exampleWheelH.Io.MouseWheelH = 1 ∧ exampleWheelH.Io.KeyCtrl = false ∧
    ((exampleWheelH.Heap 2).Scroll.X, (exampleWheelH.Heap 3).Scroll.X) = (30, 10) ∧
    (newFrameWheel exampleEnv 8 exampleWheelH).map
      (fun c => ((c.Heap 2).Scroll.X, (c.Heap 3).Scroll.X)) = some (30, 10) ∧
    (newFrameWheel exampleEnv 8 { exampleWheel with HoveredWindow := some 3 }).map
      (fun c => ((c.Heap 2).Scroll, (c.Heap 3).Scroll))
      = some ({ X := 30, Y := 35 }, { X := 10, Y := 20 }) := by
  refine ⟨by decide, by decide, by decide, by decide, by decide, by decide, by decide!, by decide!⟩

/-! ## C29: the frame counters -/

theorem counters_ite (p : Prop) [Decidable p] (a b : Context) (k : Int × Int × Int)
    (ha : a.counters = k) (hb : b.counters = k) : (if p then a else b).counters = k := by
  split <;> assumption

theorem newFrameSetup_counters (E : Env) (hE : E.KeepsCounters) (c : Context) :
    (newFrameSetup E c).counters =
      (wrapInt (c.FrameCount + 1), c.FrameCountEnded, c.FrameCountRendered) := by
  unfold newFrameSetup
  simp only []
  show (E.SetCurrentFont _ _).counters = _
  rw [hE.SetCurrentFont]
  split <;> rfl

theorem newFrameIds_counters (c : Context) : (newFrameIds c).counters = c.counters := by
  unfold newFrameIds newFrameActiveId newFrameClearActive newFrameHoveredId ClearActiveID
  simp only []
  split_ifs <;> rfl

theorem newFrameDragDrop_counters (E : Env) (hE : E.KeepsCounters) (c : Context) :
    (newFrameDragDrop E c).counters = c.counters := by
  unfold newFrameDragDrop
  simp only []
  split
  · exact hE.ClearDragDrop c
  · rfl

theorem newFrameMouseDelta_counters (E : Env) (c : Context) :
    (newFrameMouseDelta E c).counters = c.counters := by
  unfold newFrameMouseDelta
  simp only []
  split <;> split <;> rfl

theorem newFrameMouseButtons_counters (c : Context) :
    (newFrameMouseButtons c).counters = c.counters := by
  unfold newFrameMouseButtons
  generalize List.range c.Io.MouseDown.length = l
  induction l generalizing c with
  | nil => rfl
  | cons i l ih =>
    rw [List.foldl_cons, ih]
    unfold newFrameMouseStep
    simp only []
    split <;> rfl

theorem newFrameSettings_counters (E : Env) (hE : E.KeepsCounters) (c : Context) :
    (newFrameSettings E c).counters = c.counters := by
  unfold newFrameSettings
  split
  · simp only []
    split
    · rw [hE.SaveIniSettingsToDisk]
      rfl
    · rfl
  · rfl

theorem newFrameFindHovered_counters (E : Env) (c : Context) :
    (newFrameFindHovered E c).counters = c.counters := by
  unfold newFrameFindHovered
  simp only []
  split <;> split <;> rfl

theorem newFrameModal_counters (E : Env) (c : Context) (m : WindowRef) :
    (newFrameModal E c m).counters = c.counters := by
  unfold newFrameModal newFrameDarken
  simp only []
  split_ifs <;> rfl

theorem newFrameHoverCancel_counters (E : Env) (c : Context) (b : Bool) :
    (newFrameHoverCancel E c b).counters = c.counters := by
  unfold newFrameHoverCancel
  simp only []
  split <;> rfl

theorem newFrameKeys_counters (c : Context) : (newFrameKeys c).counters = c.counters := rfl

theorem newFrameFramerate_counters (c : Context) :
    (newFrameFramerate c).counters = c.counters := rfl

theorem newFrameCapture_counters (E : Env) (c : Context) (m : WindowRef) :
    (newFrameCapture E c m).counters = c.counters := rfl

theorem newFrameInput_counters (E : Env) (hE : E.KeepsCounters) (c : Context) :
    (newFrameInput E c).counters =
      (wrapInt (c.FrameCount + 1), c.FrameCountEnded, c.FrameCountRendered) := by
  unfold newFrameInput
  simp only []
  rw [newFrameHoverCancel_counters, newFrameCapture_counters, newFrameModal_counters,
    newFrameFindHovered_counters, newFrameSettings_counters E hE, hE.UpdateMovingWindow,
    newFrameFramerate_counters, newFrameMouseButtons_counters, newFrameMouseDelta_counters,
    hE.NavUpdate, newFrameKeys_counters, newFrameDragDrop_counters E hE, newFrameIds_counters,
    newFrameSetup_counters E hE]

theorem newFrameWheel_counters (E : Env) (hE : E.KeepsCounters) (fuel : Nat) (c c' : Context)
    (h : newFrameWheel E fuel c = some c') : c'.counters = c.counters := by
  unfold newFrameWheel at h
  split at h
  · injection h with h
    rw [← h]
  · split at h
    · split at h
      · cases h
      · injection h with h
        rw [← h]
        unfold wheelHorizontal wheelVertical wheelZoom
        simp only []
        split_ifs <;> (try simp only [hE.SetWindowScrollX, hE.SetWindowScrollY]) <;> (try rfl)
    · injection h with h
      rw [← h]

theorem newFrameTab_counters (E : Env) (c : Context) :
    (newFrameTab E c).counters = c.counters := by
  unfold newFrameTab
  simp only []
  split
  · rfl
  · split_ifs <;> rfl

theorem newFrameMarkWindows_counters (c : Context) :
    (newFrameMarkWindows c).counters = c.counters := by
  unfold newFrameMarkWindows
  generalize c.Windows = l
  induction l generalizing c with
  | nil => rfl
  | cons i l ih =>
    rw [List.foldl_cons, ih]
    rfl

theorem newFrameRestoreFocus_counters (E : Env) (hE : E.KeepsCounters) (c : Context) :
    (newFrameRestoreFocus E c).counters = c.counters := by
  unfold newFrameRestoreFocus
  split
  · rfl
  · split
    · exact hE.FocusFrontMostActiveWindow _ _
    · rfl

theorem pushClipRect_counters (c c' : Context) (a b : Vec2) (i : Bool)
    (h : c.PushClipRect a b i = some c') : c'.counters = c.counters := by
  unfold Context.PushClipRect at h
  split at h
  · cases h
  · injection h with h
    rw [← h]
    rfl

theorem popClipRect_counters (c c' : Context) (h : c.PopClipRect = some c') :
    c'.counters = c.counters := by
  unfold Context.PopClipRect at h
  split at h
  · cases h
  · split at h
    · cases h
    · injection h with h
      rw [← h]
      rfl

theorem beginFindOrCreate_counters (E : Env) (hE : E.KeepsCounters) (c : Context)
    (name : String) (flags : WindowFlags) :
    (beginFindOrCreate E c name flags).1.counters = c.counters := by
  unfold beginFindOrCreate
  split
  · rfl
  · split
    · exact hE.CreateNewWindow _ _ _ _
    · rfl

theorem beginApplyPos_counters (E : Env) (hE : E.KeepsCounters) (c : Context) (w : Nat) :
    (beginApplyPos E c w).counters = c.counters := by
  unfold beginApplyPos
  split
  · simp only []
    split
    · rfl
    · exact hE.SetWindowPos _ _ _ _
  · rfl

theorem beginApplyRest_counters (E : Env) (hE : E.KeepsCounters) (c : Context) (w : Nat)
    (first : Bool) : (beginApplyRest E c w first).counters = c.counters := by
  unfold beginApplyRest
  lift_lets
  intro a1 s1 a2 s2 a3 s3 s4 a4 s5 a5 a6 s6 a7 a8 s7
  have h1 : a1.counters = c.counters := hE.SetWindowSize _ _ _ _
  have h2 : a2.counters = c.counters := counters_ite _ _ _ _ h1 rfl
  have h3 : a3.counters = c.counters := h2
  have h4 : a4.counters = c.counters := counters_ite _ _ _ _ h3 h3
  have h5 : a5.counters = c.counters := counters_ite _ _ _ _ h4 (counters_ite _ _ _ _ h2 h2)
  have h6 : a6.counters = c.counters := (hE.SetWindowCollapsed _ _ _ _).trans h5
  have h7 : a7.counters = c.counters := counters_ite _ _ _ _ h6 h5
  have h8 : a8.counters = c.counters := (hE.SetWindowFocus _).trans h7
  exact counters_ite _ _ _ _ h8 h7

theorem beginFinish_counters (E : Env) (s : BeginState) :
    (beginFinish E s).ctx.counters = s.ctx.counters := by
  unfold beginFinish
  lift_lets
  intro c window c1 c2 c3 c4 c5 c6 c7 c8 skip c9 c10
  have h2 : c2.counters = c.counters := rfl
  have h4 : c4.counters = c.counters := counters_ite _ _ _ _ (counters_ite _ _ _ _ h2 h2) h2
  have h6 : c6.counters = c.counters := counters_ite _ _ _ _ (counters_ite _ _ _ _ h4 h4) rfl
  have h8 : c8.counters = c.counters := counters_ite _ _ _ _ h6 h6
  exact h8

set_option maxHeartbeats 4000000 in
theorem beginSetup_counters (E : Env) (hE : E.KeepsCounters) (c : Context) (name : String) (p_open : Option Bool)
    (flags : WindowFlags) (s : BeginState) (h : beginSetup E c name p_open flags = some s) :
    s.ctx.counters = c.counters := by
  unfold beginSetup at h
  have hfc := beginFindOrCreate_counters E hE c name flags
  generalize beginFindOrCreate E c name flags = r at h hfc
  obtain ⟨c1, wopt⟩ := r
  cases wopt with
  | none => simp at h
  | some window =>
    simp -zeta only [] at h
    lift_lets at h
    extract_lets flags1 current_frame first s1 c2 flags2 wj wh activated s2 at h
    have h2 : c2.counters = c.counters := counters_ite _ _ _ _ hfc hfc
    clear_value activated wj wh flags2 first flags1
    cases activated with
    | none => simp at h
    | some wj2 =>
      simp -zeta only [] at h
      lift_lets at h
      extract_lets d1 d2 d3 d4 pushed at h
      have h3 : d1.counters = c.counters := h2
      have h4 : d2.counters = c.counters :=
        counters_ite _ _ _ _ ((hE.SetWindowConditionAllowFlags _ _ _ _).trans h3) h3
      have h5 : d4.counters = c.counters := h4
      have hp : ∀ x, pushed = some x → x.counters = c.counters := by
        intro x hx
        simp only [pushed] at hx
        split at hx
        · split at hx
          · cases hx
          · injection hx with hx
            rw [← hx]
            exact h5
        · injection hx with hx
          rw [← hx]
          exact h5
      clear_value pushed
      cases pushed with
      | none => simp at h
      | some c3 =>
        have h6 := hp c3 rfl
        simp -zeta only [] at h
        lift_lets at h
        extract_lets s4 e1 e2 e3 e4 at h
        have h7 : e1.counters = c.counters := counters_ite _ _ _ _ h6 h6
        have h8 : e2.counters = c.counters := (beginApplyPos_counters E hE _ _).trans h7
        have h9 : e3.counters = c.counters := (beginApplyRest_counters E hE _ _ _).trans h8
        have h10 : e4.counters = c.counters :=
          counters_ite _ _ _ _ ((hE.SetWindowConditionAllowFlags _ _ _ _).trans h9) h9
        have hq : ∀ x, e4.PushClipRect (e4.Heap window).InnerClipRect.Min
            (e4.Heap window).InnerClipRect.Max true = some x → x.counters = c.counters :=
          fun x hx => (pushClipRect_counters _ _ _ _ _ hx).trans h10
        generalize e4.PushClipRect (e4.Heap window).InnerClipRect.Min
          (e4.Heap window).InnerClipRect.Max true = pc at h hq
        cases pc with
        | none => simp at h
        | some c4 =>
          have h11 := hq c4 rfl
          simp -zeta only [] at h
          lift_lets at h
          extract_lets s5 f1 s6 f2 s7 f3 at h
          have h12 : f1.counters = c.counters := counters_ite _ _ _ _ h11 h11
          have h13 : f3.counters = c.counters := h12
          injection h with h
          rw [← h]
          exact h13
theorem end_counters (E : Env) (hE : E.KeepsCounters) (c c' : Context) (h : End E c = some c') :
    c'.counters = c.counters := by
  unfold End at h
  cases hw : c.CurrentWindow with
  | none => rw [hw] at h; simp at h
  | some window =>
    rw [hw] at h
    simp -zeta only [] at h
    lift_lets at h
    extract_lets a1 at h
    have h1 : a1.counters = c.counters := counters_ite _ _ _ _ (hE.EndColumns _) rfl
    have hq : ∀ x, a1.PopClipRect = some x → x.counters = c.counters :=
      fun x hx => (popClipRect_counters _ _ hx).trans h1
    generalize a1.PopClipRect = pc at h hq
    cases pc with
    | none => simp at h
    | some c2 =>
      have h2 := hq c2 rfl
      simp -zeta only [] at h
      lift_lets at h
      extract_lets a2 at h
      have h3 : a2.counters = c.counters := counters_ite _ _ _ _ ((hE.LogFinish _).trans h2) h2
      split at h
      · cases h
      · lift_lets at h
        extract_lets a3 popped at h
        have h4 : a3.counters = c.counters := h3
        have hp : ∀ x, popped = some x → x.counters = c.counters := by
          intro x hx
          simp only [popped] at hx
          split at hx
          · split at hx
            · cases hx
            · injection hx with hx
              rw [← hx]
              exact h4
          · injection hx with hx
            rw [← hx]
            exact h4
        clear_value popped
        cases popped with
        | none => simp at h
        | some c3 =>
          have h5 := hp c3 rfl
          simp -zeta only [] at h
          split at h <;> injection h with h <;> rw [← h] <;> exact h5
theorem endFrameLeftClick_counters (E : Env) (hE : E.KeepsCounters) (c c' : Context)
    (h : endFrameLeftClick E c = some c') : c'.counters = c.counters := by
  unfold endFrameLeftClick at h
  split at h
  · split at h
    · lift_lets at h
      extract_lets a1 at h
      have h1 : a1.counters = c.counters := hE.FocusWindow _ _
      split at h
      · cases h
      · lift_lets at h
        extract_lets a2 a3 at h
        have h2 : a3.counters = c.counters := (hE.SetActiveID _ _ _).trans h1
        split at h
        · cases h
        · lift_lets at h
          extract_lets a4 at h
          have h3 : a4.counters = c.counters := h2
          split at h
          · cases h
          · split at h <;> injection h with h <;> rw [← h] <;> exact h3
    · split at h
      · injection h with h
        rw [← h]
        exact hE.FocusWindow _ _
      · injection h with h
        rw [← h]
  · injection h with h
    rw [← h]

theorem endFrameRightClick_counters (E : Env) (hE : E.KeepsCounters) (c : Context) :
    (endFrameRightClick E c).counters = c.counters := by
  unfold endFrameRightClick
  split
  · lift_lets
    intro modal above
    split <;> exact hE.ClosePopupsOverWindow _ _
  · rfl

theorem endFrameSortWindows_counters (E : Env) (hE : E.KeepsCounters) (c : Context) :
    (endFrameSortWindows E c).counters = c.counters := by
  have hfold : ∀ (l : List Nat) (x : Context),
      (l.foldl (fun c window =>
        if (c.Heap window).Active ∧ (c.Heap window).Flags &&& E.WindowFlagsChildWindow ≠ 0 then c
        else E.AddWindowToSortedBuffer c window) x).counters = x.counters := by
    intro l
    induction l with
    | nil => intro x; rfl
    | cons w l ih =>
      intro x
      rw [List.foldl_cons, ih]
      exact counters_ite _ _ _ _ rfl (hE.AddWindowToSortedBuffer _ _)
  unfold endFrameSortWindows
  lift_lets
  intro windows a1 a2
  have h2 : a2.counters = c.counters := hfold _ _
  exact h2

theorem endFrame_counters (E : Env) (hE : E.KeepsCounters) (c c' : Context)
    (h : EndFrame E c = some c') :
    c'.counters = (c.FrameCount, c.FrameCount, c.FrameCountRendered) := by
  unfold EndFrame at h
  split at h
  · rename_i heq
    injection h with h
    rw [← h]
    show (c.FrameCount, c.FrameCountEnded, c.FrameCountRendered) = _
    rw [heq]
  · lift_lets at h
    extract_lets a1 a2 at h
    have h1 : a1.counters = c.counters := counters_ite _ _ _ _ rfl rfl
    have h2 : a2.counters = c.counters := by
      simp only [a2]
      split
      · exact counters_ite _ _ _ _ h1 h1
      · exact h1
    have hq : ∀ x, End E a2 = some x → x.counters = c.counters :=
      fun x hx => (end_counters E hE _ _ hx).trans h2
    generalize End E a2 = r at h hq
    cases r with
    | none => simp at h
    | some c2 =>
      have h3 := hq c2 rfl
      simp -zeta only [] at h
      lift_lets at h
      extract_lets appearing clicked at h
      have hc : ∀ x, clicked = some x → x.counters = c.counters := by
        intro x hx
        simp only [clicked] at hx
        split at hx
        · split at hx
          · cases hl : endFrameLeftClick E c2 with
            | none => rw [hl] at hx; simp at hx
            | some c3 =>
              rw [hl] at hx
              simp only [] at hx
              injection hx with hx
              rw [← hx, endFrameRightClick_counters E hE]
              exact (endFrameLeftClick_counters E hE _ _ hl).trans h3
          · injection hx with hx
            rw [← hx]
            exact h3
        · injection hx with hx
          rw [← hx]
          exact h3
      clear_value clicked
      cases clicked with
      | none => simp at h
      | some c4 =>
        have h4 := hc c4 rfl
        simp -zeta only [] at h
        lift_lets at h
        extract_lets b1 b2 at h
        have h5 : b2.counters = c.counters := (endFrameSortWindows_counters E hE _).trans h4
        injection h with h
        rw [← h]
        have h6 := congrArg Prod.fst h5
        have h7 := congrArg (fun p => p.2.2) h5
        exact Prod.ext h6 (Prod.ext h6 h7)

theorem newFrameBegin_counters (E : Env) (hE : E.KeepsCounters) (c c' : Context)
    (h : newFrameBegin E c = some c') : c'.counters = c.counters := by
  unfold newFrameBegin Begin BeginEx at h
  lift_lets at h
  extract_lets a1 a2 a3 at h
  have h3 : a3.counters = c.counters :=
    (hE.SetNextWindowSize _ _ _).trans (hE.ClosePopupsOverWindow _ _)
  simp only [Option.map_eq_some'] at h
  obtain ⟨r, ⟨s, hs, hr⟩, hc⟩ := h
  rw [← hc, ← hr, beginFinish_counters, beginSetup_counters E hE _ _ _ _ _ hs, h3]

theorem newFrameFinish_counters (E : Env) (hE : E.KeepsCounters) (c c' : Context)
    (h : newFrameFinish E c = some c') : c'.counters = c.counters := by
  unfold newFrameFinish at h
  lift_lets at h
  extract_lets a1 a2 a3 at h
  rw [newFrameBegin_counters E hE _ _ h]
  have h3 : a3.counters = c.counters :=
    (newFrameRestoreFocus_counters E hE _).trans
      ((newFrameMarkWindows_counters _).trans (newFrameTab_counters E _))
  exact h3

theorem newFrame_counters (E : Env) (hE : E.KeepsCounters) (fuel : Nat) (c c' : Context)
    (h : NewFrame E fuel c = some c') :
    c'.counters = (wrapInt (c.FrameCount + 1), c.FrameCountEnded, c.FrameCountRendered) := by
  unfold NewFrame at h
  split at h
  · cases h
  · rename_i c1 hw
    rw [newFrameFinish_counters E hE _ _ h, newFrameWheel_counters E hE _ _ _ hw,
      newFrameInput_counters E hE]

theorem render_counters (E : Env) (hE : E.KeepsCounters) (c c' : Context)
    (h : Render E c = some c') :
    c'.FrameCountEnded = c'.FrameCount ∧ c'.FrameCountRendered = c'.FrameCount := by
  have hG : E.GatherKeepsCounters := by
    intro x w
    have hx := hE.AddWindowToDrawDataSelectLayer x w
    exact ⟨congrArg Prod.fst hx, congrArg (fun p => p.2.1) hx, congrArg (fun p => p.2.2) hx⟩
  unfold Render at h
  simp only [Option.map_eq_some'] at h
  obtain ⟨c1, h1, h2⟩ := h
  have hended : c1.FrameCountEnded = c1.FrameCount := by
    split at h1
    · exact endFrame_ended E c c1 h1
    · rename_i hn
      injection h1 with h1
      rw [← h1]
      exact not_not.mp hn
  obtain ⟨a1, a2, a3⟩ := renderAfterEndFrame_counters E hG c1
  rw [← h2, a1, a2, a3]
  exact ⟨hended, rfl⟩

/-- C29, counterexample: in `exampleLastFrame` the three counters hold the
largest `int` and are in order.  `NewFrame` returns with `FrameCount` wrapped to
the least `int`: the counter has not increased by 1, and `FrameCountEnded` is
above `FrameCount`. -/
theorem C29_frame_counter_wraps :
    FrameOrder exampleLastFrame ∧
    (NewFrame exampleEnv 8 exampleLastFrame).map (fun c => c.counters) =
      some (-9223372036854775808, 9223372036854775807, 9223372036854775807) ∧
    (NewFrame exampleEnv 8 exampleLastFrame).map (fun c => decide (FrameOrder c)) =
      some false := by
  refine ⟨by decide, ?_, ?_⟩
  · decide!
  · decide!

/-- C29, amended: when the collaborators leave the frame counters alone, every
`NewFrame` that returns from a state whose `FrameCount` is below the largest
`int` (the increment does not overflow) has increased `FrameCount` by exactly 1
and left `FrameCountEnded` and `FrameCountRendered` as they were; the order
`FrameCountRendered <= FrameCountEnded <= FrameCount` is preserved by such a
`NewFrame` and by every `EndFrame` and `Render`; and after such a `NewFrame`
from a state in that order `FrameCountEnded != FrameCount`, so the test that
skips `EndFrame` fails. -/
theorem C29_frame_counter_invariant (E : Env) (hE : E.KeepsCounters) (fuel : Nat)
    (c c' : Context) :
    (NewFrame E fuel c = some c' → InInt (c.FrameCount + 1) →
      c'.FrameCount = c.FrameCount + 1 ∧ c'.FrameCountEnded = c.FrameCountEnded ∧
      c'.FrameCountRendered = c.FrameCountRendered ∧
      (FrameOrder c → FrameOrder c' ∧ c'.FrameCountEnded ≠ c'.FrameCount)) ∧
    (EndFrame E c = some c' → FrameOrder c → FrameOrder c') ∧
    (Render E c = some c' → FrameOrder c → FrameOrder c') := by
  refine ⟨?_, ?_, ?_⟩
  · intro h hin
    have hc := newFrame_counters E hE fuel c c' h
    have hwrap : wrapInt (c.FrameCount + 1) = c.FrameCount + 1 := by
      unfold InInt at hin
      unfold wrapInt
      omega
    have e1 : c'.FrameCount = c.FrameCount + 1 := (congrArg Prod.fst hc).trans hwrap
    have e2 : c'.FrameCountEnded = c.FrameCountEnded := congrArg (fun p => p.2.1) hc
    have e3 : c'.FrameCountRendered = c.FrameCountRendered := congrArg (fun p => p.2.2) hc
    refine ⟨e1, e2, e3, ?_⟩
    rintro ⟨o1, o2⟩
    unfold FrameOrder
    rw [e1, e2, e3]
    exact ⟨⟨o1, by omega⟩, by omega⟩
  · intro h ho
    have hc := endFrame_counters E hE c c' h
    have e1 : c'.FrameCount = c.FrameCount := congrArg Prod.fst hc
    have e2 : c'.FrameCountEnded = c.FrameCount := congrArg (fun p => p.2.1) hc
    have e3 : c'.FrameCountRendered = c.FrameCountRendered := congrArg (fun p => p.2.2) hc
    obtain ⟨o1, o2⟩ := ho
    unfold FrameOrder
    rw [e1, e2, e3]
    exact ⟨by omega, le_refl _⟩
  · intro h _
    obtain ⟨r1, r2⟩ := render_counters E hE c c' h
    unfold FrameOrder
    rw [r1, r2]
    exact ⟨le_refl _, le_refl _⟩

theorem exampleEnv_keepsCounters : exampleEnv.KeepsCounters where
  CreateNewWindow := fun _ _ _ _ => rfl
  SetWindowConditionAllowFlags := fun _ _ _ _ => rfl
  SetWindowPos := fun _ _ _ _ => rfl
  SetWindowSize := fun _ _ _ _ => rfl
  SetWindowCollapsed := fun _ _ _ _ => rfl
  SetWindowFocus := fun _ => rfl
  EndColumns := fun c => by
    show (match c.CurrentWindow with
      | some w => c.setWin w { c.Heap w with DC := { (c.Heap w).DC with ColumnsSet := none } }
      | none => c).counters = c.counters
    cases c.CurrentWindow <;> rfl
  LogFinish := fun _ => rfl
  FocusWindow := fun _ _ => rfl
  SetActiveID := fun _ _ _ => rfl
  ClosePopupsOverWindow := fun _ _ => rfl
  AddWindowToSortedBuffer := fun _ _ => rfl
  AddWindowToDrawDataSelectLayer := fun _ _ => rfl
  SetCurrentFont := fun _ _ => rfl
  ClearDragDrop := fun _ => rfl
  NavUpdate := fun _ => rfl
  UpdateMovingWindow := fun _ => rfl
  SaveIniSettingsToDisk := fun _ _ => rfl
  SetWindowScrollY := fun _ _ _ => rfl
  SetWindowScrollX := fun _ _ _ => rfl
  FocusFrontMostActiveWindow := fun _ _ => rfl
  SetNextWindowSize := fun _ _ _ => rfl

/-- C29 at `exampleBetweenFrames` (frame 5, ended and rendered): `NewFrame`
returns, the frame counter is 6, the other two counters are still 5, and the
frame is not yet ended. -/
theorem C29_frame_counter_invariant_witness :
    FrameOrder exampleBetweenFrames ∧
    ∃ c', NewFrame exampleEnv 8 exampleBetweenFrames = some c' ∧
      c'.FrameCount = 6 ∧ c'.FrameCountEnded = 5 ∧ c'.FrameCountRendered = 5 ∧
      FrameOrder c' ∧ c'.FrameCountEnded ≠ c'.FrameCount := by
  have hs : (NewFrame exampleEnv 8 exampleBetweenFrames).isSome = true := by decide!
  obtain ⟨c', hc'⟩ := Option.isSome_iff_exists.mp hs
  have h := (C29_frame_counter_invariant exampleEnv exampleEnv_keepsCounters 8
    exampleBetweenFrames c').1 hc' (by decide)
  have ho : FrameOrder exampleBetweenFrames := by decide
  exact ⟨ho, c', hc', h.1, h.2.1, h.2.2.1, h.2.2.2 ho⟩

/-! ## C30: the keyboard durations -/

/-- One iteration of the keyboard loop on a key that is down: whatever the
duration was, it is 0 afterwards, because line 149 has set it to -1 before line
151 tests it. -/
theorem newFrameKeyStep_down (io : InputSnapshot) (i : Nat) (hi : i < io.KeysDownDuration.length)
    (hd : io.KeysDown.getD i false = true) :
    (newFrameKeyStep io i).KeysDownDuration.getD i 0 = 0 := by
  unfold newFrameKeyStep
  simp only []
  rw [if_pos hd, getD_set_self _ _ _ _ hi, if_pos (by norm_num)]
  exact getD_set_self _ _ _ _ (by rw [List.length_set]; exact hi)

/-- C30: at `exampleBetweenFrames` key 2 is down and has been held for half a
second, and the frame time is a sixtieth of a second.  After the keyboard block
of `NewFrame` the previous durations are the durations on entry, the keys that
are up have duration -1 and key 1, pressed in this frame, has duration 0; but
key 2 has duration 0 as well, not 1/2 + 1/60. -/
theorem C30_held_key_duration_restarts :
    exampleBetweenFrames.Io.KeysDown = [false, true, true, false] ∧
    exampleBetweenFrames.Io.KeysDownDuration = [-1, -1, 1 / 2, 3 / 4] ∧
    exampleBetweenFrames.Io.DeltaTime = 1 / 60 ∧
    (newFrameKeys exampleBetweenFrames).Io.KeysDownDurationPrev = [-1, -1, 1 / 2, 3 / 4] ∧
    (newFrameKeys exampleBetweenFrames).Io.KeysDownDuration = [-1, 0, 0, -1] ∧
    (newFrameKeys exampleBetweenFrames).Io.KeysDownDuration.getD 2 0 ≠ 1 / 2 + 1 / 60 := by
  refine ⟨rfl, rfl, rfl, by decide!, by decide!, by decide!⟩

/-! ## C31: the ownership of clicks -/

theorem captureStep_owned (c : Context) (s : CaptureScan) (j : Nat) :
    (captureStep c s j).MouseDownOwned =
      if c.Io.MouseClicked.getD j false = true then
        s.MouseDownOwned.set j (decide (c.HoveredWindow ≠ none) ||
          decide (c.OpenPopupStack.length > 0))
      else s.MouseDownOwned := by
  unfold captureStep
  simp only []
  split <;> split <;> (try split) <;> (try split) <;> rfl

/-- The scan of lines 258-272 over the first `n` buttons: a button below `n`
that was clicked in a frame without hovered window and open popup is not owned. -/
theorem captureFold_owned (c : Context) (i : Nat) (hc : c.Io.MouseClicked.getD i false = true)
    (hh : c.HoveredWindow = none) (hp : c.OpenPopupStack = []) (s : CaptureScan)
    (hi : i < s.MouseDownOwned.length) (n : Nat) :
    ((List.range n).foldl (captureStep c) s).MouseDownOwned.length = s.MouseDownOwned.length ∧
    (i < n → ((List.range n).foldl (captureStep c) s).MouseDownOwned.getD i true = false) := by
  induction n with
  | zero => exact ⟨rfl, fun h => absurd h (Nat.not_lt_zero _)⟩
  | succ n ih =>
    obtain ⟨l1, l2⟩ := ih
    rw [List.range_succ, List.foldl_append, List.foldl_cons, List.foldl_nil, captureStep_owned]
    generalize (List.range n).foldl (captureStep c) s = r at l1 l2
    have hv : (decide (c.HoveredWindow ≠ none) || decide (c.OpenPopupStack.length > 0)) = false := by
      simp [hh, hp]
    rw [hv]
    refine ⟨?_, ?_⟩
    · split
      · rw [List.length_set, l1]
      · exact l1
    · intro hlt
      by_cases hin : i = n
      · subst hin
        rw [if_pos hc]
        exact getD_set_self _ _ _ _ (by rw [l1]; exact hi)
      · have hlt2 : i < n := by omega
        split
        · rw [getD_set_ne _ _ _ _ _ (Ne.symm hin)]
          exact l2 hlt2
        · exact l2 hlt2

/-- C31: at the capture block of `NewFrame` (lines 256-305): a button that was
clicked in this frame while no window is hovered and the open-popup stack is
empty is not owned afterwards (`MouseDownOwned[i]` is false); when the
earliest-clicked held button is not owned (`mouse_avail_to_imgui` is false)
and no external drag payload is active, `HoveredWindow` and `HoveredRootWindow`
are nil after line 305, and, with no capture override pending and no open
popup, `WantCaptureMouse` is false; and the three `Want...NextFrame` overrides
are -1 after the block. -/
theorem C31_click_ownership (E : Env) (c : Context) (modal_window : WindowRef) :
    (∀ i, i < c.Io.MouseDown.length → i < c.Io.MouseDownOwned.length →
      c.Io.MouseClicked.getD i false = true → c.HoveredWindow = none → c.OpenPopupStack = [] →
      (newFrameCapture E c modal_window).Io.MouseDownOwned.getD i true = false) ∧
    (mouseAvailToImgui (captureScan c) = false →
      (c.DragDropActive && decide (c.DragDropSourceFlags &&& E.DragDropFlagsSourceExtern ≠ 0))
        = false →
      (newFrameHoverCancel E (newFrameCapture E c modal_window)
        (mouseAvailToImgui (captureScan c))).HoveredWindow = none ∧
      (newFrameHoverCancel E (newFrameCapture E c modal_window)
        (mouseAvailToImgui (captureScan c))).HoveredRootWindow = none ∧
      (c.WantCaptureMouseNextFrame = -1 → c.OpenPopupStack = [] →
        (newFrameHoverCancel E (newFrameCapture E c modal_window)
          (mouseAvailToImgui (captureScan c))).Io.WantCaptureMouse = false)) ∧
    ((newFrameHoverCancel E (newFrameCapture E c modal_window)
        (mouseAvailToImgui (captureScan c))).WantCaptureMouseNextFrame = -1 ∧
      (newFrameHoverCancel E (newFrameCapture E c modal_window)
        (mouseAvailToImgui (captureScan c))).WantCaptureKeyboardNextFrame = -1 ∧
      (newFrameHoverCancel E (newFrameCapture E c modal_window)
        (mouseAvailToImgui (captureScan c))).WantTextInputNextFrame = -1) := by
  have hcancel : ∀ (x : Context) (b : Bool),
      (newFrameHoverCancel E x b).Io = x.Io ∧
      (newFrameHoverCancel E x b).WantCaptureMouseNextFrame = x.WantCaptureMouseNextFrame ∧
      (newFrameHoverCancel E x b).WantCaptureKeyboardNextFrame
        = x.WantCaptureKeyboardNextFrame ∧
      (newFrameHoverCancel E x b).WantTextInputNextFrame = x.WantTextInputNextFrame := by
    intro x b
    unfold newFrameHoverCancel
    simp only []
    split <;> exact ⟨rfl, rfl, rfl, rfl⟩
  refine ⟨?_, ?_, ?_⟩
  · intro i hi ho hc hh hp
    have hf := (captureFold_owned c i hc hh hp
      { MouseDownOwned := c.Io.MouseDownOwned, mouse_earliest_button_down := none,
        mouse_any_down := false } ho c.Io.MouseDown.length).2 hi
    exact hf
  · intro havail hdrag
    have hx : (newFrameHoverCancel E (newFrameCapture E c modal_window) false).HoveredWindow
          = none ∧
        (newFrameHoverCancel E (newFrameCapture E c modal_window) false).HoveredRootWindow
          = none := by
      unfold newFrameHoverCancel
      simp only []
      have hd : ((newFrameCapture E c modal_window).DragDropActive &&
          decide ((newFrameCapture E c modal_window).DragDropSourceFlags &&&
            E.DragDropFlagsSourceExtern ≠ 0)) = false := hdrag
      rw [hd, if_pos (by simp)]
      exact ⟨rfl, rfl⟩
    rw [havail]
    refine ⟨hx.1, hx.2, ?_⟩
    intro hw hp
    rw [(hcancel _ _).1]
    show (if c.WantCaptureMouseNextFrame ≠ -1 then decide (c.WantCaptureMouseNextFrame ≠ 0)
      else (mouseAvailToImgui (captureScan c) &&
          (decide (c.HoveredWindow ≠ none) || (captureScan c).mouse_any_down)) ||
        decide (c.OpenPopupStack.length > 0)) = false
    rw [if_neg (by simp [hw]), havail, hp]
    rfl
  · obtain ⟨_, h1, h2, h3⟩ := hcancel (newFrameCapture E c modal_window)
      (mouseAvailToImgui (captureScan c))
    rw [h1, h2, h3]
    exact ⟨rfl, rfl, rfl⟩

/-- C31 at `exampleClickOutside`, where the left button was clicked with no
window hovered and no popup open: the button is not owned, the hover stays nil,
no mouse capture is requested and the overrides are -1. -/
theorem C31_click_ownership_witness :
    exampleClickOutside.Io.MouseClicked.getD 0 false = true ∧
    (newFrameCapture exampleEnv exampleClickOutside none).Io.MouseDownOwned.getD 0 true = false ∧
    mouseAvailToImgui (captureScan exampleClickOutside) = false ∧
    (newFrameHoverCancel exampleEnv (newFrameCapture exampleEnv exampleClickOutside none)
      (mouseAvailToImgui (captureScan exampleClickOutside))).Io.WantCaptureMouse = false ∧
    (newFrameHoverCancel exampleEnv (newFrameCapture exampleEnv exampleClickOutside none)
      (mouseAvailToImgui (captureScan exampleClickOutside))).WantCaptureMouseNextFrame = -1 := by
  have h := C31_click_ownership exampleEnv exampleClickOutside none
  have hc : exampleClickOutside.Io.MouseClicked.getD 0 false = true := by decide
  have ha : mouseAvailToImgui (captureScan exampleClickOutside) = false := by decide!
  exact ⟨hc, h.1 0 (by decide) (by decide) hc (by decide) (by decide), ha,
    (h.2.1 ha (by decide)).2.2 (by decide) (by decide), h.2.2.1⟩

/-! ## C39: the rectangle pushed by `PushClipRectEx` -/

theorem updateClipRect_stack (d : DrawList) :
    (UpdateClipRect d)._ClipRectStack = d._ClipRectStack ∧ (UpdateClipRect d)._Data = d._Data := by
  unfold UpdateClipRect AddDrawCmd
  split
  · exact ⟨rfl, rfl⟩
  · simp only []
    split
    · exact ⟨rfl, rfl⟩
    · split
      · split <;> exact ⟨rfl, rfl⟩
      · exact ⟨rfl, rfl⟩

theorem getCurrentClipRect_congr (a b : DrawList) (h1 : a._ClipRectStack = b._ClipRectStack)
    (h2 : a._Data = b._Data) : GetCurrentClipRect a = GetCurrentClipRect b := by
  unfold GetCurrentClipRect
  rw [h1, h2]

theorem pushedClipRect_plain (d : DrawList) (cr_min cr_max : Vec2) (isect : Bool)
    (h : isect = false ∨ d._ClipRectStack = []) :
    pushedClipRect d cr_min cr_max isect =
      { X := cr_min.X, Y := cr_min.Y, Z := max cr_min.X cr_max.X, W := max cr_min.Y cr_max.Y } := by
  unfold pushedClipRect
  rcases h with h | h
  · subst h
    rfl
  · rw [h]
    cases isect <;> rfl

theorem pushedClipRect_isect (d : DrawList) (cr_min cr_max : Vec2) (cur : Vec4)
    (h : d._ClipRectStack.getLast? = some cur) :
    pushedClipRect d cr_min cr_max true =
      { X := max cr_min.X cur.X, Y := max cr_min.Y cur.Y
        Z := max (max cr_min.X cur.X) (min cr_max.X cur.Z)
        W := max (max cr_min.Y cur.Y) (min cr_max.Y cur.W) } := by
  unfold pushedClipRect
  rw [h]
  simp only []
  have hx : (if cr_min.X < cur.X then cur.X else cr_min.X) = max cr_min.X cur.X := by
    rw [max_def]
    split_ifs <;> first | rfl | linarith
  have hy : (if cr_min.Y < cur.Y then cur.Y else cr_min.Y) = max cr_min.Y cur.Y := by
    rw [max_def]
    split_ifs <;> first | rfl | linarith
  have hz : (if cr_max.X > cur.Z then cur.Z else cr_max.X) = min cr_max.X cur.Z := by
    rw [min_def]
    split_ifs <;> first | rfl | linarith
  have hw : (if cr_max.Y > cur.W then cur.W else cr_max.Y) = min cr_max.Y cur.W := by
    rw [min_def]
    split_ifs <;> first | rfl | linarith
  rw [← hx, ← hy, ← hz, ← hw]
  split_ifs <;> rfl

/-- C39: for every draw list and every `cr_min`, `cr_max`, `PushClipRectEx`
appends exactly one rectangle to the clip stack and leaves the entries below it
as they are; without intersection, or on an empty stack, the rectangle is
`(cr_min.X, cr_min.Y, max(X, cr_max.X), max(Y, cr_max.Y))`; with intersection
against the current top `(cx, cy, cz, cw)` it is
`(max(cr_min.X, cx), max(cr_min.Y, cy), max(X, min(cr_max.X, cz)),
max(Y, min(cr_max.Y, cw)))`; in every case `X <= Z` and `Y <= W`; and a
following `PopClipRect` returns with the clip stack and `GetCurrentClipRect` as
before the push. -/
theorem C39_pushed_clip_rect (d : DrawList) (cr_min cr_max : Vec2) (isect : Bool) :
    (PushClipRectEx d cr_min cr_max isect)._ClipRectStack =
      d._ClipRectStack ++ [pushedClipRect d cr_min cr_max isect] ∧
    (isect = false ∨ d._ClipRectStack = [] →
      pushedClipRect d cr_min cr_max isect =
        { X := cr_min.X, Y := cr_min.Y, Z := max cr_min.X cr_max.X,
          W := max cr_min.Y cr_max.Y }) ∧
    (∀ cur, isect = true → d._ClipRectStack.getLast? = some cur →
      pushedClipRect d cr_min cr_max isect =
        { X := max cr_min.X cur.X, Y := max cr_min.Y cur.Y
          Z := max (max cr_min.X cur.X) (min cr_max.X cur.Z)
          W := max (max cr_min.Y cur.Y) (min cr_max.Y cur.W) }) ∧
    (pushedClipRect d cr_min cr_max isect).X ≤ (pushedClipRect d cr_min cr_max isect).Z ∧
    (pushedClipRect d cr_min cr_max isect).Y ≤ (pushedClipRect d cr_min cr_max isect).W ∧
    ∃ d', PopClipRect (PushClipRectEx d cr_min cr_max isect) = some d' ∧
      d'._ClipRectStack = d._ClipRectStack ∧ GetCurrentClipRect d' = GetCurrentClipRect d := by
  have hstack : (PushClipRectEx d cr_min cr_max isect)._ClipRectStack =
      d._ClipRectStack ++ [pushedClipRect d cr_min cr_max isect] := by
    unfold PushClipRectEx
    exact (updateClipRect_stack _).1
  have hdata : (PushClipRectEx d cr_min cr_max isect)._Data = d._Data := by
    unfold PushClipRectEx
    exact (updateClipRect_stack _).2
  have hform : (pushedClipRect d cr_min cr_max isect).X ≤ (pushedClipRect d cr_min cr_max isect).Z ∧
      (pushedClipRect d cr_min cr_max isect).Y ≤ (pushedClipRect d cr_min cr_max isect).W := by
    cases hi : isect
    · rw [pushedClipRect_plain d cr_min cr_max false (Or.inl rfl)]
      exact ⟨le_max_left _ _, le_max_left _ _⟩
    · cases hl : d._ClipRectStack.getLast? with
      | none =>
        rw [pushedClipRect_plain d cr_min cr_max true (Or.inr (List.getLast?_eq_none_iff.mp hl))]
        exact ⟨le_max_left _ _, le_max_left _ _⟩
      | some cur =>
        rw [pushedClipRect_isect d cr_min cr_max cur hl]
        exact ⟨le_max_left _ _, le_max_left _ _⟩
  refine ⟨hstack, pushedClipRect_plain d cr_min cr_max isect, ?_, hform.1, hform.2, ?_⟩
  · intro cur hi hl
    subst hi
    exact pushedClipRect_isect d cr_min cr_max cur hl
  · have hne : (PushClipRectEx d cr_min cr_max isect)._ClipRectStack.length ≠ 0 := by
      rw [hstack]
      simp
    unfold PopClipRect
    rw [if_neg hne]
    refine ⟨_, rfl, ?_, ?_⟩
    · rw [(updateClipRect_stack _).1]
      show (PushClipRectEx d cr_min cr_max isect)._ClipRectStack.dropLast = _
      rw [hstack, List.dropLast_concat]
    · refine getCurrentClipRect_congr _ _ ?_ ?_
      · rw [(updateClipRect_stack _).1]
        show (PushClipRectEx d cr_min cr_max isect)._ClipRectStack.dropLast = _
        rw [hstack, List.dropLast_concat]
      · rw [(updateClipRect_stack _).2]
        exact hdata

/-- C39 at `exampleGeom`, whose clip stack holds (0, 0, 10, 10): pushing the
inverted rectangle from (5, 5) to (2, 20) with intersection pushes
(5, 5, 5, 10), and popping restores the stack. -/
theorem C39_pushed_clip_rect_witness :
    exampleGeom._ClipRectStack.getLast? = some clip10 ∧
    pushedClipRect exampleGeom { X := 5, Y := 5 } { X := 2, Y := 20 } true
      = { X := 5, Y := 5, Z := 5, W := 10 } ∧
    pushedClipRect exampleGeom { X := 5, Y := 5 } { X := 2, Y := 20 } false
      = { X := 5, Y := 5, Z := 5, W := 20 } ∧
    (PopClipRect (PushClipRectEx exampleGeom { X := 5, Y := 5 } { X := 2, Y := 20 } true)).map
      (fun d => d._ClipRectStack) = some [clip10] := by
  have h := C39_pushed_clip_rect exampleGeom { X := 5, Y := 5 } { X := 2, Y := 20 } true
  have h2 := C39_pushed_clip_rect exampleGeom { X := 5, Y := 5 } { X := 2, Y := 20 } false
  refine ⟨rfl, ?_, ?_, ?_⟩
  · rw [h.2.2.1 clip10 rfl rfl]
    decide!
  · rw [h2.2.1 (Or.inl rfl)]
    decide!
  · obtain ⟨d', hd', hs, _⟩ := h.2.2.2.2.2
    rw [hd']
    exact congrArg some hs

/-! ## C33: adding one draw list to the output list -/

/-- C33: for every output list and draw list, after `AddDrawListToDrawData` the
command buffer of the draw list is as before, or is the buffer before without
its last command, which then had `ElemCount` 0 and no callback; the output list
is the one before followed by the draw list when the command buffer is not
empty after the call, and the one before otherwise; every other window is
untouched. -/
theorem C33_add_draw_list (c : Context) (out : List DrawListRef) (dl : DrawListRef) :
    (((AddDrawListToDrawData c out dl).1.Heap dl).DrawList.CmdBuffer
        = (c.Heap dl).DrawList.CmdBuffer ∨
      ∃ last, (c.Heap dl).DrawList.CmdBuffer
          = ((AddDrawListToDrawData c out dl).1.Heap dl).DrawList.CmdBuffer ++ [last] ∧
        last.ElemCount = 0 ∧ last.UserCallback = none) ∧
    (((AddDrawListToDrawData c out dl).1.Heap dl).DrawList.CmdBuffer ≠ [] →
      (AddDrawListToDrawData c out dl).2 = out ++ [dl]) ∧
    (((AddDrawListToDrawData c out dl).1.Heap dl).DrawList.CmdBuffer = [] →
      (AddDrawListToDrawData c out dl).2 = out) ∧
    (∀ v, v ≠ dl → (AddDrawListToDrawData c out dl).1.Heap v = c.Heap v) := by
  unfold AddDrawListToDrawData
  simp only []
  rcases List.eq_nil_or_concat (c.Heap dl).DrawList.CmdBuffer with hnil | ⟨pre, last, hcat⟩
  · rw [hnil]
    simp [hnil]
  · have hlast : (c.Heap dl).DrawList.CmdBuffer.getLast? = some last := by
      rw [hcat]; simp
    have htake : (c.Heap dl).DrawList.CmdBuffer.take ((c.Heap dl).DrawList.CmdBuffer.length - 1)
        = pre := by
      rw [hcat]; simp
    have hlen : (c.Heap dl).DrawList.CmdBuffer.length - 1 = pre.length := by
      rw [hcat]; simp
    rw [hlast]
    simp only []
    by_cases hrem : last.ElemCount = 0 ∧ last.UserCallback = none
    · rw [if_pos hrem, htake, hlen]
      by_cases hp : pre.length = 0
      · rw [if_pos hp]
        have hpre : pre = [] := List.length_eq_zero.mp hp
        refine ⟨Or.inr ⟨last, ?_, hrem.1, hrem.2⟩, ?_, ?_, ?_⟩
        · simp [Context.setWin, hcat]
        · simp [Context.setWin, hpre]
        · intro _; rfl
        · intro v hv
          simp [Context.setWin, Function.update_noteq hv]
      · rw [if_neg hp]
        refine ⟨Or.inr ⟨last, ?_, hrem.1, hrem.2⟩, ?_, ?_, ?_⟩
        · simp [Context.setWin, hcat]
        · intro _; rfl
        · intro h
          simp [Context.setWin] at h
          exact absurd (by rw [h]; rfl) hp
        · intro v hv
          simp [Context.setWin, Function.update_noteq hv]
    · rw [if_neg hrem]
      refine ⟨Or.inl rfl, fun _ => rfl, ?_, fun _ _ => rfl⟩
      intro h
      rw [hcat] at h
      simp at h

/-- C33 at `exampleFrame`: window 1 holds one unused command, which is removed,
and the window is not appended; with a geometry command in front of it the
unused command is removed and the window is appended. -/
theorem C33_add_draw_list_witness :
    (AddDrawListToDrawData exampleFrame [7] 1).2 = [7] ∧
    ((AddDrawListToDrawData exampleFrame [7] 1).1.Heap 1).DrawList.CmdBuffer = [] ∧
    (AddDrawListToDrawData
      (exampleFrame.setWin 1 { exampleFrame.Heap 1 with DrawList := exampleMerge }) [7] 1).2
      = [7, 1] := by
  have h := C33_add_draw_list exampleFrame [7] 1
  have he : ((AddDrawListToDrawData exampleFrame [7] 1).1.Heap 1).DrawList.CmdBuffer = [] := by
    decide
  exact ⟨h.2.2.1 he, he,
    (C33_add_draw_list (exampleFrame.setWin 1 { exampleFrame.Heap 1 with DrawList := exampleMerge })
      [7] 1).2.1 (by decide)⟩

/-! ## C35: the safety of `ChannelsMerge` -/

/-- C35: `exampleTwoChannels` has two channels, both within `_Channels`, with
channel 0 current; channel 0 holds two commands and channel 1 holds one.
`ChannelsMerge` does not complete: line 955 indexes the buffer of channel 1 at
`len(d.CmdBuffer) - 1 = 1`, the last position of the live buffer, which is out
of range for the shorter channel. -/
theorem C35_merge_indexes_channel_by_live_length :
    1 < exampleTwoChannels._ChannelsCount ∧
    exampleTwoChannels._ChannelsCount ≤ exampleTwoChannels._Channels.length ∧
    exampleTwoChannels._ChannelsCurrent < exampleTwoChannels._ChannelsCount ∧
    exampleTwoChannels.CmdBuffer.length = 2 ∧
    (exampleTwoChannels._Channels.map (fun ch => ch.CmdBuffer.length)) = [0, 1] ∧
    mergeCountStep { d := exampleTwoChannels, new_cmd_buffer_count := 0,
                     new_idx_buffer_count := 0 } 1 = none ∧
    ChannelsMerge exampleTwoChannels = none := by
  refine ⟨by decide, by decide, by decide, by decide, by decide, ?_, by decide⟩
  rfl

/-! ## C34: gathering a window and its children -/

theorem addDrawList_shape (c : Context) (out : List DrawListRef) (dl : DrawListRef) :
    SameShape (AddDrawListToDrawData c out dl).1 c ∧
    ∃ added, (AddDrawListToDrawData c out dl).2 = out ++ added ∧ added.Sublist [dl] := by
  unfold AddDrawListToDrawData
  simp only []
  split
  · exact ⟨fun _ => ⟨rfl, rfl⟩, [], by simp, by simp⟩
  · split
    · have hs : ∀ x : Window, x.DC = (c.Heap dl).DC → x.Active = (c.Heap dl).Active →
          x.HiddenFrames = (c.Heap dl).HiddenFrames → SameShape (c.setWin dl x) c := by
        intro x h1 h2 h3 v
        by_cases hv : v = dl
        · subst hv
          simp [Context.setWin, childShown, h1, h2, h3]
        · simp [Context.setWin, childShown, Function.update_noteq hv]
      split
      · exact ⟨hs _ rfl rfl rfl, [], by simp, by simp⟩
      · exact ⟨hs _ rfl rfl rfl, [dl], rfl, List.Sublist.refl _⟩
    · exact ⟨fun _ => ⟨rfl, rfl⟩, [dl], rfl, List.Sublist.refl _⟩

theorem preorder_succ (c : Context) (fuel w : Nat) :
    preorder c (fuel + 1) w =
      w :: ((c.Heap w).DC.ChildWindows.filter (childShown c)).flatMap (preorder c fuel) := rfl

theorem addWindow_succ (fuel : Nat) (st : DrawDataState) (window : Nat) :
    AddWindowToDrawData (fuel + 1) st window =
      ((AddDrawListToDrawData st.ctx st.out window).1.Heap window).DC.ChildWindows.foldlM
        (fun st child =>
          if childShown st.ctx child then AddWindowToDrawData fuel st child else some st)
        { ctx := (AddDrawListToDrawData st.ctx st.out window).1
          out := (AddDrawListToDrawData st.ctx st.out window).2
          visited := st.visited ++ [window] } := rfl

/-- The recursion of `AddWindowToDrawData` returns when `fuel` exceeds the rank
of the window, and the calls it makes are the pre-order of the subtree. -/
theorem addWindow_spec (c : Context) (rank : Nat → Nat)
    (hfalls : ∀ w child, child ∈ (c.Heap w).DC.ChildWindows → rank child < rank w)
    (fuel : Nat) :
    ∀ (st : DrawDataState) (w : Nat), SameShape st.ctx c → rank w < fuel →
      ∃ st', AddWindowToDrawData fuel st w = some st' ∧ SameShape st'.ctx c ∧
        st'.visited = st.visited ++ preorder c fuel w ∧
        ∃ added, st'.out = st.out ++ added ∧ added.Sublist (preorder c fuel w) := by
  induction fuel with
  | zero => intro st w _ h; exact absurd h (Nat.not_lt_zero _)
  | succ fuel ih =>
    intro st w hshape hrank
    have hloop : ∀ (l : List Nat), (∀ ch ∈ l, rank ch < fuel) →
        ∀ s : DrawDataState, SameShape s.ctx c →
        ∃ s', l.foldlM (fun st child =>
            if childShown st.ctx child then AddWindowToDrawData fuel st child else some st) s
            = some s' ∧ SameShape s'.ctx c ∧
          s'.visited = s.visited ++ (l.filter (childShown c)).flatMap (preorder c fuel) ∧
          ∃ added, s'.out = s.out ++ added ∧
            added.Sublist ((l.filter (childShown c)).flatMap (preorder c fuel)) := by
      intro l
      induction l with
      | nil =>
        intro _ s hs
        exact ⟨s, rfl, hs, by simp, [], by simp, by simp⟩
      | cons ch l ihl =>
        intro hl s hs
        have hch : rank ch < fuel := hl ch (List.mem_cons_self _ _)
        have hl' : ∀ x ∈ l, rank x < fuel := fun x hx => hl x (List.mem_cons_of_mem _ hx)
        rw [List.foldlM_cons]
        have hshown : childShown s.ctx ch = childShown c ch := (hs ch).2
        cases hc : childShown c ch
        · rw [hshown, hc]
          simp only [Bool.false_eq_true, if_false]
          obtain ⟨s', h1, h2, h3, added, h4, h5⟩ := ihl hl' s hs
          refine ⟨s', ?_, h2, ?_, added, h4, ?_⟩
          · simpa using h1
          · rw [h3, List.filter_cons_of_neg (by simp [hc])]
          · rw [List.filter_cons_of_neg (by simp [hc])]
            exact h5
        · rw [hshown, hc]
          simp only [if_true]
          obtain ⟨s1, g1, g2, g3, add1, g4, g5⟩ := ih s ch hs hch
          obtain ⟨s', h1, h2, h3, added, h4, h5⟩ := ihl hl' s1 g2
          refine ⟨s', ?_, h2, ?_, add1 ++ added, ?_, ?_⟩
          · rw [g1]
            simpa using h1
          · rw [h3, g3, List.filter_cons_of_pos (by simp [hc]), List.flatMap_cons,
              List.append_assoc]
          · rw [h4, g4, List.append_assoc]
          · rw [List.filter_cons_of_pos (by simp [hc]), List.flatMap_cons]
            exact List.Sublist.append g5 h5
    obtain ⟨hs1, add0, ho, hsub⟩ := addDrawList_shape st.ctx st.out w
    have hs1c : SameShape (AddDrawListToDrawData st.ctx st.out w).1 c :=
      fun v => ⟨(hs1 v).1.trans (hshape v).1, (hs1 v).2.trans (hshape v).2⟩
    have hkids : ((AddDrawListToDrawData st.ctx st.out w).1.Heap w).DC.ChildWindows
        = (c.Heap w).DC.ChildWindows := (hs1c w).1
    rw [addWindow_succ, hkids]
    obtain ⟨s', h1, h2, h3, added, h4, h5⟩ := hloop (c.Heap w).DC.ChildWindows
      (fun ch hch => by have := hfalls w ch hch; omega)
      { ctx := (AddDrawListToDrawData st.ctx st.out w).1
        out := (AddDrawListToDrawData st.ctx st.out w).2
        visited := st.visited ++ [w] } hs1c
    refine ⟨s', h1, h2, ?_, add0 ++ added, ?_, ?_⟩
    · rw [h3, preorder_succ]
      simp
    · rw [h4]
      show (AddDrawListToDrawData st.ctx st.out w).2 ++ added = _
      rw [ho, List.append_assoc]
    · rw [preorder_succ]
      have : (w :: ((c.Heap w).DC.ChildWindows.filter (childShown c)).flatMap (preorder c fuel))
          = [w] ++ ((c.Heap w).DC.ChildWindows.filter (childShown c)).flatMap (preorder c fuel) :=
        rfl
      rw [this]
      exact List.Sublist.append hsub h5

theorem preorder_rank (c : Context) (rank : Nat → Nat)
    (hfalls : ∀ w child, child ∈ (c.Heap w).DC.ChildWindows → rank child < rank w) (fuel : Nat) :
    ∀ w x, x ∈ preorder c fuel w → rank x ≤ rank w := by
  induction fuel with
  | zero => intro w x hx; simp [preorder] at hx
  | succ fuel ih =>
    intro w x hx
    rw [preorder_succ, List.mem_cons, List.mem_flatMap] at hx
    rcases hx with hx | ⟨ch, hch, hx⟩
    · rw [hx]
    · have h1 := ih ch x hx
      have h2 := hfalls w ch (List.mem_of_mem_filter hch)
      omega

/-- Every window of the pre-order other than the root is a shown child of a
window of the pre-order. -/
theorem preorder_parent (c : Context) (fuel : Nat) :
    ∀ w x, x ∈ preorder c fuel w →
      x = w ∨ (childShown c x = true ∧
        ∃ p, x ∈ (c.Heap p).DC.ChildWindows ∧ p ∈ preorder c fuel w) := by
  induction fuel with
  | zero => intro w x hx; simp [preorder] at hx
  | succ fuel ih =>
    intro w x hx
    rw [preorder_succ, List.mem_cons, List.mem_flatMap] at hx
    rcases hx with hx | ⟨ch, hch, hx⟩
    · exact Or.inl hx
    · right
      have hroot : w ∈ preorder c (fuel + 1) w := by
        rw [preorder_succ]; exact List.mem_cons_self _ _
      have hsub : ∀ y, y ∈ preorder c fuel ch → y ∈ preorder c (fuel + 1) w := by
        intro y hy
        rw [preorder_succ]
        exact List.mem_cons_of_mem _ (List.mem_flatMap.mpr ⟨ch, hch, hy⟩)
      rcases ih ch x hx with h | ⟨hs, p, hp1, hp2⟩
      · rw [h]
        exact ⟨(List.mem_filter.mp hch).2, w, List.mem_of_mem_filter hch, hroot⟩
      · exact ⟨hs, p, hp1, hsub p hp2⟩

theorem preorder_disjoint (c : Context) (rank : Nat → Nat) (ht : WindowTree c rank)
    (fuel w a b : Nat) (ha : a ∈ (c.Heap w).DC.ChildWindows)
    (hb : b ∈ (c.Heap w).DC.ChildWindows) (hab : a ≠ b) :
    ∀ (n x : Nat), rank w - rank x ≤ n → x ∈ preorder c fuel a → x ∈ preorder c fuel b →
      False := by
  have hup : ∀ (r x : Nat), x ∈ preorder c fuel r → x ≠ r →
      ∀ p, x ∈ (c.Heap p).DC.ChildWindows → p ∈ preorder c fuel r := by
    intro r x hx hne p hp
    rcases preorder_parent c fuel r x hx with h | ⟨_, q, hq1, hq2⟩
    · exact absurd h hne
    · rw [ht.parent p q x hp hq1]
      exact hq2
  intro n
  induction n with
  | zero =>
    intro x hn hxa _
    have h1 := preorder_rank c rank ht.falls fuel a x hxa
    have h2 := ht.falls w a ha
    omega
  | succ n ih =>
    intro x hn hxa hxb
    by_cases hxa' : x = a
    · subst hxa'
      have hw := hup b x hxb hab w ha
      have h1 := preorder_rank c rank ht.falls fuel b w hw
      have h2 := ht.falls w b hb
      omega
    · by_cases hxb' : x = b
      · subst hxb'
        have hw := hup a x hxa (Ne.symm hab) w hb
        have h1 := preorder_rank c rank ht.falls fuel a w hw
        have h2 := ht.falls w a ha
        omega
      · rcases preorder_parent c fuel a x hxa with h | ⟨_, p, hp1, hp2⟩
        · exact hxa' h
        · have hpb := hup b x hxb hxb' p hp1
          have h1 := ht.falls p x hp1
          have h2 := preorder_rank c rank ht.falls fuel a p hp2
          have h3 := ht.falls w a ha
          exact ih p (by omega) hp2 hpb

theorem preorder_nodup (c : Context) (rank : Nat → Nat) (ht : WindowTree c rank) (fuel : Nat) :
    ∀ w, (preorder c fuel w).Nodup := by
  induction fuel with
  | zero => intro w; simp [preorder]
  | succ fuel ih =>
    intro w
    rw [preorder_succ, List.nodup_cons]
    refine ⟨?_, ?_⟩
    · intro hmem
      rw [List.mem_flatMap] at hmem
      obtain ⟨ch, hch, hx⟩ := hmem
      have h1 := preorder_rank c rank ht.falls fuel ch w hx
      have h2 := ht.falls w ch (List.mem_of_mem_filter hch)
      omega
    · rw [List.nodup_flatMap]
      refine ⟨fun x _ => ih x, ?_⟩
      have hnd : ((c.Heap w).DC.ChildWindows.filter (childShown c)).Nodup :=
        (ht.nodup w).filter _
      refine List.Pairwise.imp_of_mem ?_ hnd
      intro a b ha hb hab
      show List.Disjoint (preorder c fuel a) (preorder c fuel b)
      intro x hxa hxb
      exact preorder_disjoint c rank ht fuel w a b (List.mem_of_mem_filter ha)
        (List.mem_of_mem_filter hb) hab _ x (le_refl _) hxa hxb

/-- C34: for every window tree that is finite and without cycles (`rank` falls
along every child link, a window has at most one parent and is listed once),
`AddWindowToDrawData` returns when its recursion may go deeper than the rank of
the window, and the draw lists it hands to `AddDrawListToDrawData` are those of
the pre-order of the subtree: the window itself first, then the subtree of each
child, in `ChildWindows` order, that is active with `HiddenFrames <= 0`; every
gathered window other than the root is such a child of a gathered window, so
the subtree of an inactive or hidden child is skipped; no window is gathered
twice; and the output list grows by a part of the pre-order, in order. -/
theorem C34_add_window_pre_order (c : Context) (rank : Nat → Nat) (ht : WindowTree c rank)
    (out : List DrawListRef) (window fuel : Nat) (hfuel : rank window < fuel) :
    ∃ st, AddWindowToDrawData fuel { ctx := c, out := out, visited := [] } window = some st ∧
      st.visited = preorder c fuel window ∧
      st.visited.head? = some window ∧
      (∀ f, preorder c (f + 1) window = window ::
        ((c.Heap window).DC.ChildWindows.filter (childShown c)).flatMap (preorder c f)) ∧
      (∀ x ∈ st.visited, x = window ∨ (childShown c x = true ∧
        ∃ p, x ∈ (c.Heap p).DC.ChildWindows ∧ p ∈ st.visited)) ∧
      st.visited.Nodup ∧
      ∃ added, st.out = out ++ added ∧ added.Sublist st.visited := by
  obtain ⟨st, h1, _, h3, added, h4, h5⟩ := addWindow_spec c rank ht.falls fuel
    { ctx := c, out := out, visited := [] } window (fun _ => ⟨rfl, rfl⟩) hfuel
  have hv : st.visited = preorder c fuel window := by simpa using h3
  refine ⟨st, h1, hv, ?_, fun f => preorder_succ c f window, ?_, ?_, added, h4, ?_⟩
  · rw [hv]
    obtain ⟨f, rfl⟩ : ∃ f, fuel = f + 1 := ⟨fuel - 1, by omega⟩
    rfl
  · rw [hv]
    exact preorder_parent c fuel window
  · rw [hv]
    exact preorder_nodup c rank ht fuel window
  · rw [hv]
    exact h5

theorem exampleTree_isTree : WindowTree exampleTree exampleRank where
  falls := by
    intro w child h
    by_cases h1 : w = 1
    · subst h1
      have : child = 2 ∨ child = 3 ∨ child = 4 := by simpa [exampleTree] using h
      rcases this with h | h | h <;> subst h <;> decide
    · by_cases h2 : w = 2
      · subst h2
        have : child = 5 := by simpa [exampleTree] using h
        subst this; decide
      · by_cases h3 : w = 3
        · subst h3
          have : child = 6 := by simpa [exampleTree] using h
          subst this; decide
        · simp [exampleTree, h1, h2, h3] at h
  nodup := by
    intro w
    by_cases h1 : w = 1
    · subst h1; decide
    · by_cases h2 : w = 2
      · subst h2; decide
      · by_cases h3 : w = 3
        · subst h3; decide
        · simp [exampleTree, h1, h2, h3]
  parent := by
    intro p q child hp hq
    have key : ∀ r ch, ch ∈ (exampleTree.Heap r).DC.ChildWindows →
        (r = 1 ∧ (ch = 2 ∨ ch = 3 ∨ ch = 4)) ∨ (r = 2 ∧ ch = 5) ∨ (r = 3 ∧ ch = 6) := by
      intro r ch h
      by_cases h1 : r = 1
      · subst h1
        exact Or.inl ⟨rfl, by simpa [exampleTree] using h⟩
      · by_cases h2 : r = 2
        · subst h2
          exact Or.inr (Or.inl ⟨rfl, by simpa [exampleTree] using h⟩)
        · by_cases h3 : r = 3
          · subst h3
            exact Or.inr (Or.inr ⟨rfl, by simpa [exampleTree] using h⟩)
          · simp [exampleTree, h1, h2, h3] at h
    have kp := key p child hp
    have kq := key q child hq
    omega

/-- C34 at `exampleTree`: from window 1 the windows 1, 2, 5 and 4 are gathered,
in this order; window 3 is hidden and is skipped together with its child 6. -/
theorem C34_add_window_pre_order_witness :
    ∃ st, AddWindowToDrawData 3 { ctx := exampleTree, out := [], visited := [] } 1 = some st ∧
      st.visited = [1, 2, 5, 4] ∧ st.visited.Nodup ∧ st.out = [1, 2, 5, 4] := by
  obtain ⟨st, h1, h2, _, _, _, h3, _⟩ := C34_add_window_pre_order exampleTree exampleRank
    exampleTree_isTree [] 1 3 (by decide)
  have hp : preorder exampleTree 3 1 = [1, 2, 5, 4] := by decide
  have ho : (AddWindowToDrawData 3 { ctx := exampleTree, out := [], visited := [] } 1).map
      (fun s => s.out) = some [1, 2, 5, 4] := by decide
  rw [h1] at ho
  exact ⟨st, h1, h2.trans hp, h3, by simpa using ho⟩

/-! ## C36: the colour edit options -/

theorem or_eq_zero_left {a b : Nat} (h : a ||| b = 0) : a = 0 := by
  apply Nat.eq_of_testBit_eq
  intro i
  have hi := congrArg (fun x => x.testBit i) h
  simp only [Nat.testBit_or, Nat.zero_testBit, Bool.or_eq_false_iff] at hi
  rw [hi.1, Nat.zero_testBit]

theorem and_or_const (flags k m : Nat) (hk : k &&& m = 0) :
    (flags ||| k) &&& m = flags &&& m := by
  rw [Nat.and_distrib_right, hk, Nat.or_zero]

theorem or_and_ne_zero (flags k m : Nat) (hk : k &&& m ≠ 0) : (flags ||| k) &&& m ≠ 0 := by
  rw [Nat.and_distrib_right, Nat.or_comm]
  exact fun h => hk (or_eq_zero_left h)

theorem or_and_ne_zero_left (flags k m : Nat) (hf : flags &&& m ≠ 0) :
    (flags ||| k) &&& m ≠ 0 := by
  rw [Nat.and_distrib_right]
  exact fun h => hf (or_eq_zero_left h)

theorem or_and_self (flags k : Nat) : (flags ||| k) &&& flags = flags := by
  apply Nat.eq_of_testBit_eq
  intro i
  simp only [Nat.testBit_and, Nat.testBit_or]
  cases flags.testBit i <;> simp

/-- The value that `SetColorEditOptions` stores, in the form of the claim: each
default is added when the flags given have no bit of its mask. -/
theorem setColorEditOptions_eq (c : Context) (flags : Nat) :
    (SetColorEditOptions c flags).ColorEditOptions =
      flags |||
        (if flags &&& ColorEditFlags_InputsMask = 0 then ColorEditFlagsRGB else 0) |||
        (if flags &&& ColorEditFlags_DataTypeMask = 0 then ColorEditFlagsUint8 else 0) |||
        (if flags &&& ColorEditFlags_PickerMask = 0 then ColorEditFlagsPickerHueBar else 0) := by
  have d1 : ColorEditFlags_OptionsDefault &&& ColorEditFlags_InputsMask = ColorEditFlagsRGB := by
    decide
  have d2 : ColorEditFlags_OptionsDefault &&& ColorEditFlags_DataTypeMask
      = ColorEditFlagsUint8 := by decide
  have d3 : ColorEditFlags_OptionsDefault &&& ColorEditFlags_PickerMask
      = ColorEditFlagsPickerHueBar := by decide
  have e1 : ∀ x, (x ||| ColorEditFlagsRGB) &&& ColorEditFlags_DataTypeMask
      = x &&& ColorEditFlags_DataTypeMask := fun x => and_or_const x _ _ (by decide)
  have e2 : ∀ x, (x ||| ColorEditFlagsRGB) &&& ColorEditFlags_PickerMask
      = x &&& ColorEditFlags_PickerMask := fun x => and_or_const x _ _ (by decide)
  have e3 : ∀ x, (x ||| ColorEditFlagsUint8) &&& ColorEditFlags_PickerMask
      = x &&& ColorEditFlags_PickerMask := fun x => and_or_const x _ _ (by decide)
  show (if (if (if flags &&& ColorEditFlags_InputsMask = 0 then
            flags ||| (ColorEditFlags_OptionsDefault &&& ColorEditFlags_InputsMask) else flags) &&&
          ColorEditFlags_DataTypeMask = 0 then
        (if flags &&& ColorEditFlags_InputsMask = 0 then
          flags ||| (ColorEditFlags_OptionsDefault &&& ColorEditFlags_InputsMask) else flags) |||
          (ColorEditFlags_OptionsDefault &&& ColorEditFlags_DataTypeMask)
      else (if flags &&& ColorEditFlags_InputsMask = 0 then
          flags ||| (ColorEditFlags_OptionsDefault &&& ColorEditFlags_InputsMask) else flags)) &&&
        ColorEditFlags_PickerMask = 0 then _ else _) = _
  rw [d1, d2, d3]
  by_cases h1 : flags &&& ColorEditFlags_InputsMask = 0 <;>
    by_cases h2 : flags &&& ColorEditFlags_DataTypeMask = 0 <;>
    by_cases h3 : flags &&& ColorEditFlags_PickerMask = 0 <;>
    simp [h1, h2, h3, e1, e2, e3]

/-- C36: for every flags value, `SetColorEditOptions(flags)` stores
`flags | (RGB if flags has no bit of the inputs mask) | (Uint8 if flags has no
bit of the data-type mask) | (PickerHueBar if flags has no bit of the picker
mask)`; the stored value contains every bit of `flags`, has a bit in each of the
three masks, equals `flags` when `flags` has a bit in each mask, equals the
default options for `flags = 0`, and is left unchanged when it is passed to
`SetColorEditOptions` again. -/
theorem C36_set_color_edit_options (c : Context) (flags : Nat) :
    (SetColorEditOptions c flags).ColorEditOptions =
      flags |||
        (if flags &&& ColorEditFlags_InputsMask = 0 then ColorEditFlagsRGB else 0) |||
        (if flags &&& ColorEditFlags_DataTypeMask = 0 then ColorEditFlagsUint8 else 0) |||
        (if flags &&& ColorEditFlags_PickerMask = 0 then ColorEditFlagsPickerHueBar else 0) ∧
    (SetColorEditOptions c flags).ColorEditOptions &&& flags = flags ∧
    (SetColorEditOptions c flags).ColorEditOptions &&& ColorEditFlags_InputsMask ≠ 0 ∧
    (SetColorEditOptions c flags).ColorEditOptions &&& ColorEditFlags_DataTypeMask ≠ 0 ∧
    (SetColorEditOptions c flags).ColorEditOptions &&& ColorEditFlags_PickerMask ≠ 0 ∧
    (flags &&& ColorEditFlags_InputsMask ≠ 0 ∧ flags &&& ColorEditFlags_DataTypeMask ≠ 0 ∧
      flags &&& ColorEditFlags_PickerMask ≠ 0 →
      (SetColorEditOptions c flags).ColorEditOptions = flags) ∧
    (SetColorEditOptions c 0).ColorEditOptions = ColorEditFlags_OptionsDefault ∧
    (SetColorEditOptions (SetColorEditOptions c flags)
      (SetColorEditOptions c flags).ColorEditOptions).ColorEditOptions
        = (SetColorEditOptions c flags).ColorEditOptions := by
  have heq := setColorEditOptions_eq c flags
  have hI : (SetColorEditOptions c flags).ColorEditOptions &&& ColorEditFlags_InputsMask ≠ 0 := by
    rw [heq]
    apply or_and_ne_zero_left
    apply or_and_ne_zero_left
    by_cases h1 : flags &&& ColorEditFlags_InputsMask = 0
    · rw [if_pos h1]
      exact or_and_ne_zero _ _ _ (by decide)
    · exact or_and_ne_zero_left _ _ _ h1
  have hD : (SetColorEditOptions c flags).ColorEditOptions &&& ColorEditFlags_DataTypeMask
      ≠ 0 := by
    rw [heq]
    apply or_and_ne_zero_left
    by_cases h2 : flags &&& ColorEditFlags_DataTypeMask = 0
    · rw [if_pos h2]
      exact or_and_ne_zero _ _ _ (by decide)
    · apply or_and_ne_zero_left
      exact or_and_ne_zero_left _ _ _ h2
  have hP : (SetColorEditOptions c flags).ColorEditOptions &&& ColorEditFlags_PickerMask ≠ 0 := by
    rw [heq]
    by_cases h3 : flags &&& ColorEditFlags_PickerMask = 0
    · rw [if_pos h3]
      exact or_and_ne_zero _ _ _ (by decide)
    · apply or_and_ne_zero_left
      apply or_and_ne_zero_left
      exact or_and_ne_zero_left _ _ _ h3
  have hsame : ∀ x : Nat, x &&& ColorEditFlags_InputsMask ≠ 0 →
      x &&& ColorEditFlags_DataTypeMask ≠ 0 → x &&& ColorEditFlags_PickerMask ≠ 0 →
      ∀ c' : Context, (SetColorEditOptions c' x).ColorEditOptions = x := by
    intro x a1 a2 a3 c'
    rw [setColorEditOptions_eq, if_neg a1, if_neg a2, if_neg a3]
    simp
  refine ⟨heq, ?_, hI, hD, hP, ?_, ?_, ?_⟩
  · rw [heq, Nat.or_assoc, Nat.or_assoc]
    exact or_and_self _ _
  · rintro ⟨a1, a2, a3⟩
    exact hsame flags a1 a2 a3 c
  · rw [setColorEditOptions_eq]
    decide
  · exact hsame _ hI hD hP _

/-- C36 at the flags `HSV | NoAlpha`, which have a bit of the inputs mask only:
`Uint8` and `PickerHueBar` are added, `RGB` is not. -/
theorem C36_set_color_edit_options_witness :
    (SetColorEditOptions exampleContext (ColorEditFlagsHSV ||| 1 <<< 1)).ColorEditOptions
      = ColorEditFlagsHSV ||| 1 <<< 1 ||| ColorEditFlagsUint8 ||| ColorEditFlagsPickerHueBar ∧
    (SetColorEditOptions exampleContext
      (ColorEditFlagsHSV ||| ColorEditFlagsFloat ||| ColorEditFlagsPickerHueWheel)).ColorEditOptions
      = ColorEditFlagsHSV ||| ColorEditFlagsFloat ||| ColorEditFlagsPickerHueWheel := by
  refine ⟨?_, (C36_set_color_edit_options exampleContext
    (ColorEditFlagsHSV ||| ColorEditFlagsFloat ||| ColorEditFlagsPickerHueWheel)).2.2.2.2.2.1
      ⟨by decide, by decide, by decide⟩⟩
  decide

/-! ## C37: the widths of the menu columns -/

theorem truncate_zero : truncate 0 = 0 := by
  simp [truncate, InInt]

/-- Within the range of `int` the conversion is the floor of a non-negative
value. -/
theorem truncate_of_nonneg {x : ℚ} (hx : 0 ≤ x) (hb : x < 9223372036854775808) :
    truncate x = (⌊x⌋ : ℚ) := by
  have h0 : (0 : Int) ≤ ⌊x⌋ := Int.floor_nonneg.mpr hx
  have h1 : ⌊x⌋ < (9223372036854775808 : Int) := Int.floor_lt.mpr (by exact_mod_cast hb)
  have hin : InInt ⌊x⌋ := ⟨by omega, h1⟩
  unfold truncate
  simp only [if_pos hx, if_pos hin]

theorem truncate_mono {x y : ℚ} (hx : 0 ≤ x) (hxy : x ≤ y) (hb : y < 9223372036854775808) :
    truncate x ≤ truncate y := by
  rw [truncate_of_nonneg hx (lt_of_le_of_lt hxy hb),
    truncate_of_nonneg (le_trans hx hxy) hb]
  exact_mod_cast Int.floor_le_floor hxy

theorem getD_zero_of_all_zero (l : List ℚ) (h : ∀ x ∈ l, x = 0) (i : Nat) : l.getD i 0 = 0 := by
  rw [List.getD_eq_getElem?_getD]
  cases hi : l[i]? with
  | none => rfl
  | some x =>
    obtain ⟨h', hx⟩ := List.getElem?_eq_some.mp hi
    rw [Option.getD_some, ← hx]
    exact h _ (List.getElem_mem _)

/-- One iteration of the loop of `Update` on cleared widths: the width stays 0,
the position of the column is 0, the widths stay cleared. -/
theorem updateStep_cleared (m : MenuColumns) (i : Nat) (hz : ∀ x ∈ m.NextWidths, x = 0)
    (hw : m.Width = 0) (hi1 : i < m.NextWidths.length) (hi2 : i < m.Pos.length) :
    ∃ u, updateStep m i = some u ∧ u.Width = 0 ∧ (∀ x ∈ u.NextWidths, x = 0) ∧
      u.NextWidths.length = m.NextWidths.length ∧ u.Pos = m.Pos.set i 0 := by
  have hg := getD_zero_of_all_zero m.NextWidths hz i
  unfold updateStep
  rw [if_pos ⟨hi1, hi2⟩]
  simp only []
  rw [if_neg (by rw [hg]; simp)]
  refine ⟨_, rfl, ?_, ?_, ?_, ?_⟩
  · show m.Width + m.NextWidths.getD i 0 = 0
    rw [hw, hg, add_zero]
  · intro x hx
    rcases List.mem_or_eq_of_mem_set hx with h | h
    · exact hz x h
    · exact h
  · exact List.length_set _ _ _
  · show m.Pos.set i (truncate m.Width) = _
    rw [hw, truncate_zero]

theorem updateFold_cleared (n : Nat) :
    ∀ m : MenuColumns, (∀ x ∈ m.NextWidths, x = 0) → m.Width = 0 →
      n ≤ m.NextWidths.length → n ≤ m.Pos.length →
      ∃ u, (List.range n).foldlM updateStep m = some u ∧ u.Width = 0 ∧
        (∀ x ∈ u.NextWidths, x = 0) ∧ u.NextWidths.length = m.NextWidths.length ∧
        u.Pos.length = m.Pos.length ∧ ∀ i, i < n → u.Pos.getD i 1 = 0 := by
  induction n with
  | zero =>
    intro m hz hw _ _
    exact ⟨m, rfl, hw, hz, rfl, rfl, fun i hi => absurd hi (Nat.not_lt_zero _)⟩
  | succ n ih =>
    intro m hz hw h1 h2
    obtain ⟨u, hu, uw, uz, ul, upl, up⟩ := ih m hz hw (Nat.le_of_succ_le h1) (Nat.le_of_succ_le h2)
    obtain ⟨v, hv, vw, vz, vl, vp⟩ := updateStep_cleared u n uz uw (by omega) (by omega)
    refine ⟨v, ?_, vw, vz, by rw [vl, ul], by rw [vp, List.length_set, upl], ?_⟩
    · rw [List.range_succ, List.foldlM_append, hu]
      simp [hv]
    · intro i hi
      rw [vp]
      by_cases hin : i = n
      · subst hin
        exact getD_set_self _ _ _ _ (by omega)
      · rw [getD_set_ne _ _ _ _ _ (Ne.symm hin)]
        exact up i (by omega)

/-- `Update(3, s, false)` on a receiver with at least three columns. -/
theorem update_three (m : MenuColumns) (n0 n1 n2 p0 p1 p2 : ℚ) (nrest prest : List ℚ)
    (hw : m.NextWidths = n0 :: n1 :: n2 :: nrest) (hp : m.Pos = p0 :: p1 :: p2 :: prest) (s : ℚ) :
    ∃ u, m.Update 3 s false = some u ∧
      u.Width = n0 + (if n1 > 0 then s else 0) + n1 + (if n2 > 0 then s else 0) + n2 ∧
      u.Pos = truncate 0 :: truncate (n0 + (if n1 > 0 then s else 0)) ::
        truncate (n0 + (if n1 > 0 then s else 0) + n1 + (if n2 > 0 then s else 0)) :: prest ∧
      u.NextWidths = 0 :: 0 :: 0 :: nrest := by
  have hr : List.range (3 : Int).toNat = [0, 1, 2] := by decide
  unfold MenuColumns.Update
  simp only [hr, Bool.false_eq_true, if_false]
  by_cases c1 : n1 > 0 <;> by_cases c2 : n2 > 0 <;>
    simp [List.foldlM_cons, updateStep, hw, hp, c1, c2]

theorem declColumns_spec (m : MenuColumns) (w0 w1 w2 : ℚ) (a0 a1 a2 : ℚ) (arest : List ℚ)
    (hw : m.NextWidths = a0 :: a1 :: a2 :: arest) :
    (DeclColumns m w0 w1 w2).1.NextWidths = max a0 w0 :: max a1 w1 :: max a2 w2 :: arest ∧
    (DeclColumns m w0 w1 w2).1.NextWidth =
      max a0 w0 + max a1 w1 + max a2 w2 + (if max a1 w1 > 0 then m.Spacing else 0) +
        (if max a2 w2 > 0 then m.Spacing else 0) ∧
    (DeclColumns m w0 w1 w2).2 = max m.Width (DeclColumns m w0 w1 w2).1.NextWidth ∧
    (DeclColumns m w0 w1 w2).1.Pos = m.Pos ∧ (DeclColumns m w0 w1 w2).1.Spacing = m.Spacing := by
  have hr : List.range 3 = [0, 1, 2] := by decide
  unfold DeclColumns
  simp only [hr, hw]
  by_cases c1 : max a1 w1 > 0 <;> by_cases c2 : max a2 w2 > 0 <;>
    simp [declColumnsStep, c1, c2] <;> ring

/-- C37, counterexample: on a cleared receiver with spacing 0, declaring the
non-negative widths `10^19`, 1 and 0 and updating gives the positions 0,
`-2^63` and `-2^63`: the running width `10^19` is outside the range of `int`,
so line 310 converts it to the least `int`, and `Pos` is not non-decreasing. -/
theorem C37_wide_column_position_wraps :
    ((DeclColumns {} 10000000000000000000 1 0).1.Update 3 0 false).map (fun u => u.Pos) =
      some [0, -9223372036854775808, -9223372036854775808, 0] ∧
    ((DeclColumns {} 10000000000000000000 1 0).1.Update 3 0 false).map
      (fun u => decide (u.Pos.getD 0 0 ≤ u.Pos.getD 1 0)) = some false := by
  refine ⟨?_, ?_⟩
  · decide!
  · decide!

/-- C37, amended: with non-negative recorded widths and spacing whose sum (the
three raised widths and twice the spacing) is below `2^63`, in exact
arithmetic, on a receiver whose arrays hold at least three columns:
`DeclColumns(w0, w1, w2)` raises each `NextWidths[i]` to `max(old, wi)` and
returns `max(Width, NextWidth)`, where `NextWidth` is the sum of the three
`NextWidths` plus `Spacing` for each `i > 0` with `NextWidths[i] > 0`; a
following `Update(3, s, false)` with `s` that `Spacing` returns with `Width`
equal to that `NextWidth`, `Pos[0] = 0`, `Pos[0] <= Pos[1] <= Pos[2]` and
`NextWidths[0..2]` reset to 0; and `Update(n, s, true)`, for `n` columns within
the arrays, returns with `Width = 0` and `Pos[i] = 0` for all `i < n`. -/
theorem C37_menu_columns (m : MenuColumns) (w0 w1 w2 : ℚ) (a0 a1 a2 p0 p1 p2 : ℚ)
    (arest prest : List ℚ)
    (hw : m.NextWidths = a0 :: a1 :: a2 :: arest) (hp : m.Pos = p0 :: p1 :: p2 :: prest)
    (hs : 0 ≤ m.Spacing)
    (ha0 : 0 ≤ a0) (ha1 : 0 ≤ a1) (ha2 : 0 ≤ a2)
    (hb : max a0 w0 + max a1 w1 + max a2 w2 + 2 * m.Spacing < 9223372036854775808) :
    (DeclColumns m w0 w1 w2).1.NextWidths = max a0 w0 :: max a1 w1 :: max a2 w2 :: arest ∧
    (DeclColumns m w0 w1 w2).1.NextWidth =
      max a0 w0 + max a1 w1 + max a2 w2 + (if max a1 w1 > 0 then m.Spacing else 0) +
        (if max a2 w2 > 0 then m.Spacing else 0) ∧
    (DeclColumns m w0 w1 w2).2 = max m.Width (DeclColumns m w0 w1 w2).1.NextWidth ∧
    (∃ u, (DeclColumns m w0 w1 w2).1.Update 3 m.Spacing false = some u ∧
      u.Width = (DeclColumns m w0 w1 w2).1.NextWidth ∧
      u.Pos.getD 0 1 = 0 ∧ u.Pos.getD 0 1 ≤ u.Pos.getD 1 0 ∧ u.Pos.getD 1 0 ≤ u.Pos.getD 2 0 ∧
      u.NextWidths = 0 :: 0 :: 0 :: arest) ∧
    (∀ (n : Nat) (s : ℚ), n ≤ m.NextWidths.length → n ≤ m.Pos.length →
      ∃ u, m.Update n s true = some u ∧ u.Width = 0 ∧ ∀ i, i < n → u.Pos.getD i 1 = 0) := by
  obtain ⟨d1, d2, d3, d4, _⟩ := declColumns_spec m w0 w1 w2 a0 a1 a2 arest hw
  have n0 : 0 ≤ max a0 w0 := le_trans ha0 (le_max_left _ _)
  have n1 : 0 ≤ max a1 w1 := le_trans ha1 (le_max_left _ _)
  have n2 : 0 ≤ max a2 w2 := le_trans ha2 (le_max_left _ _)
  have s1 : 0 ≤ (if max a1 w1 > 0 then m.Spacing else 0) := by split <;> simp [hs]
  have s2 : 0 ≤ (if max a2 w2 > 0 then m.Spacing else 0) := by split <;> simp [hs]
  have t1 : (if max a1 w1 > 0 then m.Spacing else 0) ≤ m.Spacing := by split <;> simp [hs]
  have t2 : (if max a2 w2 > 0 then m.Spacing else 0) ≤ m.Spacing := by split <;> simp [hs]
  refine ⟨d1, d2, d3, ?_, ?_⟩
  · obtain ⟨u, hu, uw, up, un⟩ := update_three (DeclColumns m w0 w1 w2).1 _ _ _ p0 p1 p2 arest prest
      d1 (d4.trans hp) m.Spacing
    refine ⟨u, hu, ?_, ?_, ?_, ?_, un⟩
    · rw [uw, d2]
      ring
    · rw [up]
      exact truncate_zero
    · rw [up]
      exact truncate_mono (le_refl _) (add_nonneg n0 s1) (by linarith)
    · rw [up]
      exact truncate_mono (add_nonneg n0 s1) (by linarith) (by linarith)
  · intro n s hn1 hn2
    obtain ⟨u, hu, uw, _, _, _, up⟩ := updateFold_cleared n
      { Count := (n : Int), Spacing := s, Width := 0, NextWidth := 0, Pos := m.Pos,
        NextWidths := m.NextWidths.map (fun _ => 0) }
      (by
        intro x hx
        simp only [List.mem_map] at hx
        obtain ⟨_, _, hx⟩ := hx
        exact hx.symm)
      rfl (by simpa using hn1) hn2
    refine ⟨u, ?_, uw, up⟩
    unfold MenuColumns.Update
    simpa using hu

/-- C37 on a cleared receiver with spacing 8: declaring widths 50, 0 and 23
gives `NextWidth` 81, and the update sets `Width` to 81 and the positions to
0, 50 and 58. -/
theorem C37_menu_columns_witness :
    (DeclColumns { Spacing := 8 } 50 0 23).1.NextWidth = 81 ∧
    (∃ u, (DeclColumns { Spacing := 8 } 50 0 23).1.Update 3 8 false = some u ∧ u.Width = 81 ∧
      u.Pos.getD 0 1 = 0) ∧
    ((DeclColumns { Spacing := 8 } 50 0 23).1.Update 3 8 false).map (fun u => u.Pos) =
      some [0, 50, 58, 0] := by
  obtain ⟨h1, h2, h3, ⟨u, hu, uw, up, _⟩, _⟩ := C37_menu_columns { Spacing := 8 } 50 0 23
    0 0 0 0 0 0 [0] [0] rfl rfl (by norm_num) (le_refl _) (le_refl _) (le_refl _) (by norm_num)
  have hn : (DeclColumns { Spacing := 8 } 50 0 23).1.NextWidth = 81 := by
    rw [h2]
    norm_num
  exact ⟨hn, ⟨u, hu, uw.trans hn, up⟩, by decide!⟩

/-! ## C38: the menu-bar scope -/

theorem setWin_heap_self (c : Context) (w : Nat) (x : Window) : (c.setWin w x).Heap w = x := by
  simp [Context.setWin]

theorem setWin_heap_ne (c : Context) (w v : Nat) (x : Window) (h : v ≠ w) :
    (c.setWin w x).Heap v = c.Heap v := by
  simp [Context.setWin, Function.update_noteq h]

theorem wrapInt_of_inInt (x : Int) (h : InInt x) : wrapInt x = x := by
  unfold InInt at h
  unfold wrapInt
  omega

theorem wrapInt_succ_pred (x : Int) (h : InInt x) : wrapInt (wrapInt (x + 1) - 1) = x := by
  unfold InInt at h
  unfold wrapInt
  omega

theorem shiftRight_double (m : Int) : (2 * m) >>> (1 : Nat) = m := by
  rw [Int.shiftRight_eq_div_pow]
  norm_num

theorem pushClipRect_bar (c c1 : Context) (cr_min cr_max : Vec2) (b : Bool)
    (h : c.PushClipRect cr_min cr_max b = some c1) :
    c1.CurrentWindow = c.CurrentWindow ∧
    (∀ w, barFields c1 w = barFields c w ∧ (c1.Heap w).DC = (c.Heap w).DC) ∧
    ∀ w, c.CurrentWindow = some w → (c1.Heap w).DrawList._ClipRectStack ≠ [] := by
  unfold Context.PushClipRect GetCurrentWindow at h
  split at h
  · cases h
  · rename_i w hw
    injection h with h
    subst h
    refine ⟨rfl, ?_, ?_⟩
    · intro v
      by_cases hv : v = w
      · subst hv
        simp [barFields, setWin_heap_self]
      · simp [barFields, setWin_heap_ne _ _ _ _ hv]
    · intro v hv
      rw [hw] at hv
      injection hv with hv
      subst hv
      rw [setWin_heap_self]
      simp [PushClipRectEx, updateClipRect_stack]

theorem popClipRect_bar (c c1 : Context) (h : c.PopClipRect = some c1) :
    c1.CurrentWindow = c.CurrentWindow ∧
    ∀ w, barFields c1 w = barFields c w ∧ (c1.Heap w).DC = (c.Heap w).DC := by
  unfold Context.PopClipRect GetCurrentWindow at h
  split at h
  · cases h
  · rename_i w hw
    split at h
    · cases h
    · injection h with h
      subst h
      refine ⟨rfl, ?_⟩
      intro v
      by_cases hv : v = w
      · subst hv
        simp [barFields, setWin_heap_self]
      · simp [barFields, setWin_heap_ne _ _ _ _ hv]

theorem barFields_setWin_ne (c : Context) (w v : Nat) (x : Window) (h : v ≠ w) :
    barFields (c.setWin w x) v = barFields c v := by
  simp [barFields, setWin_heap_ne _ _ _ _ h]

theorem beginMenuBar_true (E : Env) (M : MenuEnv) (c : Context) (window : Nat)
    (hK : M.KeepsMenuBar E) (hw : GetCurrentWindow c = some window)
    (hskip : (c.Heap window).SkipItems = false)
    (hflag : (c.Heap window).Flags &&& M.WindowFlagsMenuBar ≠ 0)
    (happ : (c.Heap window).DC.MenuBarAppending = false) :
    ∃ c1, BeginMenuBar M c = some (c1, true) ∧ c1.CurrentWindow = some window ∧
      barFields c1 window = ((c.Heap window).Flags, false,
        wrapInt ((c.Heap window).DC.NavLayerCurrent + 1),
        wrapInt (2 * (c.Heap window).DC.NavLayerCurrentMask), true) ∧
      (c1.Heap window).DC.GroupStack ≠ [] ∧
      (c1.Heap window).DrawList._ClipRectStack ≠ [] := by
  have hcw : c.CurrentWindow = some window := hw
  obtain ⟨ga, gb, gc⟩ := hK.beginGroup c
  obtain ⟨pa, pb⟩ := hK.pushID "##menubar" (M.BeginGroup c)
  simp only [] at pa pb
  have hcur : (M.PushID (M.BeginGroup c) "##menubar").CurrentWindow = some window := by
    rw [pa, ga, hcw]
  unfold BeginMenuBar
  rw [hw]
  simp only [hskip, hflag, happ, Bool.false_eq_true, if_false]
  generalize hcb : M.PushID (M.BeginGroup c) "##menubar" = cb at *
  generalize hmin : (M.Intersect _ _).Min = cmin
  generalize hmax : (M.Intersect _ _).Max = cmax
  have hsome : ∃ cc, cb.PushClipRect cmin cmax false = some cc := by
    unfold Context.PushClipRect GetCurrentWindow
    rw [hcur]
    exact ⟨_, rfl⟩
  obtain ⟨cc, hcc⟩ := hsome
  rw [hcc]
  obtain ⟨qa, qb, qc⟩ := pushClipRect_bar cb cc cmin cmax false hcc
  simp only []
  refine ⟨_, rfl, ?_, ?_, ?_, ?_⟩
  · rw [(hK.align _).1]
    show cc.CurrentWindow = some window
    rw [qa, hcur]
  · rw [((hK.align _).2 window).1]
    have h1 := (qb window).1
    have h2 := (pb window).1
    have h3 := (gb window).1
    simp only [barFields, Prod.mk.injEq] at h1 h2 h3 ⊢
    simp only [setWin_heap_self]
    obtain ⟨a1, a2, a3, a4, a5⟩ := h1
    obtain ⟨b1, b2, b3, b4, b5⟩ := h2
    obtain ⟨d1, d2, d3, d4, d5⟩ := h3
    refine ⟨?_, ?_, ?_, ?_, trivial⟩
    · rw [a1, b1, d1]
    · rw [a2, b2, d2, hskip]
    · rw [a3, b3, d3]
    · rw [a4, b4, d4]
  · have hal := fun x => ((hK.align x).2 window).2
    simp only [barStacks, Prod.mk.injEq] at hal
    rw [(hal _).1, setWin_heap_self]
    show (cc.Heap window).DC.GroupStack ≠ []
    rw [(qb window).2]
    have h2 := (pb window).2
    simp only [barStacks, Prod.mk.injEq] at h2
    rw [h2.1]
    exact gc window hcw
  · have hal := fun x => ((hK.align x).2 window).2
    simp only [barStacks, Prod.mk.injEq] at hal
    rw [(hal _).2, setWin_heap_self]
    exact qc window hcur

theorem endMenuBarNav_keeps (E : Env) (M : MenuEnv) (c cn : Context) (window : Nat)
    (hK : M.KeepsMenuBar E) (h : endMenuBarNav E M c window = some cn) :
    cn.CurrentWindow = c.CurrentWindow ∧
    ∀ w, barFields cn w = barFields c w ∧ barStacks cn w = barStacks c w := by
  unfold endMenuBarNav at h
  split at h
  · split at h
    · cases h
    · split at h
      · simp only [] at h
        split at h
        · split at h
          · cases h
          · injection h with h
            subst h
            obtain ⟨n1, n2⟩ := hK.navCancel
              { (M.SetNavIDWithRectRel (E.FocusWindow c (some window))
                  (((E.FocusWindow c (some window)).Heap window).NavLastIds.getD 1 0) 1
                  (((E.FocusWindow c (some window)).Heap window).NavRectRel.getD 1
                    { Min := Vec2.zero, Max := Vec2.zero })) with
                NavLayer := 1, NavDisableHighlight := true
                NavMoveRequestForward := M.NavForwardForwardQueued }
            obtain ⟨s1, s2⟩ := hK.setNavID
              (((E.FocusWindow c (some window)).Heap window).NavLastIds.getD 1 0) 1
              (((E.FocusWindow c (some window)).Heap window).NavRectRel.getD 1
                { Min := Vec2.zero, Max := Vec2.zero }) (E.FocusWindow c (some window))
            obtain ⟨f1, f2⟩ := hK.focusWindow (some window) c
            simp only [] at s1 s2 f1 f2
            refine ⟨?_, ?_⟩
            · rw [n1]
              show (M.SetNavIDWithRectRel _ _ _ _).CurrentWindow = _
              rw [s1, f1]
            · intro w
              refine ⟨?_, ?_⟩
              · rw [(n2 w).1]
                show barFields (M.SetNavIDWithRectRel _ _ _ _) w = _
                rw [(s2 w).1, (f2 w).1]
              · rw [(n2 w).2]
                show barStacks (M.SetNavIDWithRectRel _ _ _ _) w = _
                rw [(s2 w).2, (f2 w).2]
        · injection h with h
          subst h
          exact ⟨rfl, fun _ => ⟨rfl, rfl⟩⟩
      · injection h with h
        subst h
        exact ⟨rfl, fun _ => ⟨rfl, rfl⟩⟩
  · injection h with h
    subst h
    exact ⟨rfl, fun _ => ⟨rfl, rfl⟩⟩

theorem endMenuBarRest_spec (E : Env) (M : MenuEnv) (c : Context) (window : Nat)
    (hK : M.KeepsMenuBar E) (hw : c.CurrentWindow = some window)
    (hflag : (c.Heap window).Flags &&& M.WindowFlagsMenuBar ≠ 0)
    (happ : (c.Heap window).DC.MenuBarAppending = true)
    (hgroup : (c.Heap window).DC.GroupStack ≠ [])
    (hclip : (c.Heap window).DrawList._ClipRectStack ≠ []) :
    ∃ c2, endMenuBarRest M c window = some c2 ∧
      (c2.Heap window).DC.NavLayerCurrent = wrapInt ((c.Heap window).DC.NavLayerCurrent - 1) ∧
      (c2.Heap window).DC.NavLayerCurrentMask =
        (c.Heap window).DC.NavLayerCurrentMask >>> (1 : Nat) ∧
      (c2.Heap window).DC.MenuBarAppending = false ∧
      (c2.Heap window).DC.LayoutType = M.LayoutTypeVertical := by
  obtain ⟨cp, hcp⟩ := popClipRect_returns c window hw hclip
  obtain ⟨p1, p2⟩ := popClipRect_bar c cp hcp
  obtain ⟨i1, i2⟩ := hK.popID cp
  have hg : ((M.PopID cp).Heap window).DC.GroupStack ≠ [] := by
    have h := (i2 window).2
    simp only [barStacks, Prod.mk.injEq] at h
    rw [h.1, (p2 window).2]
    exact hgroup
  unfold endMenuBarRest
  simp only [hflag, happ, if_false, Bool.true_eq_false]
  rw [hcp]
  simp only [setWin_heap_self]
  obtain ⟨g, hgl⟩ := Option.isSome_iff_exists.mp
    (by simpa using hg : ((M.PopID cp).Heap window).DC.GroupStack.getLast?.isSome = true)
  rw [hgl]
  simp only []
  refine ⟨_, rfl, ?_, ?_, ?_, ?_⟩
  · rw [setWin_heap_self]
    show wrapInt (((M.EndGroup _).Heap window).DC.NavLayerCurrent - 1) = _
    have h := fun x => hK.endGroup x window
    have h1 := (i2 window).1
    have h2 := (p2 window).1
    simp only [barFields, Prod.mk.injEq] at h h1 h2
    rw [(h _).2.2.1, setWin_heap_self]
    show wrapInt (((M.PopID cp).Heap window).DC.NavLayerCurrent - 1) = _
    rw [h1.2.2.1, h2.2.2.1]
  · rw [setWin_heap_self]
    show ((M.EndGroup _).Heap window).DC.NavLayerCurrentMask >>> (1 : Nat) = _
    have h := fun x => hK.endGroup x window
    have h1 := (i2 window).1
    have h2 := (p2 window).1
    simp only [barFields, Prod.mk.injEq] at h h1 h2
    rw [(h _).2.2.2.1, setWin_heap_self]
    show ((M.PopID cp).Heap window).DC.NavLayerCurrentMask >>> (1 : Nat) = _
    rw [h1.2.2.2.1, h2.2.2.2.1]
  · rw [setWin_heap_self]
  · rw [setWin_heap_self]

/-- C38: the menu-bar scope is balanced.  On a context with a current window,
and with collaborators that leave the menu-bar scope alone: `BeginMenuBar`
returns false and leaves the context as it is when the window skips items or
lacks the `MenuBar` flag; otherwise, when no menu bar is being appended to, it
returns true, and after any steps that leave the scope alone `EndMenuBar`
returns (provided its navigation block, lines 65-83, does), with
`NavLayerCurrent` as before `BeginMenuBar`, with `NavLayerCurrentMask` as
before when the left shift did not overflow, with `MenuBarAppending` false and
the layout vertical; `EndMenuBar` on a window that does not skip items and has
`MenuBarAppending` false fails, and so does `BeginMenuBar` on a window with the
`MenuBar` flag that does not skip items and has `MenuBarAppending` true. -/
theorem C38_menu_bar_balanced (E : Env) (M : MenuEnv) (c : Context) (window : Nat)
    (hK : M.KeepsMenuBar E) (hw : GetCurrentWindow c = some window) :
    (((c.Heap window).SkipItems = true ∨ (c.Heap window).Flags &&& M.WindowFlagsMenuBar = 0) →
      BeginMenuBar M c = some (c, false)) ∧
    ((c.Heap window).SkipItems = false → (c.Heap window).Flags &&& M.WindowFlagsMenuBar ≠ 0 →
      (c.Heap window).DC.MenuBarAppending = false →
      ∃ c1, BeginMenuBar M c = some (c1, true) ∧
        ∀ body : Context → Context, KeepsBar body →
          ∀ cn, endMenuBarNav E M (body c1) window = some cn →
            ∃ c2, EndMenuBar E M (body c1) = some c2 ∧
              (InInt (c.Heap window).DC.NavLayerCurrent →
                (c2.Heap window).DC.NavLayerCurrent = (c.Heap window).DC.NavLayerCurrent) ∧
              (InInt (2 * (c.Heap window).DC.NavLayerCurrentMask) →
                (c2.Heap window).DC.NavLayerCurrentMask =
                  (c.Heap window).DC.NavLayerCurrentMask) ∧
              (c2.Heap window).DC.MenuBarAppending = false ∧
              (c2.Heap window).DC.LayoutType = M.LayoutTypeVertical) ∧
    ((c.Heap window).SkipItems = false → (c.Heap window).DC.MenuBarAppending = false →
      EndMenuBar E M c = none) ∧
    ((c.Heap window).SkipItems = false → (c.Heap window).Flags &&& M.WindowFlagsMenuBar ≠ 0 →
      (c.Heap window).DC.MenuBarAppending = true → BeginMenuBar M c = none) := by
  refine ⟨?_, ?_, ?_, ?_⟩
  · intro h
    unfold BeginMenuBar
    rw [hw]
    by_cases hs : (c.Heap window).SkipItems = true
    · simp [hs]
    · rcases h with h | h
      · exact absurd h hs
      · simp [hs, h]
  · intro hskip hflag happ
    obtain ⟨c1, h1, hcur, hf, hg, hcl⟩ := beginMenuBar_true E M c window hK hw hskip hflag happ
    refine ⟨c1, h1, ?_⟩
    intro body hb cn hcn
    obtain ⟨b1, b2⟩ := hb c1
    obtain ⟨n1, n2⟩ := endMenuBarNav_keeps E M (body c1) cn window hK hcn
    have hfn : barFields cn window = ((c.Heap window).Flags, false,
        wrapInt ((c.Heap window).DC.NavLayerCurrent + 1),
        wrapInt (2 * (c.Heap window).DC.NavLayerCurrentMask), true) := by
      rw [(n2 window).1, (b2 window).1, hf]
    have hsn : barStacks cn window = barStacks c1 window := by
      rw [(n2 window).2, (b2 window).2]
    simp only [barFields, barStacks, Prod.mk.injEq] at hfn hsn
    obtain ⟨f1, f2, f3, f4, f5⟩ := hfn
    have hbs : ((body c1).Heap window).SkipItems = false := by
      have h := (b2 window).1
      rw [hf] at h
      simp only [barFields, Prod.mk.injEq] at h
      exact h.2.1
    obtain ⟨c2, h2, r1, r2, r3, r4⟩ := endMenuBarRest_spec E M cn window hK
      (by rw [n1, b1, hcur]) (by rw [f1]; exact hflag) f5 (by rw [hsn.1]; exact hg)
      (by rw [hsn.2]; exact hcl)
    refine ⟨c2, ?_, ?_, ?_, r3, r4⟩
    · unfold EndMenuBar GetCurrentWindow
      rw [b1, hcur]
      simp only [hbs, Bool.false_eq_true, if_false]
      rw [hcn]
      exact h2
    · intro hin
      rw [r1, f3]
      exact wrapInt_succ_pred _ hin
    · intro hin
      rw [r2, f4, wrapInt_of_inInt _ hin]
      exact shiftRight_double _
  · intro hskip happ
    unfold EndMenuBar
    rw [hw]
    simp only [hskip, Bool.false_eq_true, if_false]
    cases hn : endMenuBarNav E M c window with
    | none => rfl
    | some cn =>
      obtain ⟨_, n2⟩ := endMenuBarNav_keeps E M c cn window hK hn
      have h := (n2 window).1
      simp only [barFields, Prod.mk.injEq] at h
      show endMenuBarRest M cn window = none
      unfold endMenuBarRest
      rw [h.2.2.2.2, happ]
      split
      · rfl
      · rfl
  · intro hskip hflag happ
    unfold BeginMenuBar
    rw [hw]
    simp [hskip, hflag, happ]

theorem exampleMenuEnv_keepsMenuBar : exampleMenuEnv.KeepsMenuBar exampleEnv := by
  constructor
  · intro c
    cases hc : c.CurrentWindow with
    | none =>
      have : exampleMenuEnv.BeginGroup c = c := by simp [exampleMenuEnv, hc]
      rw [this]
      exact ⟨hc, fun _ => ⟨rfl, rfl⟩, fun w h => by cases h⟩
    | some v =>
      have : exampleMenuEnv.BeginGroup c = c.setWin v { c.Heap v with
          DC := { (c.Heap v).DC with
            GroupStack := (c.Heap v).DC.GroupStack ++ [{ AdvanceCursor := true }] } } := by
        simp [exampleMenuEnv, hc]
      rw [this]
      refine ⟨hc, ?_, ?_⟩
      · intro w
        by_cases hwv : w = v
        · subst hwv
          simp [barFields, setWin_heap_self]
        · simp [barFields, setWin_heap_ne _ _ _ _ hwv]
      · intro w h
        injection h with h
        subst h
        simp [setWin_heap_self]
  · intro c w
    cases hc : c.CurrentWindow with
    | none =>
      have : exampleMenuEnv.EndGroup c = c := by simp [exampleMenuEnv, hc]
      rw [this]
    | some v =>
      have : exampleMenuEnv.EndGroup c = c.setWin v { c.Heap v with
          DC := { (c.Heap v).DC with GroupStack := (c.Heap v).DC.GroupStack.dropLast } } := by
        simp [exampleMenuEnv, hc]
      rw [this]
      by_cases hwv : w = v
      · subst hwv
        simp [barFields, setWin_heap_self]
      · simp [barFields, setWin_heap_ne _ _ _ _ hwv]
  · intro s c
    simp only []
    cases hc : c.CurrentWindow with
    | none =>
      have : exampleMenuEnv.PushID c s = c := by simp [exampleMenuEnv, hc]
      rw [this]
      exact ⟨hc, fun _ => ⟨rfl, rfl⟩⟩
    | some v =>
      have : exampleMenuEnv.PushID c s = c.setWin v { c.Heap v with
          IDStack := (c.Heap v).IDStack ++ [exampleGetID c v s] } := by
        simp [exampleMenuEnv, hc]
      rw [this]
      refine ⟨hc, ?_⟩
      intro w
      by_cases hwv : w = v
      · subst hwv
        simp [barFields, barStacks, setWin_heap_self]
      · simp [barFields, barStacks, setWin_heap_ne _ _ _ _ hwv]
  · intro c
    cases hc : c.CurrentWindow with
    | none =>
      have : exampleMenuEnv.PopID c = c := by simp [exampleMenuEnv, hc]
      rw [this]
      exact ⟨hc, fun _ => ⟨rfl, rfl⟩⟩
    | some v =>
      have : exampleMenuEnv.PopID c = c.setWin v { c.Heap v with
          IDStack := (c.Heap v).IDStack.dropLast } := by
        simp [exampleMenuEnv, hc]
      rw [this]
      refine ⟨hc, ?_⟩
      intro w
      by_cases hwv : w = v
      · subst hwv
        simp [barFields, barStacks, setWin_heap_self]
      · simp [barFields, barStacks, setWin_heap_ne _ _ _ _ hwv]
  · intro c
    exact ⟨rfl, fun _ => ⟨rfl, rfl⟩⟩
  · intro w c
    exact ⟨rfl, fun _ => ⟨rfl, rfl⟩⟩
  · intro id layer r c
    exact ⟨rfl, fun _ => ⟨rfl, rfl⟩⟩
  · intro c
    exact ⟨rfl, fun _ => ⟨rfl, rfl⟩⟩

theorem C38_menu_bar_balanced_witness :
    BeginMenuBar exampleMenuEnv exampleMenuBarSkipped = some (exampleMenuBarSkipped, false) ∧
    (∃ c1, BeginMenuBar exampleMenuEnv exampleMenuBar = some (c1, true) ∧
      ∃ c2, EndMenuBar exampleEnv exampleMenuEnv c1 = some c2 ∧
        (c2.Heap 1).DC.NavLayerCurrent = 0 ∧ (c2.Heap 1).DC.NavLayerCurrentMask = 1 ∧
        (c2.Heap 1).DC.MenuBarAppending = false ∧ (c2.Heap 1).DC.LayoutType = 0) ∧
    EndMenuBar exampleEnv exampleMenuEnv exampleMenuBar = none ∧
    BeginMenuBar exampleMenuEnv exampleMenuBarBegun = none := by
  refine ⟨?_, ?_, ?_, ?_⟩
  · exact (C38_menu_bar_balanced exampleEnv exampleMenuEnv exampleMenuBarSkipped 1
      exampleMenuEnv_keepsMenuBar rfl).1 (Or.inl rfl)
  · have hnav : (BeginMenuBar exampleMenuEnv exampleMenuBar).map
        (fun r => r.1.NavMoveRequest) = some false := by decide
    obtain ⟨c1, h1, hrest⟩ := (C38_menu_bar_balanced exampleEnv exampleMenuEnv exampleMenuBar 1
      exampleMenuEnv_keepsMenuBar rfl).2.1 (by decide) (by decide) (by decide)
    rw [h1] at hnav
    simp only [Option.map_some', Option.some.injEq] at hnav
    have hcn : endMenuBarNav exampleEnv exampleMenuEnv c1 1 = some c1 := by
      unfold endMenuBarNav
      simp [exampleMenuEnv, hnav]
    obtain ⟨c2, h2, r1, r2, r3, r4⟩ := hrest id (fun _ => ⟨rfl, fun _ => ⟨rfl, rfl⟩⟩) c1 hcn
    exact ⟨c1, h1, c2, h2, r1 (by decide), r2 (by decide), r3, r4⟩
  · exact (C38_menu_bar_balanced exampleEnv exampleMenuEnv exampleMenuBar 1
      exampleMenuEnv_keepsMenuBar rfl).2.2.1 (by decide) (by decide)
  · exact (C38_menu_bar_balanced exampleEnv exampleMenuEnv exampleMenuBarBegun 1
      exampleMenuEnv_keepsMenuBar rfl).2.2.2 (by decide) (by decide) (by decide)

/-! ## C32: a disabled menu -/

theorem beginMenuHorizontal_disabled (E : Env) (M : MenuEnv) (c : Context) (window : Nat)
    (label : String) (label_size pos : Vec2) (menu_is_open : Bool) (hK : M.StyleKeepsNav) :
    (beginMenuHorizontal E M c window label false label_size pos menu_is_open).2.1 = false ∧
    (beginMenuHorizontal E M c window label false label_size pos menu_is_open).1.NavId = c.NavId ∧
    (beginMenuHorizontal E M c window label false label_size pos menu_is_open).1.NavActivateId =
      c.NavActivateId := by
  refine ⟨rfl, ?_, ?_⟩
  · show (M.PopStyleVar (M.PushStyleVar _ _ _)).NavId = c.NavId
    rw [(hK.popVar _).1, (hK.pushVar _ _ _).1]
    rfl
  · show (M.PopStyleVar (M.PushStyleVar _ _ _)).NavActivateId = c.NavActivateId
    rw [(hK.popVar _).2, (hK.pushVar _ _ _).2]
    rfl

theorem beginMenuVertical_disabled (M : MenuEnv) (c : Context) (window : Nat)
    (label : String) (label_size pos : Vec2) (menu_is_open : Bool) (hK : M.StyleKeepsNav) :
    (beginMenuVertical M c window label false label_size pos menu_is_open).2.1 = false ∧
    (beginMenuVertical M c window label false label_size pos menu_is_open).1.NavId = c.NavId ∧
    (beginMenuVertical M c window label false label_size pos menu_is_open).1.NavActivateId =
      c.NavActivateId := by
  refine ⟨rfl, ?_, ?_⟩
  · show (M.PopStyleColor (M.PushStyleColor _ _ _)).NavId = c.NavId
    rw [(hK.popColor _).1, (hK.pushColor _ _ _).1]
    rfl
  · show (M.PopStyleColor (M.PushStyleColor _ _ _)).NavActivateId = c.NavActivateId
    rw [(hK.popColor _).2, (hK.pushColor _ _ _).2]
    rfl

theorem menusetIsOpen_returns (E : Env) (c : Context) (window : Nat)
    (hid : (c.Heap window).IDStack ≠ []) : ∃ b, menusetIsOpen E c window = some b := by
  unfold menusetIsOpen
  split
  · obtain ⟨top, htop⟩ := Option.isSome_iff_exists.mp
      (by simpa using hid : (c.Heap window).IDStack.getLast?.isSome = true)
    rw [htop]
    exact ⟨_, rfl⟩
  · exact ⟨_, rfl⟩

theorem beginMenuItem_disabled (E : Env) (M : MenuEnv) (c : Context) (window : Nat)
    (label : String) (hK : M.StyleKeepsNav) (hid : (c.Heap window).IDStack ≠ []) :
    ∃ s, beginMenuItem E M c window label false = some s ∧ s.id = M.GetID c window label ∧
      s.menu_is_open = M.IsPopupOpen c label ∧
      s.pressed = false ∧ s.hovered = false ∧ s.ctx.NavId = c.NavId ∧
      s.ctx.NavActivateId = c.NavActivateId := by
  obtain ⟨b, hb⟩ := menusetIsOpen_returns E c window hid
  have hr : ∀ x : Context, x.NavId = c.NavId → x.NavActivateId = c.NavActivateId →
      (if (x.Heap window).DC.LayoutType = M.LayoutTypeHorizontal then
        beginMenuHorizontal E M x window label false (M.CalcTextSizeEx c label true (-1))
          (x.Heap window).DC.CursorPos (M.IsPopupOpen c label)
      else beginMenuVertical M x window label false (M.CalcTextSizeEx c label true (-1))
          (x.Heap window).DC.CursorPos (M.IsPopupOpen c label)).2.1 = false ∧
      (if (x.Heap window).DC.LayoutType = M.LayoutTypeHorizontal then
        beginMenuHorizontal E M x window label false (M.CalcTextSizeEx c label true (-1))
          (x.Heap window).DC.CursorPos (M.IsPopupOpen c label)
      else beginMenuVertical M x window label false (M.CalcTextSizeEx c label true (-1))
          (x.Heap window).DC.CursorPos (M.IsPopupOpen c label)).1.NavId = c.NavId ∧
      (if (x.Heap window).DC.LayoutType = M.LayoutTypeHorizontal then
        beginMenuHorizontal E M x window label false (M.CalcTextSizeEx c label true (-1))
          (x.Heap window).DC.CursorPos (M.IsPopupOpen c label)
      else beginMenuVertical M x window label false (M.CalcTextSizeEx c label true (-1))
          (x.Heap window).DC.CursorPos (M.IsPopupOpen c label)).1.NavActivateId =
        c.NavActivateId := by
    intro x hx hy
    split
    · obtain ⟨a1, a2, a3⟩ := beginMenuHorizontal_disabled E M x window label
        (M.CalcTextSizeEx c label true (-1)) (x.Heap window).DC.CursorPos (M.IsPopupOpen c label) hK
      exact ⟨a1, a2.trans hx, a3.trans hy⟩
    · obtain ⟨a1, a2, a3⟩ := beginMenuVertical_disabled M x window label
        (M.CalcTextSizeEx c label true (-1)) (x.Heap window).DC.CursorPos (M.IsPopupOpen c label) hK
      exact ⟨a1, a2.trans hx, a3.trans hy⟩
  unfold beginMenuItem
  rw [hb]
  cases b
  · obtain ⟨a1, a2, a3⟩ := hr c rfl rfl
    exact ⟨_, rfl, rfl, rfl, a1, rfl, a2, a3⟩
  · obtain ⟨a1, a2, a3⟩ := hr { c with NavWindow := some window } rfl rfl
    exact ⟨_, rfl, rfl, rfl, a1, rfl, a2, a3⟩

theorem beginMenuWant_idle (M : MenuEnv) (s : MenuItem) (window : Nat)
    (hp : s.pressed = false) (hh : s.hovered = false)
    (hact : s.ctx.NavActivateId ≠ s.id) (hnav : s.ctx.NavId ≠ s.id) :
    (beginMenuWant M s window).want_open = false ∧ (beginMenuWant M s window).ctx = s.ctx ∧
    (beginMenuWant M s window).menu_is_open = s.menu_is_open := by
  unfold beginMenuWant
  simp only [hp, hh, hact, hnav, false_and, and_false, if_false, Bool.false_eq_true,
    Bool.and_false, Bool.false_and, Bool.or_false, false_or]
  split <;> exact ⟨rfl, rfl, rfl⟩

theorem beginMenuOpen_disabled (E : Env) (M : MenuEnv) (m : MenuWant) (window : Nat) (id : ID)
    (label : String) (popup_pos : Vec2) (hwant : m.want_open = false)
    (hclose : ∀ x : Context,
      M.IsPopupOpenID (M.ClosePopupToLevel x x.CurrentPopupStack.length) id = false)
    (hpop : ∀ (x : Context) (pos : Vec2) (cond : Cond) (pivot : Vec2) (flags : WindowFlags),
      M.IsPopupOpenID x id = false →
        (M.BeginPopupEx (M.SetNextWindowPos x pos cond pivot) id flags).2 = false) :
    (beginMenuOpen E M m window id label false popup_pos).ret = false ∧
    (beginMenuOpen E M m window id label false popup_pos).calls =
      if M.IsPopupOpenID m.ctx id then [MenuCall.ClosePopupToLevel m.ctx.CurrentPopupStack.length]
      else [] := by
  unfold beginMenuOpen
  simp only [hwant, Bool.false_eq_true, not_false_eq_true, if_true, if_false, Bool.true_and,
    false_and, and_false]
  cases hopen : m.menu_is_open
  · simp only [Bool.false_eq_true, if_false]
    exact ⟨trivial, trivial⟩
  · simp only [if_true]
    refine ⟨?_, trivial⟩
    apply hpop
    cases hc : M.IsPopupOpenID m.ctx id
    · simpa using hc
    · simpa using hclose m.ctx

/-- C32: window 1 of `exampleNavActivate` does not skip items, its layout is
vertical and no popup is open; navigation activates the item of the menu "File"
(`NavActivateId` is its identifier).  `BeginMenu("File", false)` then calls
`OpenPopup("File")` and returns true: lines 198-201 set `want_open` whether or
not the menu is enabled, where the mouse path of line 159 tests `enabled` and
the comment of line 224 has a disabled menu closed. -/
theorem C32_disabled_menu_opened_by_navigation :
    (exampleNavActivate.Heap 1).SkipItems = false ∧
    exampleNavActivate.NavActivateId = exampleMenuEnv.GetID exampleNavActivate 1 "File" ∧
    (BeginMenu exampleEnv exampleMenuEnv exampleNavActivate "File" false).map
      (fun r => (r.ret, r.calls)) = some (true, [MenuCall.OpenPopup "File"]) := by
  decide

/-- Without navigation a disabled menu is not opened.  `BeginMenu(label, false)`
on a window that skips items returns false and calls nothing.  On a window that
does not skip items (and has a seed on its identifier stack), when neither
`NavActivateId` nor `NavId` is the identifier of the item and the style
collaborators leave these two alone, it returns and does not call `OpenPopup`;
its only call on the popup stack is `ClosePopupToLevel(len(CurrentPopupStack))`,
made exactly when `IsPopupOpenID(id)` holds after the item has been submitted;
and it returns false, given that `ClosePopupToLevel` at that level leaves the
popup closed and `BeginPopupEx` refuses a popup that is not open. -/
theorem beginMenu_disabled_without_navigation (E : Env) (M : MenuEnv) (c : Context)
    (window : Nat) (label : String)
    (hw : GetCurrentWindow c = some window)
    (hK : M.StyleKeepsNav)
    (hid : (c.Heap window).IDStack ≠ [])
    (hact : c.NavActivateId ≠ M.GetID c window label)
    (hnav : c.NavId ≠ M.GetID c window label)
    (hclose : ∀ x : Context,
      M.IsPopupOpenID (M.ClosePopupToLevel x x.CurrentPopupStack.length)
        (M.GetID c window label) = false)
    (hpop : ∀ (x : Context) (pos : Vec2) (cond : Cond) (pivot : Vec2) (flags : WindowFlags),
      M.IsPopupOpenID x (M.GetID c window label) = false →
        (M.BeginPopupEx (M.SetNextWindowPos x pos cond pivot) (M.GetID c window label) flags).2 =
          false) :
    ((c.Heap window).SkipItems = true →
      BeginMenu E M c label false = some { ctx := c, ret := false, calls := [] }) ∧
    ((c.Heap window).SkipItems = false →
      ∃ s r, beginMenuItem E M c window label false = some s ∧
        BeginMenu E M c label false = some r ∧ r.ret = false ∧
        (∀ l, MenuCall.OpenPopup l ∉ r.calls) ∧
        r.calls =
          if M.IsPopupOpenID s.ctx (M.GetID c window label) then
            [MenuCall.ClosePopupToLevel s.ctx.CurrentPopupStack.length]
          else []) := by
  refine ⟨?_, ?_⟩
  · intro hskip
    unfold BeginMenu
    rw [hw]
    simp [hskip]
  · intro hskip
    obtain ⟨s, hs, sid, _, sp, sh, sn, sa⟩ := beginMenuItem_disabled E M c window label hK hid
    obtain ⟨w1, w2, _⟩ := beginMenuWant_idle M s window sp sh
      (by rw [sa, sid]; exact hact) (by rw [sn, sid]; exact hnav)
    obtain ⟨o1, o2⟩ := beginMenuOpen_disabled E M (beginMenuWant M s window) window
      (M.GetID c window label) label s.popup_pos w1 hclose hpop
    rw [w2] at o2
    refine ⟨s, beginMenuOpen E M (beginMenuWant M s window) window s.id label false s.popup_pos,
      hs, ?_, ?_, ?_, ?_⟩
    · unfold BeginMenu
      rw [hw]
      simp only [hskip, Bool.false_eq_true, if_false]
      rw [hs]
    · rw [sid]
      exact o1
    · intro l
      rw [sid, o2]
      split <;> simp
    · rw [sid]
      exact o2

theorem exampleMenuEnv_styleKeepsNav : exampleMenuEnv.StyleKeepsNav := by
  constructor
  · intro c i v
    exact ⟨rfl, rfl⟩
  · intro c
    exact ⟨rfl, rfl⟩
  · intro c i v
    exact ⟨rfl, rfl⟩
  · intro c
    exact ⟨rfl, rfl⟩

theorem exampleClose_closes (x : Context) (id : ID) :
    exampleMenuEnv.IsPopupOpenID
      (exampleMenuEnv.ClosePopupToLevel x x.CurrentPopupStack.length) id = false := by
  have h : (List.take x.CurrentPopupStack.length x.OpenPopupStack)[x.CurrentPopupStack.length]? =
      none := by
    apply List.getElem?_eq_none
    simp [List.length_take]
  simp [exampleMenuEnv, exampleIsPopupOpenID, h]

theorem exampleBeginPopup_refuses (x : Context) (pos : Vec2) (cond : Cond) (pivot : Vec2)
    (flags : WindowFlags) (id : ID) (h : exampleMenuEnv.IsPopupOpenID x id = false) :
    (exampleMenuEnv.BeginPopupEx (exampleMenuEnv.SetNextWindowPos x pos cond pivot) id flags).2 =
      false := by
  have h1 : exampleIsPopupOpenID x id = false := h
  have h2 : exampleIsPopupOpenID (exampleMenuEnv.SetNextWindowPos x pos cond pivot) id =
      exampleIsPopupOpenID x id := rfl
  show (if exampleIsPopupOpenID (exampleMenuEnv.SetNextWindowPos x pos cond pivot) id = true then _
    else _ : Context × Bool).2 = false
  rw [h2, h1]
  rfl

theorem beginMenu_disabled_at_example :
    (∃ s r, beginMenuItem exampleEnv exampleMenuEnv exampleMenuOpen 1 "File" false = some s ∧
      BeginMenu exampleEnv exampleMenuEnv exampleMenuOpen "File" false = some r ∧
      r.ret = false ∧ (∀ l, MenuCall.OpenPopup l ∉ r.calls) ∧
      r.calls =
        if exampleMenuEnv.IsPopupOpenID s.ctx (exampleMenuEnv.GetID exampleMenuOpen 1 "File") then
          [MenuCall.ClosePopupToLevel s.ctx.CurrentPopupStack.length]
        else []) ∧
    (BeginMenu exampleEnv exampleMenuEnv exampleMenuOpen "File" false).map
      (fun r => (r.ret, r.calls)) = some (false, [MenuCall.ClosePopupToLevel 0]) :=
  ⟨(beginMenu_disabled_without_navigation exampleEnv exampleMenuEnv exampleMenuOpen 1 "File" rfl
    exampleMenuEnv_styleKeepsNav (by decide) (by decide) (by decide)
    (fun x => exampleClose_closes x _)
    (fun x pos cond pivot flags h => exampleBeginPopup_refuses x pos cond pivot flags _ h)).2
    (by decide), by decide⟩

end ImGui
